import Mathlib

/-!
# Verification of the slot-configuration generator

Shallow embedding of `scripts/generate_slot_configs.py`: the pad-budgeting and
allocation pipeline (geometry → capacity → density policy → signal/power split →
per-edge distribution → ordered pad sequence → build flags).

Modelling conventions:
* Python `int` is modelled as `Int`; `int(x)` applied to a float quotient or
  product is truncation toward zero, modelled with `Int.tdiv`.
* The script computes a few quantities in floating point
  (`int(ns_available / 75.0)`, `int(target_total * (cap / total))`,
  `int(available * 0.15)`).  For every input that the theorems below touch,
  the float computation agrees exactly with the corresponding exact integer
  truncation (the quotients are either exactly representable or many orders of
  magnitude farther from an integer than the rounding error), so these are
  modelled as exact truncated integer arithmetic.
* Python dictionaries keyed by the four slot names / four edge names are
  modelled as total functions from the corresponding four-constructor
  inductive types.
* Python iterates over *sets* of edge names in a few places; the embedding
  fixes the lexicographic order of the edge names for those loops (the
  program itself sorts lexicographically wherever order is load-bearing).
-/

/-- The four cardinal edges of the die. -/
inductive Edge where
  | north
  | south
  | east
  | west
deriving DecidableEq, Repr

/-- IO pad density modes (`class Density`). -/
inductive Density where
  | DEF
  | MAX
  | SPC
  | NUM
deriving DecidableEq, Repr

/-- IO pad edge configurations (`class Edges`). -/
inductive Edges where
  | ALL
  | TOP
  | LFT
  | HOR
  | VER
  | NWC
  | SEC
deriving DecidableEq, Repr

/-- The four slot names (keys of the `SLOTS` dict and of the constant tables). -/
inductive SlotName where
  | s1x1
  | s0p5x1
  | s1x0p5
  | s0p5x0p5
deriving DecidableEq, Repr

/-- `Edges.active_edges`, as the lexicographically sorted list of edge names
(Python's `sorted(active)` over the set; "east" < "north" < "south" < "west"). -/
def Edges.active_list : Edges → List Edge
  | .ALL => [.east, .north, .south, .west]
  | .TOP => [.north]
  | .LFT => [.west]
  | .HOR => [.north, .south]
  | .VER => [.east, .west]
  | .NWC => [.north, .west]
  | .SEC => [.east, .south]

/-- `SlotDefinition`: physical dimensions of a slot (micrometres, Python ints).
The `verilog_define` string is determined by `name`, so it is represented by
the `name` tag itself. -/
structure SlotDefinition where
  name : SlotName
  die_width : Int
  die_height : Int
  core_x1 : Int
  core_y1 : Int
  core_x2 : Int
  core_y2 : Int
deriving DecidableEq, Repr

/-- The `SLOTS` table (four standard slot sizes). -/
def SLOTS : SlotName → SlotDefinition
  | .s1x1 => ⟨.s1x1, 3932, 5122, 442, 442, 3490, 4680⟩
  | .s0p5x1 => ⟨.s0p5x1, 1936, 5122, 442, 442, 1494, 4680⟩
  | .s1x0p5 => ⟨.s1x0p5, 3932, 2531, 442, 442, 3490, 2089⟩
  | .s0p5x0p5 => ⟨.s0p5x0p5, 1936, 2531, 442, 442, 1494, 2089⟩

/-- `IO_CELL_WIDTH = 75.0` (µm). -/
def IO_CELL_WIDTH : Int := 75

/-- `CORNER_CELL_SIZE = 355.0` (µm). -/
def CORNER_CELL_SIZE : Int := 355

/-- `SEAL_RING = 26.0` (µm). -/
def SEAL_RING : Int := 26

/-- `REF_1X1_PAD_COUNT = 74`. -/
def REF_1X1_PAD_COUNT : Int := 74

/-- `DEFAULT_PAD_COUNTS` table. -/
def DEFAULT_PAD_COUNTS : SlotName → Int
  | .s1x1 => 74
  | .s0p5x1 => 72
  | .s1x0p5 => 72
  | .s0p5x0p5 => 56

/-- The `bidir` entry of `RTL_PAD_MAX_DEFAULTS`. -/
def RTL_PAD_MAX_DEFAULTS_bidir : SlotName → Int
  | .s1x1 => 168
  | .s0p5x1 => 122
  | .s1x0p5 => 108
  | .s0p5x0p5 => 62

/-- The `dvdd` entry of `RTL_PAD_MAX_DEFAULTS`. -/
def RTL_PAD_MAX_DEFAULTS_dvdd : SlotName → Int
  | .s1x1 => 8
  | .s0p5x1 => 8
  | .s1x0p5 => 8
  | .s0p5x0p5 => 4

/-- The `dvss` entry of `RTL_PAD_MAX_DEFAULTS`. -/
def RTL_PAD_MAX_DEFAULTS_dvss : SlotName → Int
  | .s1x1 => 10
  | .s0p5x1 => 8
  | .s1x0p5 => 8
  | .s0p5x0p5 => 4

/-- The `dvdd` entry of `PHYSICAL_PAD_LIMITS`. -/
def PHYSICAL_PAD_LIMITS_dvdd : SlotName → Int
  | .s1x1 => 15
  | .s0p5x1 => 11
  | .s1x0p5 => 10
  | .s0p5x0p5 => 6

/-- The `dvss` entry of `PHYSICAL_PAD_LIMITS`. -/
def PHYSICAL_PAD_LIMITS_dvss : SlotName → Int
  | .s1x1 => 15
  | .s0p5x1 => 11
  | .s1x0p5 => 10
  | .s0p5x0p5 => 6

/-- `calculate_max_pads_per_edge`: maximum number of pads that fit on each
edge.  `int(x / 75.0)` truncates toward zero, hence `Int.tdiv`.  (The float
subtraction and division are exact in the relevant range: the available
length is an exact integer-valued float, and its exact quotient by 75 is
never close enough to an integer for the float rounding to move the
truncation.) -/
def calculate_max_pads_per_edge (slot : SlotDefinition) : Edge → Int :=
  let ns_available := slot.die_width - 2 * CORNER_CELL_SIZE - 2 * SEAL_RING
  let ew_available := slot.die_height - 2 * CORNER_CELL_SIZE - 2 * SEAL_RING
  fun e =>
    match e with
    | .north => Int.tdiv ns_available IO_CELL_WIDTH
    | .south => Int.tdiv ns_available IO_CELL_WIDTH
    | .east => Int.tdiv ew_available IO_CELL_WIDTH
    | .west => Int.tdiv ew_available IO_CELL_WIDTH

/-- `get_1x1_max_pads`: reference capacities of the full-size slot. -/
def get_1x1_max_pads : Edge → Int :=
  calculate_max_pads_per_edge (SLOTS .s1x1)

/-- The proportional-distribution loop shared by the `DEF` and `NUM` branches
of `calculate_pads_for_density`: every edge except the last (in the sorted
edge list) gets `min(int(target_total * cap/total_capacity), cap)`, the last
edge gets `min(remaining, cap)`. -/
def prop_distribute (target_total total_capacity : Int) (max_pads : Edge → Int) :
    List Edge → Int → List (Edge × Int)
  | [], _ => []
  | [e], remaining => [(e, min remaining (max_pads e))]
  | e :: e' :: rest, remaining =>
    let edge_count := Int.tdiv (target_total * max_pads e) total_capacity
    let t := min edge_count (max_pads e)
    (e, t) :: prop_distribute target_total total_capacity max_pads (e' :: rest) (remaining - t)

/-- `calculate_pads_for_density`: total pads and per-edge targets for a
density mode, as an association list over the active edges (lexicographic
order).  Returns `(total, pads_per_edge)` with `total` the sum of the
per-edge values, as in the source. -/
def calculate_pads_for_density (slot : SlotDefinition) (density : Density) (edges : Edges) :
    Int × List (Edge × Int) :=
  let max_pads := calculate_max_pads_per_edge slot
  let ref_1x1_max := get_1x1_max_pads
  let active := edges.active_list
  let pads_per_edge :=
    match density with
    | .DEF =>
      let target_total₀ := DEFAULT_PAD_COUNTS slot.name
      let total_capacity := (active.map max_pads).sum
      let target_total := min target_total₀ total_capacity
      prop_distribute target_total total_capacity max_pads active target_total
    | .MAX => active.map fun e => (e, max_pads e)
    | .SPC => active.map fun e => (e, min (max_pads e) (ref_1x1_max e))
    | .NUM =>
      let total_capacity := (active.map max_pads).sum
      let target_total := min REF_1X1_PAD_COUNT total_capacity
      prop_distribute target_total total_capacity max_pads active target_total
  ((pads_per_edge.map (·.2)).sum, pads_per_edge)

/-- `get_rtl_signal_limit`: `bidir + 2` (clk and rst_n). -/
def get_rtl_signal_limit (slot_name : SlotName) : Int :=
  RTL_PAD_MAX_DEFAULTS_bidir slot_name + 2

/-- `get_rtl_power_limit`: `dvdd + dvss` physical limits. -/
def get_rtl_power_limit (slot_name : SlotName) : Int :=
  PHYSICAL_PAD_LIMITS_dvdd slot_name + PHYSICAL_PAD_LIMITS_dvss slot_name

/-- `distribute_pads_with_power` with the default `power_ratio = 0.15`.
`int(available * 0.15)` is modelled as `Int.tdiv (3 * available) 20`
(truncation toward zero of the exact product: for every `available` in the
reachable range the float product rounds to a value with the same truncation).
Python's `% 2` on a possibly negative int yields a value in `{0, 1}`, which is
`Int.emod`. -/
def distribute_pads_with_power (total_pads : Int) (slot_name : SlotName) : Int × Int :=
  let available := total_pads - 2
  let power_pads₀ := Int.tdiv (3 * available) 20
  let power_pads₁ := if Int.emod power_pads₀ 2 = 1 then power_pads₀ + 1 else power_pads₀
  let signal_pads₀ := available - power_pads₁
  let signal_limit := get_rtl_signal_limit slot_name
  let power_limit := get_rtl_power_limit slot_name
  let signal_pads₁ :=
    if signal_pads₀ + 2 > signal_limit then signal_limit - 2 else signal_pads₀
  let power_pads₂ := if power_pads₁ > power_limit then power_limit else power_pads₁
  (signal_pads₁, power_pads₂)

/-! ## Edge allocator (the three passes of `generate_config_yaml`) -/

/-- First allocator pass of `generate_config_yaml`: proportional distribution
with running remainders.  `ratio = cap / total_pads if total_pads > 0 else 0`
and `int(budget * ratio)` are modelled as the exact truncated quotient
`Int.tdiv (budget * cap) total_pads`.  Returns the per-edge records
`(edge, cap, sig, pow)` together with the remaining signal and power budgets. -/
def alloc_pass1 (S P C : Int) :
    List (Edge × Int) → Int → Int → List (Edge × Int × Int × Int) × Int × Int
  | [], remS, remP => ([], remS, remP)
  | (e, c) :: rest, remS, remP =>
    let share_s := if 0 < C then Int.tdiv (S * c) C else 0
    let edge_sig := min (min share_s remS) c
    let share_p := if 0 < C then Int.tdiv (P * c) C else 0
    let edge_pow := min (min share_p remP) (c - edge_sig)
    let r := alloc_pass1 S P C rest (remS - edge_sig) (remP - edge_pow)
    ((e, c, edge_sig, edge_pow) :: r.1, r.2)

/-- Second allocator pass: distribute the remaining signal pads greedily over
the edges (the caller presents them sorted by descending capacity), adding to
each edge as much as fits in its spare capacity. -/
def fill_signal :
    List (Edge × Int × Int × Int) → Int → List (Edge × Int × Int × Int) × Int
  | [], rem => ([], rem)
  | (e, c, s, p) :: rest, rem =>
    if rem ≤ 0 then ((e, c, s, p) :: rest, rem)
    else
      let available := c - s - p
      let add := if 0 < available then min rem available else 0
      let r := fill_signal rest (rem - add)
      ((e, c, s + add, p) :: r.1, r.2)

/-- Third allocator pass: identical to `fill_signal` but for the power
remainder. -/
def fill_power :
    List (Edge × Int × Int × Int) → Int → List (Edge × Int × Int × Int) × Int
  | [], rem => ([], rem)
  | (e, c, s, p) :: rest, rem =>
    if rem ≤ 0 then ((e, c, s, p) :: rest, rem)
    else
      let available := c - s - p
      let add := if 0 < available then min rem available else 0
      let r := fill_power rest (rem - add)
      ((e, c, s, p + add) :: r.1, r.2)

/-- The three-pass edge allocator of `generate_config_yaml` (lines 560-615):
proportional pass over the active edges, then the signal remainder pass and
the power remainder pass over the edges sorted by descending capacity.
`total_pads` (the ratio denominator) equals the sum of the per-edge
capacities, as in the caller.  The result is the per-edge
`(edge, cap, sig, pow)` records, in descending-capacity order. -/
def allocate_edges (caps : List (Edge × Int)) (S P : Int) :
    List (Edge × Int × Int × Int) :=
  let total_pads := (caps.map (·.2)).sum
  let r₁ := alloc_pass1 S P total_pads caps S P
  let sorted_edges := List.insertionSort (fun x y => y.2.1 ≤ x.2.1) r₁.1
  let r₂ := fill_signal sorted_edges r₁.2.1
  let r₃ := fill_power r₂.1 r₁.2.2
  r₃.1

/-! ## Pad sequence generator (`generate_edge_pads`) -/

/-- A single pad instance in the output sequence.  The YAML instance name
strings `clk_pad`, `rst_n_pad`, `bidir\[i\].pad`, `dvdd_pads\[i\].pad`,
`dvss_pads\[i\].pad` are in bijection with these constructors. -/
inductive Pad where
  | clk
  | rst_n
  | bidir (i : Nat)
  | dvdd (i : Nat)
  | dvss (i : Nat)
deriving DecidableEq, Repr

/-- The interleaving `while` loop of `generate_edge_pads`: each iteration
emits up to `spp` signal pads and then one power pad (alternating dvss/dvdd
on the global power counter), until both budgets are exhausted.  The loop in
the source has no fuel: it simply does not terminate when it stops making
progress (`spp = 0` with signals still pending), which this embedding
reports as `none`. -/
def interleave_pads (spp s p : Nat) :
    Nat → Nat → Nat → Nat → Nat → Nat → Nat → Option (List Pad × Nat × Nat × Nat)
  | fuel, signal_placed, power_placed, bidir_idx, vdd_idx, vss_idx, global_power_idx =>
    if signal_placed < s ∨ power_placed < p then
      match fuel with
      | 0 => none
      | fuel + 1 =>
        let k := min spp (s - signal_placed)
        let sig_block := (List.range k).map fun j => Pad.bidir (bidir_idx + j)
        if power_placed < p then
          if global_power_idx % 2 = 0 then
            (interleave_pads spp s p fuel (signal_placed + k) (power_placed + 1)
                (bidir_idx + k) vdd_idx (vss_idx + 1) (global_power_idx + 1)).map
              fun r => (sig_block ++ Pad.dvss vss_idx :: r.1, r.2)
          else
            (interleave_pads spp s p fuel (signal_placed + k) (power_placed + 1)
                (bidir_idx + k) (vdd_idx + 1) vss_idx (global_power_idx + 1)).map
              fun r => (sig_block ++ Pad.dvdd vdd_idx :: r.1, r.2)
        else
          (interleave_pads spp s p fuel (signal_placed + k) power_placed
              (bidir_idx + k) vdd_idx vss_idx global_power_idx).map
            fun r => (sig_block ++ r.1, r.2)
    else
      some ([], bidir_idx, vdd_idx, vss_idx)

/-- `generate_edge_pads` before the final reversal step: clk/rst first when
requested (consuming two signal slots), then the interleaved body.  When both
`power_count > 0` and the remaining `signal_count > 0`, the interleaving loop
runs; it needs at most `s + p` productive iterations, so fuel `s + p + 1` is
exact: `none` is returned precisely when the source loops forever.  The
trailing `while signal_placed < signal_count` loop of the source is
unreachable (the main loop only exits with both budgets exhausted) and adds
nothing.  Python's `range(n)` of a negative `n` is empty, hence `Int.toNat`. -/
def generate_edge_pads_core (signal_count power_count : Int)
    (bidir_start vdd_start vss_start : Nat) (include_clk_rst : Bool) :
    Option (List Pad × Nat × Nat × Nat) :=
  let lead_pads : List Pad := if include_clk_rst then [Pad.clk, Pad.rst_n] else []
  let sc := signal_count - (if include_clk_rst then 2 else 0)
  if 0 < power_count ∧ 0 < sc then
    let s := sc.toNat
    let p := power_count.toNat
    let signals_per_power := s / (p + 1)
    (interleave_pads signals_per_power s p (s + p + 1) 0 0
        bidir_start vdd_start vss_start (vdd_start + vss_start)).map
      fun r => (lead_pads ++ r.1, r.2)
  else
    some (lead_pads ++ (List.range sc.toNat).map (fun j => Pad.bidir (bidir_start + j)),
      bidir_start + sc.toNat, vdd_start, vss_start)

/-- `generate_edge_pads`: the per-edge pad sequence, with the final reversal
step (clk/rst kept at the front when present).  The `edge_pad_count`
parameter is received but never consulted, as in the source. -/
def generate_edge_pads (edge_pad_count : Int) (signal_count power_count : Int)
    (bidir_start vdd_start vss_start : Nat) (include_clk_rst : Bool) (reverse : Bool) :
    Option (List Pad × Nat × Nat × Nat) :=
  match generate_edge_pads_core signal_count power_count bidir_start vdd_start vss_start
      include_clk_rst with
  | none => none
  | some (pads, b, v, w) =>
    let pads' :=
      if reverse then
        if include_clk_rst then pads.take 2 ++ (pads.drop 2).reverse
        else pads.reverse
      else pads
    some (pads', b, v, w)

/-! ## Configuration assembly (`generate_config_yaml`) -/

/-- Which edge gets the clk/rst pair (lines 677-686): south if active,
otherwise the first active edge among west, east, north. -/
def clk_rst_edge (edges : Edges) : Option Edge :=
  let active := edges.active_list
  if Edge.south ∈ active then some Edge.south
  else List.find? (fun e => decide (e ∈ active)) [Edge.west, Edge.east, Edge.north]

/-- A symbolic build flag (an element of `VERILOG_DEFINES`). -/
inductive VFlag where
  | slot_define (s : SlotName)
  | max_io_config
  | num_bidir_pads_override (n : Int)
  | num_dvdd_pads_override (n : Nat)
  | num_dvss_pads_override (n : Nat)
deriving DecidableEq, Repr

/-- The claim-relevant part of the output artifact: the build flags and the
four ordered pad lists.  (The geometry fields `FP_SIZING`, `DIE_AREA`,
`CORE_AREA` and the `PDN_CFG` reference are not consulted by any claim and
are not modelled.) -/
structure ConfigArtifact where
  verilog_defines : List VFlag
  pad_south : List Pad
  pad_east : List Pad
  pad_north : List Pad
  pad_west : List Pad
deriving DecidableEq, Repr

/-- One step of the per-direction generation loop (lines 689-707): active
edges are generated (reversed for north and west, hosting clk/rst if chosen),
inactive edges yield an empty list. -/
def gen_direction (cap edge_signal edge_power : Edge → Int)
    (active : List Edge) (host : Option Edge) (e : Edge) (b v w : Nat) :
    Option (List Pad × Nat × Nat × Nat) :=
  if e ∈ active then
    generate_edge_pads (cap e) (edge_signal e) (edge_power e) b v w
      (host == some e) (e == Edge.north || e == Edge.west)
  else some ([], b, v, w)

/-- Dictionary lookup `pads_per_edge[e]` over the per-edge target records. -/
def edge_cap_of (pads_per_edge : List (Edge × Int)) : Edge → Int :=
  fun e => ((pads_per_edge.find? (fun r => r.1 == e)).map (·.2)).getD 0

/-- Dictionary lookup `edge_signal[e]` over the allocation records. -/
def edge_sig_of (alloc : List (Edge × Int × Int × Int)) : Edge → Int :=
  fun e => ((alloc.find? (fun r => r.1 == e)).map (fun r => r.2.2.1)).getD 0

/-- Dictionary lookup `edge_power[e]` over the allocation records. -/
def edge_pow_of (alloc : List (Edge × Int × Int × Int)) : Edge → Int :=
  fun e => ((alloc.find? (fun r => r.1 == e)).map (fun r => r.2.2.2)).getD 0

/-- The tail of `generate_config_yaml` after the numeric budgeting stages:
given the per-edge targets (`pads_per_edge`), the bidir budget
(`signal_pads`) and the per-edge allocation (`alloc`), generate the four
directions (south, east, north, west order) and assemble the build flags
with the bidir/dvdd/dvss override rules.  `none` when a per-edge generation
diverges.  Factored out of `generate_config` so that proofs can substitute
the intermediate values. -/
def build_artifact (slot : SlotDefinition) (density : Density) (edges : Edges)
    (pads_per_edge : List (Edge × Int)) (signal_pads : Int)
    (alloc : List (Edge × Int × Int × Int)) : Option ConfigArtifact :=
  let active := edges.active_list
  let cap := edge_cap_of pads_per_edge
  let edge_signal := edge_sig_of alloc
  let edge_power := edge_pow_of alloc
  let verilog_defines₀ : List VFlag :=
    [VFlag.slot_define slot.name] ++
      (if density ≠ Density.DEF then
        [VFlag.max_io_config] ++
          (if signal_pads ≠ RTL_PAD_MAX_DEFAULTS_bidir slot.name then
            [VFlag.num_bidir_pads_override signal_pads]
          else [])
      else [])
  let host := clk_rst_edge edges
  match gen_direction cap edge_signal edge_power active host Edge.south 0 0 0 with
  | none => none
  | some (ps, b₁, v₁, w₁) =>
    match gen_direction cap edge_signal edge_power active host Edge.east b₁ v₁ w₁ with
    | none => none
    | some (pe, b₂, v₂, w₂) =>
      match gen_direction cap edge_signal edge_power active host Edge.north b₂ v₂ w₂ with
      | none => none
      | some (pn, b₃, v₃, w₃) =>
        match gen_direction cap edge_signal edge_power active host Edge.west b₃ v₃ w₃ with
        | none => none
        | some (pw, _, v₄, w₄) =>
          let verilog_defines₁ :=
            if density ≠ Density.DEF then
              verilog_defines₀ ++
                (if (v₄ : Int) ≠ RTL_PAD_MAX_DEFAULTS_dvdd slot.name then
                  [VFlag.num_dvdd_pads_override v₄] else []) ++
                (if (w₄ : Int) ≠ RTL_PAD_MAX_DEFAULTS_dvss slot.name then
                  [VFlag.num_dvss_pads_override w₄] else [])
            else verilog_defines₀
          some ⟨verilog_defines₁, ps, pe, pn, pw⟩

/-- `generate_config_yaml`, restricted to the data the claims are about:
density targets → signal/power split → three-pass edge allocation →
`build_artifact` (per-edge pad generation and build flags). -/
def generate_config (slot : SlotDefinition) (density : Density) (edges : Edges) :
    Option ConfigArtifact :=
  let tp := calculate_pads_for_density slot density edges
  let sp := distribute_pads_with_power tp.1 slot.name
  build_artifact slot density edges tp.2 sp.1
    (allocate_edges tp.2 (sp.1 + 2) sp.2)

/-- All pads of an artifact, in perimeter order. -/
def ConfigArtifact.all_pads (art : ConfigArtifact) : List Pad :=
  art.pad_south ++ art.pad_east ++ art.pad_north ++ art.pad_west

/-- Number of bidirectional signal pads realized in the artifact. -/
def count_bidir (art : ConfigArtifact) : Nat :=
  art.all_pads.countP fun pad => match pad with | Pad.bidir _ => true | _ => false

/-- Number of positive-supply pads realized in the artifact. -/
def count_dvdd (art : ConfigArtifact) : Nat :=
  art.all_pads.countP fun pad => match pad with | Pad.dvdd _ => true | _ => false

/-- Number of negative-supply pads realized in the artifact. -/
def count_dvss (art : ConfigArtifact) : Nat :=
  art.all_pads.countP fun pad => match pad with | Pad.dvss _ => true | _ => false

/-- Whether a flag list contains a bidir-count override. -/
def has_bidir_override (l : List VFlag) : Bool :=
  l.any fun f => match f with | VFlag.num_bidir_pads_override _ => true | _ => false

/-- Whether a flag list contains a dvdd-count override. -/
def has_dvdd_override (l : List VFlag) : Bool :=
  l.any fun f => match f with | VFlag.num_dvdd_pads_override _ => true | _ => false

/-- Whether a flag list contains a dvss-count override. -/
def has_dvss_override (l : List VFlag) : Bool :=
  l.any fun f => match f with | VFlag.num_dvss_pads_override _ => true | _ => false

/-! ## C4: capacity calculator -/

/-- C4 counterexample: the claim says the capacity is non-negative (zero when
the slot is too small) for *every* slot geometry, but for a hypothetical slot
with a 600 µm die width the available length is −162 µm and
`int(-162 / 75.0) = -2`: the calculator returns a negative capacity, not
zero. -/
theorem calculate_max_pads_negative_on_tiny_slot :
    calculate_max_pads_per_edge ⟨SlotName.s1x1, 600, 600, 0, 0, 0, 0⟩ Edge.north < 0 := by
  decide

/-- C4 amended: for every slot geometry the capacity calculator is total
(never raises), gives north = south and east = west, and — whenever the die
dimension is at least two corner cells plus two seal-ring widths — the
capacity is non-negative and equals the floor of
(dimension − 2·corner − 2·seal) / pitch.  (For smaller hypothetical slots the
source truncates toward zero and can return a negative value, per the
counterexample.) -/
theorem calculate_max_pads_spec (slot : SlotDefinition) :
    (calculate_max_pads_per_edge slot Edge.north = calculate_max_pads_per_edge slot Edge.south ∧
      calculate_max_pads_per_edge slot Edge.east = calculate_max_pads_per_edge slot Edge.west) ∧
    (2 * CORNER_CELL_SIZE + 2 * SEAL_RING ≤ slot.die_width →
      0 ≤ calculate_max_pads_per_edge slot Edge.north ∧
      calculate_max_pads_per_edge slot Edge.north =
        Int.fdiv (slot.die_width - 2 * CORNER_CELL_SIZE - 2 * SEAL_RING) IO_CELL_WIDTH) ∧
    (2 * CORNER_CELL_SIZE + 2 * SEAL_RING ≤ slot.die_height →
      0 ≤ calculate_max_pads_per_edge slot Edge.east ∧
      calculate_max_pads_per_edge slot Edge.east =
        Int.fdiv (slot.die_height - 2 * CORNER_CELL_SIZE - 2 * SEAL_RING) IO_CELL_WIDTH) := by
  unfold calculate_max_pads_per_edge CORNER_CELL_SIZE SEAL_RING IO_CELL_WIDTH
  refine ⟨⟨rfl, rfl⟩, fun h => ⟨?_, ?_⟩, fun h => ⟨?_, ?_⟩⟩
  · exact Int.tdiv_nonneg (by omega) (by decide)
  · exact (Int.fdiv_eq_tdiv (by omega) (by decide)).symm
  · exact Int.tdiv_nonneg (by omega) (by decide)
  · exact (Int.fdiv_eq_tdiv (by omega) (by decide)).symm

/-- Witness for the amended C4 theorem at the defined 1x1 slot. -/
theorem calculate_max_pads_spec_witness :
    0 ≤ calculate_max_pads_per_edge (SLOTS .s1x1) Edge.north ∧
    calculate_max_pads_per_edge (SLOTS .s1x1) Edge.north =
      Int.fdiv ((SLOTS .s1x1).die_width - 2 * CORNER_CELL_SIZE - 2 * SEAL_RING) IO_CELL_WIDTH :=
  (calculate_max_pads_spec (SLOTS .s1x1)).2.1 (by decide)

/-! ## C1: DEF / NUM proportional distribution -/

/-- The policy's target total before capping by capacity, as the claim states
it: the slot's reference count for DEFAULT, the cross-slot reference constant
for MATCH-COUNT (and irrelevant, 0, for the other modes). -/
def policy_target_total (density : Density) (s : SlotName) : Int :=
  match density with
  | .DEF => DEFAULT_PAD_COUNTS s
  | .NUM => REF_1X1_PAD_COUNT
  | _ => 0

/-- C1 counterexample: on the quarter slot with MATCH-COUNT density over all
four edges, the truncation remainder assigned to the last edge (west) is 24
but west's capacity is only 23, so the targets sum to 73 — not
min(74, 76) = 74 as the claim states. -/
theorem calculate_pads_NUM_sum_counterexample :
    (calculate_pads_for_density (SLOTS .s0p5x0p5) Density.NUM Edges.ALL).1 = 73 ∧
    min (policy_target_total Density.NUM SlotName.s0p5x0p5)
        ((Edges.ALL.active_list.map (calculate_max_pads_per_edge (SLOTS .s0p5x0p5))).sum) =
      74 := by
  decide

/-- C1 amended: for the DEF and NUM density modes, on every defined slot and
edge selection, each per-edge target is at most that edge's capacity, the
last edge in lexicographic order gets `min(remaining budget, capacity)`, and
the targets sum to *at most* min(policy total, sum of active capacities) —
with equality in every case except the quarter slot with MATCH-COUNT density
over all four edges, where the remainder exceeds the last edge's capacity
and one pad of the budget is silently dropped. -/
theorem calculate_pads_DEF_NUM_spec (s : SlotName) (es : Edges) (d : Density)
    (hd : d = Density.DEF ∨ d = Density.NUM) :
    (∀ p ∈ (calculate_pads_for_density (SLOTS s) d es).2,
      p.2 ≤ calculate_max_pads_per_edge (SLOTS s) p.1) ∧
    ((calculate_pads_for_density (SLOTS s) d es).2.map (·.2)).sum =
      (calculate_pads_for_density (SLOTS s) d es).1 ∧
    (calculate_pads_for_density (SLOTS s) d es).1 ≤
      min (policy_target_total d s)
        ((es.active_list.map (calculate_max_pads_per_edge (SLOTS s))).sum) ∧
    (¬(s = SlotName.s0p5x0p5 ∧ d = Density.NUM ∧ es = Edges.ALL) →
      (calculate_pads_for_density (SLOTS s) d es).1 =
        min (policy_target_total d s)
          ((es.active_list.map (calculate_max_pads_per_edge (SLOTS s))).sum)) ∧
    (calculate_pads_for_density (SLOTS s) d es).2.getLast? =
      (es.active_list.getLast?).map (fun e =>
        (e, min
          (min (policy_target_total d s)
              ((es.active_list.map (calculate_max_pads_per_edge (SLOTS s))).sum) -
            (((calculate_pads_for_density (SLOTS s) d es).2.dropLast).map (·.2)).sum)
          (calculate_max_pads_per_edge (SLOTS s) e))) := by
  rcases hd with rfl | rfl <;> cases s <;> cases es <;> decide

/-- Witness for the amended C1 theorem at the 1x1 slot, DEFAULT density, all
four edges: the targets sum to 74 (the hand-tuned reference total, which
fits in the 200-pad capacity). -/
theorem calculate_pads_DEF_NUM_spec_witness :
    (calculate_pads_for_density (SLOTS .s1x1) Density.DEF Edges.ALL).1 =
      min (policy_target_total Density.DEF SlotName.s1x1)
        ((Edges.ALL.active_list.map (calculate_max_pads_per_edge (SLOTS .s1x1))).sum) :=
  (calculate_pads_DEF_NUM_spec SlotName.s1x1 Edges.ALL Density.DEF (Or.inl rfl)).2.2.2.1
    (by decide)

/-! ## C5 / C10: signal/power partitioner -/

/-- `Int.emod` is the `%` of the `HMod` instance (syntactic bridge for
`omega`). -/
theorem int_emod_eq_mod (a b : Int) : Int.emod a b = a % b := rfl

/-- C5: for every total pad count and every slot, the power-pad count
returned by `distribute_pads_with_power` is even, and it equals
floor((total − 2) · 0.15) incremented by one if odd, clamped one-directionally
to the platform power cap (which is even for every slot, so the clamp
preserves evenness). -/
theorem distribute_pads_power_even (total : Nat) (sn : SlotName) :
    Int.emod (distribute_pads_with_power (total : Int) sn).2 2 = 0 ∧
    (distribute_pads_with_power (total : Int) sn).2 =
      min (if Int.emod (Int.fdiv (3 * ((total : Int) - 2)) 20) 2 = 1
           then Int.fdiv (3 * ((total : Int) - 2)) 20 + 1
           else Int.fdiv (3 * ((total : Int) - 2)) 20)
        (get_rtl_power_limit sn) := by
  have hcap_even : Int.emod (get_rtl_power_limit sn) 2 = 0 := by cases sn <;> decide
  rcases Nat.lt_or_ge total 2 with hlt | hge
  · interval_cases total <;> cases sn <;> decide
  · have h2 : (2 : Int) ≤ (total : Int) := by exact_mod_cast hge
    have h3 : (0 : Int) ≤ 3 * ((total : Int) - 2) := by omega
    have hdt : Int.fdiv (3 * ((total : Int) - 2)) 20 = Int.tdiv (3 * ((total : Int) - 2)) 20 :=
      Int.fdiv_eq_tdiv h3 (by decide)
    simp only [distribute_pads_with_power, hdt, int_emod_eq_mod] at hcap_even ⊢
    generalize Int.tdiv (3 * ((total : Int) - 2)) 20 = q
    rcases Int.emod_two_eq q with hq | hq <;> split_ifs <;> omega

/-- C10 counterexample: for total = −12 the partitioner returns a power count
of −2 (even after the parity fix) and a signal count of −12, not the
power count 0 and signal count total − 2 = −14 the claim states. -/
theorem distribute_pads_negative_total_counterexample :
    distribute_pads_with_power (-12) SlotName.s1x1 = (-12, -2) ∧
    distribute_pads_with_power (-12) SlotName.s1x1 ≠ ((-12 : Int) - 2, 0) := by
  decide

/-- C10 amended: for totals below the two reserved clock/reset slots the
partitioner does not raise, and for −11 ≤ total < 2 it returns power count 0
and signal count total − 2; for smaller totals `int(available * 0.15)`
reaches −2 and the power count turns negative (see the counterexample). -/
theorem distribute_pads_small_total_spec (total : Int) (sn : SlotName)
    (h1 : -11 ≤ total) (h2 : total < 2) :
    distribute_pads_with_power total sn = (total - 2, 0) := by
  interval_cases total <;> cases sn <;> decide

/-- Witness for the amended C10 theorem at total = 0. -/
theorem distribute_pads_small_total_spec_witness :
    distribute_pads_with_power 0 SlotName.s1x1 = (0 - 2, 0) :=
  distribute_pads_small_total_spec 0 SlotName.s1x1 (by decide) (by decide)

/-! ## C3 / C7 / C8: pad sequence generator -/

/-- When the per-gap signal quota is at least one, the interleaving loop
terminates within its budget of iterations and emits exactly the outstanding
signal and power pads. -/
theorem interleave_pads_some (spp s p : Nat) (hspp : 1 ≤ spp) :
    ∀ (fuel sPlaced pPlaced b v w g : Nat),
      s - sPlaced + (p - pPlaced) ≤ fuel →
      ∃ r, interleave_pads spp s p fuel sPlaced pPlaced b v w g = some r ∧
        r.1.length = s - sPlaced + (p - pPlaced) := by
  intro fuel
  induction fuel with
  | zero =>
    intro sPlaced pPlaced b v w g h
    rw [interleave_pads]
    rw [if_neg (by omega)]
    exact ⟨([], b, v, w), rfl, by simp; omega⟩
  | succ f ih =>
    intro sPlaced pPlaced b v w g h
    rw [interleave_pads]
    by_cases hc : sPlaced < s ∨ pPlaced < p
    · rw [if_pos hc]
      by_cases hp : pPlaced < p
      · rw [if_pos hp]
        by_cases hg : g % 2 = 0
        · rw [if_pos hg]
          obtain ⟨r, hr, hlen⟩ := ih (sPlaced + min spp (s - sPlaced)) (pPlaced + 1)
            (b + min spp (s - sPlaced)) v (w + 1) (g + 1) (by omega)
          rw [hr]
          refine ⟨_, rfl, ?_⟩
          simp [hlen]
          omega
        · rw [if_neg hg]
          obtain ⟨r, hr, hlen⟩ := ih (sPlaced + min spp (s - sPlaced)) (pPlaced + 1)
            (b + min spp (s - sPlaced)) (v + 1) w (g + 1) (by omega)
          rw [hr]
          refine ⟨_, rfl, ?_⟩
          simp [hlen]
          omega
      · rw [if_neg hp]
        have hs : sPlaced < s := by omega
        obtain ⟨r, hr, hlen⟩ := ih (sPlaced + min spp (s - sPlaced)) pPlaced
          (b + min spp (s - sPlaced)) v w g (by omega)
        rw [hr]
        refine ⟨_, rfl, ?_⟩
        simp [hlen]
        omega
    · rw [if_neg hc]
      exact ⟨([], b, v, w), rfl, by simp; omega⟩

/-- C3 counterexample: with signal budget 0 and power budget 2 (no clk/rst),
the guard `power_count > 0 and signal_count > 0` fails, so the power pads are
silently dropped: the output has length 0, not 0 + 2. -/
theorem generate_edge_pads_length_counterexample :
    generate_edge_pads 10 0 2 0 0 0 false false = some ([], 0, 0, 0) ∧
    ([] : List Pad).length ≠ ((0 : Int) + 2).toNat := by
  decide

/-- Helper: length of the pre-reversal pad list, under the conditions in
which the source neither drops power pads nor loops forever. -/
theorem generate_edge_pads_core_length (signal_count power_count : Int)
    (bs vs ws : Nat) (inc : Bool)
    (hsc : 0 ≤ signal_count - (if inc then 2 else 0))
    (hp : power_count = 0 ∨
      (0 < power_count ∧ power_count < signal_count - (if inc then 2 else 0))) :
    ∃ r, generate_edge_pads_core signal_count power_count bs vs ws inc = some r ∧
      (r.1.length : Int) = signal_count + power_count := by
  rcases hp with hp0 | ⟨hppos, hplt⟩
  · simp only [generate_edge_pads_core]
    rw [if_neg (by omega)]
    refine ⟨_, rfl, ?_⟩
    cases inc <;> simp at hsc ⊢ <;> omega
  · have h0 : 0 < signal_count - (if inc then 2 else 0) := by omega
    simp only [generate_edge_pads_core]
    rw [if_pos ⟨hppos, h0⟩]
    obtain ⟨⟨body, b, v, w⟩, hr, hlen⟩ := interleave_pads_some
      ((signal_count - (if inc then 2 else 0)).toNat / (power_count.toNat + 1))
      (signal_count - (if inc then 2 else 0)).toNat power_count.toNat
      (by rw [Nat.one_le_div_iff (by omega)]; omega)
      ((signal_count - (if inc then 2 else 0)).toNat + power_count.toNat + 1) 0 0
      bs vs ws (vs + ws) (by omega)
    rw [hr]
    refine ⟨_, rfl, ?_⟩
    simp only [List.length_append] at hlen ⊢
    cases inc <;> simp at hsc hlen ⊢ <;> omega

/-- C3 amended: the output pad list of `generate_edge_pads` has length
signal_count + power_count whenever the signal budget covers the clk/rst
slots and either there are no power pads or the remaining signal count
strictly exceeds the power count.  (Otherwise the source either drops the
edge's power pads — when the remaining signal count is zero or negative with
a positive power budget — or loops forever — when
0 < remaining signals ≤ power count, reported as `none` here; see the
counterexample.) -/
theorem generate_edge_pads_length (epc signal_count power_count : Int)
    (bs vs ws : Nat) (inc rev : Bool)
    (hsc : 0 ≤ signal_count - (if inc then 2 else 0))
    (hp : power_count = 0 ∨
      (0 < power_count ∧ power_count < signal_count - (if inc then 2 else 0))) :
    ∃ r, generate_edge_pads epc signal_count power_count bs vs ws inc rev = some r ∧
      (r.1.length : Int) = signal_count + power_count := by
  obtain ⟨⟨pads, b, v, w⟩, hcore, hlen⟩ :=
    generate_edge_pads_core_length signal_count power_count bs vs ws inc hsc hp
  unfold generate_edge_pads
  rw [hcore]
  refine ⟨_, rfl, ?_⟩
  cases rev <;> cases inc <;> simp at hlen ⊢ <;> omega

/-- Witness for the amended C3 theorem: clk/rst edge with 7 signal slots and
2 power pads yields 9 pads. -/
theorem generate_edge_pads_length_witness :
    ∃ r, generate_edge_pads 10 7 2 3 1 1 true false = some r ∧
      (r.1.length : Int) = 7 + 2 :=
  generate_edge_pads_length 10 7 2 3 1 1 true false (by decide) (by decide)

/-- Helper: whenever the clk/rst-hosting generation succeeds, the
pre-reversal pad list starts with the clock pad then the reset pad. -/
theorem generate_edge_pads_core_clk_rst (signal_count power_count : Int)
    (bs vs ws : Nat) (pads : List Pad) (b v w : Nat)
    (h : generate_edge_pads_core signal_count power_count bs vs ws true =
      some (pads, b, v, w)) :
    ∃ rest, pads = Pad.clk :: Pad.rst_n :: rest := by
  simp only [generate_edge_pads_core, if_true] at h
  by_cases hc : 0 < power_count ∧ 0 < signal_count - 2
  · rw [if_pos hc, Option.map_eq_some'] at h
    obtain ⟨a, _, ha⟩ := h
    refine ⟨a.1, ?_⟩
    have := congrArg Prod.fst ha
    simp at this
    exact this.symm
  · rw [if_neg hc] at h
    simp at h
    exact ⟨_, h.1.symm⟩

/-- C7: when an edge hosts the clk/rst pair and is generated with the
reversal flag, the first two output pads are the clock pad then the reset
pad, and only the remaining elements are reversed: the un-reversed call
returns exactly the same list with its tail un-reversed (and the same
updated indices). -/
theorem generate_edge_pads_reverse_keeps_clk_rst (epc signal_count power_count : Int)
    (bs vs ws : Nat) (pads : List Pad) (idx : Nat × Nat × Nat)
    (h : generate_edge_pads epc signal_count power_count bs vs ws true true =
      some (pads, idx)) :
    pads.take 2 = [Pad.clk, Pad.rst_n] ∧
    generate_edge_pads epc signal_count power_count bs vs ws true false =
      some (pads.take 2 ++ (pads.drop 2).reverse, idx) := by
  unfold generate_edge_pads at h ⊢
  rcases hcore : generate_edge_pads_core signal_count power_count bs vs ws true with
    _ | ⟨pads₀, b, v, w⟩
  · rw [hcore] at h
    cases h
  · rw [hcore] at h
    obtain ⟨rest, rfl⟩ :=
      generate_edge_pads_core_clk_rst signal_count power_count bs vs ws pads₀ b v w hcore
    simp only [Option.some.injEq, Prod.mk.injEq, if_pos rfl] at h
    obtain ⟨h1, h2⟩ := h
    subst h1
    subst h2
    constructor
    · simp
    · simp

/-- Witness for C7 on a clk/rst edge with 7 signal slots and 2 power pads. -/
theorem generate_edge_pads_reverse_keeps_clk_rst_witness :
    (Pad.clk :: Pad.rst_n ::
        [Pad.bidir 7, Pad.bidir 6, Pad.bidir 5, Pad.dvdd 1, Pad.bidir 4,
          Pad.dvss 1, Pad.bidir 3]).take 2 = [Pad.clk, Pad.rst_n] :=
  (generate_edge_pads_reverse_keeps_clk_rst 10 7 2 3 1 1
    (Pad.clk :: Pad.rst_n ::
      [Pad.bidir 7, Pad.bidir 6, Pad.bidir 5, Pad.dvdd 1, Pad.bidir 4,
        Pad.dvss 1, Pad.bidir 3]) (8, 2, 2) (by decide)).1

/-- C8: the returned pad list and updated indices of `generate_edge_pads`
are independent of its `edge_pad_count` argument — the parameter is received
but never consulted. -/
theorem generate_edge_pads_ignores_edge_pad_count
    (epc epc' signal_count power_count : Int) (bs vs ws : Nat) (inc rev : Bool) :
    generate_edge_pads epc signal_count power_count bs vs ws inc rev =
      generate_edge_pads epc' signal_count power_count bs vs ws inc rev := rfl

/-! ## C9: clk/rst hosting edge -/

/-- The hosting rule as the claim states it: south whenever south is active,
otherwise the first active edge in the fixed preference order west, east,
north. -/
def spec_clk_rst_host (edges : Edges) : Option Edge :=
  if Edge.south ∈ edges.active_list then some Edge.south
  else ([Edge.west, Edge.east, Edge.north].filter
    (fun e => decide (e ∈ edges.active_list))).head?

/-- C9: for every edge selection the clk/rst pair is hosted by the south
edge when south is active and otherwise by the first active edge in the
order west, east, north; the chosen edge is active, and exactly one active
edge hosts the pair. -/
theorem clk_rst_edge_spec (es : Edges) :
    clk_rst_edge es = spec_clk_rst_host es ∧
    (∃ e, clk_rst_edge es = some e ∧ e ∈ es.active_list) ∧
    es.active_list.countP (fun e => decide (clk_rst_edge es = some e)) = 1 := by
  cases es <;> decide

/-! ## C2: the three-pass allocator invariants -/

/-- Sum of the per-edge signal counts of an allocation. -/
def alloc_sig_sum (l : List (Edge × Int × Int × Int)) : Int :=
  (l.map fun x => x.2.2.1).sum

/-- Sum of the per-edge power counts of an allocation. -/
def alloc_pow_sum (l : List (Edge × Int × Int × Int)) : Int :=
  (l.map fun x => x.2.2.2).sum

/-- Sum of the per-edge capacities of an allocation. -/
def alloc_cap_sum (l : List (Edge × Int × Int × Int)) : Int :=
  (l.map fun x => x.2.1).sum

/-- Pointwise sums of integer-valued maps add. -/
theorem list_sum_map_add {α : Type} (l : List α) (f g : α → Int) :
    (l.map fun x => f x + g x).sum = (l.map f).sum + (l.map g).sum := by
  induction l with
  | nil => simp
  | cons a t ih => simp [ih]; ring

/-- Invariants of the proportional pass: keys and capacities are preserved,
the remainders decrease by exactly what was assigned and stay non-negative,
and every edge receives non-negative signal/power fitting its capacity. -/
theorem alloc_pass1_spec (S P C : Int) (hS : 0 ≤ S) (hP : 0 ≤ P) :
    ∀ (caps : List (Edge × Int)) (remS remP : Int), 0 ≤ remS → 0 ≤ remP →
      (∀ kc ∈ caps, 0 ≤ kc.2) →
      ((alloc_pass1 S P C caps remS remP).1.map fun x => (x.1, x.2.1)) = caps ∧
      alloc_sig_sum (alloc_pass1 S P C caps remS remP).1 +
        (alloc_pass1 S P C caps remS remP).2.1 = remS ∧
      0 ≤ (alloc_pass1 S P C caps remS remP).2.1 ∧
      alloc_pow_sum (alloc_pass1 S P C caps remS remP).1 +
        (alloc_pass1 S P C caps remS remP).2.2 = remP ∧
      0 ≤ (alloc_pass1 S P C caps remS remP).2.2 ∧
      ∀ x ∈ (alloc_pass1 S P C caps remS remP).1,
        0 ≤ x.2.2.1 ∧ 0 ≤ x.2.2.2 ∧ x.2.2.1 + x.2.2.2 ≤ x.2.1 := by
  intro caps
  induction caps with
  | nil =>
    intro remS remP h1 h2 _
    simp [alloc_pass1, alloc_sig_sum, alloc_pow_sum]
    omega
  | cons kc rest ih =>
    obtain ⟨e, c⟩ := kc
    intro remS remP h1 h2 h3
    have hc : (0 : Int) ≤ c := h3 (e, c) (by simp)
    have hshare_s : 0 ≤ (if 0 < C then Int.tdiv (S * c) C else 0) := by
      split
    
      · exact Int.tdiv_nonneg (mul_nonneg hS hc) (by omega)
      · exact le_refl 0
    have hshare_p : 0 ≤ (if 0 < C then Int.tdiv (P * c) C else 0) := by
      split
      · exact Int.tdiv_nonneg (mul_nonneg hP hc) (by omega)
      · exact le_refl 0
    simp only [alloc_pass1]
    set share_s := if 0 < C then Int.tdiv (S * c) C else 0 with hss
    set share_p := if 0 < C then Int.tdiv (P * c) C else 0 with hsp
    set edge_sig := min (min share_s remS) c with hes
    set edge_pow := min (min share_p remP) (c - edge_sig) with hep
    have hsig1 : 0 ≤ edge_sig := by rw [hes]; omega
    have hsig2 : edge_sig ≤ remS := by rw [hes]; omega
    have hsig3 : edge_sig ≤ c := by rw [hes]; omega
    have hpow1 : 0 ≤ edge_pow := by rw [hep]; omega
    have hpow2 : edge_pow ≤ remP := by rw [hep]; omega
    have hpow3 : edge_pow ≤ c - edge_sig := by rw [hep]; omega
    obtain ⟨i1, i2, i3, i4, i5, i6⟩ :=
      ih (remS - edge_sig) (remP - edge_pow) (by omega) (by omega)
        (fun kc hkc => h3 kc (by simp [hkc]))
    refine ⟨?_, ?_, ?_, ?_, ?_, ?_⟩
    · simp [i1]
    · simp [alloc_sig_sum] at i2 ⊢
      omega
    · exact i3
    · simp [alloc_pow_sum] at i4 ⊢
      omega
    · exact i5
    · intro x hx
      rcases List.mem_cons.mp hx with rfl | hx'
      · exact ⟨hsig1, hpow1, show edge_sig + edge_pow ≤ c by omega⟩
      · exact i6 x hx'

/-- Invariants of the signal remainder pass: keys, capacities and power
counts unchanged; signal conservation; the remainder stays in `[0, rem]`;
per-edge capacity respected; and if any remainder survives, every edge is
full. -/
theorem fill_signal_spec :
    ∀ (l : List (Edge × Int × Int × Int)) (rem : Int), 0 ≤ rem →
      (∀ x ∈ l, x.2.2.1 + x.2.2.2 ≤ x.2.1) →
      ((fill_signal l rem).1.map fun x => (x.1, x.2.1)) = (l.map fun x => (x.1, x.2.1)) ∧
      ((fill_signal l rem).1.map fun x => x.2.2.2) = (l.map fun x => x.2.2.2) ∧
      alloc_sig_sum (fill_signal l rem).1 + (fill_signal l rem).2 = alloc_sig_sum l + rem ∧
      0 ≤ (fill_signal l rem).2 ∧ (fill_signal l rem).2 ≤ rem ∧
      (∀ x ∈ (fill_signal l rem).1, x.2.2.1 + x.2.2.2 ≤ x.2.1) ∧
      (0 < (fill_signal l rem).2 →
        ∀ x ∈ (fill_signal l rem).1, x.2.2.1 + x.2.2.2 = x.2.1) := by
  intro l
  induction l with
  | nil =>
    intro rem h0 _
    simp [fill_signal, alloc_sig_sum]
    omega
  | cons hd rest ih =>
    obtain ⟨e, c, s, p⟩ := hd
    intro rem h0 hb
    have hbhead : s + p ≤ c := hb (e, c, s, p) (by simp)
    by_cases hr : rem ≤ 0
    · simp only [fill_signal, if_pos hr]
      exact ⟨trivial, trivial, trivial, h0, le_refl rem, hb,
        fun hlt => absurd hlt (by omega)⟩
    · simp only [fill_signal, if_neg hr]
      set available := c - s - p with hav
      set add := if 0 < available then min rem available else 0 with hadd
      have hadd0 : 0 ≤ add := by rw [hadd]; split <;> omega
      have hadd1 : add ≤ rem := by rw [hadd]; split <;> omega
      have hadd2 : s + add + p ≤ c := by rw [hadd]; split <;> omega
      obtain ⟨i1, i2, i3, i4, i5, i6, i7⟩ :=
        ih (rem - add) (by omega) (fun x hx => hb x (by simp [hx]))
      refine ⟨?_, ?_, ?_, i4, by omega, ?_, ?_⟩
      · simp [i1]
      · simp [i2]
      · simp [alloc_sig_sum] at i3 ⊢
        omega
      · intro x hx
        rcases List.mem_cons.mp hx with rfl | hx'
        · exact show s + add + p ≤ c from hadd2
        · exact i6 x hx'
      · intro hpos x hx
        have hrem : 0 < rem - add := by omega
        rcases List.mem_cons.mp hx with rfl | hx'
        · show s + add + p = c
          by_cases hav0 : 0 < available
          · have hm : add = min rem available := by rw [hadd, if_pos hav0]
            omega
          · have hm : add = 0 := by rw [hadd, if_neg hav0]
            omega
        · exact i7 hpos x hx'

/-- Invariants of the power remainder pass (mirror of `fill_signal_spec`
with signal and power exchanged). -/
theorem fill_power_spec :
    ∀ (l : List (Edge × Int × Int × Int)) (rem : Int), 0 ≤ rem →
      (∀ x ∈ l, x.2.2.1 + x.2.2.2 ≤ x.2.1) →
      ((fill_power l rem).1.map fun x => (x.1, x.2.1)) = (l.map fun x => (x.1, x.2.1)) ∧
      ((fill_power l rem).1.map fun x => x.2.2.1) = (l.map fun x => x.2.2.1) ∧
      alloc_pow_sum (fill_power l rem).1 + (fill_power l rem).2 = alloc_pow_sum l + rem ∧
      0 ≤ (fill_power l rem).2 ∧ (fill_power l rem).2 ≤ rem ∧
      (∀ x ∈ (fill_power l rem).1, x.2.2.1 + x.2.2.2 ≤ x.2.1) ∧
      (0 < (fill_power l rem).2 →
        ∀ x ∈ (fill_power l rem).1, x.2.2.1 + x.2.2.2 = x.2.1) := by
  intro l
  induction l with
  | nil =>
    intro rem h0 _
    simp [fill_power, alloc_pow_sum]
    omega
  | cons hd rest ih =>
    obtain ⟨e, c, s, p⟩ := hd
    intro rem h0 hb
    have hbhead : s + p ≤ c := hb (e, c, s, p) (by simp)
    by_cases hr : rem ≤ 0
    · simp only [fill_power, if_pos hr]
      exact ⟨trivial, trivial, trivial, h0, le_refl rem, hb,
        fun hlt => absurd hlt (by omega)⟩
    · simp only [fill_power, if_neg hr]
      set available := c - s - p with hav
      set add := if 0 < available then min rem available else 0 with hadd
      have hadd0 : 0 ≤ add := by rw [hadd]; split <;> omega
      have hadd1 : add ≤ rem := by rw [hadd]; split <;> omega
      have hadd2 : s + (p + add) ≤ c := by rw [hadd]; split <;> omega
      obtain ⟨i1, i2, i3, i4, i5, i6, i7⟩ :=
        ih (rem - add) (by omega) (fun x hx => hb x (by simp [hx]))
      refine ⟨?_, ?_, ?_, i4, by omega, ?_, ?_⟩
      · simp [i1]
      · simp [i2]
      · simp [alloc_pow_sum] at i3 ⊢
        omega
      · intro x hx
        rcases List.mem_cons.mp hx with rfl | hx'
        · exact show s + (p + add) ≤ c from hadd2
        · exact i6 x hx'
      · intro hpos x hx
        have hrem : 0 < rem - add := by omega
        rcases List.mem_cons.mp hx with rfl | hx'
        · show s + (p + add) = c
          by_cases hav0 : 0 < available
          · have hm : add = min rem available := by rw [hadd, if_pos hav0]
            omega
          · have hm : add = 0 := by rw [hadd, if_neg hav0]
            omega
        · exact i7 hpos x hx'

/-- C2: for every active-edge capacity map and every signal and power budget
whose sum fits in the total capacity, the three-pass edge allocator returns
per-edge counts whose signal parts sum exactly to the signal budget, whose
power parts sum exactly to the power budget, and with signal + power within
capacity on every edge. -/
theorem allocate_edges_spec (caps : List (Edge × Nat)) (S P : Nat)
    (hbudget : S + P ≤ (caps.map (·.2)).sum) :
    alloc_sig_sum (allocate_edges (caps.map fun kc => (kc.1, (kc.2 : Int))) S P) = S ∧
    alloc_pow_sum (allocate_edges (caps.map fun kc => (kc.1, (kc.2 : Int))) S P) = P ∧
    ∀ x ∈ allocate_edges (caps.map fun kc => (kc.1, (kc.2 : Int))) S P,
      x.2.2.1 + x.2.2.2 ≤ x.2.1 := by
  set capsI := caps.map fun kc => (kc.1, (kc.2 : Int)) with hcapsI
  have hnn : ∀ kc ∈ capsI, 0 ≤ kc.2 := by
    intro kc hkc
    rw [hcapsI] at hkc
    obtain ⟨a, _, rfl⟩ := List.mem_map.mp hkc
    exact Int.natCast_nonneg a.2
  simp only [allocate_edges]
  set C := (capsI.map fun x => x.2).sum with hCdef
  have hcast : C = (((caps.map (·.2)).sum : Nat) : Int) := by
    rw [hCdef, hcapsI, Nat.cast_list_sum]
    simp [List.map_map, Function.comp_def]
  have hbudgetI : (S : Int) + (P : Int) ≤ C := by
    rw [hcast]
    exact_mod_cast hbudget
  set A := alloc_pass1 (S : Int) (P : Int) C capsI (S : Int) (P : Int) with hA
  obtain ⟨p1caps, p1sig, p1sigpos, p1pow, p1powpos, p1bound⟩ :=
    alloc_pass1_spec (S : Int) (P : Int) C (Int.natCast_nonneg S) (Int.natCast_nonneg P)
      capsI (S : Int) (P : Int) (Int.natCast_nonneg S) (Int.natCast_nonneg P) hnn
  rw [← hA] at p1caps p1sig p1sigpos p1pow p1powpos p1bound
  have hcapA : alloc_cap_sum A.1 = C := by
    have h := congrArg (fun t => (t.map Prod.snd).sum) p1caps
    simpa [alloc_cap_sum, List.map_map, Function.comp_def, hCdef] using h
  set SORT := List.insertionSort (fun x y => y.2.1 ≤ x.2.1) A.1 with hSORT
  have hperm : List.Perm SORT A.1 := by
    rw [hSORT]
    exact List.perm_insertionSort _ _
  have hsigS : alloc_sig_sum SORT = alloc_sig_sum A.1 := by
    simpa [alloc_sig_sum] using (hperm.map fun x => x.2.2.1).sum_eq
  have hpowS : alloc_pow_sum SORT = alloc_pow_sum A.1 := by
    simpa [alloc_pow_sum] using (hperm.map fun x => x.2.2.2).sum_eq
  have hcapS : alloc_cap_sum SORT = alloc_cap_sum A.1 := by
    simpa [alloc_cap_sum] using (hperm.map fun x => x.2.1).sum_eq
  have hboundS : ∀ x ∈ SORT, x.2.2.1 + x.2.2.2 ≤ x.2.1 :=
    fun x hx => (p1bound x (hperm.mem_iff.mp hx)).2.2
  obtain ⟨f1caps, f1pow, f1sum, f1nonneg, f1le, f1bound, f1full⟩ :=
    fill_signal_spec SORT A.2.1 p1sigpos hboundS
  set F1 := fill_signal SORT A.2.1 with hF1
  have hcapF1 : alloc_cap_sum F1.1 = alloc_cap_sum SORT := by
    have h := congrArg (fun t => (t.map Prod.snd).sum) f1caps
    simpa [alloc_cap_sum, List.map_map, Function.comp_def] using h
  have hpowF1 : alloc_pow_sum F1.1 = alloc_pow_sum SORT := by
    have h := congrArg List.sum f1pow
    simpa [alloc_pow_sum] using h
  have hrem2 : F1.2 = 0 := by
    by_contra hne
    have hpos : 0 < F1.2 := by omega
    have hfull := f1full hpos
    have hcapeq : alloc_cap_sum F1.1 = alloc_sig_sum F1.1 + alloc_pow_sum F1.1 := by
      unfold alloc_cap_sum alloc_sig_sum alloc_pow_sum
      rw [← list_sum_map_add]
      exact congrArg List.sum (List.map_congr_left fun x hx => (hfull x hx).symm)
    omega
  obtain ⟨f2caps, f2sig, f2sum, f2nonneg, f2le, f2bound, f2full⟩ :=
    fill_power_spec F1.1 A.2.2 p1powpos f1bound
  set F2 := fill_power F1.1 A.2.2 with hF2
  have hcapF2 : alloc_cap_sum F2.1 = alloc_cap_sum F1.1 := by
    have h := congrArg (fun t => (t.map Prod.snd).sum) f2caps
    simpa [alloc_cap_sum, List.map_map, Function.comp_def] using h
  have hsigF2 : alloc_sig_sum F2.1 = alloc_sig_sum F1.1 := by
    have h := congrArg List.sum f2sig
    simpa [alloc_sig_sum] using h
  have hrem3 : F2.2 = 0 := by
    by_contra hne
    have hpos : 0 < F2.2 := by omega
    have hfull := f2full hpos
    have hcapeq : alloc_cap_sum F2.1 = alloc_sig_sum F2.1 + alloc_pow_sum F2.1 := by
      unfold alloc_cap_sum alloc_sig_sum alloc_pow_sum
      rw [← list_sum_map_add]
      exact congrArg List.sum (List.map_congr_left fun x hx => (hfull x hx).symm)
    omega
  exact ⟨by omega, by omega, f2bound⟩

/-- Witness for C2 on a two-edge capacity map with capacities 3 and 2,
signal budget 4 and power budget 1. -/
theorem allocate_edges_spec_witness :
    alloc_sig_sum (allocate_edges
      ([(Edge.north, 3), (Edge.south, 2)].map fun kc => (kc.1, (kc.2 : Int))) 4 1) = 4 ∧
    alloc_pow_sum (allocate_edges
      ([(Edge.north, 3), (Edge.south, 2)].map fun kc => (kc.1, (kc.2 : Int))) 4 1) = 1 ∧
    ∀ x ∈ allocate_edges
      ([(Edge.north, 3), (Edge.south, 2)].map fun kc => (kc.1, (kc.2 : Int))) 4 1,
      x.2.2.1 + x.2.2.2 ≤ x.2.1 :=
  allocate_edges_spec [(Edge.north, 3), (Edge.south, 2)] 4 1 (by decide)

/-! ## C6: build flags of the generated artifacts -/

/-- The flag property C6 claims for one generated artifact of slot `s`: the
slot identity flag is present, the extended-pad-mode flag is present, and
each per-category override flag is present exactly when the realized pad
count of that category differs from the slot's compiled-in default. -/
def c6_flags_ok (s : SlotName) (art : ConfigArtifact) : Prop :=
  VFlag.slot_define s ∈ art.verilog_defines ∧
  VFlag.max_io_config ∈ art.verilog_defines ∧
  (has_bidir_override art.verilog_defines = true ↔
    (count_bidir art : Int) ≠ RTL_PAD_MAX_DEFAULTS_bidir s) ∧
  (has_dvdd_override art.verilog_defines = true ↔
    (count_dvdd art : Int) ≠ RTL_PAD_MAX_DEFAULTS_dvdd s) ∧
  (has_dvss_override art.verilog_defines = true ↔
    (count_dvss art : Int) ≠ RTL_PAD_MAX_DEFAULTS_dvss s)

instance c6_flags_ok_dec (s : SlotName) (art : ConfigArtifact) :
    Decidable (c6_flags_ok s art) := by
  unfold c6_flags_ok
  infer_instance

/-- A predicate on the value inside an `Option`, `False` on `none`. -/
def option_spec {α : Type} (P : α → Prop) : Option α → Prop
  | none => False
  | some a => P a

instance option_spec_dec {α : Type} (P : α → Prop) [DecidablePred P] :
    (o : Option α) → Decidable (option_spec P o)
  | none => isFalse fun h => h
  | some a => ‹DecidablePred P› a


set_option maxRecDepth 10000

/-- C6 helper: the s1x1 slot, MAX density, ALL edges. -/
theorem c6_s1x1_max_all :
    option_spec (c6_flags_ok SlotName.s1x1) (generate_config (SLOTS SlotName.s1x1) Density.MAX Edges.ALL) := by
  have h1 : calculate_pads_for_density (SLOTS SlotName.s1x1) Density.MAX Edges.ALL =
      (200, [(Edge.east, 58), (Edge.north, 42), (Edge.south, 42), (Edge.west, 58)]) := by decide
  have h2 : distribute_pads_with_power 200 SlotName.s1x1 = (168, 30) := by decide
  have h3 : allocate_edges [(Edge.east, 58), (Edge.north, 42), (Edge.south, 42), (Edge.west, 58)] (168 + 2) 30 =
      [(Edge.east, 58, 50, 8), (Edge.west, 58, 50, 8), (Edge.north, 42, 35, 7), (Edge.south, 42, 35, 7)] := by decide
  have hs : gen_direction (edge_cap_of [(Edge.east, 58), (Edge.north, 42), (Edge.south, 42), (Edge.west, 58)])
      (edge_sig_of [(Edge.east, 58, 50, 8), (Edge.west, 58, 50, 8), (Edge.north, 42, 35, 7), (Edge.south, 42, 35, 7)])
      (edge_pow_of [(Edge.east, 58, 50, 8), (Edge.west, 58, 50, 8), (Edge.north, 42, 35, 7), (Edge.south, 42, 35, 7)])
      Edges.ALL.active_list (clk_rst_edge Edges.ALL) Edge.south 0 0 0 =
      some (
        [Pad.clk, Pad.rst_n, Pad.bidir 0, Pad.bidir 1, Pad.bidir 2, Pad.bidir 3, Pad.dvss 0,
        Pad.bidir 4, Pad.bidir 5, Pad.bidir 6, Pad.bidir 7, Pad.dvdd 0, Pad.bidir 8, Pad.bidir 9,
        Pad.bidir 10, Pad.bidir 11, Pad.dvss 1, Pad.bidir 12, Pad.bidir 13, Pad.bidir 14,
        Pad.bidir 15, Pad.dvdd 1, Pad.bidir 16, Pad.bidir 17, Pad.bidir 18, Pad.bidir 19,
        Pad.dvss 2, Pad.bidir 20, Pad.bidir 21, Pad.bidir 22, Pad.bidir 23, Pad.dvdd 2,
        Pad.bidir 24, Pad.bidir 25, Pad.bidir 26, Pad.bidir 27, Pad.dvss 3, Pad.bidir 28,
        Pad.bidir 29, Pad.bidir 30, Pad.bidir 31, Pad.bidir 32],
        33, 3, 4) := by
    have c1 : edge_cap_of [(Edge.east, 58), (Edge.north, 42), (Edge.south, 42), (Edge.west, 58)] Edge.south = 42 := by decide
    have c2 : edge_sig_of [(Edge.east, 58, 50, 8), (Edge.west, 58, 50, 8), (Edge.north, 42, 35, 7), (Edge.south, 42, 35, 7)] Edge.south = 35 := by decide
    have c3 : edge_pow_of [(Edge.east, 58, 50, 8), (Edge.west, 58, 50, 8), (Edge.north, 42, 35, 7), (Edge.south, 42, 35, 7)] Edge.south = 7 := by decide
    simp only [gen_direction, c1, c2, c3]
    decide
  have he : gen_direction (edge_cap_of [(Edge.east, 58), (Edge.north, 42), (Edge.south, 42), (Edge.west, 58)])
      (edge_sig_of [(Edge.east, 58, 50, 8), (Edge.west, 58, 50, 8), (Edge.north, 42, 35, 7), (Edge.south, 42, 35, 7)])
      (edge_pow_of [(Edge.east, 58, 50, 8), (Edge.west, 58, 50, 8), (Edge.north, 42, 35, 7), (Edge.south, 42, 35, 7)])
      Edges.ALL.active_list (clk_rst_edge Edges.ALL) Edge.east 33 3 4 =
      some (
        [Pad.bidir 33, Pad.bidir 34, Pad.bidir 35, Pad.bidir 36, Pad.bidir 37, Pad.dvdd 3,
        Pad.bidir 38, Pad.bidir 39, Pad.bidir 40, Pad.bidir 41, Pad.bidir 42, Pad.dvss 4,
        Pad.bidir 43, Pad.bidir 44, Pad.bidir 45, Pad.bidir 46, Pad.bidir 47, Pad.dvdd 4,
        Pad.bidir 48, Pad.bidir 49, Pad.bidir 50, Pad.bidir 51, Pad.bidir 52, Pad.dvss 5,
        Pad.bidir 53, Pad.bidir 54, Pad.bidir 55, Pad.bidir 56, Pad.bidir 57, Pad.dvdd 5,
        Pad.bidir 58, Pad.bidir 59, Pad.bidir 60, Pad.bidir 61, Pad.bidir 62, Pad.dvss 6,
        Pad.bidir 63, Pad.bidir 64, Pad.bidir 65, Pad.bidir 66, Pad.bidir 67, Pad.dvdd 6,
        Pad.bidir 68, Pad.bidir 69, Pad.bidir 70, Pad.bidir 71, Pad.bidir 72, Pad.dvss 7,
        Pad.bidir 73, Pad.bidir 74, Pad.bidir 75, Pad.bidir 76, Pad.bidir 77, Pad.bidir 78,
        Pad.bidir 79, Pad.bidir 80, Pad.bidir 81, Pad.bidir 82],
        83, 7, 8) := by
    have c1 : edge_cap_of [(Edge.east, 58), (Edge.north, 42), (Edge.south, 42), (Edge.west, 58)] Edge.east = 58 := by decide
    have c2 : edge_sig_of [(Edge.east, 58, 50, 8), (Edge.west, 58, 50, 8), (Edge.north, 42, 35, 7), (Edge.south, 42, 35, 7)] Edge.east = 50 := by decide
    have c3 : edge_pow_of [(Edge.east, 58, 50, 8), (Edge.west, 58, 50, 8), (Edge.north, 42, 35, 7), (Edge.south, 42, 35, 7)] Edge.east = 8 := by decide
    simp only [gen_direction, c1, c2, c3]
    decide
  have hn : gen_direction (edge_cap_of [(Edge.east, 58), (Edge.north, 42), (Edge.south, 42), (Edge.west, 58)])
      (edge_sig_of [(Edge.east, 58, 50, 8), (Edge.west, 58, 50, 8), (Edge.north, 42, 35, 7), (Edge.south, 42, 35, 7)])
      (edge_pow_of [(Edge.east, 58, 50, 8), (Edge.west, 58, 50, 8), (Edge.north, 42, 35, 7), (Edge.south, 42, 35, 7)])
      Edges.ALL.active_list (clk_rst_edge Edges.ALL) Edge.north 83 7 8 =
      some (
        [Pad.bidir 117, Pad.bidir 116, Pad.bidir 115, Pad.bidir 114, Pad.bidir 113,
        Pad.bidir 112, Pad.bidir 111, Pad.dvdd 10, Pad.bidir 110, Pad.bidir 109, Pad.bidir 108,
        Pad.bidir 107, Pad.dvss 10, Pad.bidir 106, Pad.bidir 105, Pad.bidir 104, Pad.bidir 103,
        Pad.dvdd 9, Pad.bidir 102, Pad.bidir 101, Pad.bidir 100, Pad.bidir 99, Pad.dvss 9,
        Pad.bidir 98, Pad.bidir 97, Pad.bidir 96, Pad.bidir 95, Pad.dvdd 8, Pad.bidir 94,
        Pad.bidir 93, Pad.bidir 92, Pad.bidir 91, Pad.dvss 8, Pad.bidir 90, Pad.bidir 89,
        Pad.bidir 88, Pad.bidir 87, Pad.dvdd 7, Pad.bidir 86, Pad.bidir 85, Pad.bidir 84,
        Pad.bidir 83],
        118, 11, 11) := by
    have c1 : edge_cap_of [(Edge.east, 58), (Edge.north, 42), (Edge.south, 42), (Edge.west, 58)] Edge.north = 42 := by decide
    have c2 : edge_sig_of [(Edge.east, 58, 50, 8), (Edge.west, 58, 50, 8), (Edge.north, 42, 35, 7), (Edge.south, 42, 35, 7)] Edge.north = 35 := by decide
    have c3 : edge_pow_of [(Edge.east, 58, 50, 8), (Edge.west, 58, 50, 8), (Edge.north, 42, 35, 7), (Edge.south, 42, 35, 7)] Edge.north = 7 := by decide
    simp only [gen_direction, c1, c2, c3]
    decide
  have hw : gen_direction (edge_cap_of [(Edge.east, 58), (Edge.north, 42), (Edge.south, 42), (Edge.west, 58)])
      (edge_sig_of [(Edge.east, 58, 50, 8), (Edge.west, 58, 50, 8), (Edge.north, 42, 35, 7), (Edge.south, 42, 35, 7)])
      (edge_pow_of [(Edge.east, 58, 50, 8), (Edge.west, 58, 50, 8), (Edge.north, 42, 35, 7), (Edge.south, 42, 35, 7)])
      Edges.ALL.active_list (clk_rst_edge Edges.ALL) Edge.west 118 11 11 =
      some (
        [Pad.bidir 167, Pad.bidir 166, Pad.bidir 165, Pad.bidir 164, Pad.bidir 163,
        Pad.bidir 162, Pad.bidir 161, Pad.bidir 160, Pad.bidir 159, Pad.bidir 158, Pad.dvdd 14,
        Pad.bidir 157, Pad.bidir 156, Pad.bidir 155, Pad.bidir 154, Pad.bidir 153, Pad.dvss 14,
        Pad.bidir 152, Pad.bidir 151, Pad.bidir 150, Pad.bidir 149, Pad.bidir 148, Pad.dvdd 13,
        Pad.bidir 147, Pad.bidir 146, Pad.bidir 145, Pad.bidir 144, Pad.bidir 143, Pad.dvss 13,
        Pad.bidir 142, Pad.bidir 141, Pad.bidir 140, Pad.bidir 139, Pad.bidir 138, Pad.dvdd 12,
        Pad.bidir 137, Pad.bidir 136, Pad.bidir 135, Pad.bidir 134, Pad.bidir 133, Pad.dvss 12,
        Pad.bidir 132, Pad.bidir 131, Pad.bidir 130, Pad.bidir 129, Pad.bidir 128, Pad.dvdd 11,
        Pad.bidir 127, Pad.bidir 126, Pad.bidir 125, Pad.bidir 124, Pad.bidir 123, Pad.dvss 11,
        Pad.bidir 122, Pad.bidir 121, Pad.bidir 120, Pad.bidir 119, Pad.bidir 118],
        168, 15, 15) := by
    have c1 : edge_cap_of [(Edge.east, 58), (Edge.north, 42), (Edge.south, 42), (Edge.west, 58)] Edge.west = 58 := by decide
    have c2 : edge_sig_of [(Edge.east, 58, 50, 8), (Edge.west, 58, 50, 8), (Edge.north, 42, 35, 7), (Edge.south, 42, 35, 7)] Edge.west = 50 := by decide
    have c3 : edge_pow_of [(Edge.east, 58, 50, 8), (Edge.west, 58, 50, 8), (Edge.north, 42, 35, 7), (Edge.south, 42, 35, 7)] Edge.west = 8 := by decide
    simp only [gen_direction, c1, c2, c3]
    decide
  simp only [generate_config, h1]
  dsimp only [SLOTS]
  rw [h2]
  dsimp only
  rw [h3]
  simp only [build_artifact]
  rw [hs]
  dsimp only
  rw [he]
  dsimp only
  rw [hn]
  dsimp only
  rw [hw]
  dsimp only
  decide

/-- C6 helper: the s1x1 slot, MAX density, TOP edges. -/
theorem c6_s1x1_max_top :
    option_spec (c6_flags_ok SlotName.s1x1) (generate_config (SLOTS SlotName.s1x1) Density.MAX Edges.TOP) := by
  have h1 : calculate_pads_for_density (SLOTS SlotName.s1x1) Density.MAX Edges.TOP =
      (42, [(Edge.north, 42)]) := by decide
  have h2 : distribute_pads_with_power 42 SlotName.s1x1 = (34, 6) := by decide
  have h3 : allocate_edges [(Edge.north, 42)] (34 + 2) 6 =
      [(Edge.north, 42, 36, 6)] := by decide
  have hs : gen_direction (edge_cap_of [(Edge.north, 42)])
      (edge_sig_of [(Edge.north, 42, 36, 6)])
      (edge_pow_of [(Edge.north, 42, 36, 6)])
      Edges.TOP.active_list (clk_rst_edge Edges.TOP) Edge.south 0 0 0 =
      some (
        [],
        0, 0, 0) := by
    have c1 : edge_cap_of [(Edge.north, 42)] Edge.south = 0 := by decide
    have c2 : edge_sig_of [(Edge.north, 42, 36, 6)] Edge.south = 0 := by decide
    have c3 : edge_pow_of [(Edge.north, 42, 36, 6)] Edge.south = 0 := by decide
    simp only [gen_direction, c1, c2, c3]
    decide
  have he : gen_direction (edge_cap_of [(Edge.north, 42)])
      (edge_sig_of [(Edge.north, 42, 36, 6)])
      (edge_pow_of [(Edge.north, 42, 36, 6)])
      Edges.TOP.active_list (clk_rst_edge Edges.TOP) Edge.east 0 0 0 =
      some (
        [],
        0, 0, 0) := by
    have c1 : edge_cap_of [(Edge.north, 42)] Edge.east = 0 := by decide
    have c2 : edge_sig_of [(Edge.north, 42, 36, 6)] Edge.east = 0 := by decide
    have c3 : edge_pow_of [(Edge.north, 42, 36, 6)] Edge.east = 0 := by decide
    simp only [gen_direction, c1, c2, c3]
    decide
  have hn : gen_direction (edge_cap_of [(Edge.north, 42)])
      (edge_sig_of [(Edge.north, 42, 36, 6)])
      (edge_pow_of [(Edge.north, 42, 36, 6)])
      Edges.TOP.active_list (clk_rst_edge Edges.TOP) Edge.north 0 0 0 =
      some (
        [Pad.clk, Pad.rst_n, Pad.bidir 33, Pad.bidir 32, Pad.bidir 31, Pad.bidir 30,
        Pad.bidir 29, Pad.bidir 28, Pad.bidir 27, Pad.bidir 26, Pad.bidir 25, Pad.bidir 24,
        Pad.dvdd 2, Pad.bidir 23, Pad.bidir 22, Pad.bidir 21, Pad.bidir 20, Pad.dvss 2,
        Pad.bidir 19, Pad.bidir 18, Pad.bidir 17, Pad.bidir 16, Pad.dvdd 1, Pad.bidir 15,
        Pad.bidir 14, Pad.bidir 13, Pad.bidir 12, Pad.dvss 1, Pad.bidir 11, Pad.bidir 10,
        Pad.bidir 9, Pad.bidir 8, Pad.dvdd 0, Pad.bidir 7, Pad.bidir 6, Pad.bidir 5, Pad.bidir 4,
        Pad.dvss 0, Pad.bidir 3, Pad.bidir 2, Pad.bidir 1, Pad.bidir 0],
        34, 3, 3) := by
    have c1 : edge_cap_of [(Edge.north, 42)] Edge.north = 42 := by decide
    have c2 : edge_sig_of [(Edge.north, 42, 36, 6)] Edge.north = 36 := by decide
    have c3 : edge_pow_of [(Edge.north, 42, 36, 6)] Edge.north = 6 := by decide
    simp only [gen_direction, c1, c2, c3]
    decide
  have hw : gen_direction (edge_cap_of [(Edge.north, 42)])
      (edge_sig_of [(Edge.north, 42, 36, 6)])
      (edge_pow_of [(Edge.north, 42, 36, 6)])
      Edges.TOP.active_list (clk_rst_edge Edges.TOP) Edge.west 34 3 3 =
      some (
        [],
        34, 3, 3) := by
    have c1 : edge_cap_of [(Edge.north, 42)] Edge.west = 0 := by decide
    have c2 : edge_sig_of [(Edge.north, 42, 36, 6)] Edge.west = 0 := by decide
    have c3 : edge_pow_of [(Edge.north, 42, 36, 6)] Edge.west = 0 := by decide
    simp only [gen_direction, c1, c2, c3]
    decide
  simp only [generate_config, h1]
  dsimp only [SLOTS]
  rw [h2]
  dsimp only
  rw [h3]
  simp only [build_artifact]
  rw [hs]
  dsimp only
  rw [he]
  dsimp only
  rw [hn]
  dsimp only
  rw [hw]
  dsimp only
  decide

/-- C6 helper: the s1x1 slot, MAX density, LFT edges. -/
theorem c6_s1x1_max_lft :
    option_spec (c6_flags_ok SlotName.s1x1) (generate_config (SLOTS SlotName.s1x1) Density.MAX Edges.LFT) := by
  have h1 : calculate_pads_for_density (SLOTS SlotName.s1x1) Density.MAX Edges.LFT =
      (58, [(Edge.west, 58)]) := by decide
  have h2 : distribute_pads_with_power 58 SlotName.s1x1 = (48, 8) := by decide
  have h3 : allocate_edges [(Edge.west, 58)] (48 + 2) 8 =
      [(Edge.west, 58, 50, 8)] := by decide
  have hs : gen_direction (edge_cap_of [(Edge.west, 58)])
      (edge_sig_of [(Edge.west, 58, 50, 8)])
      (edge_pow_of [(Edge.west, 58, 50, 8)])
      Edges.LFT.active_list (clk_rst_edge Edges.LFT) Edge.south 0 0 0 =
      some (
        [],
        0, 0, 0) := by
    have c1 : edge_cap_of [(Edge.west, 58)] Edge.south = 0 := by decide
    have c2 : edge_sig_of [(Edge.west, 58, 50, 8)] Edge.south = 0 := by decide
    have c3 : edge_pow_of [(Edge.west, 58, 50, 8)] Edge.south = 0 := by decide
    simp only [gen_direction, c1, c2, c3]
    decide
  have he : gen_direction (edge_cap_of [(Edge.west, 58)])
      (edge_sig_of [(Edge.west, 58, 50, 8)])
      (edge_pow_of [(Edge.west, 58, 50, 8)])
      Edges.LFT.active_list (clk_rst_edge Edges.LFT) Edge.east 0 0 0 =
      some (
        [],
        0, 0, 0) := by
    have c1 : edge_cap_of [(Edge.west, 58)] Edge.east = 0 := by decide
    have c2 : edge_sig_of [(Edge.west, 58, 50, 8)] Edge.east = 0 := by decide
    have c3 : edge_pow_of [(Edge.west, 58, 50, 8)] Edge.east = 0 := by decide
    simp only [gen_direction, c1, c2, c3]
    decide
  have hn : gen_direction (edge_cap_of [(Edge.west, 58)])
      (edge_sig_of [(Edge.west, 58, 50, 8)])
      (edge_pow_of [(Edge.west, 58, 50, 8)])
      Edges.LFT.active_list (clk_rst_edge Edges.LFT) Edge.north 0 0 0 =
      some (
        [],
        0, 0, 0) := by
    have c1 : edge_cap_of [(Edge.west, 58)] Edge.north = 0 := by decide
    have c2 : edge_sig_of [(Edge.west, 58, 50, 8)] Edge.north = 0 := by decide
    have c3 : edge_pow_of [(Edge.west, 58, 50, 8)] Edge.north = 0 := by decide
    simp only [gen_direction, c1, c2, c3]
    decide
  have hw : gen_direction (edge_cap_of [(Edge.west, 58)])
      (edge_sig_of [(Edge.west, 58, 50, 8)])
      (edge_pow_of [(Edge.west, 58, 50, 8)])
      Edges.LFT.active_list (clk_rst_edge Edges.LFT) Edge.west 0 0 0 =
      some (
        [Pad.clk, Pad.rst_n, Pad.bidir 47, Pad.bidir 46, Pad.bidir 45, Pad.bidir 44,
        Pad.bidir 43, Pad.bidir 42, Pad.bidir 41, Pad.bidir 40, Pad.dvdd 3, Pad.bidir 39,
        Pad.bidir 38, Pad.bidir 37, Pad.bidir 36, Pad.bidir 35, Pad.dvss 3, Pad.bidir 34,
        Pad.bidir 33, Pad.bidir 32, Pad.bidir 31, Pad.bidir 30, Pad.dvdd 2, Pad.bidir 29,
        Pad.bidir 28, Pad.bidir 27, Pad.bidir 26, Pad.bidir 25, Pad.dvss 2, Pad.bidir 24,
        Pad.bidir 23, Pad.bidir 22, Pad.bidir 21, Pad.bidir 20, Pad.dvdd 1, Pad.bidir 19,
        Pad.bidir 18, Pad.bidir 17, Pad.bidir 16, Pad.bidir 15, Pad.dvss 1, Pad.bidir 14,
        Pad.bidir 13, Pad.bidir 12, Pad.bidir 11, Pad.bidir 10, Pad.dvdd 0, Pad.bidir 9,
        Pad.bidir 8, Pad.bidir 7, Pad.bidir 6, Pad.bidir 5, Pad.dvss 0, Pad.bidir 4, Pad.bidir 3,
        Pad.bidir 2, Pad.bidir 1, Pad.bidir 0],
        48, 4, 4) := by
    have c1 : edge_cap_of [(Edge.west, 58)] Edge.west = 58 := by decide
    have c2 : edge_sig_of [(Edge.west, 58, 50, 8)] Edge.west = 50 := by decide
    have c3 : edge_pow_of [(Edge.west, 58, 50, 8)] Edge.west = 8 := by decide
    simp only [gen_direction, c1, c2, c3]
    decide
  simp only [generate_config, h1]
  dsimp only [SLOTS]
  rw [h2]
  dsimp only
  rw [h3]
  simp only [build_artifact]
  rw [hs]
  dsimp only
  rw [he]
  dsimp only
  rw [hn]
  dsimp only
  rw [hw]
  dsimp only
  decide

/-- C6 helper: the s1x1 slot, MAX density, HOR edges. -/
theorem c6_s1x1_max_hor :
    option_spec (c6_flags_ok SlotName.s1x1) (generate_config (SLOTS SlotName.s1x1) Density.MAX Edges.HOR) := by
  have h1 : calculate_pads_for_density (SLOTS SlotName.s1x1) Density.MAX Edges.HOR =
      (84, [(Edge.north, 42), (Edge.south, 42)]) := by decide
  have h2 : distribute_pads_with_power 84 SlotName.s1x1 = (70, 12) := by decide
  have h3 : allocate_edges [(Edge.north, 42), (Edge.south, 42)] (70 + 2) 12 =
      [(Edge.north, 42, 36, 6), (Edge.south, 42, 36, 6)] := by decide
  have hs : gen_direction (edge_cap_of [(Edge.north, 42), (Edge.south, 42)])
      (edge_sig_of [(Edge.north, 42, 36, 6), (Edge.south, 42, 36, 6)])
      (edge_pow_of [(Edge.north, 42, 36, 6), (Edge.south, 42, 36, 6)])
      Edges.HOR.active_list (clk_rst_edge Edges.HOR) Edge.south 0 0 0 =
      some (
        [Pad.clk, Pad.rst_n, Pad.bidir 0, Pad.bidir 1, Pad.bidir 2, Pad.bidir 3, Pad.dvss 0,
        Pad.bidir 4, Pad.bidir 5, Pad.bidir 6, Pad.bidir 7, Pad.dvdd 0, Pad.bidir 8, Pad.bidir 9,
        Pad.bidir 10, Pad.bidir 11, Pad.dvss 1, Pad.bidir 12, Pad.bidir 13, Pad.bidir 14,
        Pad.bidir 15, Pad.dvdd 1, Pad.bidir 16, Pad.bidir 17, Pad.bidir 18, Pad.bidir 19,
        Pad.dvss 2, Pad.bidir 20, Pad.bidir 21, Pad.bidir 22, Pad.bidir 23, Pad.dvdd 2,
        Pad.bidir 24, Pad.bidir 25, Pad.bidir 26, Pad.bidir 27, Pad.bidir 28, Pad.bidir 29,
        Pad.bidir 30, Pad.bidir 31, Pad.bidir 32, Pad.bidir 33],
        34, 3, 3) := by
    have c1 : edge_cap_of [(Edge.north, 42), (Edge.south, 42)] Edge.south = 42 := by decide
    have c2 : edge_sig_of [(Edge.north, 42, 36, 6), (Edge.south, 42, 36, 6)] Edge.south = 36 := by decide
    have c3 : edge_pow_of [(Edge.north, 42, 36, 6), (Edge.south, 42, 36, 6)] Edge.south = 6 := by decide
    simp only [gen_direction, c1, c2, c3]
    decide
  have he : gen_direction (edge_cap_of [(Edge.north, 42), (Edge.south, 42)])
      (edge_sig_of [(Edge.north, 42, 36, 6), (Edge.south, 42, 36, 6)])
      (edge_pow_of [(Edge.north, 42, 36, 6), (Edge.south, 42, 36, 6)])
      Edges.HOR.active_list (clk_rst_edge Edges.HOR) Edge.east 34 3 3 =
      some (
        [],
        34, 3, 3) := by
    have c1 : edge_cap_of [(Edge.north, 42), (Edge.south, 42)] Edge.east = 0 := by decide
    have c2 : edge_sig_of [(Edge.north, 42, 36, 6), (Edge.south, 42, 36, 6)] Edge.east = 0 := by decide
    have c3 : edge_pow_of [(Edge.north, 42, 36, 6), (Edge.south, 42, 36, 6)] Edge.east = 0 := by decide
    simp only [gen_direction, c1, c2, c3]
    decide
  have hn : gen_direction (edge_cap_of [(Edge.north, 42), (Edge.south, 42)])
      (edge_sig_of [(Edge.north, 42, 36, 6), (Edge.south, 42, 36, 6)])
      (edge_pow_of [(Edge.north, 42, 36, 6), (Edge.south, 42, 36, 6)])
      Edges.HOR.active_list (clk_rst_edge Edges.HOR) Edge.north 34 3 3 =
      some (
        [Pad.bidir 69, Pad.bidir 68, Pad.bidir 67, Pad.bidir 66, Pad.bidir 65, Pad.bidir 64,
        Pad.dvdd 5, Pad.bidir 63, Pad.bidir 62, Pad.bidir 61, Pad.bidir 60, Pad.bidir 59,
        Pad.dvss 5, Pad.bidir 58, Pad.bidir 57, Pad.bidir 56, Pad.bidir 55, Pad.bidir 54,
        Pad.dvdd 4, Pad.bidir 53, Pad.bidir 52, Pad.bidir 51, Pad.bidir 50, Pad.bidir 49,
        Pad.dvss 4, Pad.bidir 48, Pad.bidir 47, Pad.bidir 46, Pad.bidir 45, Pad.bidir 44,
        Pad.dvdd 3, Pad.bidir 43, Pad.bidir 42, Pad.bidir 41, Pad.bidir 40, Pad.bidir 39,
        Pad.dvss 3, Pad.bidir 38, Pad.bidir 37, Pad.bidir 36, Pad.bidir 35, Pad.bidir 34],
        70, 6, 6) := by
    have c1 : edge_cap_of [(Edge.north, 42), (Edge.south, 42)] Edge.north = 42 := by decide
    have c2 : edge_sig_of [(Edge.north, 42, 36, 6), (Edge.south, 42, 36, 6)] Edge.north = 36 := by decide
    have c3 : edge_pow_of [(Edge.north, 42, 36, 6), (Edge.south, 42, 36, 6)] Edge.north = 6 := by decide
    simp only [gen_direction, c1, c2, c3]
    decide
  have hw : gen_direction (edge_cap_of [(Edge.north, 42), (Edge.south, 42)])
      (edge_sig_of [(Edge.north, 42, 36, 6), (Edge.south, 42, 36, 6)])
      (edge_pow_of [(Edge.north, 42, 36, 6), (Edge.south, 42, 36, 6)])
      Edges.HOR.active_list (clk_rst_edge Edges.HOR) Edge.west 70 6 6 =
      some (
        [],
        70, 6, 6) := by
    have c1 : edge_cap_of [(Edge.north, 42), (Edge.south, 42)] Edge.west = 0 := by decide
    have c2 : edge_sig_of [(Edge.north, 42, 36, 6), (Edge.south, 42, 36, 6)] Edge.west = 0 := by decide
    have c3 : edge_pow_of [(Edge.north, 42, 36, 6), (Edge.south, 42, 36, 6)] Edge.west = 0 := by decide
    simp only [gen_direction, c1, c2, c3]
    decide
  simp only [generate_config, h1]
  dsimp only [SLOTS]
  rw [h2]
  dsimp only
  rw [h3]
  simp only [build_artifact]
  rw [hs]
  dsimp only
  rw [he]
  dsimp only
  rw [hn]
  dsimp only
  rw [hw]
  dsimp only
  decide

/-- C6 helper: the s1x1 slot, MAX density, VER edges. -/
theorem c6_s1x1_max_ver :
    option_spec (c6_flags_ok SlotName.s1x1) (generate_config (SLOTS SlotName.s1x1) Density.MAX Edges.VER) := by
  have h1 : calculate_pads_for_density (SLOTS SlotName.s1x1) Density.MAX Edges.VER =
      (116, [(Edge.east, 58), (Edge.west, 58)]) := by decide
  have h2 : distribute_pads_with_power 116 SlotName.s1x1 = (96, 18) := by decide
  have h3 : allocate_edges [(Edge.east, 58), (Edge.west, 58)] (96 + 2) 18 =
      [(Edge.east, 58, 49, 9), (Edge.west, 58, 49, 9)] := by decide
  have hs : gen_direction (edge_cap_of [(Edge.east, 58), (Edge.west, 58)])
      (edge_sig_of [(Edge.east, 58, 49, 9), (Edge.west, 58, 49, 9)])
      (edge_pow_of [(Edge.east, 58, 49, 9), (Edge.west, 58, 49, 9)])
      Edges.VER.active_list (clk_rst_edge Edges.VER) Edge.south 0 0 0 =
      some (
        [],
        0, 0, 0) := by
    have c1 : edge_cap_of [(Edge.east, 58), (Edge.west, 58)] Edge.south = 0 := by decide
    have c2 : edge_sig_of [(Edge.east, 58, 49, 9), (Edge.west, 58, 49, 9)] Edge.south = 0 := by decide
    have c3 : edge_pow_of [(Edge.east, 58, 49, 9), (Edge.west, 58, 49, 9)] Edge.south = 0 := by decide
    simp only [gen_direction, c1, c2, c3]
    decide
  have he : gen_direction (edge_cap_of [(Edge.east, 58), (Edge.west, 58)])
      (edge_sig_of [(Edge.east, 58, 49, 9), (Edge.west, 58, 49, 9)])
      (edge_pow_of [(Edge.east, 58, 49, 9), (Edge.west, 58, 49, 9)])
      Edges.VER.active_list (clk_rst_edge Edges.VER) Edge.east 0 0 0 =
      some (
        [Pad.bidir 0, Pad.bidir 1, Pad.bidir 2, Pad.bidir 3, Pad.dvss 0, Pad.bidir 4,
        Pad.bidir 5, Pad.bidir 6, Pad.bidir 7, Pad.dvdd 0, Pad.bidir 8, Pad.bidir 9,
        Pad.bidir 10, Pad.bidir 11, Pad.dvss 1, Pad.bidir 12, Pad.bidir 13, Pad.bidir 14,
        Pad.bidir 15, Pad.dvdd 1, Pad.bidir 16, Pad.bidir 17, Pad.bidir 18, Pad.bidir 19,
        Pad.dvss 2, Pad.bidir 20, Pad.bidir 21, Pad.bidir 22, Pad.bidir 23, Pad.dvdd 2,
        Pad.bidir 24, Pad.bidir 25, Pad.bidir 26, Pad.bidir 27, Pad.dvss 3, Pad.bidir 28,
        Pad.bidir 29, Pad.bidir 30, Pad.bidir 31, Pad.dvdd 3, Pad.bidir 32, Pad.bidir 33,
        Pad.bidir 34, Pad.bidir 35, Pad.dvss 4, Pad.bidir 36, Pad.bidir 37, Pad.bidir 38,
        Pad.bidir 39, Pad.bidir 40, Pad.bidir 41, Pad.bidir 42, Pad.bidir 43, Pad.bidir 44,
        Pad.bidir 45, Pad.bidir 46, Pad.bidir 47, Pad.bidir 48],
        49, 4, 5) := by
    have c1 : edge_cap_of [(Edge.east, 58), (Edge.west, 58)] Edge.east = 58 := by decide
    have c2 : edge_sig_of [(Edge.east, 58, 49, 9), (Edge.west, 58, 49, 9)] Edge.east = 49 := by decide
    have c3 : edge_pow_of [(Edge.east, 58, 49, 9), (Edge.west, 58, 49, 9)] Edge.east = 9 := by decide
    simp only [gen_direction, c1, c2, c3]
    decide
  have hn : gen_direction (edge_cap_of [(Edge.east, 58), (Edge.west, 58)])
      (edge_sig_of [(Edge.east, 58, 49, 9), (Edge.west, 58, 49, 9)])
      (edge_pow_of [(Edge.east, 58, 49, 9), (Edge.west, 58, 49, 9)])
      Edges.VER.active_list (clk_rst_edge Edges.VER) Edge.north 49 4 5 =
      some (
        [],
        49, 4, 5) := by
    have c1 : edge_cap_of [(Edge.east, 58), (Edge.west, 58)] Edge.north = 0 := by decide
    have c2 : edge_sig_of [(Edge.east, 58, 49, 9), (Edge.west, 58, 49, 9)] Edge.north = 0 := by decide
    have c3 : edge_pow_of [(Edge.east, 58, 49, 9), (Edge.west, 58, 49, 9)] Edge.north = 0 := by decide
    simp only [gen_direction, c1, c2, c3]
    decide
  have hw : gen_direction (edge_cap_of [(Edge.east, 58), (Edge.west, 58)])
      (edge_sig_of [(Edge.east, 58, 49, 9), (Edge.west, 58, 49, 9)])
      (edge_pow_of [(Edge.east, 58, 49, 9), (Edge.west, 58, 49, 9)])
      Edges.VER.active_list (clk_rst_edge Edges.VER) Edge.west 49 4 5 =
      some (
        [Pad.clk, Pad.rst_n, Pad.bidir 95, Pad.bidir 94, Pad.bidir 93, Pad.bidir 92,
        Pad.bidir 91, Pad.bidir 90, Pad.bidir 89, Pad.bidir 88, Pad.bidir 87, Pad.bidir 86,
        Pad.bidir 85, Pad.dvdd 8, Pad.bidir 84, Pad.bidir 83, Pad.bidir 82, Pad.bidir 81,
        Pad.dvss 8, Pad.bidir 80, Pad.bidir 79, Pad.bidir 78, Pad.bidir 77, Pad.dvdd 7,
        Pad.bidir 76, Pad.bidir 75, Pad.bidir 74, Pad.bidir 73, Pad.dvss 7, Pad.bidir 72,
        Pad.bidir 71, Pad.bidir 70, Pad.bidir 69, Pad.dvdd 6, Pad.bidir 68, Pad.bidir 67,
        Pad.bidir 66, Pad.bidir 65, Pad.dvss 6, Pad.bidir 64, Pad.bidir 63, Pad.bidir 62,
        Pad.bidir 61, Pad.dvdd 5, Pad.bidir 60, Pad.bidir 59, Pad.bidir 58, Pad.bidir 57,
        Pad.dvss 5, Pad.bidir 56, Pad.bidir 55, Pad.bidir 54, Pad.bidir 53, Pad.dvdd 4,
        Pad.bidir 52, Pad.bidir 51, Pad.bidir 50, Pad.bidir 49],
        96, 9, 9) := by
    have c1 : edge_cap_of [(Edge.east, 58), (Edge.west, 58)] Edge.west = 58 := by decide
    have c2 : edge_sig_of [(Edge.east, 58, 49, 9), (Edge.west, 58, 49, 9)] Edge.west = 49 := by decide
    have c3 : edge_pow_of [(Edge.east, 58, 49, 9), (Edge.west, 58, 49, 9)] Edge.west = 9 := by decide
    simp only [gen_direction, c1, c2, c3]
    decide
  simp only [generate_config, h1]
  dsimp only [SLOTS]
  rw [h2]
  dsimp only
  rw [h3]
  simp only [build_artifact]
  rw [hs]
  dsimp only
  rw [he]
  dsimp only
  rw [hn]
  dsimp only
  rw [hw]
  dsimp only
  decide

/-- C6 helper: the s1x1 slot, MAX density, NWC edges. -/
theorem c6_s1x1_max_nwc :
    option_spec (c6_flags_ok SlotName.s1x1) (generate_config (SLOTS SlotName.s1x1) Density.MAX Edges.NWC) := by
  have h1 : calculate_pads_for_density (SLOTS SlotName.s1x1) Density.MAX Edges.NWC =
      (100, [(Edge.north, 42), (Edge.west, 58)]) := by decide
  have h2 : distribute_pads_with_power 100 SlotName.s1x1 = (84, 14) := by decide
  have h3 : allocate_edges [(Edge.north, 42), (Edge.west, 58)] (84 + 2) 14 =
      [(Edge.west, 58, 50, 8), (Edge.north, 42, 36, 6)] := by decide
  have hs : gen_direction (edge_cap_of [(Edge.north, 42), (Edge.west, 58)])
      (edge_sig_of [(Edge.west, 58, 50, 8), (Edge.north, 42, 36, 6)])
      (edge_pow_of [(Edge.west, 58, 50, 8), (Edge.north, 42, 36, 6)])
      Edges.NWC.active_list (clk_rst_edge Edges.NWC) Edge.south 0 0 0 =
      some (
        [],
        0, 0, 0) := by
    have c1 : edge_cap_of [(Edge.north, 42), (Edge.west, 58)] Edge.south = 0 := by decide
    have c2 : edge_sig_of [(Edge.west, 58, 50, 8), (Edge.north, 42, 36, 6)] Edge.south = 0 := by decide
    have c3 : edge_pow_of [(Edge.west, 58, 50, 8), (Edge.north, 42, 36, 6)] Edge.south = 0 := by decide
    simp only [gen_direction, c1, c2, c3]
    decide
  have he : gen_direction (edge_cap_of [(Edge.north, 42), (Edge.west, 58)])
      (edge_sig_of [(Edge.west, 58, 50, 8), (Edge.north, 42, 36, 6)])
      (edge_pow_of [(Edge.west, 58, 50, 8), (Edge.north, 42, 36, 6)])
      Edges.NWC.active_list (clk_rst_edge Edges.NWC) Edge.east 0 0 0 =
      some (
        [],
        0, 0, 0) := by
    have c1 : edge_cap_of [(Edge.north, 42), (Edge.west, 58)] Edge.east = 0 := by decide
    have c2 : edge_sig_of [(Edge.west, 58, 50, 8), (Edge.north, 42, 36, 6)] Edge.east = 0 := by decide
    have c3 : edge_pow_of [(Edge.west, 58, 50, 8), (Edge.north, 42, 36, 6)] Edge.east = 0 := by decide
    simp only [gen_direction, c1, c2, c3]
    decide
  have hn : gen_direction (edge_cap_of [(Edge.north, 42), (Edge.west, 58)])
      (edge_sig_of [(Edge.west, 58, 50, 8), (Edge.north, 42, 36, 6)])
      (edge_pow_of [(Edge.west, 58, 50, 8), (Edge.north, 42, 36, 6)])
      Edges.NWC.active_list (clk_rst_edge Edges.NWC) Edge.north 0 0 0 =
      some (
        [Pad.bidir 35, Pad.bidir 34, Pad.bidir 33, Pad.bidir 32, Pad.bidir 31, Pad.bidir 30,
        Pad.dvdd 2, Pad.bidir 29, Pad.bidir 28, Pad.bidir 27, Pad.bidir 26, Pad.bidir 25,
        Pad.dvss 2, Pad.bidir 24, Pad.bidir 23, Pad.bidir 22, Pad.bidir 21, Pad.bidir 20,
        Pad.dvdd 1, Pad.bidir 19, Pad.bidir 18, Pad.bidir 17, Pad.bidir 16, Pad.bidir 15,
        Pad.dvss 1, Pad.bidir 14, Pad.bidir 13, Pad.bidir 12, Pad.bidir 11, Pad.bidir 10,
        Pad.dvdd 0, Pad.bidir 9, Pad.bidir 8, Pad.bidir 7, Pad.bidir 6, Pad.bidir 5, Pad.dvss 0,
        Pad.bidir 4, Pad.bidir 3, Pad.bidir 2, Pad.bidir 1, Pad.bidir 0],
        36, 3, 3) := by
    have c1 : edge_cap_of [(Edge.north, 42), (Edge.west, 58)] Edge.north = 42 := by decide
    have c2 : edge_sig_of [(Edge.west, 58, 50, 8), (Edge.north, 42, 36, 6)] Edge.north = 36 := by decide
    have c3 : edge_pow_of [(Edge.west, 58, 50, 8), (Edge.north, 42, 36, 6)] Edge.north = 6 := by decide
    simp only [gen_direction, c1, c2, c3]
    decide
  have hw : gen_direction (edge_cap_of [(Edge.north, 42), (Edge.west, 58)])
      (edge_sig_of [(Edge.west, 58, 50, 8), (Edge.north, 42, 36, 6)])
      (edge_pow_of [(Edge.west, 58, 50, 8), (Edge.north, 42, 36, 6)])
      Edges.NWC.active_list (clk_rst_edge Edges.NWC) Edge.west 36 3 3 =
      some (
        [Pad.clk, Pad.rst_n, Pad.bidir 83, Pad.bidir 82, Pad.bidir 81, Pad.bidir 80,
        Pad.bidir 79, Pad.bidir 78, Pad.bidir 77, Pad.bidir 76, Pad.dvdd 6, Pad.bidir 75,
        Pad.bidir 74, Pad.bidir 73, Pad.bidir 72, Pad.bidir 71, Pad.dvss 6, Pad.bidir 70,
        Pad.bidir 69, Pad.bidir 68, Pad.bidir 67, Pad.bidir 66, Pad.dvdd 5, Pad.bidir 65,
        Pad.bidir 64, Pad.bidir 63, Pad.bidir 62, Pad.bidir 61, Pad.dvss 5, Pad.bidir 60,
        Pad.bidir 59, Pad.bidir 58, Pad.bidir 57, Pad.bidir 56, Pad.dvdd 4, Pad.bidir 55,
        Pad.bidir 54, Pad.bidir 53, Pad.bidir 52, Pad.bidir 51, Pad.dvss 4, Pad.bidir 50,
        Pad.bidir 49, Pad.bidir 48, Pad.bidir 47, Pad.bidir 46, Pad.dvdd 3, Pad.bidir 45,
        Pad.bidir 44, Pad.bidir 43, Pad.bidir 42, Pad.bidir 41, Pad.dvss 3, Pad.bidir 40,
        Pad.bidir 39, Pad.bidir 38, Pad.bidir 37, Pad.bidir 36],
        84, 7, 7) := by
    have c1 : edge_cap_of [(Edge.north, 42), (Edge.west, 58)] Edge.west = 58 := by decide
    have c2 : edge_sig_of [(Edge.west, 58, 50, 8), (Edge.north, 42, 36, 6)] Edge.west = 50 := by decide
    have c3 : edge_pow_of [(Edge.west, 58, 50, 8), (Edge.north, 42, 36, 6)] Edge.west = 8 := by decide
    simp only [gen_direction, c1, c2, c3]
    decide
  simp only [generate_config, h1]
  dsimp only [SLOTS]
  rw [h2]
  dsimp only
  rw [h3]
  simp only [build_artifact]
  rw [hs]
  dsimp only
  rw [he]
  dsimp only
  rw [hn]
  dsimp only
  rw [hw]
  dsimp only
  decide

/-- C6 helper: the s1x1 slot, MAX density, SEC edges. -/
theorem c6_s1x1_max_sec :
    option_spec (c6_flags_ok SlotName.s1x1) (generate_config (SLOTS SlotName.s1x1) Density.MAX Edges.SEC) := by
  have h1 : calculate_pads_for_density (SLOTS SlotName.s1x1) Density.MAX Edges.SEC =
      (100, [(Edge.east, 58), (Edge.south, 42)]) := by decide
  have h2 : distribute_pads_with_power 100 SlotName.s1x1 = (84, 14) := by decide
  have h3 : allocate_edges [(Edge.east, 58), (Edge.south, 42)] (84 + 2) 14 =
      [(Edge.east, 58, 50, 8), (Edge.south, 42, 36, 6)] := by decide
  have hs : gen_direction (edge_cap_of [(Edge.east, 58), (Edge.south, 42)])
      (edge_sig_of [(Edge.east, 58, 50, 8), (Edge.south, 42, 36, 6)])
      (edge_pow_of [(Edge.east, 58, 50, 8), (Edge.south, 42, 36, 6)])
      Edges.SEC.active_list (clk_rst_edge Edges.SEC) Edge.south 0 0 0 =
      some (
        [Pad.clk, Pad.rst_n, Pad.bidir 0, Pad.bidir 1, Pad.bidir 2, Pad.bidir 3, Pad.dvss 0,
        Pad.bidir 4, Pad.bidir 5, Pad.bidir 6, Pad.bidir 7, Pad.dvdd 0, Pad.bidir 8, Pad.bidir 9,
        Pad.bidir 10, Pad.bidir 11, Pad.dvss 1, Pad.bidir 12, Pad.bidir 13, Pad.bidir 14,
        Pad.bidir 15, Pad.dvdd 1, Pad.bidir 16, Pad.bidir 17, Pad.bidir 18, Pad.bidir 19,
        Pad.dvss 2, Pad.bidir 20, Pad.bidir 21, Pad.bidir 22, Pad.bidir 23, Pad.dvdd 2,
        Pad.bidir 24, Pad.bidir 25, Pad.bidir 26, Pad.bidir 27, Pad.bidir 28, Pad.bidir 29,
        Pad.bidir 30, Pad.bidir 31, Pad.bidir 32, Pad.bidir 33],
        34, 3, 3) := by
    have c1 : edge_cap_of [(Edge.east, 58), (Edge.south, 42)] Edge.south = 42 := by decide
    have c2 : edge_sig_of [(Edge.east, 58, 50, 8), (Edge.south, 42, 36, 6)] Edge.south = 36 := by decide
    have c3 : edge_pow_of [(Edge.east, 58, 50, 8), (Edge.south, 42, 36, 6)] Edge.south = 6 := by decide
    simp only [gen_direction, c1, c2, c3]
    decide
  have he : gen_direction (edge_cap_of [(Edge.east, 58), (Edge.south, 42)])
      (edge_sig_of [(Edge.east, 58, 50, 8), (Edge.south, 42, 36, 6)])
      (edge_pow_of [(Edge.east, 58, 50, 8), (Edge.south, 42, 36, 6)])
      Edges.SEC.active_list (clk_rst_edge Edges.SEC) Edge.east 34 3 3 =
      some (
        [Pad.bidir 34, Pad.bidir 35, Pad.bidir 36, Pad.bidir 37, Pad.bidir 38, Pad.dvss 3,
        Pad.bidir 39, Pad.bidir 40, Pad.bidir 41, Pad.bidir 42, Pad.bidir 43, Pad.dvdd 3,
        Pad.bidir 44, Pad.bidir 45, Pad.bidir 46, Pad.bidir 47, Pad.bidir 48, Pad.dvss 4,
        Pad.bidir 49, Pad.bidir 50, Pad.bidir 51, Pad.bidir 52, Pad.bidir 53, Pad.dvdd 4,
        Pad.bidir 54, Pad.bidir 55, Pad.bidir 56, Pad.bidir 57, Pad.bidir 58, Pad.dvss 5,
        Pad.bidir 59, Pad.bidir 60, Pad.bidir 61, Pad.bidir 62, Pad.bidir 63, Pad.dvdd 5,
        Pad.bidir 64, Pad.bidir 65, Pad.bidir 66, Pad.bidir 67, Pad.bidir 68, Pad.dvss 6,
        Pad.bidir 69, Pad.bidir 70, Pad.bidir 71, Pad.bidir 72, Pad.bidir 73, Pad.dvdd 6,
        Pad.bidir 74, Pad.bidir 75, Pad.bidir 76, Pad.bidir 77, Pad.bidir 78, Pad.bidir 79,
        Pad.bidir 80, Pad.bidir 81, Pad.bidir 82, Pad.bidir 83],
        84, 7, 7) := by
    have c1 : edge_cap_of [(Edge.east, 58), (Edge.south, 42)] Edge.east = 58 := by decide
    have c2 : edge_sig_of [(Edge.east, 58, 50, 8), (Edge.south, 42, 36, 6)] Edge.east = 50 := by decide
    have c3 : edge_pow_of [(Edge.east, 58, 50, 8), (Edge.south, 42, 36, 6)] Edge.east = 8 := by decide
    simp only [gen_direction, c1, c2, c3]
    decide
  have hn : gen_direction (edge_cap_of [(Edge.east, 58), (Edge.south, 42)])
      (edge_sig_of [(Edge.east, 58, 50, 8), (Edge.south, 42, 36, 6)])
      (edge_pow_of [(Edge.east, 58, 50, 8), (Edge.south, 42, 36, 6)])
      Edges.SEC.active_list (clk_rst_edge Edges.SEC) Edge.north 84 7 7 =
      some (
        [],
        84, 7, 7) := by
    have c1 : edge_cap_of [(Edge.east, 58), (Edge.south, 42)] Edge.north = 0 := by decide
    have c2 : edge_sig_of [(Edge.east, 58, 50, 8), (Edge.south, 42, 36, 6)] Edge.north = 0 := by decide
    have c3 : edge_pow_of [(Edge.east, 58, 50, 8), (Edge.south, 42, 36, 6)] Edge.north = 0 := by decide
    simp only [gen_direction, c1, c2, c3]
    decide
  have hw : gen_direction (edge_cap_of [(Edge.east, 58), (Edge.south, 42)])
      (edge_sig_of [(Edge.east, 58, 50, 8), (Edge.south, 42, 36, 6)])
      (edge_pow_of [(Edge.east, 58, 50, 8), (Edge.south, 42, 36, 6)])
      Edges.SEC.active_list (clk_rst_edge Edges.SEC) Edge.west 84 7 7 =
      some (
        [],
        84, 7, 7) := by
    have c1 : edge_cap_of [(Edge.east, 58), (Edge.south, 42)] Edge.west = 0 := by decide
    have c2 : edge_sig_of [(Edge.east, 58, 50, 8), (Edge.south, 42, 36, 6)] Edge.west = 0 := by decide
    have c3 : edge_pow_of [(Edge.east, 58, 50, 8), (Edge.south, 42, 36, 6)] Edge.west = 0 := by decide
    simp only [gen_direction, c1, c2, c3]
    decide
  simp only [generate_config, h1]
  dsimp only [SLOTS]
  rw [h2]
  dsimp only
  rw [h3]
  simp only [build_artifact]
  rw [hs]
  dsimp only
  rw [he]
  dsimp only
  rw [hn]
  dsimp only
  rw [hw]
  dsimp only
  decide

/-- C6 helper: the s0p5x1 slot, MAX density, ALL edges. -/
theorem c6_s0p5x1_max_all :
    option_spec (c6_flags_ok SlotName.s0p5x1) (generate_config (SLOTS SlotName.s0p5x1) Density.MAX Edges.ALL) := by
  have h1 : calculate_pads_for_density (SLOTS SlotName.s0p5x1) Density.MAX Edges.ALL =
      (146, [(Edge.east, 58), (Edge.north, 15), (Edge.south, 15), (Edge.west, 58)]) := by decide
  have h2 : distribute_pads_with_power 146 SlotName.s0p5x1 = (122, 22) := by decide
  have h3 : allocate_edges [(Edge.east, 58), (Edge.north, 15), (Edge.south, 15), (Edge.west, 58)] (122 + 2) 22 =
      [(Edge.east, 58, 50, 8), (Edge.west, 58, 50, 8), (Edge.north, 15, 12, 3), (Edge.south, 15, 12, 3)] := by decide
  have hs : gen_direction (edge_cap_of [(Edge.east, 58), (Edge.north, 15), (Edge.south, 15), (Edge.west, 58)])
      (edge_sig_of [(Edge.east, 58, 50, 8), (Edge.west, 58, 50, 8), (Edge.north, 15, 12, 3), (Edge.south, 15, 12, 3)])
      (edge_pow_of [(Edge.east, 58, 50, 8), (Edge.west, 58, 50, 8), (Edge.north, 15, 12, 3), (Edge.south, 15, 12, 3)])
      Edges.ALL.active_list (clk_rst_edge Edges.ALL) Edge.south 0 0 0 =
      some (
        [Pad.clk, Pad.rst_n, Pad.bidir 0, Pad.bidir 1, Pad.dvss 0, Pad.bidir 2, Pad.bidir 3,
        Pad.dvdd 0, Pad.bidir 4, Pad.bidir 5, Pad.dvss 1, Pad.bidir 6, Pad.bidir 7, Pad.bidir 8,
        Pad.bidir 9],
        10, 1, 2) := by
    have c1 : edge_cap_of [(Edge.east, 58), (Edge.north, 15), (Edge.south, 15), (Edge.west, 58)] Edge.south = 15 := by decide
    have c2 : edge_sig_of [(Edge.east, 58, 50, 8), (Edge.west, 58, 50, 8), (Edge.north, 15, 12, 3), (Edge.south, 15, 12, 3)] Edge.south = 12 := by decide
    have c3 : edge_pow_of [(Edge.east, 58, 50, 8), (Edge.west, 58, 50, 8), (Edge.north, 15, 12, 3), (Edge.south, 15, 12, 3)] Edge.south = 3 := by decide
    simp only [gen_direction, c1, c2, c3]
    decide
  have he : gen_direction (edge_cap_of [(Edge.east, 58), (Edge.north, 15), (Edge.south, 15), (Edge.west, 58)])
      (edge_sig_of [(Edge.east, 58, 50, 8), (Edge.west, 58, 50, 8), (Edge.north, 15, 12, 3), (Edge.south, 15, 12, 3)])
      (edge_pow_of [(Edge.east, 58, 50, 8), (Edge.west, 58, 50, 8), (Edge.north, 15, 12, 3), (Edge.south, 15, 12, 3)])
      Edges.ALL.active_list (clk_rst_edge Edges.ALL) Edge.east 10 1 2 =
      some (
        [Pad.bidir 10, Pad.bidir 11, Pad.bidir 12, Pad.bidir 13, Pad.bidir 14, Pad.dvdd 1,
        Pad.bidir 15, Pad.bidir 16, Pad.bidir 17, Pad.bidir 18, Pad.bidir 19, Pad.dvss 2,
        Pad.bidir 20, Pad.bidir 21, Pad.bidir 22, Pad.bidir 23, Pad.bidir 24, Pad.dvdd 2,
        Pad.bidir 25, Pad.bidir 26, Pad.bidir 27, Pad.bidir 28, Pad.bidir 29, Pad.dvss 3,
        Pad.bidir 30, Pad.bidir 31, Pad.bidir 32, Pad.bidir 33, Pad.bidir 34, Pad.dvdd 3,
        Pad.bidir 35, Pad.bidir 36, Pad.bidir 37, Pad.bidir 38, Pad.bidir 39, Pad.dvss 4,
        Pad.bidir 40, Pad.bidir 41, Pad.bidir 42, Pad.bidir 43, Pad.bidir 44, Pad.dvdd 4,
        Pad.bidir 45, Pad.bidir 46, Pad.bidir 47, Pad.bidir 48, Pad.bidir 49, Pad.dvss 5,
        Pad.bidir 50, Pad.bidir 51, Pad.bidir 52, Pad.bidir 53, Pad.bidir 54, Pad.bidir 55,
        Pad.bidir 56, Pad.bidir 57, Pad.bidir 58, Pad.bidir 59],
        60, 5, 6) := by
    have c1 : edge_cap_of [(Edge.east, 58), (Edge.north, 15), (Edge.south, 15), (Edge.west, 58)] Edge.east = 58 := by decide
    have c2 : edge_sig_of [(Edge.east, 58, 50, 8), (Edge.west, 58, 50, 8), (Edge.north, 15, 12, 3), (Edge.south, 15, 12, 3)] Edge.east = 50 := by decide
    have c3 : edge_pow_of [(Edge.east, 58, 50, 8), (Edge.west, 58, 50, 8), (Edge.north, 15, 12, 3), (Edge.south, 15, 12, 3)] Edge.east = 8 := by decide
    simp only [gen_direction, c1, c2, c3]
    decide
  have hn : gen_direction (edge_cap_of [(Edge.east, 58), (Edge.north, 15), (Edge.south, 15), (Edge.west, 58)])
      (edge_sig_of [(Edge.east, 58, 50, 8), (Edge.west, 58, 50, 8), (Edge.north, 15, 12, 3), (Edge.south, 15, 12, 3)])
      (edge_pow_of [(Edge.east, 58, 50, 8), (Edge.west, 58, 50, 8), (Edge.north, 15, 12, 3), (Edge.south, 15, 12, 3)])
      Edges.ALL.active_list (clk_rst_edge Edges.ALL) Edge.north 60 5 6 =
      some (
        [Pad.bidir 71, Pad.bidir 70, Pad.bidir 69, Pad.dvdd 6, Pad.bidir 68, Pad.bidir 67,
        Pad.bidir 66, Pad.dvss 6, Pad.bidir 65, Pad.bidir 64, Pad.bidir 63, Pad.dvdd 5,
        Pad.bidir 62, Pad.bidir 61, Pad.bidir 60],
        72, 7, 7) := by
    have c1 : edge_cap_of [(Edge.east, 58), (Edge.north, 15), (Edge.south, 15), (Edge.west, 58)] Edge.north = 15 := by decide
    have c2 : edge_sig_of [(Edge.east, 58, 50, 8), (Edge.west, 58, 50, 8), (Edge.north, 15, 12, 3), (Edge.south, 15, 12, 3)] Edge.north = 12 := by decide
    have c3 : edge_pow_of [(Edge.east, 58, 50, 8), (Edge.west, 58, 50, 8), (Edge.north, 15, 12, 3), (Edge.south, 15, 12, 3)] Edge.north = 3 := by decide
    simp only [gen_direction, c1, c2, c3]
    decide
  have hw : gen_direction (edge_cap_of [(Edge.east, 58), (Edge.north, 15), (Edge.south, 15), (Edge.west, 58)])
      (edge_sig_of [(Edge.east, 58, 50, 8), (Edge.west, 58, 50, 8), (Edge.north, 15, 12, 3), (Edge.south, 15, 12, 3)])
      (edge_pow_of [(Edge.east, 58, 50, 8), (Edge.west, 58, 50, 8), (Edge.north, 15, 12, 3), (Edge.south, 15, 12, 3)])
      Edges.ALL.active_list (clk_rst_edge Edges.ALL) Edge.west 72 7 7 =
      some (
        [Pad.bidir 121, Pad.bidir 120, Pad.bidir 119, Pad.bidir 118, Pad.bidir 117,
        Pad.bidir 116, Pad.bidir 115, Pad.bidir 114, Pad.bidir 113, Pad.bidir 112, Pad.dvdd 10,
        Pad.bidir 111, Pad.bidir 110, Pad.bidir 109, Pad.bidir 108, Pad.bidir 107, Pad.dvss 10,
        Pad.bidir 106, Pad.bidir 105, Pad.bidir 104, Pad.bidir 103, Pad.bidir 102, Pad.dvdd 9,
        Pad.bidir 101, Pad.bidir 100, Pad.bidir 99, Pad.bidir 98, Pad.bidir 97, Pad.dvss 9,
        Pad.bidir 96, Pad.bidir 95, Pad.bidir 94, Pad.bidir 93, Pad.bidir 92, Pad.dvdd 8,
        Pad.bidir 91, Pad.bidir 90, Pad.bidir 89, Pad.bidir 88, Pad.bidir 87, Pad.dvss 8,
        Pad.bidir 86, Pad.bidir 85, Pad.bidir 84, Pad.bidir 83, Pad.bidir 82, Pad.dvdd 7,
        Pad.bidir 81, Pad.bidir 80, Pad.bidir 79, Pad.bidir 78, Pad.bidir 77, Pad.dvss 7,
        Pad.bidir 76, Pad.bidir 75, Pad.bidir 74, Pad.bidir 73, Pad.bidir 72],
        122, 11, 11) := by
    have c1 : edge_cap_of [(Edge.east, 58), (Edge.north, 15), (Edge.south, 15), (Edge.west, 58)] Edge.west = 58 := by decide
    have c2 : edge_sig_of [(Edge.east, 58, 50, 8), (Edge.west, 58, 50, 8), (Edge.north, 15, 12, 3), (Edge.south, 15, 12, 3)] Edge.west = 50 := by decide
    have c3 : edge_pow_of [(Edge.east, 58, 50, 8), (Edge.west, 58, 50, 8), (Edge.north, 15, 12, 3), (Edge.south, 15, 12, 3)] Edge.west = 8 := by decide
    simp only [gen_direction, c1, c2, c3]
    decide
  simp only [generate_config, h1]
  dsimp only [SLOTS]
  rw [h2]
  dsimp only
  rw [h3]
  simp only [build_artifact]
  rw [hs]
  dsimp only
  rw [he]
  dsimp only
  rw [hn]
  dsimp only
  rw [hw]
  dsimp only
  decide

/-- C6 helper: the s0p5x1 slot, MAX density, TOP edges. -/
theorem c6_s0p5x1_max_top :
    option_spec (c6_flags_ok SlotName.s0p5x1) (generate_config (SLOTS SlotName.s0p5x1) Density.MAX Edges.TOP) := by
  have h1 : calculate_pads_for_density (SLOTS SlotName.s0p5x1) Density.MAX Edges.TOP =
      (15, [(Edge.north, 15)]) := by decide
  have h2 : distribute_pads_with_power 15 SlotName.s0p5x1 = (11, 2) := by decide
  have h3 : allocate_edges [(Edge.north, 15)] (11 + 2) 2 =
      [(Edge.north, 15, 13, 2)] := by decide
  have hs : gen_direction (edge_cap_of [(Edge.north, 15)])
      (edge_sig_of [(Edge.north, 15, 13, 2)])
      (edge_pow_of [(Edge.north, 15, 13, 2)])
      Edges.TOP.active_list (clk_rst_edge Edges.TOP) Edge.south 0 0 0 =
      some (
        [],
        0, 0, 0) := by
    have c1 : edge_cap_of [(Edge.north, 15)] Edge.south = 0 := by decide
    have c2 : edge_sig_of [(Edge.north, 15, 13, 2)] Edge.south = 0 := by decide
    have c3 : edge_pow_of [(Edge.north, 15, 13, 2)] Edge.south = 0 := by decide
    simp only [gen_direction, c1, c2, c3]
    decide
  have he : gen_direction (edge_cap_of [(Edge.north, 15)])
      (edge_sig_of [(Edge.north, 15, 13, 2)])
      (edge_pow_of [(Edge.north, 15, 13, 2)])
      Edges.TOP.active_list (clk_rst_edge Edges.TOP) Edge.east 0 0 0 =
      some (
        [],
        0, 0, 0) := by
    have c1 : edge_cap_of [(Edge.north, 15)] Edge.east = 0 := by decide
    have c2 : edge_sig_of [(Edge.north, 15, 13, 2)] Edge.east = 0 := by decide
    have c3 : edge_pow_of [(Edge.north, 15, 13, 2)] Edge.east = 0 := by decide
    simp only [gen_direction, c1, c2, c3]
    decide
  have hn : gen_direction (edge_cap_of [(Edge.north, 15)])
      (edge_sig_of [(Edge.north, 15, 13, 2)])
      (edge_pow_of [(Edge.north, 15, 13, 2)])
      Edges.TOP.active_list (clk_rst_edge Edges.TOP) Edge.north 0 0 0 =
      some (
        [Pad.clk, Pad.rst_n, Pad.bidir 10, Pad.bidir 9, Pad.bidir 8, Pad.bidir 7, Pad.bidir 6,
        Pad.dvdd 0, Pad.bidir 5, Pad.bidir 4, Pad.bidir 3, Pad.dvss 0, Pad.bidir 2, Pad.bidir 1,
        Pad.bidir 0],
        11, 1, 1) := by
    have c1 : edge_cap_of [(Edge.north, 15)] Edge.north = 15 := by decide
    have c2 : edge_sig_of [(Edge.north, 15, 13, 2)] Edge.north = 13 := by decide
    have c3 : edge_pow_of [(Edge.north, 15, 13, 2)] Edge.north = 2 := by decide
    simp only [gen_direction, c1, c2, c3]
    decide
  have hw : gen_direction (edge_cap_of [(Edge.north, 15)])
      (edge_sig_of [(Edge.north, 15, 13, 2)])
      (edge_pow_of [(Edge.north, 15, 13, 2)])
      Edges.TOP.active_list (clk_rst_edge Edges.TOP) Edge.west 11 1 1 =
      some (
        [],
        11, 1, 1) := by
    have c1 : edge_cap_of [(Edge.north, 15)] Edge.west = 0 := by decide
    have c2 : edge_sig_of [(Edge.north, 15, 13, 2)] Edge.west = 0 := by decide
    have c3 : edge_pow_of [(Edge.north, 15, 13, 2)] Edge.west = 0 := by decide
    simp only [gen_direction, c1, c2, c3]
    decide
  simp only [generate_config, h1]
  dsimp only [SLOTS]
  rw [h2]
  dsimp only
  rw [h3]
  simp only [build_artifact]
  rw [hs]
  dsimp only
  rw [he]
  dsimp only
  rw [hn]
  dsimp only
  rw [hw]
  dsimp only
  decide

/-- C6 helper: the s0p5x1 slot, MAX density, LFT edges. -/
theorem c6_s0p5x1_max_lft :
    option_spec (c6_flags_ok SlotName.s0p5x1) (generate_config (SLOTS SlotName.s0p5x1) Density.MAX Edges.LFT) := by
  have h1 : calculate_pads_for_density (SLOTS SlotName.s0p5x1) Density.MAX Edges.LFT =
      (58, [(Edge.west, 58)]) := by decide
  have h2 : distribute_pads_with_power 58 SlotName.s0p5x1 = (48, 8) := by decide
  have h3 : allocate_edges [(Edge.west, 58)] (48 + 2) 8 =
      [(Edge.west, 58, 50, 8)] := by decide
  have hs : gen_direction (edge_cap_of [(Edge.west, 58)])
      (edge_sig_of [(Edge.west, 58, 50, 8)])
      (edge_pow_of [(Edge.west, 58, 50, 8)])
      Edges.LFT.active_list (clk_rst_edge Edges.LFT) Edge.south 0 0 0 =
      some (
        [],
        0, 0, 0) := by
    have c1 : edge_cap_of [(Edge.west, 58)] Edge.south = 0 := by decide
    have c2 : edge_sig_of [(Edge.west, 58, 50, 8)] Edge.south = 0 := by decide
    have c3 : edge_pow_of [(Edge.west, 58, 50, 8)] Edge.south = 0 := by decide
    simp only [gen_direction, c1, c2, c3]
    decide
  have he : gen_direction (edge_cap_of [(Edge.west, 58)])
      (edge_sig_of [(Edge.west, 58, 50, 8)])
      (edge_pow_of [(Edge.west, 58, 50, 8)])
      Edges.LFT.active_list (clk_rst_edge Edges.LFT) Edge.east 0 0 0 =
      some (
        [],
        0, 0, 0) := by
    have c1 : edge_cap_of [(Edge.west, 58)] Edge.east = 0 := by decide
    have c2 : edge_sig_of [(Edge.west, 58, 50, 8)] Edge.east = 0 := by decide
    have c3 : edge_pow_of [(Edge.west, 58, 50, 8)] Edge.east = 0 := by decide
    simp only [gen_direction, c1, c2, c3]
    decide
  have hn : gen_direction (edge_cap_of [(Edge.west, 58)])
      (edge_sig_of [(Edge.west, 58, 50, 8)])
      (edge_pow_of [(Edge.west, 58, 50, 8)])
      Edges.LFT.active_list (clk_rst_edge Edges.LFT) Edge.north 0 0 0 =
      some (
        [],
        0, 0, 0) := by
    have c1 : edge_cap_of [(Edge.west, 58)] Edge.north = 0 := by decide
    have c2 : edge_sig_of [(Edge.west, 58, 50, 8)] Edge.north = 0 := by decide
    have c3 : edge_pow_of [(Edge.west, 58, 50, 8)] Edge.north = 0 := by decide
    simp only [gen_direction, c1, c2, c3]
    decide
  have hw : gen_direction (edge_cap_of [(Edge.west, 58)])
      (edge_sig_of [(Edge.west, 58, 50, 8)])
      (edge_pow_of [(Edge.west, 58, 50, 8)])
      Edges.LFT.active_list (clk_rst_edge Edges.LFT) Edge.west 0 0 0 =
      some (
        [Pad.clk, Pad.rst_n, Pad.bidir 47, Pad.bidir 46, Pad.bidir 45, Pad.bidir 44,
        Pad.bidir 43, Pad.bidir 42, Pad.bidir 41, Pad.bidir 40, Pad.dvdd 3, Pad.bidir 39,
        Pad.bidir 38, Pad.bidir 37, Pad.bidir 36, Pad.bidir 35, Pad.dvss 3, Pad.bidir 34,
        Pad.bidir 33, Pad.bidir 32, Pad.bidir 31, Pad.bidir 30, Pad.dvdd 2, Pad.bidir 29,
        Pad.bidir 28, Pad.bidir 27, Pad.bidir 26, Pad.bidir 25, Pad.dvss 2, Pad.bidir 24,
        Pad.bidir 23, Pad.bidir 22, Pad.bidir 21, Pad.bidir 20, Pad.dvdd 1, Pad.bidir 19,
        Pad.bidir 18, Pad.bidir 17, Pad.bidir 16, Pad.bidir 15, Pad.dvss 1, Pad.bidir 14,
        Pad.bidir 13, Pad.bidir 12, Pad.bidir 11, Pad.bidir 10, Pad.dvdd 0, Pad.bidir 9,
        Pad.bidir 8, Pad.bidir 7, Pad.bidir 6, Pad.bidir 5, Pad.dvss 0, Pad.bidir 4, Pad.bidir 3,
        Pad.bidir 2, Pad.bidir 1, Pad.bidir 0],
        48, 4, 4) := by
    have c1 : edge_cap_of [(Edge.west, 58)] Edge.west = 58 := by decide
    have c2 : edge_sig_of [(Edge.west, 58, 50, 8)] Edge.west = 50 := by decide
    have c3 : edge_pow_of [(Edge.west, 58, 50, 8)] Edge.west = 8 := by decide
    simp only [gen_direction, c1, c2, c3]
    decide
  simp only [generate_config, h1]
  dsimp only [SLOTS]
  rw [h2]
  dsimp only
  rw [h3]
  simp only [build_artifact]
  rw [hs]
  dsimp only
  rw [he]
  dsimp only
  rw [hn]
  dsimp only
  rw [hw]
  dsimp only
  decide

/-- C6 helper: the s0p5x1 slot, MAX density, HOR edges. -/
theorem c6_s0p5x1_max_hor :
    option_spec (c6_flags_ok SlotName.s0p5x1) (generate_config (SLOTS SlotName.s0p5x1) Density.MAX Edges.HOR) := by
  have h1 : calculate_pads_for_density (SLOTS SlotName.s0p5x1) Density.MAX Edges.HOR =
      (30, [(Edge.north, 15), (Edge.south, 15)]) := by decide
  have h2 : distribute_pads_with_power 30 SlotName.s0p5x1 = (24, 4) := by decide
  have h3 : allocate_edges [(Edge.north, 15), (Edge.south, 15)] (24 + 2) 4 =
      [(Edge.north, 15, 13, 2), (Edge.south, 15, 13, 2)] := by decide
  have hs : gen_direction (edge_cap_of [(Edge.north, 15), (Edge.south, 15)])
      (edge_sig_of [(Edge.north, 15, 13, 2), (Edge.south, 15, 13, 2)])
      (edge_pow_of [(Edge.north, 15, 13, 2), (Edge.south, 15, 13, 2)])
      Edges.HOR.active_list (clk_rst_edge Edges.HOR) Edge.south 0 0 0 =
      some (
        [Pad.clk, Pad.rst_n, Pad.bidir 0, Pad.bidir 1, Pad.bidir 2, Pad.dvss 0, Pad.bidir 3,
        Pad.bidir 4, Pad.bidir 5, Pad.dvdd 0, Pad.bidir 6, Pad.bidir 7, Pad.bidir 8, Pad.bidir 9,
        Pad.bidir 10],
        11, 1, 1) := by
    have c1 : edge_cap_of [(Edge.north, 15), (Edge.south, 15)] Edge.south = 15 := by decide
    have c2 : edge_sig_of [(Edge.north, 15, 13, 2), (Edge.south, 15, 13, 2)] Edge.south = 13 := by decide
    have c3 : edge_pow_of [(Edge.north, 15, 13, 2), (Edge.south, 15, 13, 2)] Edge.south = 2 := by decide
    simp only [gen_direction, c1, c2, c3]
    decide
  have he : gen_direction (edge_cap_of [(Edge.north, 15), (Edge.south, 15)])
      (edge_sig_of [(Edge.north, 15, 13, 2), (Edge.south, 15, 13, 2)])
      (edge_pow_of [(Edge.north, 15, 13, 2), (Edge.south, 15, 13, 2)])
      Edges.HOR.active_list (clk_rst_edge Edges.HOR) Edge.east 11 1 1 =
      some (
        [],
        11, 1, 1) := by
    have c1 : edge_cap_of [(Edge.north, 15), (Edge.south, 15)] Edge.east = 0 := by decide
    have c2 : edge_sig_of [(Edge.north, 15, 13, 2), (Edge.south, 15, 13, 2)] Edge.east = 0 := by decide
    have c3 : edge_pow_of [(Edge.north, 15, 13, 2), (Edge.south, 15, 13, 2)] Edge.east = 0 := by decide
    simp only [gen_direction, c1, c2, c3]
    decide
  have hn : gen_direction (edge_cap_of [(Edge.north, 15), (Edge.south, 15)])
      (edge_sig_of [(Edge.north, 15, 13, 2), (Edge.south, 15, 13, 2)])
      (edge_pow_of [(Edge.north, 15, 13, 2), (Edge.south, 15, 13, 2)])
      Edges.HOR.active_list (clk_rst_edge Edges.HOR) Edge.north 11 1 1 =
      some (
        [Pad.bidir 23, Pad.bidir 22, Pad.bidir 21, Pad.bidir 20, Pad.bidir 19, Pad.dvdd 1,
        Pad.bidir 18, Pad.bidir 17, Pad.bidir 16, Pad.bidir 15, Pad.dvss 1, Pad.bidir 14,
        Pad.bidir 13, Pad.bidir 12, Pad.bidir 11],
        24, 2, 2) := by
    have c1 : edge_cap_of [(Edge.north, 15), (Edge.south, 15)] Edge.north = 15 := by decide
    have c2 : edge_sig_of [(Edge.north, 15, 13, 2), (Edge.south, 15, 13, 2)] Edge.north = 13 := by decide
    have c3 : edge_pow_of [(Edge.north, 15, 13, 2), (Edge.south, 15, 13, 2)] Edge.north = 2 := by decide
    simp only [gen_direction, c1, c2, c3]
    decide
  have hw : gen_direction (edge_cap_of [(Edge.north, 15), (Edge.south, 15)])
      (edge_sig_of [(Edge.north, 15, 13, 2), (Edge.south, 15, 13, 2)])
      (edge_pow_of [(Edge.north, 15, 13, 2), (Edge.south, 15, 13, 2)])
      Edges.HOR.active_list (clk_rst_edge Edges.HOR) Edge.west 24 2 2 =
      some (
        [],
        24, 2, 2) := by
    have c1 : edge_cap_of [(Edge.north, 15), (Edge.south, 15)] Edge.west = 0 := by decide
    have c2 : edge_sig_of [(Edge.north, 15, 13, 2), (Edge.south, 15, 13, 2)] Edge.west = 0 := by decide
    have c3 : edge_pow_of [(Edge.north, 15, 13, 2), (Edge.south, 15, 13, 2)] Edge.west = 0 := by decide
    simp only [gen_direction, c1, c2, c3]
    decide
  simp only [generate_config, h1]
  dsimp only [SLOTS]
  rw [h2]
  dsimp only
  rw [h3]
  simp only [build_artifact]
  rw [hs]
  dsimp only
  rw [he]
  dsimp only
  rw [hn]
  dsimp only
  rw [hw]
  dsimp only
  decide

/-- C6 helper: the s0p5x1 slot, MAX density, VER edges. -/
theorem c6_s0p5x1_max_ver :
    option_spec (c6_flags_ok SlotName.s0p5x1) (generate_config (SLOTS SlotName.s0p5x1) Density.MAX Edges.VER) := by
  have h1 : calculate_pads_for_density (SLOTS SlotName.s0p5x1) Density.MAX Edges.VER =
      (116, [(Edge.east, 58), (Edge.west, 58)]) := by decide
  have h2 : distribute_pads_with_power 116 SlotName.s0p5x1 = (96, 18) := by decide
  have h3 : allocate_edges [(Edge.east, 58), (Edge.west, 58)] (96 + 2) 18 =
      [(Edge.east, 58, 49, 9), (Edge.west, 58, 49, 9)] := by decide
  have hs : gen_direction (edge_cap_of [(Edge.east, 58), (Edge.west, 58)])
      (edge_sig_of [(Edge.east, 58, 49, 9), (Edge.west, 58, 49, 9)])
      (edge_pow_of [(Edge.east, 58, 49, 9), (Edge.west, 58, 49, 9)])
      Edges.VER.active_list (clk_rst_edge Edges.VER) Edge.south 0 0 0 =
      some (
        [],
        0, 0, 0) := by
    have c1 : edge_cap_of [(Edge.east, 58), (Edge.west, 58)] Edge.south = 0 := by decide
    have c2 : edge_sig_of [(Edge.east, 58, 49, 9), (Edge.west, 58, 49, 9)] Edge.south = 0 := by decide
    have c3 : edge_pow_of [(Edge.east, 58, 49, 9), (Edge.west, 58, 49, 9)] Edge.south = 0 := by decide
    simp only [gen_direction, c1, c2, c3]
    decide
  have he : gen_direction (edge_cap_of [(Edge.east, 58), (Edge.west, 58)])
      (edge_sig_of [(Edge.east, 58, 49, 9), (Edge.west, 58, 49, 9)])
      (edge_pow_of [(Edge.east, 58, 49, 9), (Edge.west, 58, 49, 9)])
      Edges.VER.active_list (clk_rst_edge Edges.VER) Edge.east 0 0 0 =
      some (
        [Pad.bidir 0, Pad.bidir 1, Pad.bidir 2, Pad.bidir 3, Pad.dvss 0, Pad.bidir 4,
        Pad.bidir 5, Pad.bidir 6, Pad.bidir 7, Pad.dvdd 0, Pad.bidir 8, Pad.bidir 9,
        Pad.bidir 10, Pad.bidir 11, Pad.dvss 1, Pad.bidir 12, Pad.bidir 13, Pad.bidir 14,
        Pad.bidir 15, Pad.dvdd 1, Pad.bidir 16, Pad.bidir 17, Pad.bidir 18, Pad.bidir 19,
        Pad.dvss 2, Pad.bidir 20, Pad.bidir 21, Pad.bidir 22, Pad.bidir 23, Pad.dvdd 2,
        Pad.bidir 24, Pad.bidir 25, Pad.bidir 26, Pad.bidir 27, Pad.dvss 3, Pad.bidir 28,
        Pad.bidir 29, Pad.bidir 30, Pad.bidir 31, Pad.dvdd 3, Pad.bidir 32, Pad.bidir 33,
        Pad.bidir 34, Pad.bidir 35, Pad.dvss 4, Pad.bidir 36, Pad.bidir 37, Pad.bidir 38,
        Pad.bidir 39, Pad.bidir 40, Pad.bidir 41, Pad.bidir 42, Pad.bidir 43, Pad.bidir 44,
        Pad.bidir 45, Pad.bidir 46, Pad.bidir 47, Pad.bidir 48],
        49, 4, 5) := by
    have c1 : edge_cap_of [(Edge.east, 58), (Edge.west, 58)] Edge.east = 58 := by decide
    have c2 : edge_sig_of [(Edge.east, 58, 49, 9), (Edge.west, 58, 49, 9)] Edge.east = 49 := by decide
    have c3 : edge_pow_of [(Edge.east, 58, 49, 9), (Edge.west, 58, 49, 9)] Edge.east = 9 := by decide
    simp only [gen_direction, c1, c2, c3]
    decide
  have hn : gen_direction (edge_cap_of [(Edge.east, 58), (Edge.west, 58)])
      (edge_sig_of [(Edge.east, 58, 49, 9), (Edge.west, 58, 49, 9)])
      (edge_pow_of [(Edge.east, 58, 49, 9), (Edge.west, 58, 49, 9)])
      Edges.VER.active_list (clk_rst_edge Edges.VER) Edge.north 49 4 5 =
      some (
        [],
        49, 4, 5) := by
    have c1 : edge_cap_of [(Edge.east, 58), (Edge.west, 58)] Edge.north = 0 := by decide
    have c2 : edge_sig_of [(Edge.east, 58, 49, 9), (Edge.west, 58, 49, 9)] Edge.north = 0 := by decide
    have c3 : edge_pow_of [(Edge.east, 58, 49, 9), (Edge.west, 58, 49, 9)] Edge.north = 0 := by decide
    simp only [gen_direction, c1, c2, c3]
    decide
  have hw : gen_direction (edge_cap_of [(Edge.east, 58), (Edge.west, 58)])
      (edge_sig_of [(Edge.east, 58, 49, 9), (Edge.west, 58, 49, 9)])
      (edge_pow_of [(Edge.east, 58, 49, 9), (Edge.west, 58, 49, 9)])
      Edges.VER.active_list (clk_rst_edge Edges.VER) Edge.west 49 4 5 =
      some (
        [Pad.clk, Pad.rst_n, Pad.bidir 95, Pad.bidir 94, Pad.bidir 93, Pad.bidir 92,
        Pad.bidir 91, Pad.bidir 90, Pad.bidir 89, Pad.bidir 88, Pad.bidir 87, Pad.bidir 86,
        Pad.bidir 85, Pad.dvdd 8, Pad.bidir 84, Pad.bidir 83, Pad.bidir 82, Pad.bidir 81,
        Pad.dvss 8, Pad.bidir 80, Pad.bidir 79, Pad.bidir 78, Pad.bidir 77, Pad.dvdd 7,
        Pad.bidir 76, Pad.bidir 75, Pad.bidir 74, Pad.bidir 73, Pad.dvss 7, Pad.bidir 72,
        Pad.bidir 71, Pad.bidir 70, Pad.bidir 69, Pad.dvdd 6, Pad.bidir 68, Pad.bidir 67,
        Pad.bidir 66, Pad.bidir 65, Pad.dvss 6, Pad.bidir 64, Pad.bidir 63, Pad.bidir 62,
        Pad.bidir 61, Pad.dvdd 5, Pad.bidir 60, Pad.bidir 59, Pad.bidir 58, Pad.bidir 57,
        Pad.dvss 5, Pad.bidir 56, Pad.bidir 55, Pad.bidir 54, Pad.bidir 53, Pad.dvdd 4,
        Pad.bidir 52, Pad.bidir 51, Pad.bidir 50, Pad.bidir 49],
        96, 9, 9) := by
    have c1 : edge_cap_of [(Edge.east, 58), (Edge.west, 58)] Edge.west = 58 := by decide
    have c2 : edge_sig_of [(Edge.east, 58, 49, 9), (Edge.west, 58, 49, 9)] Edge.west = 49 := by decide
    have c3 : edge_pow_of [(Edge.east, 58, 49, 9), (Edge.west, 58, 49, 9)] Edge.west = 9 := by decide
    simp only [gen_direction, c1, c2, c3]
    decide
  simp only [generate_config, h1]
  dsimp only [SLOTS]
  rw [h2]
  dsimp only
  rw [h3]
  simp only [build_artifact]
  rw [hs]
  dsimp only
  rw [he]
  dsimp only
  rw [hn]
  dsimp only
  rw [hw]
  dsimp only
  decide

/-- C6 helper: the s0p5x1 slot, MAX density, NWC edges. -/
theorem c6_s0p5x1_max_nwc :
    option_spec (c6_flags_ok SlotName.s0p5x1) (generate_config (SLOTS SlotName.s0p5x1) Density.MAX Edges.NWC) := by
  have h1 : calculate_pads_for_density (SLOTS SlotName.s0p5x1) Density.MAX Edges.NWC =
      (73, [(Edge.north, 15), (Edge.west, 58)]) := by decide
  have h2 : distribute_pads_with_power 73 SlotName.s0p5x1 = (61, 10) := by decide
  have h3 : allocate_edges [(Edge.north, 15), (Edge.west, 58)] (61 + 2) 10 =
      [(Edge.west, 58, 51, 7), (Edge.north, 15, 12, 3)] := by decide
  have hs : gen_direction (edge_cap_of [(Edge.north, 15), (Edge.west, 58)])
      (edge_sig_of [(Edge.west, 58, 51, 7), (Edge.north, 15, 12, 3)])
      (edge_pow_of [(Edge.west, 58, 51, 7), (Edge.north, 15, 12, 3)])
      Edges.NWC.active_list (clk_rst_edge Edges.NWC) Edge.south 0 0 0 =
      some (
        [],
        0, 0, 0) := by
    have c1 : edge_cap_of [(Edge.north, 15), (Edge.west, 58)] Edge.south = 0 := by decide
    have c2 : edge_sig_of [(Edge.west, 58, 51, 7), (Edge.north, 15, 12, 3)] Edge.south = 0 := by decide
    have c3 : edge_pow_of [(Edge.west, 58, 51, 7), (Edge.north, 15, 12, 3)] Edge.south = 0 := by decide
    simp only [gen_direction, c1, c2, c3]
    decide
  have he : gen_direction (edge_cap_of [(Edge.north, 15), (Edge.west, 58)])
      (edge_sig_of [(Edge.west, 58, 51, 7), (Edge.north, 15, 12, 3)])
      (edge_pow_of [(Edge.west, 58, 51, 7), (Edge.north, 15, 12, 3)])
      Edges.NWC.active_list (clk_rst_edge Edges.NWC) Edge.east 0 0 0 =
      some (
        [],
        0, 0, 0) := by
    have c1 : edge_cap_of [(Edge.north, 15), (Edge.west, 58)] Edge.east = 0 := by decide
    have c2 : edge_sig_of [(Edge.west, 58, 51, 7), (Edge.north, 15, 12, 3)] Edge.east = 0 := by decide
    have c3 : edge_pow_of [(Edge.west, 58, 51, 7), (Edge.north, 15, 12, 3)] Edge.east = 0 := by decide
    simp only [gen_direction, c1, c2, c3]
    decide
  have hn : gen_direction (edge_cap_of [(Edge.north, 15), (Edge.west, 58)])
      (edge_sig_of [(Edge.west, 58, 51, 7), (Edge.north, 15, 12, 3)])
      (edge_pow_of [(Edge.west, 58, 51, 7), (Edge.north, 15, 12, 3)])
      Edges.NWC.active_list (clk_rst_edge Edges.NWC) Edge.north 0 0 0 =
      some (
        [Pad.bidir 11, Pad.bidir 10, Pad.bidir 9, Pad.dvss 1, Pad.bidir 8, Pad.bidir 7,
        Pad.bidir 6, Pad.dvdd 0, Pad.bidir 5, Pad.bidir 4, Pad.bidir 3, Pad.dvss 0, Pad.bidir 2,
        Pad.bidir 1, Pad.bidir 0],
        12, 1, 2) := by
    have c1 : edge_cap_of [(Edge.north, 15), (Edge.west, 58)] Edge.north = 15 := by decide
    have c2 : edge_sig_of [(Edge.west, 58, 51, 7), (Edge.north, 15, 12, 3)] Edge.north = 12 := by decide
    have c3 : edge_pow_of [(Edge.west, 58, 51, 7), (Edge.north, 15, 12, 3)] Edge.north = 3 := by decide
    simp only [gen_direction, c1, c2, c3]
    decide
  have hw : gen_direction (edge_cap_of [(Edge.north, 15), (Edge.west, 58)])
      (edge_sig_of [(Edge.west, 58, 51, 7), (Edge.north, 15, 12, 3)])
      (edge_pow_of [(Edge.west, 58, 51, 7), (Edge.north, 15, 12, 3)])
      Edges.NWC.active_list (clk_rst_edge Edges.NWC) Edge.west 12 1 2 =
      some (
        [Pad.clk, Pad.rst_n, Pad.bidir 60, Pad.bidir 59, Pad.bidir 58, Pad.bidir 57,
        Pad.bidir 56, Pad.bidir 55, Pad.bidir 54, Pad.dvdd 4, Pad.bidir 53, Pad.bidir 52,
        Pad.bidir 51, Pad.bidir 50, Pad.bidir 49, Pad.bidir 48, Pad.dvss 4, Pad.bidir 47,
        Pad.bidir 46, Pad.bidir 45, Pad.bidir 44, Pad.bidir 43, Pad.bidir 42, Pad.dvdd 3,
        Pad.bidir 41, Pad.bidir 40, Pad.bidir 39, Pad.bidir 38, Pad.bidir 37, Pad.bidir 36,
        Pad.dvss 3, Pad.bidir 35, Pad.bidir 34, Pad.bidir 33, Pad.bidir 32, Pad.bidir 31,
        Pad.bidir 30, Pad.dvdd 2, Pad.bidir 29, Pad.bidir 28, Pad.bidir 27, Pad.bidir 26,
        Pad.bidir 25, Pad.bidir 24, Pad.dvss 2, Pad.bidir 23, Pad.bidir 22, Pad.bidir 21,
        Pad.bidir 20, Pad.bidir 19, Pad.bidir 18, Pad.dvdd 1, Pad.bidir 17, Pad.bidir 16,
        Pad.bidir 15, Pad.bidir 14, Pad.bidir 13, Pad.bidir 12],
        61, 5, 5) := by
    have c1 : edge_cap_of [(Edge.north, 15), (Edge.west, 58)] Edge.west = 58 := by decide
    have c2 : edge_sig_of [(Edge.west, 58, 51, 7), (Edge.north, 15, 12, 3)] Edge.west = 51 := by decide
    have c3 : edge_pow_of [(Edge.west, 58, 51, 7), (Edge.north, 15, 12, 3)] Edge.west = 7 := by decide
    simp only [gen_direction, c1, c2, c3]
    decide
  simp only [generate_config, h1]
  dsimp only [SLOTS]
  rw [h2]
  dsimp only
  rw [h3]
  simp only [build_artifact]
  rw [hs]
  dsimp only
  rw [he]
  dsimp only
  rw [hn]
  dsimp only
  rw [hw]
  dsimp only
  decide

/-- C6 helper: the s0p5x1 slot, MAX density, SEC edges. -/
theorem c6_s0p5x1_max_sec :
    option_spec (c6_flags_ok SlotName.s0p5x1) (generate_config (SLOTS SlotName.s0p5x1) Density.MAX Edges.SEC) := by
  have h1 : calculate_pads_for_density (SLOTS SlotName.s0p5x1) Density.MAX Edges.SEC =
      (73, [(Edge.east, 58), (Edge.south, 15)]) := by decide
  have h2 : distribute_pads_with_power 73 SlotName.s0p5x1 = (61, 10) := by decide
  have h3 : allocate_edges [(Edge.east, 58), (Edge.south, 15)] (61 + 2) 10 =
      [(Edge.east, 58, 51, 7), (Edge.south, 15, 12, 3)] := by decide
  have hs : gen_direction (edge_cap_of [(Edge.east, 58), (Edge.south, 15)])
      (edge_sig_of [(Edge.east, 58, 51, 7), (Edge.south, 15, 12, 3)])
      (edge_pow_of [(Edge.east, 58, 51, 7), (Edge.south, 15, 12, 3)])
      Edges.SEC.active_list (clk_rst_edge Edges.SEC) Edge.south 0 0 0 =
      some (
        [Pad.clk, Pad.rst_n, Pad.bidir 0, Pad.bidir 1, Pad.dvss 0, Pad.bidir 2, Pad.bidir 3,
        Pad.dvdd 0, Pad.bidir 4, Pad.bidir 5, Pad.dvss 1, Pad.bidir 6, Pad.bidir 7, Pad.bidir 8,
        Pad.bidir 9],
        10, 1, 2) := by
    have c1 : edge_cap_of [(Edge.east, 58), (Edge.south, 15)] Edge.south = 15 := by decide
    have c2 : edge_sig_of [(Edge.east, 58, 51, 7), (Edge.south, 15, 12, 3)] Edge.south = 12 := by decide
    have c3 : edge_pow_of [(Edge.east, 58, 51, 7), (Edge.south, 15, 12, 3)] Edge.south = 3 := by decide
    simp only [gen_direction, c1, c2, c3]
    decide
  have he : gen_direction (edge_cap_of [(Edge.east, 58), (Edge.south, 15)])
      (edge_sig_of [(Edge.east, 58, 51, 7), (Edge.south, 15, 12, 3)])
      (edge_pow_of [(Edge.east, 58, 51, 7), (Edge.south, 15, 12, 3)])
      Edges.SEC.active_list (clk_rst_edge Edges.SEC) Edge.east 10 1 2 =
      some (
        [Pad.bidir 10, Pad.bidir 11, Pad.bidir 12, Pad.bidir 13, Pad.bidir 14, Pad.bidir 15,
        Pad.dvdd 1, Pad.bidir 16, Pad.bidir 17, Pad.bidir 18, Pad.bidir 19, Pad.bidir 20,
        Pad.bidir 21, Pad.dvss 2, Pad.bidir 22, Pad.bidir 23, Pad.bidir 24, Pad.bidir 25,
        Pad.bidir 26, Pad.bidir 27, Pad.dvdd 2, Pad.bidir 28, Pad.bidir 29, Pad.bidir 30,
        Pad.bidir 31, Pad.bidir 32, Pad.bidir 33, Pad.dvss 3, Pad.bidir 34, Pad.bidir 35,
        Pad.bidir 36, Pad.bidir 37, Pad.bidir 38, Pad.bidir 39, Pad.dvdd 3, Pad.bidir 40,
        Pad.bidir 41, Pad.bidir 42, Pad.bidir 43, Pad.bidir 44, Pad.bidir 45, Pad.dvss 4,
        Pad.bidir 46, Pad.bidir 47, Pad.bidir 48, Pad.bidir 49, Pad.bidir 50, Pad.bidir 51,
        Pad.dvdd 4, Pad.bidir 52, Pad.bidir 53, Pad.bidir 54, Pad.bidir 55, Pad.bidir 56,
        Pad.bidir 57, Pad.bidir 58, Pad.bidir 59, Pad.bidir 60],
        61, 5, 5) := by
    have c1 : edge_cap_of [(Edge.east, 58), (Edge.south, 15)] Edge.east = 58 := by decide
    have c2 : edge_sig_of [(Edge.east, 58, 51, 7), (Edge.south, 15, 12, 3)] Edge.east = 51 := by decide
    have c3 : edge_pow_of [(Edge.east, 58, 51, 7), (Edge.south, 15, 12, 3)] Edge.east = 7 := by decide
    simp only [gen_direction, c1, c2, c3]
    decide
  have hn : gen_direction (edge_cap_of [(Edge.east, 58), (Edge.south, 15)])
      (edge_sig_of [(Edge.east, 58, 51, 7), (Edge.south, 15, 12, 3)])
      (edge_pow_of [(Edge.east, 58, 51, 7), (Edge.south, 15, 12, 3)])
      Edges.SEC.active_list (clk_rst_edge Edges.SEC) Edge.north 61 5 5 =
      some (
        [],
        61, 5, 5) := by
    have c1 : edge_cap_of [(Edge.east, 58), (Edge.south, 15)] Edge.north = 0 := by decide
    have c2 : edge_sig_of [(Edge.east, 58, 51, 7), (Edge.south, 15, 12, 3)] Edge.north = 0 := by decide
    have c3 : edge_pow_of [(Edge.east, 58, 51, 7), (Edge.south, 15, 12, 3)] Edge.north = 0 := by decide
    simp only [gen_direction, c1, c2, c3]
    decide
  have hw : gen_direction (edge_cap_of [(Edge.east, 58), (Edge.south, 15)])
      (edge_sig_of [(Edge.east, 58, 51, 7), (Edge.south, 15, 12, 3)])
      (edge_pow_of [(Edge.east, 58, 51, 7), (Edge.south, 15, 12, 3)])
      Edges.SEC.active_list (clk_rst_edge Edges.SEC) Edge.west 61 5 5 =
      some (
        [],
        61, 5, 5) := by
    have c1 : edge_cap_of [(Edge.east, 58), (Edge.south, 15)] Edge.west = 0 := by decide
    have c2 : edge_sig_of [(Edge.east, 58, 51, 7), (Edge.south, 15, 12, 3)] Edge.west = 0 := by decide
    have c3 : edge_pow_of [(Edge.east, 58, 51, 7), (Edge.south, 15, 12, 3)] Edge.west = 0 := by decide
    simp only [gen_direction, c1, c2, c3]
    decide
  simp only [generate_config, h1]
  dsimp only [SLOTS]
  rw [h2]
  dsimp only
  rw [h3]
  simp only [build_artifact]
  rw [hs]
  dsimp only
  rw [he]
  dsimp only
  rw [hn]
  dsimp only
  rw [hw]
  dsimp only
  decide

/-- C6 helper: the s0p5x1 slot, SPC density, ALL edges. -/
theorem c6_s0p5x1_spc_all :
    option_spec (c6_flags_ok SlotName.s0p5x1) (generate_config (SLOTS SlotName.s0p5x1) Density.SPC Edges.ALL) := by
  have h1 : calculate_pads_for_density (SLOTS SlotName.s0p5x1) Density.SPC Edges.ALL =
      (146, [(Edge.east, 58), (Edge.north, 15), (Edge.south, 15), (Edge.west, 58)]) := by decide
  have h2 : distribute_pads_with_power 146 SlotName.s0p5x1 = (122, 22) := by decide
  have h3 : allocate_edges [(Edge.east, 58), (Edge.north, 15), (Edge.south, 15), (Edge.west, 58)] (122 + 2) 22 =
      [(Edge.east, 58, 50, 8), (Edge.west, 58, 50, 8), (Edge.north, 15, 12, 3), (Edge.south, 15, 12, 3)] := by decide
  have hs : gen_direction (edge_cap_of [(Edge.east, 58), (Edge.north, 15), (Edge.south, 15), (Edge.west, 58)])
      (edge_sig_of [(Edge.east, 58, 50, 8), (Edge.west, 58, 50, 8), (Edge.north, 15, 12, 3), (Edge.south, 15, 12, 3)])
      (edge_pow_of [(Edge.east, 58, 50, 8), (Edge.west, 58, 50, 8), (Edge.north, 15, 12, 3), (Edge.south, 15, 12, 3)])
      Edges.ALL.active_list (clk_rst_edge Edges.ALL) Edge.south 0 0 0 =
      some (
        [Pad.clk, Pad.rst_n, Pad.bidir 0, Pad.bidir 1, Pad.dvss 0, Pad.bidir 2, Pad.bidir 3,
        Pad.dvdd 0, Pad.bidir 4, Pad.bidir 5, Pad.dvss 1, Pad.bidir 6, Pad.bidir 7, Pad.bidir 8,
        Pad.bidir 9],
        10, 1, 2) := by
    have c1 : edge_cap_of [(Edge.east, 58), (Edge.north, 15), (Edge.south, 15), (Edge.west, 58)] Edge.south = 15 := by decide
    have c2 : edge_sig_of [(Edge.east, 58, 50, 8), (Edge.west, 58, 50, 8), (Edge.north, 15, 12, 3), (Edge.south, 15, 12, 3)] Edge.south = 12 := by decide
    have c3 : edge_pow_of [(Edge.east, 58, 50, 8), (Edge.west, 58, 50, 8), (Edge.north, 15, 12, 3), (Edge.south, 15, 12, 3)] Edge.south = 3 := by decide
    simp only [gen_direction, c1, c2, c3]
    decide
  have he : gen_direction (edge_cap_of [(Edge.east, 58), (Edge.north, 15), (Edge.south, 15), (Edge.west, 58)])
      (edge_sig_of [(Edge.east, 58, 50, 8), (Edge.west, 58, 50, 8), (Edge.north, 15, 12, 3), (Edge.south, 15, 12, 3)])
      (edge_pow_of [(Edge.east, 58, 50, 8), (Edge.west, 58, 50, 8), (Edge.north, 15, 12, 3), (Edge.south, 15, 12, 3)])
      Edges.ALL.active_list (clk_rst_edge Edges.ALL) Edge.east 10 1 2 =
      some (
        [Pad.bidir 10, Pad.bidir 11, Pad.bidir 12, Pad.bidir 13, Pad.bidir 14, Pad.dvdd 1,
        Pad.bidir 15, Pad.bidir 16, Pad.bidir 17, Pad.bidir 18, Pad.bidir 19, Pad.dvss 2,
        Pad.bidir 20, Pad.bidir 21, Pad.bidir 22, Pad.bidir 23, Pad.bidir 24, Pad.dvdd 2,
        Pad.bidir 25, Pad.bidir 26, Pad.bidir 27, Pad.bidir 28, Pad.bidir 29, Pad.dvss 3,
        Pad.bidir 30, Pad.bidir 31, Pad.bidir 32, Pad.bidir 33, Pad.bidir 34, Pad.dvdd 3,
        Pad.bidir 35, Pad.bidir 36, Pad.bidir 37, Pad.bidir 38, Pad.bidir 39, Pad.dvss 4,
        Pad.bidir 40, Pad.bidir 41, Pad.bidir 42, Pad.bidir 43, Pad.bidir 44, Pad.dvdd 4,
        Pad.bidir 45, Pad.bidir 46, Pad.bidir 47, Pad.bidir 48, Pad.bidir 49, Pad.dvss 5,
        Pad.bidir 50, Pad.bidir 51, Pad.bidir 52, Pad.bidir 53, Pad.bidir 54, Pad.bidir 55,
        Pad.bidir 56, Pad.bidir 57, Pad.bidir 58, Pad.bidir 59],
        60, 5, 6) := by
    have c1 : edge_cap_of [(Edge.east, 58), (Edge.north, 15), (Edge.south, 15), (Edge.west, 58)] Edge.east = 58 := by decide
    have c2 : edge_sig_of [(Edge.east, 58, 50, 8), (Edge.west, 58, 50, 8), (Edge.north, 15, 12, 3), (Edge.south, 15, 12, 3)] Edge.east = 50 := by decide
    have c3 : edge_pow_of [(Edge.east, 58, 50, 8), (Edge.west, 58, 50, 8), (Edge.north, 15, 12, 3), (Edge.south, 15, 12, 3)] Edge.east = 8 := by decide
    simp only [gen_direction, c1, c2, c3]
    decide
  have hn : gen_direction (edge_cap_of [(Edge.east, 58), (Edge.north, 15), (Edge.south, 15), (Edge.west, 58)])
      (edge_sig_of [(Edge.east, 58, 50, 8), (Edge.west, 58, 50, 8), (Edge.north, 15, 12, 3), (Edge.south, 15, 12, 3)])
      (edge_pow_of [(Edge.east, 58, 50, 8), (Edge.west, 58, 50, 8), (Edge.north, 15, 12, 3), (Edge.south, 15, 12, 3)])
      Edges.ALL.active_list (clk_rst_edge Edges.ALL) Edge.north 60 5 6 =
      some (
        [Pad.bidir 71, Pad.bidir 70, Pad.bidir 69, Pad.dvdd 6, Pad.bidir 68, Pad.bidir 67,
        Pad.bidir 66, Pad.dvss 6, Pad.bidir 65, Pad.bidir 64, Pad.bidir 63, Pad.dvdd 5,
        Pad.bidir 62, Pad.bidir 61, Pad.bidir 60],
        72, 7, 7) := by
    have c1 : edge_cap_of [(Edge.east, 58), (Edge.north, 15), (Edge.south, 15), (Edge.west, 58)] Edge.north = 15 := by decide
    have c2 : edge_sig_of [(Edge.east, 58, 50, 8), (Edge.west, 58, 50, 8), (Edge.north, 15, 12, 3), (Edge.south, 15, 12, 3)] Edge.north = 12 := by decide
    have c3 : edge_pow_of [(Edge.east, 58, 50, 8), (Edge.west, 58, 50, 8), (Edge.north, 15, 12, 3), (Edge.south, 15, 12, 3)] Edge.north = 3 := by decide
    simp only [gen_direction, c1, c2, c3]
    decide
  have hw : gen_direction (edge_cap_of [(Edge.east, 58), (Edge.north, 15), (Edge.south, 15), (Edge.west, 58)])
      (edge_sig_of [(Edge.east, 58, 50, 8), (Edge.west, 58, 50, 8), (Edge.north, 15, 12, 3), (Edge.south, 15, 12, 3)])
      (edge_pow_of [(Edge.east, 58, 50, 8), (Edge.west, 58, 50, 8), (Edge.north, 15, 12, 3), (Edge.south, 15, 12, 3)])
      Edges.ALL.active_list (clk_rst_edge Edges.ALL) Edge.west 72 7 7 =
      some (
        [Pad.bidir 121, Pad.bidir 120, Pad.bidir 119, Pad.bidir 118, Pad.bidir 117,
        Pad.bidir 116, Pad.bidir 115, Pad.bidir 114, Pad.bidir 113, Pad.bidir 112, Pad.dvdd 10,
        Pad.bidir 111, Pad.bidir 110, Pad.bidir 109, Pad.bidir 108, Pad.bidir 107, Pad.dvss 10,
        Pad.bidir 106, Pad.bidir 105, Pad.bidir 104, Pad.bidir 103, Pad.bidir 102, Pad.dvdd 9,
        Pad.bidir 101, Pad.bidir 100, Pad.bidir 99, Pad.bidir 98, Pad.bidir 97, Pad.dvss 9,
        Pad.bidir 96, Pad.bidir 95, Pad.bidir 94, Pad.bidir 93, Pad.bidir 92, Pad.dvdd 8,
        Pad.bidir 91, Pad.bidir 90, Pad.bidir 89, Pad.bidir 88, Pad.bidir 87, Pad.dvss 8,
        Pad.bidir 86, Pad.bidir 85, Pad.bidir 84, Pad.bidir 83, Pad.bidir 82, Pad.dvdd 7,
        Pad.bidir 81, Pad.bidir 80, Pad.bidir 79, Pad.bidir 78, Pad.bidir 77, Pad.dvss 7,
        Pad.bidir 76, Pad.bidir 75, Pad.bidir 74, Pad.bidir 73, Pad.bidir 72],
        122, 11, 11) := by
    have c1 : edge_cap_of [(Edge.east, 58), (Edge.north, 15), (Edge.south, 15), (Edge.west, 58)] Edge.west = 58 := by decide
    have c2 : edge_sig_of [(Edge.east, 58, 50, 8), (Edge.west, 58, 50, 8), (Edge.north, 15, 12, 3), (Edge.south, 15, 12, 3)] Edge.west = 50 := by decide
    have c3 : edge_pow_of [(Edge.east, 58, 50, 8), (Edge.west, 58, 50, 8), (Edge.north, 15, 12, 3), (Edge.south, 15, 12, 3)] Edge.west = 8 := by decide
    simp only [gen_direction, c1, c2, c3]
    decide
  simp only [generate_config, h1]
  dsimp only [SLOTS]
  rw [h2]
  dsimp only
  rw [h3]
  simp only [build_artifact]
  rw [hs]
  dsimp only
  rw [he]
  dsimp only
  rw [hn]
  dsimp only
  rw [hw]
  dsimp only
  decide

/-- C6 helper: the s0p5x1 slot, SPC density, TOP edges. -/
theorem c6_s0p5x1_spc_top :
    option_spec (c6_flags_ok SlotName.s0p5x1) (generate_config (SLOTS SlotName.s0p5x1) Density.SPC Edges.TOP) := by
  have h1 : calculate_pads_for_density (SLOTS SlotName.s0p5x1) Density.SPC Edges.TOP =
      (15, [(Edge.north, 15)]) := by decide
  have h2 : distribute_pads_with_power 15 SlotName.s0p5x1 = (11, 2) := by decide
  have h3 : allocate_edges [(Edge.north, 15)] (11 + 2) 2 =
      [(Edge.north, 15, 13, 2)] := by decide
  have hs : gen_direction (edge_cap_of [(Edge.north, 15)])
      (edge_sig_of [(Edge.north, 15, 13, 2)])
      (edge_pow_of [(Edge.north, 15, 13, 2)])
      Edges.TOP.active_list (clk_rst_edge Edges.TOP) Edge.south 0 0 0 =
      some (
        [],
        0, 0, 0) := by
    have c1 : edge_cap_of [(Edge.north, 15)] Edge.south = 0 := by decide
    have c2 : edge_sig_of [(Edge.north, 15, 13, 2)] Edge.south = 0 := by decide
    have c3 : edge_pow_of [(Edge.north, 15, 13, 2)] Edge.south = 0 := by decide
    simp only [gen_direction, c1, c2, c3]
    decide
  have he : gen_direction (edge_cap_of [(Edge.north, 15)])
      (edge_sig_of [(Edge.north, 15, 13, 2)])
      (edge_pow_of [(Edge.north, 15, 13, 2)])
      Edges.TOP.active_list (clk_rst_edge Edges.TOP) Edge.east 0 0 0 =
      some (
        [],
        0, 0, 0) := by
    have c1 : edge_cap_of [(Edge.north, 15)] Edge.east = 0 := by decide
    have c2 : edge_sig_of [(Edge.north, 15, 13, 2)] Edge.east = 0 := by decide
    have c3 : edge_pow_of [(Edge.north, 15, 13, 2)] Edge.east = 0 := by decide
    simp only [gen_direction, c1, c2, c3]
    decide
  have hn : gen_direction (edge_cap_of [(Edge.north, 15)])
      (edge_sig_of [(Edge.north, 15, 13, 2)])
      (edge_pow_of [(Edge.north, 15, 13, 2)])
      Edges.TOP.active_list (clk_rst_edge Edges.TOP) Edge.north 0 0 0 =
      some (
        [Pad.clk, Pad.rst_n, Pad.bidir 10, Pad.bidir 9, Pad.bidir 8, Pad.bidir 7, Pad.bidir 6,
        Pad.dvdd 0, Pad.bidir 5, Pad.bidir 4, Pad.bidir 3, Pad.dvss 0, Pad.bidir 2, Pad.bidir 1,
        Pad.bidir 0],
        11, 1, 1) := by
    have c1 : edge_cap_of [(Edge.north, 15)] Edge.north = 15 := by decide
    have c2 : edge_sig_of [(Edge.north, 15, 13, 2)] Edge.north = 13 := by decide
    have c3 : edge_pow_of [(Edge.north, 15, 13, 2)] Edge.north = 2 := by decide
    simp only [gen_direction, c1, c2, c3]
    decide
  have hw : gen_direction (edge_cap_of [(Edge.north, 15)])
      (edge_sig_of [(Edge.north, 15, 13, 2)])
      (edge_pow_of [(Edge.north, 15, 13, 2)])
      Edges.TOP.active_list (clk_rst_edge Edges.TOP) Edge.west 11 1 1 =
      some (
        [],
        11, 1, 1) := by
    have c1 : edge_cap_of [(Edge.north, 15)] Edge.west = 0 := by decide
    have c2 : edge_sig_of [(Edge.north, 15, 13, 2)] Edge.west = 0 := by decide
    have c3 : edge_pow_of [(Edge.north, 15, 13, 2)] Edge.west = 0 := by decide
    simp only [gen_direction, c1, c2, c3]
    decide
  simp only [generate_config, h1]
  dsimp only [SLOTS]
  rw [h2]
  dsimp only
  rw [h3]
  simp only [build_artifact]
  rw [hs]
  dsimp only
  rw [he]
  dsimp only
  rw [hn]
  dsimp only
  rw [hw]
  dsimp only
  decide

/-- C6 helper: the s0p5x1 slot, SPC density, LFT edges. -/
theorem c6_s0p5x1_spc_lft :
    option_spec (c6_flags_ok SlotName.s0p5x1) (generate_config (SLOTS SlotName.s0p5x1) Density.SPC Edges.LFT) := by
  have h1 : calculate_pads_for_density (SLOTS SlotName.s0p5x1) Density.SPC Edges.LFT =
      (58, [(Edge.west, 58)]) := by decide
  have h2 : distribute_pads_with_power 58 SlotName.s0p5x1 = (48, 8) := by decide
  have h3 : allocate_edges [(Edge.west, 58)] (48 + 2) 8 =
      [(Edge.west, 58, 50, 8)] := by decide
  have hs : gen_direction (edge_cap_of [(Edge.west, 58)])
      (edge_sig_of [(Edge.west, 58, 50, 8)])
      (edge_pow_of [(Edge.west, 58, 50, 8)])
      Edges.LFT.active_list (clk_rst_edge Edges.LFT) Edge.south 0 0 0 =
      some (
        [],
        0, 0, 0) := by
    have c1 : edge_cap_of [(Edge.west, 58)] Edge.south = 0 := by decide
    have c2 : edge_sig_of [(Edge.west, 58, 50, 8)] Edge.south = 0 := by decide
    have c3 : edge_pow_of [(Edge.west, 58, 50, 8)] Edge.south = 0 := by decide
    simp only [gen_direction, c1, c2, c3]
    decide
  have he : gen_direction (edge_cap_of [(Edge.west, 58)])
      (edge_sig_of [(Edge.west, 58, 50, 8)])
      (edge_pow_of [(Edge.west, 58, 50, 8)])
      Edges.LFT.active_list (clk_rst_edge Edges.LFT) Edge.east 0 0 0 =
      some (
        [],
        0, 0, 0) := by
    have c1 : edge_cap_of [(Edge.west, 58)] Edge.east = 0 := by decide
    have c2 : edge_sig_of [(Edge.west, 58, 50, 8)] Edge.east = 0 := by decide
    have c3 : edge_pow_of [(Edge.west, 58, 50, 8)] Edge.east = 0 := by decide
    simp only [gen_direction, c1, c2, c3]
    decide
  have hn : gen_direction (edge_cap_of [(Edge.west, 58)])
      (edge_sig_of [(Edge.west, 58, 50, 8)])
      (edge_pow_of [(Edge.west, 58, 50, 8)])
      Edges.LFT.active_list (clk_rst_edge Edges.LFT) Edge.north 0 0 0 =
      some (
        [],
        0, 0, 0) := by
    have c1 : edge_cap_of [(Edge.west, 58)] Edge.north = 0 := by decide
    have c2 : edge_sig_of [(Edge.west, 58, 50, 8)] Edge.north = 0 := by decide
    have c3 : edge_pow_of [(Edge.west, 58, 50, 8)] Edge.north = 0 := by decide
    simp only [gen_direction, c1, c2, c3]
    decide
  have hw : gen_direction (edge_cap_of [(Edge.west, 58)])
      (edge_sig_of [(Edge.west, 58, 50, 8)])
      (edge_pow_of [(Edge.west, 58, 50, 8)])
      Edges.LFT.active_list (clk_rst_edge Edges.LFT) Edge.west 0 0 0 =
      some (
        [Pad.clk, Pad.rst_n, Pad.bidir 47, Pad.bidir 46, Pad.bidir 45, Pad.bidir 44,
        Pad.bidir 43, Pad.bidir 42, Pad.bidir 41, Pad.bidir 40, Pad.dvdd 3, Pad.bidir 39,
        Pad.bidir 38, Pad.bidir 37, Pad.bidir 36, Pad.bidir 35, Pad.dvss 3, Pad.bidir 34,
        Pad.bidir 33, Pad.bidir 32, Pad.bidir 31, Pad.bidir 30, Pad.dvdd 2, Pad.bidir 29,
        Pad.bidir 28, Pad.bidir 27, Pad.bidir 26, Pad.bidir 25, Pad.dvss 2, Pad.bidir 24,
        Pad.bidir 23, Pad.bidir 22, Pad.bidir 21, Pad.bidir 20, Pad.dvdd 1, Pad.bidir 19,
        Pad.bidir 18, Pad.bidir 17, Pad.bidir 16, Pad.bidir 15, Pad.dvss 1, Pad.bidir 14,
        Pad.bidir 13, Pad.bidir 12, Pad.bidir 11, Pad.bidir 10, Pad.dvdd 0, Pad.bidir 9,
        Pad.bidir 8, Pad.bidir 7, Pad.bidir 6, Pad.bidir 5, Pad.dvss 0, Pad.bidir 4, Pad.bidir 3,
        Pad.bidir 2, Pad.bidir 1, Pad.bidir 0],
        48, 4, 4) := by
    have c1 : edge_cap_of [(Edge.west, 58)] Edge.west = 58 := by decide
    have c2 : edge_sig_of [(Edge.west, 58, 50, 8)] Edge.west = 50 := by decide
    have c3 : edge_pow_of [(Edge.west, 58, 50, 8)] Edge.west = 8 := by decide
    simp only [gen_direction, c1, c2, c3]
    decide
  simp only [generate_config, h1]
  dsimp only [SLOTS]
  rw [h2]
  dsimp only
  rw [h3]
  simp only [build_artifact]
  rw [hs]
  dsimp only
  rw [he]
  dsimp only
  rw [hn]
  dsimp only
  rw [hw]
  dsimp only
  decide

/-- C6 helper: the s0p5x1 slot, SPC density, HOR edges. -/
theorem c6_s0p5x1_spc_hor :
    option_spec (c6_flags_ok SlotName.s0p5x1) (generate_config (SLOTS SlotName.s0p5x1) Density.SPC Edges.HOR) := by
  have h1 : calculate_pads_for_density (SLOTS SlotName.s0p5x1) Density.SPC Edges.HOR =
      (30, [(Edge.north, 15), (Edge.south, 15)]) := by decide
  have h2 : distribute_pads_with_power 30 SlotName.s0p5x1 = (24, 4) := by decide
  have h3 : allocate_edges [(Edge.north, 15), (Edge.south, 15)] (24 + 2) 4 =
      [(Edge.north, 15, 13, 2), (Edge.south, 15, 13, 2)] := by decide
  have hs : gen_direction (edge_cap_of [(Edge.north, 15), (Edge.south, 15)])
      (edge_sig_of [(Edge.north, 15, 13, 2), (Edge.south, 15, 13, 2)])
      (edge_pow_of [(Edge.north, 15, 13, 2), (Edge.south, 15, 13, 2)])
      Edges.HOR.active_list (clk_rst_edge Edges.HOR) Edge.south 0 0 0 =
      some (
        [Pad.clk, Pad.rst_n, Pad.bidir 0, Pad.bidir 1, Pad.bidir 2, Pad.dvss 0, Pad.bidir 3,
        Pad.bidir 4, Pad.bidir 5, Pad.dvdd 0, Pad.bidir 6, Pad.bidir 7, Pad.bidir 8, Pad.bidir 9,
        Pad.bidir 10],
        11, 1, 1) := by
    have c1 : edge_cap_of [(Edge.north, 15), (Edge.south, 15)] Edge.south = 15 := by decide
    have c2 : edge_sig_of [(Edge.north, 15, 13, 2), (Edge.south, 15, 13, 2)] Edge.south = 13 := by decide
    have c3 : edge_pow_of [(Edge.north, 15, 13, 2), (Edge.south, 15, 13, 2)] Edge.south = 2 := by decide
    simp only [gen_direction, c1, c2, c3]
    decide
  have he : gen_direction (edge_cap_of [(Edge.north, 15), (Edge.south, 15)])
      (edge_sig_of [(Edge.north, 15, 13, 2), (Edge.south, 15, 13, 2)])
      (edge_pow_of [(Edge.north, 15, 13, 2), (Edge.south, 15, 13, 2)])
      Edges.HOR.active_list (clk_rst_edge Edges.HOR) Edge.east 11 1 1 =
      some (
        [],
        11, 1, 1) := by
    have c1 : edge_cap_of [(Edge.north, 15), (Edge.south, 15)] Edge.east = 0 := by decide
    have c2 : edge_sig_of [(Edge.north, 15, 13, 2), (Edge.south, 15, 13, 2)] Edge.east = 0 := by decide
    have c3 : edge_pow_of [(Edge.north, 15, 13, 2), (Edge.south, 15, 13, 2)] Edge.east = 0 := by decide
    simp only [gen_direction, c1, c2, c3]
    decide
  have hn : gen_direction (edge_cap_of [(Edge.north, 15), (Edge.south, 15)])
      (edge_sig_of [(Edge.north, 15, 13, 2), (Edge.south, 15, 13, 2)])
      (edge_pow_of [(Edge.north, 15, 13, 2), (Edge.south, 15, 13, 2)])
      Edges.HOR.active_list (clk_rst_edge Edges.HOR) Edge.north 11 1 1 =
      some (
        [Pad.bidir 23, Pad.bidir 22, Pad.bidir 21, Pad.bidir 20, Pad.bidir 19, Pad.dvdd 1,
        Pad.bidir 18, Pad.bidir 17, Pad.bidir 16, Pad.bidir 15, Pad.dvss 1, Pad.bidir 14,
        Pad.bidir 13, Pad.bidir 12, Pad.bidir 11],
        24, 2, 2) := by
    have c1 : edge_cap_of [(Edge.north, 15), (Edge.south, 15)] Edge.north = 15 := by decide
    have c2 : edge_sig_of [(Edge.north, 15, 13, 2), (Edge.south, 15, 13, 2)] Edge.north = 13 := by decide
    have c3 : edge_pow_of [(Edge.north, 15, 13, 2), (Edge.south, 15, 13, 2)] Edge.north = 2 := by decide
    simp only [gen_direction, c1, c2, c3]
    decide
  have hw : gen_direction (edge_cap_of [(Edge.north, 15), (Edge.south, 15)])
      (edge_sig_of [(Edge.north, 15, 13, 2), (Edge.south, 15, 13, 2)])
      (edge_pow_of [(Edge.north, 15, 13, 2), (Edge.south, 15, 13, 2)])
      Edges.HOR.active_list (clk_rst_edge Edges.HOR) Edge.west 24 2 2 =
      some (
        [],
        24, 2, 2) := by
    have c1 : edge_cap_of [(Edge.north, 15), (Edge.south, 15)] Edge.west = 0 := by decide
    have c2 : edge_sig_of [(Edge.north, 15, 13, 2), (Edge.south, 15, 13, 2)] Edge.west = 0 := by decide
    have c3 : edge_pow_of [(Edge.north, 15, 13, 2), (Edge.south, 15, 13, 2)] Edge.west = 0 := by decide
    simp only [gen_direction, c1, c2, c3]
    decide
  simp only [generate_config, h1]
  dsimp only [SLOTS]
  rw [h2]
  dsimp only
  rw [h3]
  simp only [build_artifact]
  rw [hs]
  dsimp only
  rw [he]
  dsimp only
  rw [hn]
  dsimp only
  rw [hw]
  dsimp only
  decide

/-- C6 helper: the s0p5x1 slot, SPC density, VER edges. -/
theorem c6_s0p5x1_spc_ver :
    option_spec (c6_flags_ok SlotName.s0p5x1) (generate_config (SLOTS SlotName.s0p5x1) Density.SPC Edges.VER) := by
  have h1 : calculate_pads_for_density (SLOTS SlotName.s0p5x1) Density.SPC Edges.VER =
      (116, [(Edge.east, 58), (Edge.west, 58)]) := by decide
  have h2 : distribute_pads_with_power 116 SlotName.s0p5x1 = (96, 18) := by decide
  have h3 : allocate_edges [(Edge.east, 58), (Edge.west, 58)] (96 + 2) 18 =
      [(Edge.east, 58, 49, 9), (Edge.west, 58, 49, 9)] := by decide
  have hs : gen_direction (edge_cap_of [(Edge.east, 58), (Edge.west, 58)])
      (edge_sig_of [(Edge.east, 58, 49, 9), (Edge.west, 58, 49, 9)])
      (edge_pow_of [(Edge.east, 58, 49, 9), (Edge.west, 58, 49, 9)])
      Edges.VER.active_list (clk_rst_edge Edges.VER) Edge.south 0 0 0 =
      some (
        [],
        0, 0, 0) := by
    have c1 : edge_cap_of [(Edge.east, 58), (Edge.west, 58)] Edge.south = 0 := by decide
    have c2 : edge_sig_of [(Edge.east, 58, 49, 9), (Edge.west, 58, 49, 9)] Edge.south = 0 := by decide
    have c3 : edge_pow_of [(Edge.east, 58, 49, 9), (Edge.west, 58, 49, 9)] Edge.south = 0 := by decide
    simp only [gen_direction, c1, c2, c3]
    decide
  have he : gen_direction (edge_cap_of [(Edge.east, 58), (Edge.west, 58)])
      (edge_sig_of [(Edge.east, 58, 49, 9), (Edge.west, 58, 49, 9)])
      (edge_pow_of [(Edge.east, 58, 49, 9), (Edge.west, 58, 49, 9)])
      Edges.VER.active_list (clk_rst_edge Edges.VER) Edge.east 0 0 0 =
      some (
        [Pad.bidir 0, Pad.bidir 1, Pad.bidir 2, Pad.bidir 3, Pad.dvss 0, Pad.bidir 4,
        Pad.bidir 5, Pad.bidir 6, Pad.bidir 7, Pad.dvdd 0, Pad.bidir 8, Pad.bidir 9,
        Pad.bidir 10, Pad.bidir 11, Pad.dvss 1, Pad.bidir 12, Pad.bidir 13, Pad.bidir 14,
        Pad.bidir 15, Pad.dvdd 1, Pad.bidir 16, Pad.bidir 17, Pad.bidir 18, Pad.bidir 19,
        Pad.dvss 2, Pad.bidir 20, Pad.bidir 21, Pad.bidir 22, Pad.bidir 23, Pad.dvdd 2,
        Pad.bidir 24, Pad.bidir 25, Pad.bidir 26, Pad.bidir 27, Pad.dvss 3, Pad.bidir 28,
        Pad.bidir 29, Pad.bidir 30, Pad.bidir 31, Pad.dvdd 3, Pad.bidir 32, Pad.bidir 33,
        Pad.bidir 34, Pad.bidir 35, Pad.dvss 4, Pad.bidir 36, Pad.bidir 37, Pad.bidir 38,
        Pad.bidir 39, Pad.bidir 40, Pad.bidir 41, Pad.bidir 42, Pad.bidir 43, Pad.bidir 44,
        Pad.bidir 45, Pad.bidir 46, Pad.bidir 47, Pad.bidir 48],
        49, 4, 5) := by
    have c1 : edge_cap_of [(Edge.east, 58), (Edge.west, 58)] Edge.east = 58 := by decide
    have c2 : edge_sig_of [(Edge.east, 58, 49, 9), (Edge.west, 58, 49, 9)] Edge.east = 49 := by decide
    have c3 : edge_pow_of [(Edge.east, 58, 49, 9), (Edge.west, 58, 49, 9)] Edge.east = 9 := by decide
    simp only [gen_direction, c1, c2, c3]
    decide
  have hn : gen_direction (edge_cap_of [(Edge.east, 58), (Edge.west, 58)])
      (edge_sig_of [(Edge.east, 58, 49, 9), (Edge.west, 58, 49, 9)])
      (edge_pow_of [(Edge.east, 58, 49, 9), (Edge.west, 58, 49, 9)])
      Edges.VER.active_list (clk_rst_edge Edges.VER) Edge.north 49 4 5 =
      some (
        [],
        49, 4, 5) := by
    have c1 : edge_cap_of [(Edge.east, 58), (Edge.west, 58)] Edge.north = 0 := by decide
    have c2 : edge_sig_of [(Edge.east, 58, 49, 9), (Edge.west, 58, 49, 9)] Edge.north = 0 := by decide
    have c3 : edge_pow_of [(Edge.east, 58, 49, 9), (Edge.west, 58, 49, 9)] Edge.north = 0 := by decide
    simp only [gen_direction, c1, c2, c3]
    decide
  have hw : gen_direction (edge_cap_of [(Edge.east, 58), (Edge.west, 58)])
      (edge_sig_of [(Edge.east, 58, 49, 9), (Edge.west, 58, 49, 9)])
      (edge_pow_of [(Edge.east, 58, 49, 9), (Edge.west, 58, 49, 9)])
      Edges.VER.active_list (clk_rst_edge Edges.VER) Edge.west 49 4 5 =
      some (
        [Pad.clk, Pad.rst_n, Pad.bidir 95, Pad.bidir 94, Pad.bidir 93, Pad.bidir 92,
        Pad.bidir 91, Pad.bidir 90, Pad.bidir 89, Pad.bidir 88, Pad.bidir 87, Pad.bidir 86,
        Pad.bidir 85, Pad.dvdd 8, Pad.bidir 84, Pad.bidir 83, Pad.bidir 82, Pad.bidir 81,
        Pad.dvss 8, Pad.bidir 80, Pad.bidir 79, Pad.bidir 78, Pad.bidir 77, Pad.dvdd 7,
        Pad.bidir 76, Pad.bidir 75, Pad.bidir 74, Pad.bidir 73, Pad.dvss 7, Pad.bidir 72,
        Pad.bidir 71, Pad.bidir 70, Pad.bidir 69, Pad.dvdd 6, Pad.bidir 68, Pad.bidir 67,
        Pad.bidir 66, Pad.bidir 65, Pad.dvss 6, Pad.bidir 64, Pad.bidir 63, Pad.bidir 62,
        Pad.bidir 61, Pad.dvdd 5, Pad.bidir 60, Pad.bidir 59, Pad.bidir 58, Pad.bidir 57,
        Pad.dvss 5, Pad.bidir 56, Pad.bidir 55, Pad.bidir 54, Pad.bidir 53, Pad.dvdd 4,
        Pad.bidir 52, Pad.bidir 51, Pad.bidir 50, Pad.bidir 49],
        96, 9, 9) := by
    have c1 : edge_cap_of [(Edge.east, 58), (Edge.west, 58)] Edge.west = 58 := by decide
    have c2 : edge_sig_of [(Edge.east, 58, 49, 9), (Edge.west, 58, 49, 9)] Edge.west = 49 := by decide
    have c3 : edge_pow_of [(Edge.east, 58, 49, 9), (Edge.west, 58, 49, 9)] Edge.west = 9 := by decide
    simp only [gen_direction, c1, c2, c3]
    decide
  simp only [generate_config, h1]
  dsimp only [SLOTS]
  rw [h2]
  dsimp only
  rw [h3]
  simp only [build_artifact]
  rw [hs]
  dsimp only
  rw [he]
  dsimp only
  rw [hn]
  dsimp only
  rw [hw]
  dsimp only
  decide

/-- C6 helper: the s0p5x1 slot, SPC density, NWC edges. -/
theorem c6_s0p5x1_spc_nwc :
    option_spec (c6_flags_ok SlotName.s0p5x1) (generate_config (SLOTS SlotName.s0p5x1) Density.SPC Edges.NWC) := by
  have h1 : calculate_pads_for_density (SLOTS SlotName.s0p5x1) Density.SPC Edges.NWC =
      (73, [(Edge.north, 15), (Edge.west, 58)]) := by decide
  have h2 : distribute_pads_with_power 73 SlotName.s0p5x1 = (61, 10) := by decide
  have h3 : allocate_edges [(Edge.north, 15), (Edge.west, 58)] (61 + 2) 10 =
      [(Edge.west, 58, 51, 7), (Edge.north, 15, 12, 3)] := by decide
  have hs : gen_direction (edge_cap_of [(Edge.north, 15), (Edge.west, 58)])
      (edge_sig_of [(Edge.west, 58, 51, 7), (Edge.north, 15, 12, 3)])
      (edge_pow_of [(Edge.west, 58, 51, 7), (Edge.north, 15, 12, 3)])
      Edges.NWC.active_list (clk_rst_edge Edges.NWC) Edge.south 0 0 0 =
      some (
        [],
        0, 0, 0) := by
    have c1 : edge_cap_of [(Edge.north, 15), (Edge.west, 58)] Edge.south = 0 := by decide
    have c2 : edge_sig_of [(Edge.west, 58, 51, 7), (Edge.north, 15, 12, 3)] Edge.south = 0 := by decide
    have c3 : edge_pow_of [(Edge.west, 58, 51, 7), (Edge.north, 15, 12, 3)] Edge.south = 0 := by decide
    simp only [gen_direction, c1, c2, c3]
    decide
  have he : gen_direction (edge_cap_of [(Edge.north, 15), (Edge.west, 58)])
      (edge_sig_of [(Edge.west, 58, 51, 7), (Edge.north, 15, 12, 3)])
      (edge_pow_of [(Edge.west, 58, 51, 7), (Edge.north, 15, 12, 3)])
      Edges.NWC.active_list (clk_rst_edge Edges.NWC) Edge.east 0 0 0 =
      some (
        [],
        0, 0, 0) := by
    have c1 : edge_cap_of [(Edge.north, 15), (Edge.west, 58)] Edge.east = 0 := by decide
    have c2 : edge_sig_of [(Edge.west, 58, 51, 7), (Edge.north, 15, 12, 3)] Edge.east = 0 := by decide
    have c3 : edge_pow_of [(Edge.west, 58, 51, 7), (Edge.north, 15, 12, 3)] Edge.east = 0 := by decide
    simp only [gen_direction, c1, c2, c3]
    decide
  have hn : gen_direction (edge_cap_of [(Edge.north, 15), (Edge.west, 58)])
      (edge_sig_of [(Edge.west, 58, 51, 7), (Edge.north, 15, 12, 3)])
      (edge_pow_of [(Edge.west, 58, 51, 7), (Edge.north, 15, 12, 3)])
      Edges.NWC.active_list (clk_rst_edge Edges.NWC) Edge.north 0 0 0 =
      some (
        [Pad.bidir 11, Pad.bidir 10, Pad.bidir 9, Pad.dvss 1, Pad.bidir 8, Pad.bidir 7,
        Pad.bidir 6, Pad.dvdd 0, Pad.bidir 5, Pad.bidir 4, Pad.bidir 3, Pad.dvss 0, Pad.bidir 2,
        Pad.bidir 1, Pad.bidir 0],
        12, 1, 2) := by
    have c1 : edge_cap_of [(Edge.north, 15), (Edge.west, 58)] Edge.north = 15 := by decide
    have c2 : edge_sig_of [(Edge.west, 58, 51, 7), (Edge.north, 15, 12, 3)] Edge.north = 12 := by decide
    have c3 : edge_pow_of [(Edge.west, 58, 51, 7), (Edge.north, 15, 12, 3)] Edge.north = 3 := by decide
    simp only [gen_direction, c1, c2, c3]
    decide
  have hw : gen_direction (edge_cap_of [(Edge.north, 15), (Edge.west, 58)])
      (edge_sig_of [(Edge.west, 58, 51, 7), (Edge.north, 15, 12, 3)])
      (edge_pow_of [(Edge.west, 58, 51, 7), (Edge.north, 15, 12, 3)])
      Edges.NWC.active_list (clk_rst_edge Edges.NWC) Edge.west 12 1 2 =
      some (
        [Pad.clk, Pad.rst_n, Pad.bidir 60, Pad.bidir 59, Pad.bidir 58, Pad.bidir 57,
        Pad.bidir 56, Pad.bidir 55, Pad.bidir 54, Pad.dvdd 4, Pad.bidir 53, Pad.bidir 52,
        Pad.bidir 51, Pad.bidir 50, Pad.bidir 49, Pad.bidir 48, Pad.dvss 4, Pad.bidir 47,
        Pad.bidir 46, Pad.bidir 45, Pad.bidir 44, Pad.bidir 43, Pad.bidir 42, Pad.dvdd 3,
        Pad.bidir 41, Pad.bidir 40, Pad.bidir 39, Pad.bidir 38, Pad.bidir 37, Pad.bidir 36,
        Pad.dvss 3, Pad.bidir 35, Pad.bidir 34, Pad.bidir 33, Pad.bidir 32, Pad.bidir 31,
        Pad.bidir 30, Pad.dvdd 2, Pad.bidir 29, Pad.bidir 28, Pad.bidir 27, Pad.bidir 26,
        Pad.bidir 25, Pad.bidir 24, Pad.dvss 2, Pad.bidir 23, Pad.bidir 22, Pad.bidir 21,
        Pad.bidir 20, Pad.bidir 19, Pad.bidir 18, Pad.dvdd 1, Pad.bidir 17, Pad.bidir 16,
        Pad.bidir 15, Pad.bidir 14, Pad.bidir 13, Pad.bidir 12],
        61, 5, 5) := by
    have c1 : edge_cap_of [(Edge.north, 15), (Edge.west, 58)] Edge.west = 58 := by decide
    have c2 : edge_sig_of [(Edge.west, 58, 51, 7), (Edge.north, 15, 12, 3)] Edge.west = 51 := by decide
    have c3 : edge_pow_of [(Edge.west, 58, 51, 7), (Edge.north, 15, 12, 3)] Edge.west = 7 := by decide
    simp only [gen_direction, c1, c2, c3]
    decide
  simp only [generate_config, h1]
  dsimp only [SLOTS]
  rw [h2]
  dsimp only
  rw [h3]
  simp only [build_artifact]
  rw [hs]
  dsimp only
  rw [he]
  dsimp only
  rw [hn]
  dsimp only
  rw [hw]
  dsimp only
  decide

/-- C6 helper: the s0p5x1 slot, SPC density, SEC edges. -/
theorem c6_s0p5x1_spc_sec :
    option_spec (c6_flags_ok SlotName.s0p5x1) (generate_config (SLOTS SlotName.s0p5x1) Density.SPC Edges.SEC) := by
  have h1 : calculate_pads_for_density (SLOTS SlotName.s0p5x1) Density.SPC Edges.SEC =
      (73, [(Edge.east, 58), (Edge.south, 15)]) := by decide
  have h2 : distribute_pads_with_power 73 SlotName.s0p5x1 = (61, 10) := by decide
  have h3 : allocate_edges [(Edge.east, 58), (Edge.south, 15)] (61 + 2) 10 =
      [(Edge.east, 58, 51, 7), (Edge.south, 15, 12, 3)] := by decide
  have hs : gen_direction (edge_cap_of [(Edge.east, 58), (Edge.south, 15)])
      (edge_sig_of [(Edge.east, 58, 51, 7), (Edge.south, 15, 12, 3)])
      (edge_pow_of [(Edge.east, 58, 51, 7), (Edge.south, 15, 12, 3)])
      Edges.SEC.active_list (clk_rst_edge Edges.SEC) Edge.south 0 0 0 =
      some (
        [Pad.clk, Pad.rst_n, Pad.bidir 0, Pad.bidir 1, Pad.dvss 0, Pad.bidir 2, Pad.bidir 3,
        Pad.dvdd 0, Pad.bidir 4, Pad.bidir 5, Pad.dvss 1, Pad.bidir 6, Pad.bidir 7, Pad.bidir 8,
        Pad.bidir 9],
        10, 1, 2) := by
    have c1 : edge_cap_of [(Edge.east, 58), (Edge.south, 15)] Edge.south = 15 := by decide
    have c2 : edge_sig_of [(Edge.east, 58, 51, 7), (Edge.south, 15, 12, 3)] Edge.south = 12 := by decide
    have c3 : edge_pow_of [(Edge.east, 58, 51, 7), (Edge.south, 15, 12, 3)] Edge.south = 3 := by decide
    simp only [gen_direction, c1, c2, c3]
    decide
  have he : gen_direction (edge_cap_of [(Edge.east, 58), (Edge.south, 15)])
      (edge_sig_of [(Edge.east, 58, 51, 7), (Edge.south, 15, 12, 3)])
      (edge_pow_of [(Edge.east, 58, 51, 7), (Edge.south, 15, 12, 3)])
      Edges.SEC.active_list (clk_rst_edge Edges.SEC) Edge.east 10 1 2 =
      some (
        [Pad.bidir 10, Pad.bidir 11, Pad.bidir 12, Pad.bidir 13, Pad.bidir 14, Pad.bidir 15,
        Pad.dvdd 1, Pad.bidir 16, Pad.bidir 17, Pad.bidir 18, Pad.bidir 19, Pad.bidir 20,
        Pad.bidir 21, Pad.dvss 2, Pad.bidir 22, Pad.bidir 23, Pad.bidir 24, Pad.bidir 25,
        Pad.bidir 26, Pad.bidir 27, Pad.dvdd 2, Pad.bidir 28, Pad.bidir 29, Pad.bidir 30,
        Pad.bidir 31, Pad.bidir 32, Pad.bidir 33, Pad.dvss 3, Pad.bidir 34, Pad.bidir 35,
        Pad.bidir 36, Pad.bidir 37, Pad.bidir 38, Pad.bidir 39, Pad.dvdd 3, Pad.bidir 40,
        Pad.bidir 41, Pad.bidir 42, Pad.bidir 43, Pad.bidir 44, Pad.bidir 45, Pad.dvss 4,
        Pad.bidir 46, Pad.bidir 47, Pad.bidir 48, Pad.bidir 49, Pad.bidir 50, Pad.bidir 51,
        Pad.dvdd 4, Pad.bidir 52, Pad.bidir 53, Pad.bidir 54, Pad.bidir 55, Pad.bidir 56,
        Pad.bidir 57, Pad.bidir 58, Pad.bidir 59, Pad.bidir 60],
        61, 5, 5) := by
    have c1 : edge_cap_of [(Edge.east, 58), (Edge.south, 15)] Edge.east = 58 := by decide
    have c2 : edge_sig_of [(Edge.east, 58, 51, 7), (Edge.south, 15, 12, 3)] Edge.east = 51 := by decide
    have c3 : edge_pow_of [(Edge.east, 58, 51, 7), (Edge.south, 15, 12, 3)] Edge.east = 7 := by decide
    simp only [gen_direction, c1, c2, c3]
    decide
  have hn : gen_direction (edge_cap_of [(Edge.east, 58), (Edge.south, 15)])
      (edge_sig_of [(Edge.east, 58, 51, 7), (Edge.south, 15, 12, 3)])
      (edge_pow_of [(Edge.east, 58, 51, 7), (Edge.south, 15, 12, 3)])
      Edges.SEC.active_list (clk_rst_edge Edges.SEC) Edge.north 61 5 5 =
      some (
        [],
        61, 5, 5) := by
    have c1 : edge_cap_of [(Edge.east, 58), (Edge.south, 15)] Edge.north = 0 := by decide
    have c2 : edge_sig_of [(Edge.east, 58, 51, 7), (Edge.south, 15, 12, 3)] Edge.north = 0 := by decide
    have c3 : edge_pow_of [(Edge.east, 58, 51, 7), (Edge.south, 15, 12, 3)] Edge.north = 0 := by decide
    simp only [gen_direction, c1, c2, c3]
    decide
  have hw : gen_direction (edge_cap_of [(Edge.east, 58), (Edge.south, 15)])
      (edge_sig_of [(Edge.east, 58, 51, 7), (Edge.south, 15, 12, 3)])
      (edge_pow_of [(Edge.east, 58, 51, 7), (Edge.south, 15, 12, 3)])
      Edges.SEC.active_list (clk_rst_edge Edges.SEC) Edge.west 61 5 5 =
      some (
        [],
        61, 5, 5) := by
    have c1 : edge_cap_of [(Edge.east, 58), (Edge.south, 15)] Edge.west = 0 := by decide
    have c2 : edge_sig_of [(Edge.east, 58, 51, 7), (Edge.south, 15, 12, 3)] Edge.west = 0 := by decide
    have c3 : edge_pow_of [(Edge.east, 58, 51, 7), (Edge.south, 15, 12, 3)] Edge.west = 0 := by decide
    simp only [gen_direction, c1, c2, c3]
    decide
  simp only [generate_config, h1]
  dsimp only [SLOTS]
  rw [h2]
  dsimp only
  rw [h3]
  simp only [build_artifact]
  rw [hs]
  dsimp only
  rw [he]
  dsimp only
  rw [hn]
  dsimp only
  rw [hw]
  dsimp only
  decide

/-- C6 helper: the s0p5x1 slot, NUM density, ALL edges. -/
theorem c6_s0p5x1_num_all :
    option_spec (c6_flags_ok SlotName.s0p5x1) (generate_config (SLOTS SlotName.s0p5x1) Density.NUM Edges.ALL) := by
  have h1 : calculate_pads_for_density (SLOTS SlotName.s0p5x1) Density.NUM Edges.ALL =
      (74, [(Edge.east, 29), (Edge.north, 7), (Edge.south, 7), (Edge.west, 31)]) := by decide
  have h2 : distribute_pads_with_power 74 SlotName.s0p5x1 = (62, 10) := by decide
  have h3 : allocate_edges [(Edge.east, 29), (Edge.north, 7), (Edge.south, 7), (Edge.west, 31)] (62 + 2) 10 =
      [(Edge.west, 31, 27, 4), (Edge.east, 29, 25, 4), (Edge.north, 7, 6, 1), (Edge.south, 7, 6, 1)] := by decide
  have hs : gen_direction (edge_cap_of [(Edge.east, 29), (Edge.north, 7), (Edge.south, 7), (Edge.west, 31)])
      (edge_sig_of [(Edge.west, 31, 27, 4), (Edge.east, 29, 25, 4), (Edge.north, 7, 6, 1), (Edge.south, 7, 6, 1)])
      (edge_pow_of [(Edge.west, 31, 27, 4), (Edge.east, 29, 25, 4), (Edge.north, 7, 6, 1), (Edge.south, 7, 6, 1)])
      Edges.ALL.active_list (clk_rst_edge Edges.ALL) Edge.south 0 0 0 =
      some (
        [Pad.clk, Pad.rst_n, Pad.bidir 0, Pad.bidir 1, Pad.dvss 0, Pad.bidir 2, Pad.bidir 3],
        4, 0, 1) := by
    have c1 : edge_cap_of [(Edge.east, 29), (Edge.north, 7), (Edge.south, 7), (Edge.west, 31)] Edge.south = 7 := by decide
    have c2 : edge_sig_of [(Edge.west, 31, 27, 4), (Edge.east, 29, 25, 4), (Edge.north, 7, 6, 1), (Edge.south, 7, 6, 1)] Edge.south = 6 := by decide
    have c3 : edge_pow_of [(Edge.west, 31, 27, 4), (Edge.east, 29, 25, 4), (Edge.north, 7, 6, 1), (Edge.south, 7, 6, 1)] Edge.south = 1 := by decide
    simp only [gen_direction, c1, c2, c3]
    decide
  have he : gen_direction (edge_cap_of [(Edge.east, 29), (Edge.north, 7), (Edge.south, 7), (Edge.west, 31)])
      (edge_sig_of [(Edge.west, 31, 27, 4), (Edge.east, 29, 25, 4), (Edge.north, 7, 6, 1), (Edge.south, 7, 6, 1)])
      (edge_pow_of [(Edge.west, 31, 27, 4), (Edge.east, 29, 25, 4), (Edge.north, 7, 6, 1), (Edge.south, 7, 6, 1)])
      Edges.ALL.active_list (clk_rst_edge Edges.ALL) Edge.east 4 0 1 =
      some (
        [Pad.bidir 4, Pad.bidir 5, Pad.bidir 6, Pad.bidir 7, Pad.bidir 8, Pad.dvdd 0,
        Pad.bidir 9, Pad.bidir 10, Pad.bidir 11, Pad.bidir 12, Pad.bidir 13, Pad.dvss 1,
        Pad.bidir 14, Pad.bidir 15, Pad.bidir 16, Pad.bidir 17, Pad.bidir 18, Pad.dvdd 1,
        Pad.bidir 19, Pad.bidir 20, Pad.bidir 21, Pad.bidir 22, Pad.bidir 23, Pad.dvss 2,
        Pad.bidir 24, Pad.bidir 25, Pad.bidir 26, Pad.bidir 27, Pad.bidir 28],
        29, 2, 3) := by
    have c1 : edge_cap_of [(Edge.east, 29), (Edge.north, 7), (Edge.south, 7), (Edge.west, 31)] Edge.east = 29 := by decide
    have c2 : edge_sig_of [(Edge.west, 31, 27, 4), (Edge.east, 29, 25, 4), (Edge.north, 7, 6, 1), (Edge.south, 7, 6, 1)] Edge.east = 25 := by decide
    have c3 : edge_pow_of [(Edge.west, 31, 27, 4), (Edge.east, 29, 25, 4), (Edge.north, 7, 6, 1), (Edge.south, 7, 6, 1)] Edge.east = 4 := by decide
    simp only [gen_direction, c1, c2, c3]
    decide
  have hn : gen_direction (edge_cap_of [(Edge.east, 29), (Edge.north, 7), (Edge.south, 7), (Edge.west, 31)])
      (edge_sig_of [(Edge.west, 31, 27, 4), (Edge.east, 29, 25, 4), (Edge.north, 7, 6, 1), (Edge.south, 7, 6, 1)])
      (edge_pow_of [(Edge.west, 31, 27, 4), (Edge.east, 29, 25, 4), (Edge.north, 7, 6, 1), (Edge.south, 7, 6, 1)])
      Edges.ALL.active_list (clk_rst_edge Edges.ALL) Edge.north 29 2 3 =
      some (
        [Pad.bidir 34, Pad.bidir 33, Pad.bidir 32, Pad.dvdd 2, Pad.bidir 31, Pad.bidir 30,
        Pad.bidir 29],
        35, 3, 3) := by
    have c1 : edge_cap_of [(Edge.east, 29), (Edge.north, 7), (Edge.south, 7), (Edge.west, 31)] Edge.north = 7 := by decide
    have c2 : edge_sig_of [(Edge.west, 31, 27, 4), (Edge.east, 29, 25, 4), (Edge.north, 7, 6, 1), (Edge.south, 7, 6, 1)] Edge.north = 6 := by decide
    have c3 : edge_pow_of [(Edge.west, 31, 27, 4), (Edge.east, 29, 25, 4), (Edge.north, 7, 6, 1), (Edge.south, 7, 6, 1)] Edge.north = 1 := by decide
    simp only [gen_direction, c1, c2, c3]
    decide
  have hw : gen_direction (edge_cap_of [(Edge.east, 29), (Edge.north, 7), (Edge.south, 7), (Edge.west, 31)])
      (edge_sig_of [(Edge.west, 31, 27, 4), (Edge.east, 29, 25, 4), (Edge.north, 7, 6, 1), (Edge.south, 7, 6, 1)])
      (edge_pow_of [(Edge.west, 31, 27, 4), (Edge.east, 29, 25, 4), (Edge.north, 7, 6, 1), (Edge.south, 7, 6, 1)])
      Edges.ALL.active_list (clk_rst_edge Edges.ALL) Edge.west 35 3 3 =
      some (
        [Pad.bidir 61, Pad.bidir 60, Pad.bidir 59, Pad.bidir 58, Pad.bidir 57, Pad.bidir 56,
        Pad.bidir 55, Pad.dvdd 4, Pad.bidir 54, Pad.bidir 53, Pad.bidir 52, Pad.bidir 51,
        Pad.bidir 50, Pad.dvss 4, Pad.bidir 49, Pad.bidir 48, Pad.bidir 47, Pad.bidir 46,
        Pad.bidir 45, Pad.dvdd 3, Pad.bidir 44, Pad.bidir 43, Pad.bidir 42, Pad.bidir 41,
        Pad.bidir 40, Pad.dvss 3, Pad.bidir 39, Pad.bidir 38, Pad.bidir 37, Pad.bidir 36,
        Pad.bidir 35],
        62, 5, 5) := by
    have c1 : edge_cap_of [(Edge.east, 29), (Edge.north, 7), (Edge.south, 7), (Edge.west, 31)] Edge.west = 31 := by decide
    have c2 : edge_sig_of [(Edge.west, 31, 27, 4), (Edge.east, 29, 25, 4), (Edge.north, 7, 6, 1), (Edge.south, 7, 6, 1)] Edge.west = 27 := by decide
    have c3 : edge_pow_of [(Edge.west, 31, 27, 4), (Edge.east, 29, 25, 4), (Edge.north, 7, 6, 1), (Edge.south, 7, 6, 1)] Edge.west = 4 := by decide
    simp only [gen_direction, c1, c2, c3]
    decide
  simp only [generate_config, h1]
  dsimp only [SLOTS]
  rw [h2]
  dsimp only
  rw [h3]
  simp only [build_artifact]
  rw [hs]
  dsimp only
  rw [he]
  dsimp only
  rw [hn]
  dsimp only
  rw [hw]
  dsimp only
  decide

/-- C6 helper: the s0p5x1 slot, NUM density, TOP edges. -/
theorem c6_s0p5x1_num_top :
    option_spec (c6_flags_ok SlotName.s0p5x1) (generate_config (SLOTS SlotName.s0p5x1) Density.NUM Edges.TOP) := by
  have h1 : calculate_pads_for_density (SLOTS SlotName.s0p5x1) Density.NUM Edges.TOP =
      (15, [(Edge.north, 15)]) := by decide
  have h2 : distribute_pads_with_power 15 SlotName.s0p5x1 = (11, 2) := by decide
  have h3 : allocate_edges [(Edge.north, 15)] (11 + 2) 2 =
      [(Edge.north, 15, 13, 2)] := by decide
  have hs : gen_direction (edge_cap_of [(Edge.north, 15)])
      (edge_sig_of [(Edge.north, 15, 13, 2)])
      (edge_pow_of [(Edge.north, 15, 13, 2)])
      Edges.TOP.active_list (clk_rst_edge Edges.TOP) Edge.south 0 0 0 =
      some (
        [],
        0, 0, 0) := by
    have c1 : edge_cap_of [(Edge.north, 15)] Edge.south = 0 := by decide
    have c2 : edge_sig_of [(Edge.north, 15, 13, 2)] Edge.south = 0 := by decide
    have c3 : edge_pow_of [(Edge.north, 15, 13, 2)] Edge.south = 0 := by decide
    simp only [gen_direction, c1, c2, c3]
    decide
  have he : gen_direction (edge_cap_of [(Edge.north, 15)])
      (edge_sig_of [(Edge.north, 15, 13, 2)])
      (edge_pow_of [(Edge.north, 15, 13, 2)])
      Edges.TOP.active_list (clk_rst_edge Edges.TOP) Edge.east 0 0 0 =
      some (
        [],
        0, 0, 0) := by
    have c1 : edge_cap_of [(Edge.north, 15)] Edge.east = 0 := by decide
    have c2 : edge_sig_of [(Edge.north, 15, 13, 2)] Edge.east = 0 := by decide
    have c3 : edge_pow_of [(Edge.north, 15, 13, 2)] Edge.east = 0 := by decide
    simp only [gen_direction, c1, c2, c3]
    decide
  have hn : gen_direction (edge_cap_of [(Edge.north, 15)])
      (edge_sig_of [(Edge.north, 15, 13, 2)])
      (edge_pow_of [(Edge.north, 15, 13, 2)])
      Edges.TOP.active_list (clk_rst_edge Edges.TOP) Edge.north 0 0 0 =
      some (
        [Pad.clk, Pad.rst_n, Pad.bidir 10, Pad.bidir 9, Pad.bidir 8, Pad.bidir 7, Pad.bidir 6,
        Pad.dvdd 0, Pad.bidir 5, Pad.bidir 4, Pad.bidir 3, Pad.dvss 0, Pad.bidir 2, Pad.bidir 1,
        Pad.bidir 0],
        11, 1, 1) := by
    have c1 : edge_cap_of [(Edge.north, 15)] Edge.north = 15 := by decide
    have c2 : edge_sig_of [(Edge.north, 15, 13, 2)] Edge.north = 13 := by decide
    have c3 : edge_pow_of [(Edge.north, 15, 13, 2)] Edge.north = 2 := by decide
    simp only [gen_direction, c1, c2, c3]
    decide
  have hw : gen_direction (edge_cap_of [(Edge.north, 15)])
      (edge_sig_of [(Edge.north, 15, 13, 2)])
      (edge_pow_of [(Edge.north, 15, 13, 2)])
      Edges.TOP.active_list (clk_rst_edge Edges.TOP) Edge.west 11 1 1 =
      some (
        [],
        11, 1, 1) := by
    have c1 : edge_cap_of [(Edge.north, 15)] Edge.west = 0 := by decide
    have c2 : edge_sig_of [(Edge.north, 15, 13, 2)] Edge.west = 0 := by decide
    have c3 : edge_pow_of [(Edge.north, 15, 13, 2)] Edge.west = 0 := by decide
    simp only [gen_direction, c1, c2, c3]
    decide
  simp only [generate_config, h1]
  dsimp only [SLOTS]
  rw [h2]
  dsimp only
  rw [h3]
  simp only [build_artifact]
  rw [hs]
  dsimp only
  rw [he]
  dsimp only
  rw [hn]
  dsimp only
  rw [hw]
  dsimp only
  decide

/-- C6 helper: the s0p5x1 slot, NUM density, LFT edges. -/
theorem c6_s0p5x1_num_lft :
    option_spec (c6_flags_ok SlotName.s0p5x1) (generate_config (SLOTS SlotName.s0p5x1) Density.NUM Edges.LFT) := by
  have h1 : calculate_pads_for_density (SLOTS SlotName.s0p5x1) Density.NUM Edges.LFT =
      (58, [(Edge.west, 58)]) := by decide
  have h2 : distribute_pads_with_power 58 SlotName.s0p5x1 = (48, 8) := by decide
  have h3 : allocate_edges [(Edge.west, 58)] (48 + 2) 8 =
      [(Edge.west, 58, 50, 8)] := by decide
  have hs : gen_direction (edge_cap_of [(Edge.west, 58)])
      (edge_sig_of [(Edge.west, 58, 50, 8)])
      (edge_pow_of [(Edge.west, 58, 50, 8)])
      Edges.LFT.active_list (clk_rst_edge Edges.LFT) Edge.south 0 0 0 =
      some (
        [],
        0, 0, 0) := by
    have c1 : edge_cap_of [(Edge.west, 58)] Edge.south = 0 := by decide
    have c2 : edge_sig_of [(Edge.west, 58, 50, 8)] Edge.south = 0 := by decide
    have c3 : edge_pow_of [(Edge.west, 58, 50, 8)] Edge.south = 0 := by decide
    simp only [gen_direction, c1, c2, c3]
    decide
  have he : gen_direction (edge_cap_of [(Edge.west, 58)])
      (edge_sig_of [(Edge.west, 58, 50, 8)])
      (edge_pow_of [(Edge.west, 58, 50, 8)])
      Edges.LFT.active_list (clk_rst_edge Edges.LFT) Edge.east 0 0 0 =
      some (
        [],
        0, 0, 0) := by
    have c1 : edge_cap_of [(Edge.west, 58)] Edge.east = 0 := by decide
    have c2 : edge_sig_of [(Edge.west, 58, 50, 8)] Edge.east = 0 := by decide
    have c3 : edge_pow_of [(Edge.west, 58, 50, 8)] Edge.east = 0 := by decide
    simp only [gen_direction, c1, c2, c3]
    decide
  have hn : gen_direction (edge_cap_of [(Edge.west, 58)])
      (edge_sig_of [(Edge.west, 58, 50, 8)])
      (edge_pow_of [(Edge.west, 58, 50, 8)])
      Edges.LFT.active_list (clk_rst_edge Edges.LFT) Edge.north 0 0 0 =
      some (
        [],
        0, 0, 0) := by
    have c1 : edge_cap_of [(Edge.west, 58)] Edge.north = 0 := by decide
    have c2 : edge_sig_of [(Edge.west, 58, 50, 8)] Edge.north = 0 := by decide
    have c3 : edge_pow_of [(Edge.west, 58, 50, 8)] Edge.north = 0 := by decide
    simp only [gen_direction, c1, c2, c3]
    decide
  have hw : gen_direction (edge_cap_of [(Edge.west, 58)])
      (edge_sig_of [(Edge.west, 58, 50, 8)])
      (edge_pow_of [(Edge.west, 58, 50, 8)])
      Edges.LFT.active_list (clk_rst_edge Edges.LFT) Edge.west 0 0 0 =
      some (
        [Pad.clk, Pad.rst_n, Pad.bidir 47, Pad.bidir 46, Pad.bidir 45, Pad.bidir 44,
        Pad.bidir 43, Pad.bidir 42, Pad.bidir 41, Pad.bidir 40, Pad.dvdd 3, Pad.bidir 39,
        Pad.bidir 38, Pad.bidir 37, Pad.bidir 36, Pad.bidir 35, Pad.dvss 3, Pad.bidir 34,
        Pad.bidir 33, Pad.bidir 32, Pad.bidir 31, Pad.bidir 30, Pad.dvdd 2, Pad.bidir 29,
        Pad.bidir 28, Pad.bidir 27, Pad.bidir 26, Pad.bidir 25, Pad.dvss 2, Pad.bidir 24,
        Pad.bidir 23, Pad.bidir 22, Pad.bidir 21, Pad.bidir 20, Pad.dvdd 1, Pad.bidir 19,
        Pad.bidir 18, Pad.bidir 17, Pad.bidir 16, Pad.bidir 15, Pad.dvss 1, Pad.bidir 14,
        Pad.bidir 13, Pad.bidir 12, Pad.bidir 11, Pad.bidir 10, Pad.dvdd 0, Pad.bidir 9,
        Pad.bidir 8, Pad.bidir 7, Pad.bidir 6, Pad.bidir 5, Pad.dvss 0, Pad.bidir 4, Pad.bidir 3,
        Pad.bidir 2, Pad.bidir 1, Pad.bidir 0],
        48, 4, 4) := by
    have c1 : edge_cap_of [(Edge.west, 58)] Edge.west = 58 := by decide
    have c2 : edge_sig_of [(Edge.west, 58, 50, 8)] Edge.west = 50 := by decide
    have c3 : edge_pow_of [(Edge.west, 58, 50, 8)] Edge.west = 8 := by decide
    simp only [gen_direction, c1, c2, c3]
    decide
  simp only [generate_config, h1]
  dsimp only [SLOTS]
  rw [h2]
  dsimp only
  rw [h3]
  simp only [build_artifact]
  rw [hs]
  dsimp only
  rw [he]
  dsimp only
  rw [hn]
  dsimp only
  rw [hw]
  dsimp only
  decide

/-- C6 helper: the s0p5x1 slot, NUM density, HOR edges. -/
theorem c6_s0p5x1_num_hor :
    option_spec (c6_flags_ok SlotName.s0p5x1) (generate_config (SLOTS SlotName.s0p5x1) Density.NUM Edges.HOR) := by
  have h1 : calculate_pads_for_density (SLOTS SlotName.s0p5x1) Density.NUM Edges.HOR =
      (30, [(Edge.north, 15), (Edge.south, 15)]) := by decide
  have h2 : distribute_pads_with_power 30 SlotName.s0p5x1 = (24, 4) := by decide
  have h3 : allocate_edges [(Edge.north, 15), (Edge.south, 15)] (24 + 2) 4 =
      [(Edge.north, 15, 13, 2), (Edge.south, 15, 13, 2)] := by decide
  have hs : gen_direction (edge_cap_of [(Edge.north, 15), (Edge.south, 15)])
      (edge_sig_of [(Edge.north, 15, 13, 2), (Edge.south, 15, 13, 2)])
      (edge_pow_of [(Edge.north, 15, 13, 2), (Edge.south, 15, 13, 2)])
      Edges.HOR.active_list (clk_rst_edge Edges.HOR) Edge.south 0 0 0 =
      some (
        [Pad.clk, Pad.rst_n, Pad.bidir 0, Pad.bidir 1, Pad.bidir 2, Pad.dvss 0, Pad.bidir 3,
        Pad.bidir 4, Pad.bidir 5, Pad.dvdd 0, Pad.bidir 6, Pad.bidir 7, Pad.bidir 8, Pad.bidir 9,
        Pad.bidir 10],
        11, 1, 1) := by
    have c1 : edge_cap_of [(Edge.north, 15), (Edge.south, 15)] Edge.south = 15 := by decide
    have c2 : edge_sig_of [(Edge.north, 15, 13, 2), (Edge.south, 15, 13, 2)] Edge.south = 13 := by decide
    have c3 : edge_pow_of [(Edge.north, 15, 13, 2), (Edge.south, 15, 13, 2)] Edge.south = 2 := by decide
    simp only [gen_direction, c1, c2, c3]
    decide
  have he : gen_direction (edge_cap_of [(Edge.north, 15), (Edge.south, 15)])
      (edge_sig_of [(Edge.north, 15, 13, 2), (Edge.south, 15, 13, 2)])
      (edge_pow_of [(Edge.north, 15, 13, 2), (Edge.south, 15, 13, 2)])
      Edges.HOR.active_list (clk_rst_edge Edges.HOR) Edge.east 11 1 1 =
      some (
        [],
        11, 1, 1) := by
    have c1 : edge_cap_of [(Edge.north, 15), (Edge.south, 15)] Edge.east = 0 := by decide
    have c2 : edge_sig_of [(Edge.north, 15, 13, 2), (Edge.south, 15, 13, 2)] Edge.east = 0 := by decide
    have c3 : edge_pow_of [(Edge.north, 15, 13, 2), (Edge.south, 15, 13, 2)] Edge.east = 0 := by decide
    simp only [gen_direction, c1, c2, c3]
    decide
  have hn : gen_direction (edge_cap_of [(Edge.north, 15), (Edge.south, 15)])
      (edge_sig_of [(Edge.north, 15, 13, 2), (Edge.south, 15, 13, 2)])
      (edge_pow_of [(Edge.north, 15, 13, 2), (Edge.south, 15, 13, 2)])
      Edges.HOR.active_list (clk_rst_edge Edges.HOR) Edge.north 11 1 1 =
      some (
        [Pad.bidir 23, Pad.bidir 22, Pad.bidir 21, Pad.bidir 20, Pad.bidir 19, Pad.dvdd 1,
        Pad.bidir 18, Pad.bidir 17, Pad.bidir 16, Pad.bidir 15, Pad.dvss 1, Pad.bidir 14,
        Pad.bidir 13, Pad.bidir 12, Pad.bidir 11],
        24, 2, 2) := by
    have c1 : edge_cap_of [(Edge.north, 15), (Edge.south, 15)] Edge.north = 15 := by decide
    have c2 : edge_sig_of [(Edge.north, 15, 13, 2), (Edge.south, 15, 13, 2)] Edge.north = 13 := by decide
    have c3 : edge_pow_of [(Edge.north, 15, 13, 2), (Edge.south, 15, 13, 2)] Edge.north = 2 := by decide
    simp only [gen_direction, c1, c2, c3]
    decide
  have hw : gen_direction (edge_cap_of [(Edge.north, 15), (Edge.south, 15)])
      (edge_sig_of [(Edge.north, 15, 13, 2), (Edge.south, 15, 13, 2)])
      (edge_pow_of [(Edge.north, 15, 13, 2), (Edge.south, 15, 13, 2)])
      Edges.HOR.active_list (clk_rst_edge Edges.HOR) Edge.west 24 2 2 =
      some (
        [],
        24, 2, 2) := by
    have c1 : edge_cap_of [(Edge.north, 15), (Edge.south, 15)] Edge.west = 0 := by decide
    have c2 : edge_sig_of [(Edge.north, 15, 13, 2), (Edge.south, 15, 13, 2)] Edge.west = 0 := by decide
    have c3 : edge_pow_of [(Edge.north, 15, 13, 2), (Edge.south, 15, 13, 2)] Edge.west = 0 := by decide
    simp only [gen_direction, c1, c2, c3]
    decide
  simp only [generate_config, h1]
  dsimp only [SLOTS]
  rw [h2]
  dsimp only
  rw [h3]
  simp only [build_artifact]
  rw [hs]
  dsimp only
  rw [he]
  dsimp only
  rw [hn]
  dsimp only
  rw [hw]
  dsimp only
  decide

/-- C6 helper: the s0p5x1 slot, NUM density, VER edges. -/
theorem c6_s0p5x1_num_ver :
    option_spec (c6_flags_ok SlotName.s0p5x1) (generate_config (SLOTS SlotName.s0p5x1) Density.NUM Edges.VER) := by
  have h1 : calculate_pads_for_density (SLOTS SlotName.s0p5x1) Density.NUM Edges.VER =
      (74, [(Edge.east, 37), (Edge.west, 37)]) := by decide
  have h2 : distribute_pads_with_power 74 SlotName.s0p5x1 = (62, 10) := by decide
  have h3 : allocate_edges [(Edge.east, 37), (Edge.west, 37)] (62 + 2) 10 =
      [(Edge.east, 37, 32, 5), (Edge.west, 37, 32, 5)] := by decide
  have hs : gen_direction (edge_cap_of [(Edge.east, 37), (Edge.west, 37)])
      (edge_sig_of [(Edge.east, 37, 32, 5), (Edge.west, 37, 32, 5)])
      (edge_pow_of [(Edge.east, 37, 32, 5), (Edge.west, 37, 32, 5)])
      Edges.VER.active_list (clk_rst_edge Edges.VER) Edge.south 0 0 0 =
      some (
        [],
        0, 0, 0) := by
    have c1 : edge_cap_of [(Edge.east, 37), (Edge.west, 37)] Edge.south = 0 := by decide
    have c2 : edge_sig_of [(Edge.east, 37, 32, 5), (Edge.west, 37, 32, 5)] Edge.south = 0 := by decide
    have c3 : edge_pow_of [(Edge.east, 37, 32, 5), (Edge.west, 37, 32, 5)] Edge.south = 0 := by decide
    simp only [gen_direction, c1, c2, c3]
    decide
  have he : gen_direction (edge_cap_of [(Edge.east, 37), (Edge.west, 37)])
      (edge_sig_of [(Edge.east, 37, 32, 5), (Edge.west, 37, 32, 5)])
      (edge_pow_of [(Edge.east, 37, 32, 5), (Edge.west, 37, 32, 5)])
      Edges.VER.active_list (clk_rst_edge Edges.VER) Edge.east 0 0 0 =
      some (
        [Pad.bidir 0, Pad.bidir 1, Pad.bidir 2, Pad.bidir 3, Pad.bidir 4, Pad.dvss 0,
        Pad.bidir 5, Pad.bidir 6, Pad.bidir 7, Pad.bidir 8, Pad.bidir 9, Pad.dvdd 0,
        Pad.bidir 10, Pad.bidir 11, Pad.bidir 12, Pad.bidir 13, Pad.bidir 14, Pad.dvss 1,
        Pad.bidir 15, Pad.bidir 16, Pad.bidir 17, Pad.bidir 18, Pad.bidir 19, Pad.dvdd 1,
        Pad.bidir 20, Pad.bidir 21, Pad.bidir 22, Pad.bidir 23, Pad.bidir 24, Pad.dvss 2,
        Pad.bidir 25, Pad.bidir 26, Pad.bidir 27, Pad.bidir 28, Pad.bidir 29, Pad.bidir 30,
        Pad.bidir 31],
        32, 2, 3) := by
    have c1 : edge_cap_of [(Edge.east, 37), (Edge.west, 37)] Edge.east = 37 := by decide
    have c2 : edge_sig_of [(Edge.east, 37, 32, 5), (Edge.west, 37, 32, 5)] Edge.east = 32 := by decide
    have c3 : edge_pow_of [(Edge.east, 37, 32, 5), (Edge.west, 37, 32, 5)] Edge.east = 5 := by decide
    simp only [gen_direction, c1, c2, c3]
    decide
  have hn : gen_direction (edge_cap_of [(Edge.east, 37), (Edge.west, 37)])
      (edge_sig_of [(Edge.east, 37, 32, 5), (Edge.west, 37, 32, 5)])
      (edge_pow_of [(Edge.east, 37, 32, 5), (Edge.west, 37, 32, 5)])
      Edges.VER.active_list (clk_rst_edge Edges.VER) Edge.north 32 2 3 =
      some (
        [],
        32, 2, 3) := by
    have c1 : edge_cap_of [(Edge.east, 37), (Edge.west, 37)] Edge.north = 0 := by decide
    have c2 : edge_sig_of [(Edge.east, 37, 32, 5), (Edge.west, 37, 32, 5)] Edge.north = 0 := by decide
    have c3 : edge_pow_of [(Edge.east, 37, 32, 5), (Edge.west, 37, 32, 5)] Edge.north = 0 := by decide
    simp only [gen_direction, c1, c2, c3]
    decide
  have hw : gen_direction (edge_cap_of [(Edge.east, 37), (Edge.west, 37)])
      (edge_sig_of [(Edge.east, 37, 32, 5), (Edge.west, 37, 32, 5)])
      (edge_pow_of [(Edge.east, 37, 32, 5), (Edge.west, 37, 32, 5)])
      Edges.VER.active_list (clk_rst_edge Edges.VER) Edge.west 32 2 3 =
      some (
        [Pad.clk, Pad.rst_n, Pad.bidir 61, Pad.bidir 60, Pad.bidir 59, Pad.bidir 58,
        Pad.bidir 57, Pad.dvdd 4, Pad.bidir 56, Pad.bidir 55, Pad.bidir 54, Pad.bidir 53,
        Pad.bidir 52, Pad.dvss 4, Pad.bidir 51, Pad.bidir 50, Pad.bidir 49, Pad.bidir 48,
        Pad.bidir 47, Pad.dvdd 3, Pad.bidir 46, Pad.bidir 45, Pad.bidir 44, Pad.bidir 43,
        Pad.bidir 42, Pad.dvss 3, Pad.bidir 41, Pad.bidir 40, Pad.bidir 39, Pad.bidir 38,
        Pad.bidir 37, Pad.dvdd 2, Pad.bidir 36, Pad.bidir 35, Pad.bidir 34, Pad.bidir 33,
        Pad.bidir 32],
        62, 5, 5) := by
    have c1 : edge_cap_of [(Edge.east, 37), (Edge.west, 37)] Edge.west = 37 := by decide
    have c2 : edge_sig_of [(Edge.east, 37, 32, 5), (Edge.west, 37, 32, 5)] Edge.west = 32 := by decide
    have c3 : edge_pow_of [(Edge.east, 37, 32, 5), (Edge.west, 37, 32, 5)] Edge.west = 5 := by decide
    simp only [gen_direction, c1, c2, c3]
    decide
  simp only [generate_config, h1]
  dsimp only [SLOTS]
  rw [h2]
  dsimp only
  rw [h3]
  simp only [build_artifact]
  rw [hs]
  dsimp only
  rw [he]
  dsimp only
  rw [hn]
  dsimp only
  rw [hw]
  dsimp only
  decide

/-- C6 helper: the s0p5x1 slot, NUM density, NWC edges. -/
theorem c6_s0p5x1_num_nwc :
    option_spec (c6_flags_ok SlotName.s0p5x1) (generate_config (SLOTS SlotName.s0p5x1) Density.NUM Edges.NWC) := by
  have h1 : calculate_pads_for_density (SLOTS SlotName.s0p5x1) Density.NUM Edges.NWC =
      (73, [(Edge.north, 15), (Edge.west, 58)]) := by decide
  have h2 : distribute_pads_with_power 73 SlotName.s0p5x1 = (61, 10) := by decide
  have h3 : allocate_edges [(Edge.north, 15), (Edge.west, 58)] (61 + 2) 10 =
      [(Edge.west, 58, 51, 7), (Edge.north, 15, 12, 3)] := by decide
  have hs : gen_direction (edge_cap_of [(Edge.north, 15), (Edge.west, 58)])
      (edge_sig_of [(Edge.west, 58, 51, 7), (Edge.north, 15, 12, 3)])
      (edge_pow_of [(Edge.west, 58, 51, 7), (Edge.north, 15, 12, 3)])
      Edges.NWC.active_list (clk_rst_edge Edges.NWC) Edge.south 0 0 0 =
      some (
        [],
        0, 0, 0) := by
    have c1 : edge_cap_of [(Edge.north, 15), (Edge.west, 58)] Edge.south = 0 := by decide
    have c2 : edge_sig_of [(Edge.west, 58, 51, 7), (Edge.north, 15, 12, 3)] Edge.south = 0 := by decide
    have c3 : edge_pow_of [(Edge.west, 58, 51, 7), (Edge.north, 15, 12, 3)] Edge.south = 0 := by decide
    simp only [gen_direction, c1, c2, c3]
    decide
  have he : gen_direction (edge_cap_of [(Edge.north, 15), (Edge.west, 58)])
      (edge_sig_of [(Edge.west, 58, 51, 7), (Edge.north, 15, 12, 3)])
      (edge_pow_of [(Edge.west, 58, 51, 7), (Edge.north, 15, 12, 3)])
      Edges.NWC.active_list (clk_rst_edge Edges.NWC) Edge.east 0 0 0 =
      some (
        [],
        0, 0, 0) := by
    have c1 : edge_cap_of [(Edge.north, 15), (Edge.west, 58)] Edge.east = 0 := by decide
    have c2 : edge_sig_of [(Edge.west, 58, 51, 7), (Edge.north, 15, 12, 3)] Edge.east = 0 := by decide
    have c3 : edge_pow_of [(Edge.west, 58, 51, 7), (Edge.north, 15, 12, 3)] Edge.east = 0 := by decide
    simp only [gen_direction, c1, c2, c3]
    decide
  have hn : gen_direction (edge_cap_of [(Edge.north, 15), (Edge.west, 58)])
      (edge_sig_of [(Edge.west, 58, 51, 7), (Edge.north, 15, 12, 3)])
      (edge_pow_of [(Edge.west, 58, 51, 7), (Edge.north, 15, 12, 3)])
      Edges.NWC.active_list (clk_rst_edge Edges.NWC) Edge.north 0 0 0 =
      some (
        [Pad.bidir 11, Pad.bidir 10, Pad.bidir 9, Pad.dvss 1, Pad.bidir 8, Pad.bidir 7,
        Pad.bidir 6, Pad.dvdd 0, Pad.bidir 5, Pad.bidir 4, Pad.bidir 3, Pad.dvss 0, Pad.bidir 2,
        Pad.bidir 1, Pad.bidir 0],
        12, 1, 2) := by
    have c1 : edge_cap_of [(Edge.north, 15), (Edge.west, 58)] Edge.north = 15 := by decide
    have c2 : edge_sig_of [(Edge.west, 58, 51, 7), (Edge.north, 15, 12, 3)] Edge.north = 12 := by decide
    have c3 : edge_pow_of [(Edge.west, 58, 51, 7), (Edge.north, 15, 12, 3)] Edge.north = 3 := by decide
    simp only [gen_direction, c1, c2, c3]
    decide
  have hw : gen_direction (edge_cap_of [(Edge.north, 15), (Edge.west, 58)])
      (edge_sig_of [(Edge.west, 58, 51, 7), (Edge.north, 15, 12, 3)])
      (edge_pow_of [(Edge.west, 58, 51, 7), (Edge.north, 15, 12, 3)])
      Edges.NWC.active_list (clk_rst_edge Edges.NWC) Edge.west 12 1 2 =
      some (
        [Pad.clk, Pad.rst_n, Pad.bidir 60, Pad.bidir 59, Pad.bidir 58, Pad.bidir 57,
        Pad.bidir 56, Pad.bidir 55, Pad.bidir 54, Pad.dvdd 4, Pad.bidir 53, Pad.bidir 52,
        Pad.bidir 51, Pad.bidir 50, Pad.bidir 49, Pad.bidir 48, Pad.dvss 4, Pad.bidir 47,
        Pad.bidir 46, Pad.bidir 45, Pad.bidir 44, Pad.bidir 43, Pad.bidir 42, Pad.dvdd 3,
        Pad.bidir 41, Pad.bidir 40, Pad.bidir 39, Pad.bidir 38, Pad.bidir 37, Pad.bidir 36,
        Pad.dvss 3, Pad.bidir 35, Pad.bidir 34, Pad.bidir 33, Pad.bidir 32, Pad.bidir 31,
        Pad.bidir 30, Pad.dvdd 2, Pad.bidir 29, Pad.bidir 28, Pad.bidir 27, Pad.bidir 26,
        Pad.bidir 25, Pad.bidir 24, Pad.dvss 2, Pad.bidir 23, Pad.bidir 22, Pad.bidir 21,
        Pad.bidir 20, Pad.bidir 19, Pad.bidir 18, Pad.dvdd 1, Pad.bidir 17, Pad.bidir 16,
        Pad.bidir 15, Pad.bidir 14, Pad.bidir 13, Pad.bidir 12],
        61, 5, 5) := by
    have c1 : edge_cap_of [(Edge.north, 15), (Edge.west, 58)] Edge.west = 58 := by decide
    have c2 : edge_sig_of [(Edge.west, 58, 51, 7), (Edge.north, 15, 12, 3)] Edge.west = 51 := by decide
    have c3 : edge_pow_of [(Edge.west, 58, 51, 7), (Edge.north, 15, 12, 3)] Edge.west = 7 := by decide
    simp only [gen_direction, c1, c2, c3]
    decide
  simp only [generate_config, h1]
  dsimp only [SLOTS]
  rw [h2]
  dsimp only
  rw [h3]
  simp only [build_artifact]
  rw [hs]
  dsimp only
  rw [he]
  dsimp only
  rw [hn]
  dsimp only
  rw [hw]
  dsimp only
  decide

/-- C6 helper: the s0p5x1 slot, NUM density, SEC edges. -/
theorem c6_s0p5x1_num_sec :
    option_spec (c6_flags_ok SlotName.s0p5x1) (generate_config (SLOTS SlotName.s0p5x1) Density.NUM Edges.SEC) := by
  have h1 : calculate_pads_for_density (SLOTS SlotName.s0p5x1) Density.NUM Edges.SEC =
      (73, [(Edge.east, 58), (Edge.south, 15)]) := by decide
  have h2 : distribute_pads_with_power 73 SlotName.s0p5x1 = (61, 10) := by decide
  have h3 : allocate_edges [(Edge.east, 58), (Edge.south, 15)] (61 + 2) 10 =
      [(Edge.east, 58, 51, 7), (Edge.south, 15, 12, 3)] := by decide
  have hs : gen_direction (edge_cap_of [(Edge.east, 58), (Edge.south, 15)])
      (edge_sig_of [(Edge.east, 58, 51, 7), (Edge.south, 15, 12, 3)])
      (edge_pow_of [(Edge.east, 58, 51, 7), (Edge.south, 15, 12, 3)])
      Edges.SEC.active_list (clk_rst_edge Edges.SEC) Edge.south 0 0 0 =
      some (
        [Pad.clk, Pad.rst_n, Pad.bidir 0, Pad.bidir 1, Pad.dvss 0, Pad.bidir 2, Pad.bidir 3,
        Pad.dvdd 0, Pad.bidir 4, Pad.bidir 5, Pad.dvss 1, Pad.bidir 6, Pad.bidir 7, Pad.bidir 8,
        Pad.bidir 9],
        10, 1, 2) := by
    have c1 : edge_cap_of [(Edge.east, 58), (Edge.south, 15)] Edge.south = 15 := by decide
    have c2 : edge_sig_of [(Edge.east, 58, 51, 7), (Edge.south, 15, 12, 3)] Edge.south = 12 := by decide
    have c3 : edge_pow_of [(Edge.east, 58, 51, 7), (Edge.south, 15, 12, 3)] Edge.south = 3 := by decide
    simp only [gen_direction, c1, c2, c3]
    decide
  have he : gen_direction (edge_cap_of [(Edge.east, 58), (Edge.south, 15)])
      (edge_sig_of [(Edge.east, 58, 51, 7), (Edge.south, 15, 12, 3)])
      (edge_pow_of [(Edge.east, 58, 51, 7), (Edge.south, 15, 12, 3)])
      Edges.SEC.active_list (clk_rst_edge Edges.SEC) Edge.east 10 1 2 =
      some (
        [Pad.bidir 10, Pad.bidir 11, Pad.bidir 12, Pad.bidir 13, Pad.bidir 14, Pad.bidir 15,
        Pad.dvdd 1, Pad.bidir 16, Pad.bidir 17, Pad.bidir 18, Pad.bidir 19, Pad.bidir 20,
        Pad.bidir 21, Pad.dvss 2, Pad.bidir 22, Pad.bidir 23, Pad.bidir 24, Pad.bidir 25,
        Pad.bidir 26, Pad.bidir 27, Pad.dvdd 2, Pad.bidir 28, Pad.bidir 29, Pad.bidir 30,
        Pad.bidir 31, Pad.bidir 32, Pad.bidir 33, Pad.dvss 3, Pad.bidir 34, Pad.bidir 35,
        Pad.bidir 36, Pad.bidir 37, Pad.bidir 38, Pad.bidir 39, Pad.dvdd 3, Pad.bidir 40,
        Pad.bidir 41, Pad.bidir 42, Pad.bidir 43, Pad.bidir 44, Pad.bidir 45, Pad.dvss 4,
        Pad.bidir 46, Pad.bidir 47, Pad.bidir 48, Pad.bidir 49, Pad.bidir 50, Pad.bidir 51,
        Pad.dvdd 4, Pad.bidir 52, Pad.bidir 53, Pad.bidir 54, Pad.bidir 55, Pad.bidir 56,
        Pad.bidir 57, Pad.bidir 58, Pad.bidir 59, Pad.bidir 60],
        61, 5, 5) := by
    have c1 : edge_cap_of [(Edge.east, 58), (Edge.south, 15)] Edge.east = 58 := by decide
    have c2 : edge_sig_of [(Edge.east, 58, 51, 7), (Edge.south, 15, 12, 3)] Edge.east = 51 := by decide
    have c3 : edge_pow_of [(Edge.east, 58, 51, 7), (Edge.south, 15, 12, 3)] Edge.east = 7 := by decide
    simp only [gen_direction, c1, c2, c3]
    decide
  have hn : gen_direction (edge_cap_of [(Edge.east, 58), (Edge.south, 15)])
      (edge_sig_of [(Edge.east, 58, 51, 7), (Edge.south, 15, 12, 3)])
      (edge_pow_of [(Edge.east, 58, 51, 7), (Edge.south, 15, 12, 3)])
      Edges.SEC.active_list (clk_rst_edge Edges.SEC) Edge.north 61 5 5 =
      some (
        [],
        61, 5, 5) := by
    have c1 : edge_cap_of [(Edge.east, 58), (Edge.south, 15)] Edge.north = 0 := by decide
    have c2 : edge_sig_of [(Edge.east, 58, 51, 7), (Edge.south, 15, 12, 3)] Edge.north = 0 := by decide
    have c3 : edge_pow_of [(Edge.east, 58, 51, 7), (Edge.south, 15, 12, 3)] Edge.north = 0 := by decide
    simp only [gen_direction, c1, c2, c3]
    decide
  have hw : gen_direction (edge_cap_of [(Edge.east, 58), (Edge.south, 15)])
      (edge_sig_of [(Edge.east, 58, 51, 7), (Edge.south, 15, 12, 3)])
      (edge_pow_of [(Edge.east, 58, 51, 7), (Edge.south, 15, 12, 3)])
      Edges.SEC.active_list (clk_rst_edge Edges.SEC) Edge.west 61 5 5 =
      some (
        [],
        61, 5, 5) := by
    have c1 : edge_cap_of [(Edge.east, 58), (Edge.south, 15)] Edge.west = 0 := by decide
    have c2 : edge_sig_of [(Edge.east, 58, 51, 7), (Edge.south, 15, 12, 3)] Edge.west = 0 := by decide
    have c3 : edge_pow_of [(Edge.east, 58, 51, 7), (Edge.south, 15, 12, 3)] Edge.west = 0 := by decide
    simp only [gen_direction, c1, c2, c3]
    decide
  simp only [generate_config, h1]
  dsimp only [SLOTS]
  rw [h2]
  dsimp only
  rw [h3]
  simp only [build_artifact]
  rw [hs]
  dsimp only
  rw [he]
  dsimp only
  rw [hn]
  dsimp only
  rw [hw]
  dsimp only
  decide

/-- C6 helper: the s1x0p5 slot, MAX density, ALL edges. -/
theorem c6_s1x0p5_max_all :
    option_spec (c6_flags_ok SlotName.s1x0p5) (generate_config (SLOTS SlotName.s1x0p5) Density.MAX Edges.ALL) := by
  have h1 : calculate_pads_for_density (SLOTS SlotName.s1x0p5) Density.MAX Edges.ALL =
      (130, [(Edge.east, 23), (Edge.north, 42), (Edge.south, 42), (Edge.west, 23)]) := by decide
  have h2 : distribute_pads_with_power 130 SlotName.s1x0p5 = (108, 20) := by decide
  have h3 : allocate_edges [(Edge.east, 23), (Edge.north, 42), (Edge.south, 42), (Edge.west, 23)] (108 + 2) 20 =
      [(Edge.north, 42, 36, 6), (Edge.south, 42, 36, 6), (Edge.east, 23, 19, 4), (Edge.west, 23, 19, 4)] := by decide
  have hs : gen_direction (edge_cap_of [(Edge.east, 23), (Edge.north, 42), (Edge.south, 42), (Edge.west, 23)])
      (edge_sig_of [(Edge.north, 42, 36, 6), (Edge.south, 42, 36, 6), (Edge.east, 23, 19, 4), (Edge.west, 23, 19, 4)])
      (edge_pow_of [(Edge.north, 42, 36, 6), (Edge.south, 42, 36, 6), (Edge.east, 23, 19, 4), (Edge.west, 23, 19, 4)])
      Edges.ALL.active_list (clk_rst_edge Edges.ALL) Edge.south 0 0 0 =
      some (
        [Pad.clk, Pad.rst_n, Pad.bidir 0, Pad.bidir 1, Pad.bidir 2, Pad.bidir 3, Pad.dvss 0,
        Pad.bidir 4, Pad.bidir 5, Pad.bidir 6, Pad.bidir 7, Pad.dvdd 0, Pad.bidir 8, Pad.bidir 9,
        Pad.bidir 10, Pad.bidir 11, Pad.dvss 1, Pad.bidir 12, Pad.bidir 13, Pad.bidir 14,
        Pad.bidir 15, Pad.dvdd 1, Pad.bidir 16, Pad.bidir 17, Pad.bidir 18, Pad.bidir 19,
        Pad.dvss 2, Pad.bidir 20, Pad.bidir 21, Pad.bidir 22, Pad.bidir 23, Pad.dvdd 2,
        Pad.bidir 24, Pad.bidir 25, Pad.bidir 26, Pad.bidir 27, Pad.bidir 28, Pad.bidir 29,
        Pad.bidir 30, Pad.bidir 31, Pad.bidir 32, Pad.bidir 33],
        34, 3, 3) := by
    have c1 : edge_cap_of [(Edge.east, 23), (Edge.north, 42), (Edge.south, 42), (Edge.west, 23)] Edge.south = 42 := by decide
    have c2 : edge_sig_of [(Edge.north, 42, 36, 6), (Edge.south, 42, 36, 6), (Edge.east, 23, 19, 4), (Edge.west, 23, 19, 4)] Edge.south = 36 := by decide
    have c3 : edge_pow_of [(Edge.north, 42, 36, 6), (Edge.south, 42, 36, 6), (Edge.east, 23, 19, 4), (Edge.west, 23, 19, 4)] Edge.south = 6 := by decide
    simp only [gen_direction, c1, c2, c3]
    decide
  have he : gen_direction (edge_cap_of [(Edge.east, 23), (Edge.north, 42), (Edge.south, 42), (Edge.west, 23)])
      (edge_sig_of [(Edge.north, 42, 36, 6), (Edge.south, 42, 36, 6), (Edge.east, 23, 19, 4), (Edge.west, 23, 19, 4)])
      (edge_pow_of [(Edge.north, 42, 36, 6), (Edge.south, 42, 36, 6), (Edge.east, 23, 19, 4), (Edge.west, 23, 19, 4)])
      Edges.ALL.active_list (clk_rst_edge Edges.ALL) Edge.east 34 3 3 =
      some (
        [Pad.bidir 34, Pad.bidir 35, Pad.bidir 36, Pad.dvss 3, Pad.bidir 37, Pad.bidir 38,
        Pad.bidir 39, Pad.dvdd 3, Pad.bidir 40, Pad.bidir 41, Pad.bidir 42, Pad.dvss 4,
        Pad.bidir 43, Pad.bidir 44, Pad.bidir 45, Pad.dvdd 4, Pad.bidir 46, Pad.bidir 47,
        Pad.bidir 48, Pad.bidir 49, Pad.bidir 50, Pad.bidir 51, Pad.bidir 52],
        53, 5, 5) := by
    have c1 : edge_cap_of [(Edge.east, 23), (Edge.north, 42), (Edge.south, 42), (Edge.west, 23)] Edge.east = 23 := by decide
    have c2 : edge_sig_of [(Edge.north, 42, 36, 6), (Edge.south, 42, 36, 6), (Edge.east, 23, 19, 4), (Edge.west, 23, 19, 4)] Edge.east = 19 := by decide
    have c3 : edge_pow_of [(Edge.north, 42, 36, 6), (Edge.south, 42, 36, 6), (Edge.east, 23, 19, 4), (Edge.west, 23, 19, 4)] Edge.east = 4 := by decide
    simp only [gen_direction, c1, c2, c3]
    decide
  have hn : gen_direction (edge_cap_of [(Edge.east, 23), (Edge.north, 42), (Edge.south, 42), (Edge.west, 23)])
      (edge_sig_of [(Edge.north, 42, 36, 6), (Edge.south, 42, 36, 6), (Edge.east, 23, 19, 4), (Edge.west, 23, 19, 4)])
      (edge_pow_of [(Edge.north, 42, 36, 6), (Edge.south, 42, 36, 6), (Edge.east, 23, 19, 4), (Edge.west, 23, 19, 4)])
      Edges.ALL.active_list (clk_rst_edge Edges.ALL) Edge.north 53 5 5 =
      some (
        [Pad.bidir 88, Pad.bidir 87, Pad.bidir 86, Pad.bidir 85, Pad.bidir 84, Pad.bidir 83,
        Pad.dvdd 7, Pad.bidir 82, Pad.bidir 81, Pad.bidir 80, Pad.bidir 79, Pad.bidir 78,
        Pad.dvss 7, Pad.bidir 77, Pad.bidir 76, Pad.bidir 75, Pad.bidir 74, Pad.bidir 73,
        Pad.dvdd 6, Pad.bidir 72, Pad.bidir 71, Pad.bidir 70, Pad.bidir 69, Pad.bidir 68,
        Pad.dvss 6, Pad.bidir 67, Pad.bidir 66, Pad.bidir 65, Pad.bidir 64, Pad.bidir 63,
        Pad.dvdd 5, Pad.bidir 62, Pad.bidir 61, Pad.bidir 60, Pad.bidir 59, Pad.bidir 58,
        Pad.dvss 5, Pad.bidir 57, Pad.bidir 56, Pad.bidir 55, Pad.bidir 54, Pad.bidir 53],
        89, 8, 8) := by
    have c1 : edge_cap_of [(Edge.east, 23), (Edge.north, 42), (Edge.south, 42), (Edge.west, 23)] Edge.north = 42 := by decide
    have c2 : edge_sig_of [(Edge.north, 42, 36, 6), (Edge.south, 42, 36, 6), (Edge.east, 23, 19, 4), (Edge.west, 23, 19, 4)] Edge.north = 36 := by decide
    have c3 : edge_pow_of [(Edge.north, 42, 36, 6), (Edge.south, 42, 36, 6), (Edge.east, 23, 19, 4), (Edge.west, 23, 19, 4)] Edge.north = 6 := by decide
    simp only [gen_direction, c1, c2, c3]
    decide
  have hw : gen_direction (edge_cap_of [(Edge.east, 23), (Edge.north, 42), (Edge.south, 42), (Edge.west, 23)])
      (edge_sig_of [(Edge.north, 42, 36, 6), (Edge.south, 42, 36, 6), (Edge.east, 23, 19, 4), (Edge.west, 23, 19, 4)])
      (edge_pow_of [(Edge.north, 42, 36, 6), (Edge.south, 42, 36, 6), (Edge.east, 23, 19, 4), (Edge.west, 23, 19, 4)])
      Edges.ALL.active_list (clk_rst_edge Edges.ALL) Edge.west 89 8 8 =
      some (
        [Pad.bidir 107, Pad.bidir 106, Pad.bidir 105, Pad.bidir 104, Pad.bidir 103,
        Pad.bidir 102, Pad.bidir 101, Pad.dvdd 9, Pad.bidir 100, Pad.bidir 99, Pad.bidir 98,
        Pad.dvss 9, Pad.bidir 97, Pad.bidir 96, Pad.bidir 95, Pad.dvdd 8, Pad.bidir 94,
        Pad.bidir 93, Pad.bidir 92, Pad.dvss 8, Pad.bidir 91, Pad.bidir 90, Pad.bidir 89],
        108, 10, 10) := by
    have c1 : edge_cap_of [(Edge.east, 23), (Edge.north, 42), (Edge.south, 42), (Edge.west, 23)] Edge.west = 23 := by decide
    have c2 : edge_sig_of [(Edge.north, 42, 36, 6), (Edge.south, 42, 36, 6), (Edge.east, 23, 19, 4), (Edge.west, 23, 19, 4)] Edge.west = 19 := by decide
    have c3 : edge_pow_of [(Edge.north, 42, 36, 6), (Edge.south, 42, 36, 6), (Edge.east, 23, 19, 4), (Edge.west, 23, 19, 4)] Edge.west = 4 := by decide
    simp only [gen_direction, c1, c2, c3]
    decide
  simp only [generate_config, h1]
  dsimp only [SLOTS]
  rw [h2]
  dsimp only
  rw [h3]
  simp only [build_artifact]
  rw [hs]
  dsimp only
  rw [he]
  dsimp only
  rw [hn]
  dsimp only
  rw [hw]
  dsimp only
  decide

/-- C6 helper: the s1x0p5 slot, MAX density, TOP edges. -/
theorem c6_s1x0p5_max_top :
    option_spec (c6_flags_ok SlotName.s1x0p5) (generate_config (SLOTS SlotName.s1x0p5) Density.MAX Edges.TOP) := by
  have h1 : calculate_pads_for_density (SLOTS SlotName.s1x0p5) Density.MAX Edges.TOP =
      (42, [(Edge.north, 42)]) := by decide
  have h2 : distribute_pads_with_power 42 SlotName.s1x0p5 = (34, 6) := by decide
  have h3 : allocate_edges [(Edge.north, 42)] (34 + 2) 6 =
      [(Edge.north, 42, 36, 6)] := by decide
  have hs : gen_direction (edge_cap_of [(Edge.north, 42)])
      (edge_sig_of [(Edge.north, 42, 36, 6)])
      (edge_pow_of [(Edge.north, 42, 36, 6)])
      Edges.TOP.active_list (clk_rst_edge Edges.TOP) Edge.south 0 0 0 =
      some (
        [],
        0, 0, 0) := by
    have c1 : edge_cap_of [(Edge.north, 42)] Edge.south = 0 := by decide
    have c2 : edge_sig_of [(Edge.north, 42, 36, 6)] Edge.south = 0 := by decide
    have c3 : edge_pow_of [(Edge.north, 42, 36, 6)] Edge.south = 0 := by decide
    simp only [gen_direction, c1, c2, c3]
    decide
  have he : gen_direction (edge_cap_of [(Edge.north, 42)])
      (edge_sig_of [(Edge.north, 42, 36, 6)])
      (edge_pow_of [(Edge.north, 42, 36, 6)])
      Edges.TOP.active_list (clk_rst_edge Edges.TOP) Edge.east 0 0 0 =
      some (
        [],
        0, 0, 0) := by
    have c1 : edge_cap_of [(Edge.north, 42)] Edge.east = 0 := by decide
    have c2 : edge_sig_of [(Edge.north, 42, 36, 6)] Edge.east = 0 := by decide
    have c3 : edge_pow_of [(Edge.north, 42, 36, 6)] Edge.east = 0 := by decide
    simp only [gen_direction, c1, c2, c3]
    decide
  have hn : gen_direction (edge_cap_of [(Edge.north, 42)])
      (edge_sig_of [(Edge.north, 42, 36, 6)])
      (edge_pow_of [(Edge.north, 42, 36, 6)])
      Edges.TOP.active_list (clk_rst_edge Edges.TOP) Edge.north 0 0 0 =
      some (
        [Pad.clk, Pad.rst_n, Pad.bidir 33, Pad.bidir 32, Pad.bidir 31, Pad.bidir 30,
        Pad.bidir 29, Pad.bidir 28, Pad.bidir 27, Pad.bidir 26, Pad.bidir 25, Pad.bidir 24,
        Pad.dvdd 2, Pad.bidir 23, Pad.bidir 22, Pad.bidir 21, Pad.bidir 20, Pad.dvss 2,
        Pad.bidir 19, Pad.bidir 18, Pad.bidir 17, Pad.bidir 16, Pad.dvdd 1, Pad.bidir 15,
        Pad.bidir 14, Pad.bidir 13, Pad.bidir 12, Pad.dvss 1, Pad.bidir 11, Pad.bidir 10,
        Pad.bidir 9, Pad.bidir 8, Pad.dvdd 0, Pad.bidir 7, Pad.bidir 6, Pad.bidir 5, Pad.bidir 4,
        Pad.dvss 0, Pad.bidir 3, Pad.bidir 2, Pad.bidir 1, Pad.bidir 0],
        34, 3, 3) := by
    have c1 : edge_cap_of [(Edge.north, 42)] Edge.north = 42 := by decide
    have c2 : edge_sig_of [(Edge.north, 42, 36, 6)] Edge.north = 36 := by decide
    have c3 : edge_pow_of [(Edge.north, 42, 36, 6)] Edge.north = 6 := by decide
    simp only [gen_direction, c1, c2, c3]
    decide
  have hw : gen_direction (edge_cap_of [(Edge.north, 42)])
      (edge_sig_of [(Edge.north, 42, 36, 6)])
      (edge_pow_of [(Edge.north, 42, 36, 6)])
      Edges.TOP.active_list (clk_rst_edge Edges.TOP) Edge.west 34 3 3 =
      some (
        [],
        34, 3, 3) := by
    have c1 : edge_cap_of [(Edge.north, 42)] Edge.west = 0 := by decide
    have c2 : edge_sig_of [(Edge.north, 42, 36, 6)] Edge.west = 0 := by decide
    have c3 : edge_pow_of [(Edge.north, 42, 36, 6)] Edge.west = 0 := by decide
    simp only [gen_direction, c1, c2, c3]
    decide
  simp only [generate_config, h1]
  dsimp only [SLOTS]
  rw [h2]
  dsimp only
  rw [h3]
  simp only [build_artifact]
  rw [hs]
  dsimp only
  rw [he]
  dsimp only
  rw [hn]
  dsimp only
  rw [hw]
  dsimp only
  decide

/-- C6 helper: the s1x0p5 slot, MAX density, LFT edges. -/
theorem c6_s1x0p5_max_lft :
    option_spec (c6_flags_ok SlotName.s1x0p5) (generate_config (SLOTS SlotName.s1x0p5) Density.MAX Edges.LFT) := by
  have h1 : calculate_pads_for_density (SLOTS SlotName.s1x0p5) Density.MAX Edges.LFT =
      (23, [(Edge.west, 23)]) := by decide
  have h2 : distribute_pads_with_power 23 SlotName.s1x0p5 = (17, 4) := by decide
  have h3 : allocate_edges [(Edge.west, 23)] (17 + 2) 4 =
      [(Edge.west, 23, 19, 4)] := by decide
  have hs : gen_direction (edge_cap_of [(Edge.west, 23)])
      (edge_sig_of [(Edge.west, 23, 19, 4)])
      (edge_pow_of [(Edge.west, 23, 19, 4)])
      Edges.LFT.active_list (clk_rst_edge Edges.LFT) Edge.south 0 0 0 =
      some (
        [],
        0, 0, 0) := by
    have c1 : edge_cap_of [(Edge.west, 23)] Edge.south = 0 := by decide
    have c2 : edge_sig_of [(Edge.west, 23, 19, 4)] Edge.south = 0 := by decide
    have c3 : edge_pow_of [(Edge.west, 23, 19, 4)] Edge.south = 0 := by decide
    simp only [gen_direction, c1, c2, c3]
    decide
  have he : gen_direction (edge_cap_of [(Edge.west, 23)])
      (edge_sig_of [(Edge.west, 23, 19, 4)])
      (edge_pow_of [(Edge.west, 23, 19, 4)])
      Edges.LFT.active_list (clk_rst_edge Edges.LFT) Edge.east 0 0 0 =
      some (
        [],
        0, 0, 0) := by
    have c1 : edge_cap_of [(Edge.west, 23)] Edge.east = 0 := by decide
    have c2 : edge_sig_of [(Edge.west, 23, 19, 4)] Edge.east = 0 := by decide
    have c3 : edge_pow_of [(Edge.west, 23, 19, 4)] Edge.east = 0 := by decide
    simp only [gen_direction, c1, c2, c3]
    decide
  have hn : gen_direction (edge_cap_of [(Edge.west, 23)])
      (edge_sig_of [(Edge.west, 23, 19, 4)])
      (edge_pow_of [(Edge.west, 23, 19, 4)])
      Edges.LFT.active_list (clk_rst_edge Edges.LFT) Edge.north 0 0 0 =
      some (
        [],
        0, 0, 0) := by
    have c1 : edge_cap_of [(Edge.west, 23)] Edge.north = 0 := by decide
    have c2 : edge_sig_of [(Edge.west, 23, 19, 4)] Edge.north = 0 := by decide
    have c3 : edge_pow_of [(Edge.west, 23, 19, 4)] Edge.north = 0 := by decide
    simp only [gen_direction, c1, c2, c3]
    decide
  have hw : gen_direction (edge_cap_of [(Edge.west, 23)])
      (edge_sig_of [(Edge.west, 23, 19, 4)])
      (edge_pow_of [(Edge.west, 23, 19, 4)])
      Edges.LFT.active_list (clk_rst_edge Edges.LFT) Edge.west 0 0 0 =
      some (
        [Pad.clk, Pad.rst_n, Pad.bidir 16, Pad.bidir 15, Pad.bidir 14, Pad.bidir 13,
        Pad.bidir 12, Pad.dvdd 1, Pad.bidir 11, Pad.bidir 10, Pad.bidir 9, Pad.dvss 1,
        Pad.bidir 8, Pad.bidir 7, Pad.bidir 6, Pad.dvdd 0, Pad.bidir 5, Pad.bidir 4, Pad.bidir 3,
        Pad.dvss 0, Pad.bidir 2, Pad.bidir 1, Pad.bidir 0],
        17, 2, 2) := by
    have c1 : edge_cap_of [(Edge.west, 23)] Edge.west = 23 := by decide
    have c2 : edge_sig_of [(Edge.west, 23, 19, 4)] Edge.west = 19 := by decide
    have c3 : edge_pow_of [(Edge.west, 23, 19, 4)] Edge.west = 4 := by decide
    simp only [gen_direction, c1, c2, c3]
    decide
  simp only [generate_config, h1]
  dsimp only [SLOTS]
  rw [h2]
  dsimp only
  rw [h3]
  simp only [build_artifact]
  rw [hs]
  dsimp only
  rw [he]
  dsimp only
  rw [hn]
  dsimp only
  rw [hw]
  dsimp only
  decide

/-- C6 helper: the s1x0p5 slot, MAX density, HOR edges. -/
theorem c6_s1x0p5_max_hor :
    option_spec (c6_flags_ok SlotName.s1x0p5) (generate_config (SLOTS SlotName.s1x0p5) Density.MAX Edges.HOR) := by
  have h1 : calculate_pads_for_density (SLOTS SlotName.s1x0p5) Density.MAX Edges.HOR =
      (84, [(Edge.north, 42), (Edge.south, 42)]) := by decide
  have h2 : distribute_pads_with_power 84 SlotName.s1x0p5 = (70, 12) := by decide
  have h3 : allocate_edges [(Edge.north, 42), (Edge.south, 42)] (70 + 2) 12 =
      [(Edge.north, 42, 36, 6), (Edge.south, 42, 36, 6)] := by decide
  have hs : gen_direction (edge_cap_of [(Edge.north, 42), (Edge.south, 42)])
      (edge_sig_of [(Edge.north, 42, 36, 6), (Edge.south, 42, 36, 6)])
      (edge_pow_of [(Edge.north, 42, 36, 6), (Edge.south, 42, 36, 6)])
      Edges.HOR.active_list (clk_rst_edge Edges.HOR) Edge.south 0 0 0 =
      some (
        [Pad.clk, Pad.rst_n, Pad.bidir 0, Pad.bidir 1, Pad.bidir 2, Pad.bidir 3, Pad.dvss 0,
        Pad.bidir 4, Pad.bidir 5, Pad.bidir 6, Pad.bidir 7, Pad.dvdd 0, Pad.bidir 8, Pad.bidir 9,
        Pad.bidir 10, Pad.bidir 11, Pad.dvss 1, Pad.bidir 12, Pad.bidir 13, Pad.bidir 14,
        Pad.bidir 15, Pad.dvdd 1, Pad.bidir 16, Pad.bidir 17, Pad.bidir 18, Pad.bidir 19,
        Pad.dvss 2, Pad.bidir 20, Pad.bidir 21, Pad.bidir 22, Pad.bidir 23, Pad.dvdd 2,
        Pad.bidir 24, Pad.bidir 25, Pad.bidir 26, Pad.bidir 27, Pad.bidir 28, Pad.bidir 29,
        Pad.bidir 30, Pad.bidir 31, Pad.bidir 32, Pad.bidir 33],
        34, 3, 3) := by
    have c1 : edge_cap_of [(Edge.north, 42), (Edge.south, 42)] Edge.south = 42 := by decide
    have c2 : edge_sig_of [(Edge.north, 42, 36, 6), (Edge.south, 42, 36, 6)] Edge.south = 36 := by decide
    have c3 : edge_pow_of [(Edge.north, 42, 36, 6), (Edge.south, 42, 36, 6)] Edge.south = 6 := by decide
    simp only [gen_direction, c1, c2, c3]
    decide
  have he : gen_direction (edge_cap_of [(Edge.north, 42), (Edge.south, 42)])
      (edge_sig_of [(Edge.north, 42, 36, 6), (Edge.south, 42, 36, 6)])
      (edge_pow_of [(Edge.north, 42, 36, 6), (Edge.south, 42, 36, 6)])
      Edges.HOR.active_list (clk_rst_edge Edges.HOR) Edge.east 34 3 3 =
      some (
        [],
        34, 3, 3) := by
    have c1 : edge_cap_of [(Edge.north, 42), (Edge.south, 42)] Edge.east = 0 := by decide
    have c2 : edge_sig_of [(Edge.north, 42, 36, 6), (Edge.south, 42, 36, 6)] Edge.east = 0 := by decide
    have c3 : edge_pow_of [(Edge.north, 42, 36, 6), (Edge.south, 42, 36, 6)] Edge.east = 0 := by decide
    simp only [gen_direction, c1, c2, c3]
    decide
  have hn : gen_direction (edge_cap_of [(Edge.north, 42), (Edge.south, 42)])
      (edge_sig_of [(Edge.north, 42, 36, 6), (Edge.south, 42, 36, 6)])
      (edge_pow_of [(Edge.north, 42, 36, 6), (Edge.south, 42, 36, 6)])
      Edges.HOR.active_list (clk_rst_edge Edges.HOR) Edge.north 34 3 3 =
      some (
        [Pad.bidir 69, Pad.bidir 68, Pad.bidir 67, Pad.bidir 66, Pad.bidir 65, Pad.bidir 64,
        Pad.dvdd 5, Pad.bidir 63, Pad.bidir 62, Pad.bidir 61, Pad.bidir 60, Pad.bidir 59,
        Pad.dvss 5, Pad.bidir 58, Pad.bidir 57, Pad.bidir 56, Pad.bidir 55, Pad.bidir 54,
        Pad.dvdd 4, Pad.bidir 53, Pad.bidir 52, Pad.bidir 51, Pad.bidir 50, Pad.bidir 49,
        Pad.dvss 4, Pad.bidir 48, Pad.bidir 47, Pad.bidir 46, Pad.bidir 45, Pad.bidir 44,
        Pad.dvdd 3, Pad.bidir 43, Pad.bidir 42, Pad.bidir 41, Pad.bidir 40, Pad.bidir 39,
        Pad.dvss 3, Pad.bidir 38, Pad.bidir 37, Pad.bidir 36, Pad.bidir 35, Pad.bidir 34],
        70, 6, 6) := by
    have c1 : edge_cap_of [(Edge.north, 42), (Edge.south, 42)] Edge.north = 42 := by decide
    have c2 : edge_sig_of [(Edge.north, 42, 36, 6), (Edge.south, 42, 36, 6)] Edge.north = 36 := by decide
    have c3 : edge_pow_of [(Edge.north, 42, 36, 6), (Edge.south, 42, 36, 6)] Edge.north = 6 := by decide
    simp only [gen_direction, c1, c2, c3]
    decide
  have hw : gen_direction (edge_cap_of [(Edge.north, 42), (Edge.south, 42)])
      (edge_sig_of [(Edge.north, 42, 36, 6), (Edge.south, 42, 36, 6)])
      (edge_pow_of [(Edge.north, 42, 36, 6), (Edge.south, 42, 36, 6)])
      Edges.HOR.active_list (clk_rst_edge Edges.HOR) Edge.west 70 6 6 =
      some (
        [],
        70, 6, 6) := by
    have c1 : edge_cap_of [(Edge.north, 42), (Edge.south, 42)] Edge.west = 0 := by decide
    have c2 : edge_sig_of [(Edge.north, 42, 36, 6), (Edge.south, 42, 36, 6)] Edge.west = 0 := by decide
    have c3 : edge_pow_of [(Edge.north, 42, 36, 6), (Edge.south, 42, 36, 6)] Edge.west = 0 := by decide
    simp only [gen_direction, c1, c2, c3]
    decide
  simp only [generate_config, h1]
  dsimp only [SLOTS]
  rw [h2]
  dsimp only
  rw [h3]
  simp only [build_artifact]
  rw [hs]
  dsimp only
  rw [he]
  dsimp only
  rw [hn]
  dsimp only
  rw [hw]
  dsimp only
  decide

/-- C6 helper: the s1x0p5 slot, MAX density, VER edges. -/
theorem c6_s1x0p5_max_ver :
    option_spec (c6_flags_ok SlotName.s1x0p5) (generate_config (SLOTS SlotName.s1x0p5) Density.MAX Edges.VER) := by
  have h1 : calculate_pads_for_density (SLOTS SlotName.s1x0p5) Density.MAX Edges.VER =
      (46, [(Edge.east, 23), (Edge.west, 23)]) := by decide
  have h2 : distribute_pads_with_power 46 SlotName.s1x0p5 = (38, 6) := by decide
  have h3 : allocate_edges [(Edge.east, 23), (Edge.west, 23)] (38 + 2) 6 =
      [(Edge.east, 23, 20, 3), (Edge.west, 23, 20, 3)] := by decide
  have hs : gen_direction (edge_cap_of [(Edge.east, 23), (Edge.west, 23)])
      (edge_sig_of [(Edge.east, 23, 20, 3), (Edge.west, 23, 20, 3)])
      (edge_pow_of [(Edge.east, 23, 20, 3), (Edge.west, 23, 20, 3)])
      Edges.VER.active_list (clk_rst_edge Edges.VER) Edge.south 0 0 0 =
      some (
        [],
        0, 0, 0) := by
    have c1 : edge_cap_of [(Edge.east, 23), (Edge.west, 23)] Edge.south = 0 := by decide
    have c2 : edge_sig_of [(Edge.east, 23, 20, 3), (Edge.west, 23, 20, 3)] Edge.south = 0 := by decide
    have c3 : edge_pow_of [(Edge.east, 23, 20, 3), (Edge.west, 23, 20, 3)] Edge.south = 0 := by decide
    simp only [gen_direction, c1, c2, c3]
    decide
  have he : gen_direction (edge_cap_of [(Edge.east, 23), (Edge.west, 23)])
      (edge_sig_of [(Edge.east, 23, 20, 3), (Edge.west, 23, 20, 3)])
      (edge_pow_of [(Edge.east, 23, 20, 3), (Edge.west, 23, 20, 3)])
      Edges.VER.active_list (clk_rst_edge Edges.VER) Edge.east 0 0 0 =
      some (
        [Pad.bidir 0, Pad.bidir 1, Pad.bidir 2, Pad.bidir 3, Pad.bidir 4, Pad.dvss 0,
        Pad.bidir 5, Pad.bidir 6, Pad.bidir 7, Pad.bidir 8, Pad.bidir 9, Pad.dvdd 0,
        Pad.bidir 10, Pad.bidir 11, Pad.bidir 12, Pad.bidir 13, Pad.bidir 14, Pad.dvss 1,
        Pad.bidir 15, Pad.bidir 16, Pad.bidir 17, Pad.bidir 18, Pad.bidir 19],
        20, 1, 2) := by
    have c1 : edge_cap_of [(Edge.east, 23), (Edge.west, 23)] Edge.east = 23 := by decide
    have c2 : edge_sig_of [(Edge.east, 23, 20, 3), (Edge.west, 23, 20, 3)] Edge.east = 20 := by decide
    have c3 : edge_pow_of [(Edge.east, 23, 20, 3), (Edge.west, 23, 20, 3)] Edge.east = 3 := by decide
    simp only [gen_direction, c1, c2, c3]
    decide
  have hn : gen_direction (edge_cap_of [(Edge.east, 23), (Edge.west, 23)])
      (edge_sig_of [(Edge.east, 23, 20, 3), (Edge.west, 23, 20, 3)])
      (edge_pow_of [(Edge.east, 23, 20, 3), (Edge.west, 23, 20, 3)])
      Edges.VER.active_list (clk_rst_edge Edges.VER) Edge.north 20 1 2 =
      some (
        [],
        20, 1, 2) := by
    have c1 : edge_cap_of [(Edge.east, 23), (Edge.west, 23)] Edge.north = 0 := by decide
    have c2 : edge_sig_of [(Edge.east, 23, 20, 3), (Edge.west, 23, 20, 3)] Edge.north = 0 := by decide
    have c3 : edge_pow_of [(Edge.east, 23, 20, 3), (Edge.west, 23, 20, 3)] Edge.north = 0 := by decide
    simp only [gen_direction, c1, c2, c3]
    decide
  have hw : gen_direction (edge_cap_of [(Edge.east, 23), (Edge.west, 23)])
      (edge_sig_of [(Edge.east, 23, 20, 3), (Edge.west, 23, 20, 3)])
      (edge_pow_of [(Edge.east, 23, 20, 3), (Edge.west, 23, 20, 3)])
      Edges.VER.active_list (clk_rst_edge Edges.VER) Edge.west 20 1 2 =
      some (
        [Pad.clk, Pad.rst_n, Pad.bidir 37, Pad.bidir 36, Pad.bidir 35, Pad.bidir 34,
        Pad.bidir 33, Pad.bidir 32, Pad.dvdd 2, Pad.bidir 31, Pad.bidir 30, Pad.bidir 29,
        Pad.bidir 28, Pad.dvss 2, Pad.bidir 27, Pad.bidir 26, Pad.bidir 25, Pad.bidir 24,
        Pad.dvdd 1, Pad.bidir 23, Pad.bidir 22, Pad.bidir 21, Pad.bidir 20],
        38, 3, 3) := by
    have c1 : edge_cap_of [(Edge.east, 23), (Edge.west, 23)] Edge.west = 23 := by decide
    have c2 : edge_sig_of [(Edge.east, 23, 20, 3), (Edge.west, 23, 20, 3)] Edge.west = 20 := by decide
    have c3 : edge_pow_of [(Edge.east, 23, 20, 3), (Edge.west, 23, 20, 3)] Edge.west = 3 := by decide
    simp only [gen_direction, c1, c2, c3]
    decide
  simp only [generate_config, h1]
  dsimp only [SLOTS]
  rw [h2]
  dsimp only
  rw [h3]
  simp only [build_artifact]
  rw [hs]
  dsimp only
  rw [he]
  dsimp only
  rw [hn]
  dsimp only
  rw [hw]
  dsimp only
  decide

/-- C6 helper: the s1x0p5 slot, MAX density, NWC edges. -/
theorem c6_s1x0p5_max_nwc :
    option_spec (c6_flags_ok SlotName.s1x0p5) (generate_config (SLOTS SlotName.s1x0p5) Density.MAX Edges.NWC) := by
  have h1 : calculate_pads_for_density (SLOTS SlotName.s1x0p5) Density.MAX Edges.NWC =
      (65, [(Edge.north, 42), (Edge.west, 23)]) := by decide
  have h2 : distribute_pads_with_power 65 SlotName.s1x0p5 = (53, 10) := by decide
  have h3 : allocate_edges [(Edge.north, 42), (Edge.west, 23)] (53 + 2) 10 =
      [(Edge.north, 42, 36, 6), (Edge.west, 23, 19, 4)] := by decide
  have hs : gen_direction (edge_cap_of [(Edge.north, 42), (Edge.west, 23)])
      (edge_sig_of [(Edge.north, 42, 36, 6), (Edge.west, 23, 19, 4)])
      (edge_pow_of [(Edge.north, 42, 36, 6), (Edge.west, 23, 19, 4)])
      Edges.NWC.active_list (clk_rst_edge Edges.NWC) Edge.south 0 0 0 =
      some (
        [],
        0, 0, 0) := by
    have c1 : edge_cap_of [(Edge.north, 42), (Edge.west, 23)] Edge.south = 0 := by decide
    have c2 : edge_sig_of [(Edge.north, 42, 36, 6), (Edge.west, 23, 19, 4)] Edge.south = 0 := by decide
    have c3 : edge_pow_of [(Edge.north, 42, 36, 6), (Edge.west, 23, 19, 4)] Edge.south = 0 := by decide
    simp only [gen_direction, c1, c2, c3]
    decide
  have he : gen_direction (edge_cap_of [(Edge.north, 42), (Edge.west, 23)])
      (edge_sig_of [(Edge.north, 42, 36, 6), (Edge.west, 23, 19, 4)])
      (edge_pow_of [(Edge.north, 42, 36, 6), (Edge.west, 23, 19, 4)])
      Edges.NWC.active_list (clk_rst_edge Edges.NWC) Edge.east 0 0 0 =
      some (
        [],
        0, 0, 0) := by
    have c1 : edge_cap_of [(Edge.north, 42), (Edge.west, 23)] Edge.east = 0 := by decide
    have c2 : edge_sig_of [(Edge.north, 42, 36, 6), (Edge.west, 23, 19, 4)] Edge.east = 0 := by decide
    have c3 : edge_pow_of [(Edge.north, 42, 36, 6), (Edge.west, 23, 19, 4)] Edge.east = 0 := by decide
    simp only [gen_direction, c1, c2, c3]
    decide
  have hn : gen_direction (edge_cap_of [(Edge.north, 42), (Edge.west, 23)])
      (edge_sig_of [(Edge.north, 42, 36, 6), (Edge.west, 23, 19, 4)])
      (edge_pow_of [(Edge.north, 42, 36, 6), (Edge.west, 23, 19, 4)])
      Edges.NWC.active_list (clk_rst_edge Edges.NWC) Edge.north 0 0 0 =
      some (
        [Pad.bidir 35, Pad.bidir 34, Pad.bidir 33, Pad.bidir 32, Pad.bidir 31, Pad.bidir 30,
        Pad.dvdd 2, Pad.bidir 29, Pad.bidir 28, Pad.bidir 27, Pad.bidir 26, Pad.bidir 25,
        Pad.dvss 2, Pad.bidir 24, Pad.bidir 23, Pad.bidir 22, Pad.bidir 21, Pad.bidir 20,
        Pad.dvdd 1, Pad.bidir 19, Pad.bidir 18, Pad.bidir 17, Pad.bidir 16, Pad.bidir 15,
        Pad.dvss 1, Pad.bidir 14, Pad.bidir 13, Pad.bidir 12, Pad.bidir 11, Pad.bidir 10,
        Pad.dvdd 0, Pad.bidir 9, Pad.bidir 8, Pad.bidir 7, Pad.bidir 6, Pad.bidir 5, Pad.dvss 0,
        Pad.bidir 4, Pad.bidir 3, Pad.bidir 2, Pad.bidir 1, Pad.bidir 0],
        36, 3, 3) := by
    have c1 : edge_cap_of [(Edge.north, 42), (Edge.west, 23)] Edge.north = 42 := by decide
    have c2 : edge_sig_of [(Edge.north, 42, 36, 6), (Edge.west, 23, 19, 4)] Edge.north = 36 := by decide
    have c3 : edge_pow_of [(Edge.north, 42, 36, 6), (Edge.west, 23, 19, 4)] Edge.north = 6 := by decide
    simp only [gen_direction, c1, c2, c3]
    decide
  have hw : gen_direction (edge_cap_of [(Edge.north, 42), (Edge.west, 23)])
      (edge_sig_of [(Edge.north, 42, 36, 6), (Edge.west, 23, 19, 4)])
      (edge_pow_of [(Edge.north, 42, 36, 6), (Edge.west, 23, 19, 4)])
      Edges.NWC.active_list (clk_rst_edge Edges.NWC) Edge.west 36 3 3 =
      some (
        [Pad.clk, Pad.rst_n, Pad.bidir 52, Pad.bidir 51, Pad.bidir 50, Pad.bidir 49,
        Pad.bidir 48, Pad.dvdd 4, Pad.bidir 47, Pad.bidir 46, Pad.bidir 45, Pad.dvss 4,
        Pad.bidir 44, Pad.bidir 43, Pad.bidir 42, Pad.dvdd 3, Pad.bidir 41, Pad.bidir 40,
        Pad.bidir 39, Pad.dvss 3, Pad.bidir 38, Pad.bidir 37, Pad.bidir 36],
        53, 5, 5) := by
    have c1 : edge_cap_of [(Edge.north, 42), (Edge.west, 23)] Edge.west = 23 := by decide
    have c2 : edge_sig_of [(Edge.north, 42, 36, 6), (Edge.west, 23, 19, 4)] Edge.west = 19 := by decide
    have c3 : edge_pow_of [(Edge.north, 42, 36, 6), (Edge.west, 23, 19, 4)] Edge.west = 4 := by decide
    simp only [gen_direction, c1, c2, c3]
    decide
  simp only [generate_config, h1]
  dsimp only [SLOTS]
  rw [h2]
  dsimp only
  rw [h3]
  simp only [build_artifact]
  rw [hs]
  dsimp only
  rw [he]
  dsimp only
  rw [hn]
  dsimp only
  rw [hw]
  dsimp only
  decide

/-- C6 helper: the s1x0p5 slot, MAX density, SEC edges. -/
theorem c6_s1x0p5_max_sec :
    option_spec (c6_flags_ok SlotName.s1x0p5) (generate_config (SLOTS SlotName.s1x0p5) Density.MAX Edges.SEC) := by
  have h1 : calculate_pads_for_density (SLOTS SlotName.s1x0p5) Density.MAX Edges.SEC =
      (65, [(Edge.east, 23), (Edge.south, 42)]) := by decide
  have h2 : distribute_pads_with_power 65 SlotName.s1x0p5 = (53, 10) := by decide
  have h3 : allocate_edges [(Edge.east, 23), (Edge.south, 42)] (53 + 2) 10 =
      [(Edge.south, 42, 36, 6), (Edge.east, 23, 19, 4)] := by decide
  have hs : gen_direction (edge_cap_of [(Edge.east, 23), (Edge.south, 42)])
      (edge_sig_of [(Edge.south, 42, 36, 6), (Edge.east, 23, 19, 4)])
      (edge_pow_of [(Edge.south, 42, 36, 6), (Edge.east, 23, 19, 4)])
      Edges.SEC.active_list (clk_rst_edge Edges.SEC) Edge.south 0 0 0 =
      some (
        [Pad.clk, Pad.rst_n, Pad.bidir 0, Pad.bidir 1, Pad.bidir 2, Pad.bidir 3, Pad.dvss 0,
        Pad.bidir 4, Pad.bidir 5, Pad.bidir 6, Pad.bidir 7, Pad.dvdd 0, Pad.bidir 8, Pad.bidir 9,
        Pad.bidir 10, Pad.bidir 11, Pad.dvss 1, Pad.bidir 12, Pad.bidir 13, Pad.bidir 14,
        Pad.bidir 15, Pad.dvdd 1, Pad.bidir 16, Pad.bidir 17, Pad.bidir 18, Pad.bidir 19,
        Pad.dvss 2, Pad.bidir 20, Pad.bidir 21, Pad.bidir 22, Pad.bidir 23, Pad.dvdd 2,
        Pad.bidir 24, Pad.bidir 25, Pad.bidir 26, Pad.bidir 27, Pad.bidir 28, Pad.bidir 29,
        Pad.bidir 30, Pad.bidir 31, Pad.bidir 32, Pad.bidir 33],
        34, 3, 3) := by
    have c1 : edge_cap_of [(Edge.east, 23), (Edge.south, 42)] Edge.south = 42 := by decide
    have c2 : edge_sig_of [(Edge.south, 42, 36, 6), (Edge.east, 23, 19, 4)] Edge.south = 36 := by decide
    have c3 : edge_pow_of [(Edge.south, 42, 36, 6), (Edge.east, 23, 19, 4)] Edge.south = 6 := by decide
    simp only [gen_direction, c1, c2, c3]
    decide
  have he : gen_direction (edge_cap_of [(Edge.east, 23), (Edge.south, 42)])
      (edge_sig_of [(Edge.south, 42, 36, 6), (Edge.east, 23, 19, 4)])
      (edge_pow_of [(Edge.south, 42, 36, 6), (Edge.east, 23, 19, 4)])
      Edges.SEC.active_list (clk_rst_edge Edges.SEC) Edge.east 34 3 3 =
      some (
        [Pad.bidir 34, Pad.bidir 35, Pad.bidir 36, Pad.dvss 3, Pad.bidir 37, Pad.bidir 38,
        Pad.bidir 39, Pad.dvdd 3, Pad.bidir 40, Pad.bidir 41, Pad.bidir 42, Pad.dvss 4,
        Pad.bidir 43, Pad.bidir 44, Pad.bidir 45, Pad.dvdd 4, Pad.bidir 46, Pad.bidir 47,
        Pad.bidir 48, Pad.bidir 49, Pad.bidir 50, Pad.bidir 51, Pad.bidir 52],
        53, 5, 5) := by
    have c1 : edge_cap_of [(Edge.east, 23), (Edge.south, 42)] Edge.east = 23 := by decide
    have c2 : edge_sig_of [(Edge.south, 42, 36, 6), (Edge.east, 23, 19, 4)] Edge.east = 19 := by decide
    have c3 : edge_pow_of [(Edge.south, 42, 36, 6), (Edge.east, 23, 19, 4)] Edge.east = 4 := by decide
    simp only [gen_direction, c1, c2, c3]
    decide
  have hn : gen_direction (edge_cap_of [(Edge.east, 23), (Edge.south, 42)])
      (edge_sig_of [(Edge.south, 42, 36, 6), (Edge.east, 23, 19, 4)])
      (edge_pow_of [(Edge.south, 42, 36, 6), (Edge.east, 23, 19, 4)])
      Edges.SEC.active_list (clk_rst_edge Edges.SEC) Edge.north 53 5 5 =
      some (
        [],
        53, 5, 5) := by
    have c1 : edge_cap_of [(Edge.east, 23), (Edge.south, 42)] Edge.north = 0 := by decide
    have c2 : edge_sig_of [(Edge.south, 42, 36, 6), (Edge.east, 23, 19, 4)] Edge.north = 0 := by decide
    have c3 : edge_pow_of [(Edge.south, 42, 36, 6), (Edge.east, 23, 19, 4)] Edge.north = 0 := by decide
    simp only [gen_direction, c1, c2, c3]
    decide
  have hw : gen_direction (edge_cap_of [(Edge.east, 23), (Edge.south, 42)])
      (edge_sig_of [(Edge.south, 42, 36, 6), (Edge.east, 23, 19, 4)])
      (edge_pow_of [(Edge.south, 42, 36, 6), (Edge.east, 23, 19, 4)])
      Edges.SEC.active_list (clk_rst_edge Edges.SEC) Edge.west 53 5 5 =
      some (
        [],
        53, 5, 5) := by
    have c1 : edge_cap_of [(Edge.east, 23), (Edge.south, 42)] Edge.west = 0 := by decide
    have c2 : edge_sig_of [(Edge.south, 42, 36, 6), (Edge.east, 23, 19, 4)] Edge.west = 0 := by decide
    have c3 : edge_pow_of [(Edge.south, 42, 36, 6), (Edge.east, 23, 19, 4)] Edge.west = 0 := by decide
    simp only [gen_direction, c1, c2, c3]
    decide
  simp only [generate_config, h1]
  dsimp only [SLOTS]
  rw [h2]
  dsimp only
  rw [h3]
  simp only [build_artifact]
  rw [hs]
  dsimp only
  rw [he]
  dsimp only
  rw [hn]
  dsimp only
  rw [hw]
  dsimp only
  decide

/-- C6 helper: the s1x0p5 slot, SPC density, ALL edges. -/
theorem c6_s1x0p5_spc_all :
    option_spec (c6_flags_ok SlotName.s1x0p5) (generate_config (SLOTS SlotName.s1x0p5) Density.SPC Edges.ALL) := by
  have h1 : calculate_pads_for_density (SLOTS SlotName.s1x0p5) Density.SPC Edges.ALL =
      (130, [(Edge.east, 23), (Edge.north, 42), (Edge.south, 42), (Edge.west, 23)]) := by decide
  have h2 : distribute_pads_with_power 130 SlotName.s1x0p5 = (108, 20) := by decide
  have h3 : allocate_edges [(Edge.east, 23), (Edge.north, 42), (Edge.south, 42), (Edge.west, 23)] (108 + 2) 20 =
      [(Edge.north, 42, 36, 6), (Edge.south, 42, 36, 6), (Edge.east, 23, 19, 4), (Edge.west, 23, 19, 4)] := by decide
  have hs : gen_direction (edge_cap_of [(Edge.east, 23), (Edge.north, 42), (Edge.south, 42), (Edge.west, 23)])
      (edge_sig_of [(Edge.north, 42, 36, 6), (Edge.south, 42, 36, 6), (Edge.east, 23, 19, 4), (Edge.west, 23, 19, 4)])
      (edge_pow_of [(Edge.north, 42, 36, 6), (Edge.south, 42, 36, 6), (Edge.east, 23, 19, 4), (Edge.west, 23, 19, 4)])
      Edges.ALL.active_list (clk_rst_edge Edges.ALL) Edge.south 0 0 0 =
      some (
        [Pad.clk, Pad.rst_n, Pad.bidir 0, Pad.bidir 1, Pad.bidir 2, Pad.bidir 3, Pad.dvss 0,
        Pad.bidir 4, Pad.bidir 5, Pad.bidir 6, Pad.bidir 7, Pad.dvdd 0, Pad.bidir 8, Pad.bidir 9,
        Pad.bidir 10, Pad.bidir 11, Pad.dvss 1, Pad.bidir 12, Pad.bidir 13, Pad.bidir 14,
        Pad.bidir 15, Pad.dvdd 1, Pad.bidir 16, Pad.bidir 17, Pad.bidir 18, Pad.bidir 19,
        Pad.dvss 2, Pad.bidir 20, Pad.bidir 21, Pad.bidir 22, Pad.bidir 23, Pad.dvdd 2,
        Pad.bidir 24, Pad.bidir 25, Pad.bidir 26, Pad.bidir 27, Pad.bidir 28, Pad.bidir 29,
        Pad.bidir 30, Pad.bidir 31, Pad.bidir 32, Pad.bidir 33],
        34, 3, 3) := by
    have c1 : edge_cap_of [(Edge.east, 23), (Edge.north, 42), (Edge.south, 42), (Edge.west, 23)] Edge.south = 42 := by decide
    have c2 : edge_sig_of [(Edge.north, 42, 36, 6), (Edge.south, 42, 36, 6), (Edge.east, 23, 19, 4), (Edge.west, 23, 19, 4)] Edge.south = 36 := by decide
    have c3 : edge_pow_of [(Edge.north, 42, 36, 6), (Edge.south, 42, 36, 6), (Edge.east, 23, 19, 4), (Edge.west, 23, 19, 4)] Edge.south = 6 := by decide
    simp only [gen_direction, c1, c2, c3]
    decide
  have he : gen_direction (edge_cap_of [(Edge.east, 23), (Edge.north, 42), (Edge.south, 42), (Edge.west, 23)])
      (edge_sig_of [(Edge.north, 42, 36, 6), (Edge.south, 42, 36, 6), (Edge.east, 23, 19, 4), (Edge.west, 23, 19, 4)])
      (edge_pow_of [(Edge.north, 42, 36, 6), (Edge.south, 42, 36, 6), (Edge.east, 23, 19, 4), (Edge.west, 23, 19, 4)])
      Edges.ALL.active_list (clk_rst_edge Edges.ALL) Edge.east 34 3 3 =
      some (
        [Pad.bidir 34, Pad.bidir 35, Pad.bidir 36, Pad.dvss 3, Pad.bidir 37, Pad.bidir 38,
        Pad.bidir 39, Pad.dvdd 3, Pad.bidir 40, Pad.bidir 41, Pad.bidir 42, Pad.dvss 4,
        Pad.bidir 43, Pad.bidir 44, Pad.bidir 45, Pad.dvdd 4, Pad.bidir 46, Pad.bidir 47,
        Pad.bidir 48, Pad.bidir 49, Pad.bidir 50, Pad.bidir 51, Pad.bidir 52],
        53, 5, 5) := by
    have c1 : edge_cap_of [(Edge.east, 23), (Edge.north, 42), (Edge.south, 42), (Edge.west, 23)] Edge.east = 23 := by decide
    have c2 : edge_sig_of [(Edge.north, 42, 36, 6), (Edge.south, 42, 36, 6), (Edge.east, 23, 19, 4), (Edge.west, 23, 19, 4)] Edge.east = 19 := by decide
    have c3 : edge_pow_of [(Edge.north, 42, 36, 6), (Edge.south, 42, 36, 6), (Edge.east, 23, 19, 4), (Edge.west, 23, 19, 4)] Edge.east = 4 := by decide
    simp only [gen_direction, c1, c2, c3]
    decide
  have hn : gen_direction (edge_cap_of [(Edge.east, 23), (Edge.north, 42), (Edge.south, 42), (Edge.west, 23)])
      (edge_sig_of [(Edge.north, 42, 36, 6), (Edge.south, 42, 36, 6), (Edge.east, 23, 19, 4), (Edge.west, 23, 19, 4)])
      (edge_pow_of [(Edge.north, 42, 36, 6), (Edge.south, 42, 36, 6), (Edge.east, 23, 19, 4), (Edge.west, 23, 19, 4)])
      Edges.ALL.active_list (clk_rst_edge Edges.ALL) Edge.north 53 5 5 =
      some (
        [Pad.bidir 88, Pad.bidir 87, Pad.bidir 86, Pad.bidir 85, Pad.bidir 84, Pad.bidir 83,
        Pad.dvdd 7, Pad.bidir 82, Pad.bidir 81, Pad.bidir 80, Pad.bidir 79, Pad.bidir 78,
        Pad.dvss 7, Pad.bidir 77, Pad.bidir 76, Pad.bidir 75, Pad.bidir 74, Pad.bidir 73,
        Pad.dvdd 6, Pad.bidir 72, Pad.bidir 71, Pad.bidir 70, Pad.bidir 69, Pad.bidir 68,
        Pad.dvss 6, Pad.bidir 67, Pad.bidir 66, Pad.bidir 65, Pad.bidir 64, Pad.bidir 63,
        Pad.dvdd 5, Pad.bidir 62, Pad.bidir 61, Pad.bidir 60, Pad.bidir 59, Pad.bidir 58,
        Pad.dvss 5, Pad.bidir 57, Pad.bidir 56, Pad.bidir 55, Pad.bidir 54, Pad.bidir 53],
        89, 8, 8) := by
    have c1 : edge_cap_of [(Edge.east, 23), (Edge.north, 42), (Edge.south, 42), (Edge.west, 23)] Edge.north = 42 := by decide
    have c2 : edge_sig_of [(Edge.north, 42, 36, 6), (Edge.south, 42, 36, 6), (Edge.east, 23, 19, 4), (Edge.west, 23, 19, 4)] Edge.north = 36 := by decide
    have c3 : edge_pow_of [(Edge.north, 42, 36, 6), (Edge.south, 42, 36, 6), (Edge.east, 23, 19, 4), (Edge.west, 23, 19, 4)] Edge.north = 6 := by decide
    simp only [gen_direction, c1, c2, c3]
    decide
  have hw : gen_direction (edge_cap_of [(Edge.east, 23), (Edge.north, 42), (Edge.south, 42), (Edge.west, 23)])
      (edge_sig_of [(Edge.north, 42, 36, 6), (Edge.south, 42, 36, 6), (Edge.east, 23, 19, 4), (Edge.west, 23, 19, 4)])
      (edge_pow_of [(Edge.north, 42, 36, 6), (Edge.south, 42, 36, 6), (Edge.east, 23, 19, 4), (Edge.west, 23, 19, 4)])
      Edges.ALL.active_list (clk_rst_edge Edges.ALL) Edge.west 89 8 8 =
      some (
        [Pad.bidir 107, Pad.bidir 106, Pad.bidir 105, Pad.bidir 104, Pad.bidir 103,
        Pad.bidir 102, Pad.bidir 101, Pad.dvdd 9, Pad.bidir 100, Pad.bidir 99, Pad.bidir 98,
        Pad.dvss 9, Pad.bidir 97, Pad.bidir 96, Pad.bidir 95, Pad.dvdd 8, Pad.bidir 94,
        Pad.bidir 93, Pad.bidir 92, Pad.dvss 8, Pad.bidir 91, Pad.bidir 90, Pad.bidir 89],
        108, 10, 10) := by
    have c1 : edge_cap_of [(Edge.east, 23), (Edge.north, 42), (Edge.south, 42), (Edge.west, 23)] Edge.west = 23 := by decide
    have c2 : edge_sig_of [(Edge.north, 42, 36, 6), (Edge.south, 42, 36, 6), (Edge.east, 23, 19, 4), (Edge.west, 23, 19, 4)] Edge.west = 19 := by decide
    have c3 : edge_pow_of [(Edge.north, 42, 36, 6), (Edge.south, 42, 36, 6), (Edge.east, 23, 19, 4), (Edge.west, 23, 19, 4)] Edge.west = 4 := by decide
    simp only [gen_direction, c1, c2, c3]
    decide
  simp only [generate_config, h1]
  dsimp only [SLOTS]
  rw [h2]
  dsimp only
  rw [h3]
  simp only [build_artifact]
  rw [hs]
  dsimp only
  rw [he]
  dsimp only
  rw [hn]
  dsimp only
  rw [hw]
  dsimp only
  decide

/-- C6 helper: the s1x0p5 slot, SPC density, TOP edges. -/
theorem c6_s1x0p5_spc_top :
    option_spec (c6_flags_ok SlotName.s1x0p5) (generate_config (SLOTS SlotName.s1x0p5) Density.SPC Edges.TOP) := by
  have h1 : calculate_pads_for_density (SLOTS SlotName.s1x0p5) Density.SPC Edges.TOP =
      (42, [(Edge.north, 42)]) := by decide
  have h2 : distribute_pads_with_power 42 SlotName.s1x0p5 = (34, 6) := by decide
  have h3 : allocate_edges [(Edge.north, 42)] (34 + 2) 6 =
      [(Edge.north, 42, 36, 6)] := by decide
  have hs : gen_direction (edge_cap_of [(Edge.north, 42)])
      (edge_sig_of [(Edge.north, 42, 36, 6)])
      (edge_pow_of [(Edge.north, 42, 36, 6)])
      Edges.TOP.active_list (clk_rst_edge Edges.TOP) Edge.south 0 0 0 =
      some (
        [],
        0, 0, 0) := by
    have c1 : edge_cap_of [(Edge.north, 42)] Edge.south = 0 := by decide
    have c2 : edge_sig_of [(Edge.north, 42, 36, 6)] Edge.south = 0 := by decide
    have c3 : edge_pow_of [(Edge.north, 42, 36, 6)] Edge.south = 0 := by decide
    simp only [gen_direction, c1, c2, c3]
    decide
  have he : gen_direction (edge_cap_of [(Edge.north, 42)])
      (edge_sig_of [(Edge.north, 42, 36, 6)])
      (edge_pow_of [(Edge.north, 42, 36, 6)])
      Edges.TOP.active_list (clk_rst_edge Edges.TOP) Edge.east 0 0 0 =
      some (
        [],
        0, 0, 0) := by
    have c1 : edge_cap_of [(Edge.north, 42)] Edge.east = 0 := by decide
    have c2 : edge_sig_of [(Edge.north, 42, 36, 6)] Edge.east = 0 := by decide
    have c3 : edge_pow_of [(Edge.north, 42, 36, 6)] Edge.east = 0 := by decide
    simp only [gen_direction, c1, c2, c3]
    decide
  have hn : gen_direction (edge_cap_of [(Edge.north, 42)])
      (edge_sig_of [(Edge.north, 42, 36, 6)])
      (edge_pow_of [(Edge.north, 42, 36, 6)])
      Edges.TOP.active_list (clk_rst_edge Edges.TOP) Edge.north 0 0 0 =
      some (
        [Pad.clk, Pad.rst_n, Pad.bidir 33, Pad.bidir 32, Pad.bidir 31, Pad.bidir 30,
        Pad.bidir 29, Pad.bidir 28, Pad.bidir 27, Pad.bidir 26, Pad.bidir 25, Pad.bidir 24,
        Pad.dvdd 2, Pad.bidir 23, Pad.bidir 22, Pad.bidir 21, Pad.bidir 20, Pad.dvss 2,
        Pad.bidir 19, Pad.bidir 18, Pad.bidir 17, Pad.bidir 16, Pad.dvdd 1, Pad.bidir 15,
        Pad.bidir 14, Pad.bidir 13, Pad.bidir 12, Pad.dvss 1, Pad.bidir 11, Pad.bidir 10,
        Pad.bidir 9, Pad.bidir 8, Pad.dvdd 0, Pad.bidir 7, Pad.bidir 6, Pad.bidir 5, Pad.bidir 4,
        Pad.dvss 0, Pad.bidir 3, Pad.bidir 2, Pad.bidir 1, Pad.bidir 0],
        34, 3, 3) := by
    have c1 : edge_cap_of [(Edge.north, 42)] Edge.north = 42 := by decide
    have c2 : edge_sig_of [(Edge.north, 42, 36, 6)] Edge.north = 36 := by decide
    have c3 : edge_pow_of [(Edge.north, 42, 36, 6)] Edge.north = 6 := by decide
    simp only [gen_direction, c1, c2, c3]
    decide
  have hw : gen_direction (edge_cap_of [(Edge.north, 42)])
      (edge_sig_of [(Edge.north, 42, 36, 6)])
      (edge_pow_of [(Edge.north, 42, 36, 6)])
      Edges.TOP.active_list (clk_rst_edge Edges.TOP) Edge.west 34 3 3 =
      some (
        [],
        34, 3, 3) := by
    have c1 : edge_cap_of [(Edge.north, 42)] Edge.west = 0 := by decide
    have c2 : edge_sig_of [(Edge.north, 42, 36, 6)] Edge.west = 0 := by decide
    have c3 : edge_pow_of [(Edge.north, 42, 36, 6)] Edge.west = 0 := by decide
    simp only [gen_direction, c1, c2, c3]
    decide
  simp only [generate_config, h1]
  dsimp only [SLOTS]
  rw [h2]
  dsimp only
  rw [h3]
  simp only [build_artifact]
  rw [hs]
  dsimp only
  rw [he]
  dsimp only
  rw [hn]
  dsimp only
  rw [hw]
  dsimp only
  decide

/-- C6 helper: the s1x0p5 slot, SPC density, LFT edges. -/
theorem c6_s1x0p5_spc_lft :
    option_spec (c6_flags_ok SlotName.s1x0p5) (generate_config (SLOTS SlotName.s1x0p5) Density.SPC Edges.LFT) := by
  have h1 : calculate_pads_for_density (SLOTS SlotName.s1x0p5) Density.SPC Edges.LFT =
      (23, [(Edge.west, 23)]) := by decide
  have h2 : distribute_pads_with_power 23 SlotName.s1x0p5 = (17, 4) := by decide
  have h3 : allocate_edges [(Edge.west, 23)] (17 + 2) 4 =
      [(Edge.west, 23, 19, 4)] := by decide
  have hs : gen_direction (edge_cap_of [(Edge.west, 23)])
      (edge_sig_of [(Edge.west, 23, 19, 4)])
      (edge_pow_of [(Edge.west, 23, 19, 4)])
      Edges.LFT.active_list (clk_rst_edge Edges.LFT) Edge.south 0 0 0 =
      some (
        [],
        0, 0, 0) := by
    have c1 : edge_cap_of [(Edge.west, 23)] Edge.south = 0 := by decide
    have c2 : edge_sig_of [(Edge.west, 23, 19, 4)] Edge.south = 0 := by decide
    have c3 : edge_pow_of [(Edge.west, 23, 19, 4)] Edge.south = 0 := by decide
    simp only [gen_direction, c1, c2, c3]
    decide
  have he : gen_direction (edge_cap_of [(Edge.west, 23)])
      (edge_sig_of [(Edge.west, 23, 19, 4)])
      (edge_pow_of [(Edge.west, 23, 19, 4)])
      Edges.LFT.active_list (clk_rst_edge Edges.LFT) Edge.east 0 0 0 =
      some (
        [],
        0, 0, 0) := by
    have c1 : edge_cap_of [(Edge.west, 23)] Edge.east = 0 := by decide
    have c2 : edge_sig_of [(Edge.west, 23, 19, 4)] Edge.east = 0 := by decide
    have c3 : edge_pow_of [(Edge.west, 23, 19, 4)] Edge.east = 0 := by decide
    simp only [gen_direction, c1, c2, c3]
    decide
  have hn : gen_direction (edge_cap_of [(Edge.west, 23)])
      (edge_sig_of [(Edge.west, 23, 19, 4)])
      (edge_pow_of [(Edge.west, 23, 19, 4)])
      Edges.LFT.active_list (clk_rst_edge Edges.LFT) Edge.north 0 0 0 =
      some (
        [],
        0, 0, 0) := by
    have c1 : edge_cap_of [(Edge.west, 23)] Edge.north = 0 := by decide
    have c2 : edge_sig_of [(Edge.west, 23, 19, 4)] Edge.north = 0 := by decide
    have c3 : edge_pow_of [(Edge.west, 23, 19, 4)] Edge.north = 0 := by decide
    simp only [gen_direction, c1, c2, c3]
    decide
  have hw : gen_direction (edge_cap_of [(Edge.west, 23)])
      (edge_sig_of [(Edge.west, 23, 19, 4)])
      (edge_pow_of [(Edge.west, 23, 19, 4)])
      Edges.LFT.active_list (clk_rst_edge Edges.LFT) Edge.west 0 0 0 =
      some (
        [Pad.clk, Pad.rst_n, Pad.bidir 16, Pad.bidir 15, Pad.bidir 14, Pad.bidir 13,
        Pad.bidir 12, Pad.dvdd 1, Pad.bidir 11, Pad.bidir 10, Pad.bidir 9, Pad.dvss 1,
        Pad.bidir 8, Pad.bidir 7, Pad.bidir 6, Pad.dvdd 0, Pad.bidir 5, Pad.bidir 4, Pad.bidir 3,
        Pad.dvss 0, Pad.bidir 2, Pad.bidir 1, Pad.bidir 0],
        17, 2, 2) := by
    have c1 : edge_cap_of [(Edge.west, 23)] Edge.west = 23 := by decide
    have c2 : edge_sig_of [(Edge.west, 23, 19, 4)] Edge.west = 19 := by decide
    have c3 : edge_pow_of [(Edge.west, 23, 19, 4)] Edge.west = 4 := by decide
    simp only [gen_direction, c1, c2, c3]
    decide
  simp only [generate_config, h1]
  dsimp only [SLOTS]
  rw [h2]
  dsimp only
  rw [h3]
  simp only [build_artifact]
  rw [hs]
  dsimp only
  rw [he]
  dsimp only
  rw [hn]
  dsimp only
  rw [hw]
  dsimp only
  decide

/-- C6 helper: the s1x0p5 slot, SPC density, HOR edges. -/
theorem c6_s1x0p5_spc_hor :
    option_spec (c6_flags_ok SlotName.s1x0p5) (generate_config (SLOTS SlotName.s1x0p5) Density.SPC Edges.HOR) := by
  have h1 : calculate_pads_for_density (SLOTS SlotName.s1x0p5) Density.SPC Edges.HOR =
      (84, [(Edge.north, 42), (Edge.south, 42)]) := by decide
  have h2 : distribute_pads_with_power 84 SlotName.s1x0p5 = (70, 12) := by decide
  have h3 : allocate_edges [(Edge.north, 42), (Edge.south, 42)] (70 + 2) 12 =
      [(Edge.north, 42, 36, 6), (Edge.south, 42, 36, 6)] := by decide
  have hs : gen_direction (edge_cap_of [(Edge.north, 42), (Edge.south, 42)])
      (edge_sig_of [(Edge.north, 42, 36, 6), (Edge.south, 42, 36, 6)])
      (edge_pow_of [(Edge.north, 42, 36, 6), (Edge.south, 42, 36, 6)])
      Edges.HOR.active_list (clk_rst_edge Edges.HOR) Edge.south 0 0 0 =
      some (
        [Pad.clk, Pad.rst_n, Pad.bidir 0, Pad.bidir 1, Pad.bidir 2, Pad.bidir 3, Pad.dvss 0,
        Pad.bidir 4, Pad.bidir 5, Pad.bidir 6, Pad.bidir 7, Pad.dvdd 0, Pad.bidir 8, Pad.bidir 9,
        Pad.bidir 10, Pad.bidir 11, Pad.dvss 1, Pad.bidir 12, Pad.bidir 13, Pad.bidir 14,
        Pad.bidir 15, Pad.dvdd 1, Pad.bidir 16, Pad.bidir 17, Pad.bidir 18, Pad.bidir 19,
        Pad.dvss 2, Pad.bidir 20, Pad.bidir 21, Pad.bidir 22, Pad.bidir 23, Pad.dvdd 2,
        Pad.bidir 24, Pad.bidir 25, Pad.bidir 26, Pad.bidir 27, Pad.bidir 28, Pad.bidir 29,
        Pad.bidir 30, Pad.bidir 31, Pad.bidir 32, Pad.bidir 33],
        34, 3, 3) := by
    have c1 : edge_cap_of [(Edge.north, 42), (Edge.south, 42)] Edge.south = 42 := by decide
    have c2 : edge_sig_of [(Edge.north, 42, 36, 6), (Edge.south, 42, 36, 6)] Edge.south = 36 := by decide
    have c3 : edge_pow_of [(Edge.north, 42, 36, 6), (Edge.south, 42, 36, 6)] Edge.south = 6 := by decide
    simp only [gen_direction, c1, c2, c3]
    decide
  have he : gen_direction (edge_cap_of [(Edge.north, 42), (Edge.south, 42)])
      (edge_sig_of [(Edge.north, 42, 36, 6), (Edge.south, 42, 36, 6)])
      (edge_pow_of [(Edge.north, 42, 36, 6), (Edge.south, 42, 36, 6)])
      Edges.HOR.active_list (clk_rst_edge Edges.HOR) Edge.east 34 3 3 =
      some (
        [],
        34, 3, 3) := by
    have c1 : edge_cap_of [(Edge.north, 42), (Edge.south, 42)] Edge.east = 0 := by decide
    have c2 : edge_sig_of [(Edge.north, 42, 36, 6), (Edge.south, 42, 36, 6)] Edge.east = 0 := by decide
    have c3 : edge_pow_of [(Edge.north, 42, 36, 6), (Edge.south, 42, 36, 6)] Edge.east = 0 := by decide
    simp only [gen_direction, c1, c2, c3]
    decide
  have hn : gen_direction (edge_cap_of [(Edge.north, 42), (Edge.south, 42)])
      (edge_sig_of [(Edge.north, 42, 36, 6), (Edge.south, 42, 36, 6)])
      (edge_pow_of [(Edge.north, 42, 36, 6), (Edge.south, 42, 36, 6)])
      Edges.HOR.active_list (clk_rst_edge Edges.HOR) Edge.north 34 3 3 =
      some (
        [Pad.bidir 69, Pad.bidir 68, Pad.bidir 67, Pad.bidir 66, Pad.bidir 65, Pad.bidir 64,
        Pad.dvdd 5, Pad.bidir 63, Pad.bidir 62, Pad.bidir 61, Pad.bidir 60, Pad.bidir 59,
        Pad.dvss 5, Pad.bidir 58, Pad.bidir 57, Pad.bidir 56, Pad.bidir 55, Pad.bidir 54,
        Pad.dvdd 4, Pad.bidir 53, Pad.bidir 52, Pad.bidir 51, Pad.bidir 50, Pad.bidir 49,
        Pad.dvss 4, Pad.bidir 48, Pad.bidir 47, Pad.bidir 46, Pad.bidir 45, Pad.bidir 44,
        Pad.dvdd 3, Pad.bidir 43, Pad.bidir 42, Pad.bidir 41, Pad.bidir 40, Pad.bidir 39,
        Pad.dvss 3, Pad.bidir 38, Pad.bidir 37, Pad.bidir 36, Pad.bidir 35, Pad.bidir 34],
        70, 6, 6) := by
    have c1 : edge_cap_of [(Edge.north, 42), (Edge.south, 42)] Edge.north = 42 := by decide
    have c2 : edge_sig_of [(Edge.north, 42, 36, 6), (Edge.south, 42, 36, 6)] Edge.north = 36 := by decide
    have c3 : edge_pow_of [(Edge.north, 42, 36, 6), (Edge.south, 42, 36, 6)] Edge.north = 6 := by decide
    simp only [gen_direction, c1, c2, c3]
    decide
  have hw : gen_direction (edge_cap_of [(Edge.north, 42), (Edge.south, 42)])
      (edge_sig_of [(Edge.north, 42, 36, 6), (Edge.south, 42, 36, 6)])
      (edge_pow_of [(Edge.north, 42, 36, 6), (Edge.south, 42, 36, 6)])
      Edges.HOR.active_list (clk_rst_edge Edges.HOR) Edge.west 70 6 6 =
      some (
        [],
        70, 6, 6) := by
    have c1 : edge_cap_of [(Edge.north, 42), (Edge.south, 42)] Edge.west = 0 := by decide
    have c2 : edge_sig_of [(Edge.north, 42, 36, 6), (Edge.south, 42, 36, 6)] Edge.west = 0 := by decide
    have c3 : edge_pow_of [(Edge.north, 42, 36, 6), (Edge.south, 42, 36, 6)] Edge.west = 0 := by decide
    simp only [gen_direction, c1, c2, c3]
    decide
  simp only [generate_config, h1]
  dsimp only [SLOTS]
  rw [h2]
  dsimp only
  rw [h3]
  simp only [build_artifact]
  rw [hs]
  dsimp only
  rw [he]
  dsimp only
  rw [hn]
  dsimp only
  rw [hw]
  dsimp only
  decide

/-- C6 helper: the s1x0p5 slot, SPC density, VER edges. -/
theorem c6_s1x0p5_spc_ver :
    option_spec (c6_flags_ok SlotName.s1x0p5) (generate_config (SLOTS SlotName.s1x0p5) Density.SPC Edges.VER) := by
  have h1 : calculate_pads_for_density (SLOTS SlotName.s1x0p5) Density.SPC Edges.VER =
      (46, [(Edge.east, 23), (Edge.west, 23)]) := by decide
  have h2 : distribute_pads_with_power 46 SlotName.s1x0p5 = (38, 6) := by decide
  have h3 : allocate_edges [(Edge.east, 23), (Edge.west, 23)] (38 + 2) 6 =
      [(Edge.east, 23, 20, 3), (Edge.west, 23, 20, 3)] := by decide
  have hs : gen_direction (edge_cap_of [(Edge.east, 23), (Edge.west, 23)])
      (edge_sig_of [(Edge.east, 23, 20, 3), (Edge.west, 23, 20, 3)])
      (edge_pow_of [(Edge.east, 23, 20, 3), (Edge.west, 23, 20, 3)])
      Edges.VER.active_list (clk_rst_edge Edges.VER) Edge.south 0 0 0 =
      some (
        [],
        0, 0, 0) := by
    have c1 : edge_cap_of [(Edge.east, 23), (Edge.west, 23)] Edge.south = 0 := by decide
    have c2 : edge_sig_of [(Edge.east, 23, 20, 3), (Edge.west, 23, 20, 3)] Edge.south = 0 := by decide
    have c3 : edge_pow_of [(Edge.east, 23, 20, 3), (Edge.west, 23, 20, 3)] Edge.south = 0 := by decide
    simp only [gen_direction, c1, c2, c3]
    decide
  have he : gen_direction (edge_cap_of [(Edge.east, 23), (Edge.west, 23)])
      (edge_sig_of [(Edge.east, 23, 20, 3), (Edge.west, 23, 20, 3)])
      (edge_pow_of [(Edge.east, 23, 20, 3), (Edge.west, 23, 20, 3)])
      Edges.VER.active_list (clk_rst_edge Edges.VER) Edge.east 0 0 0 =
      some (
        [Pad.bidir 0, Pad.bidir 1, Pad.bidir 2, Pad.bidir 3, Pad.bidir 4, Pad.dvss 0,
        Pad.bidir 5, Pad.bidir 6, Pad.bidir 7, Pad.bidir 8, Pad.bidir 9, Pad.dvdd 0,
        Pad.bidir 10, Pad.bidir 11, Pad.bidir 12, Pad.bidir 13, Pad.bidir 14, Pad.dvss 1,
        Pad.bidir 15, Pad.bidir 16, Pad.bidir 17, Pad.bidir 18, Pad.bidir 19],
        20, 1, 2) := by
    have c1 : edge_cap_of [(Edge.east, 23), (Edge.west, 23)] Edge.east = 23 := by decide
    have c2 : edge_sig_of [(Edge.east, 23, 20, 3), (Edge.west, 23, 20, 3)] Edge.east = 20 := by decide
    have c3 : edge_pow_of [(Edge.east, 23, 20, 3), (Edge.west, 23, 20, 3)] Edge.east = 3 := by decide
    simp only [gen_direction, c1, c2, c3]
    decide
  have hn : gen_direction (edge_cap_of [(Edge.east, 23), (Edge.west, 23)])
      (edge_sig_of [(Edge.east, 23, 20, 3), (Edge.west, 23, 20, 3)])
      (edge_pow_of [(Edge.east, 23, 20, 3), (Edge.west, 23, 20, 3)])
      Edges.VER.active_list (clk_rst_edge Edges.VER) Edge.north 20 1 2 =
      some (
        [],
        20, 1, 2) := by
    have c1 : edge_cap_of [(Edge.east, 23), (Edge.west, 23)] Edge.north = 0 := by decide
    have c2 : edge_sig_of [(Edge.east, 23, 20, 3), (Edge.west, 23, 20, 3)] Edge.north = 0 := by decide
    have c3 : edge_pow_of [(Edge.east, 23, 20, 3), (Edge.west, 23, 20, 3)] Edge.north = 0 := by decide
    simp only [gen_direction, c1, c2, c3]
    decide
  have hw : gen_direction (edge_cap_of [(Edge.east, 23), (Edge.west, 23)])
      (edge_sig_of [(Edge.east, 23, 20, 3), (Edge.west, 23, 20, 3)])
      (edge_pow_of [(Edge.east, 23, 20, 3), (Edge.west, 23, 20, 3)])
      Edges.VER.active_list (clk_rst_edge Edges.VER) Edge.west 20 1 2 =
      some (
        [Pad.clk, Pad.rst_n, Pad.bidir 37, Pad.bidir 36, Pad.bidir 35, Pad.bidir 34,
        Pad.bidir 33, Pad.bidir 32, Pad.dvdd 2, Pad.bidir 31, Pad.bidir 30, Pad.bidir 29,
        Pad.bidir 28, Pad.dvss 2, Pad.bidir 27, Pad.bidir 26, Pad.bidir 25, Pad.bidir 24,
        Pad.dvdd 1, Pad.bidir 23, Pad.bidir 22, Pad.bidir 21, Pad.bidir 20],
        38, 3, 3) := by
    have c1 : edge_cap_of [(Edge.east, 23), (Edge.west, 23)] Edge.west = 23 := by decide
    have c2 : edge_sig_of [(Edge.east, 23, 20, 3), (Edge.west, 23, 20, 3)] Edge.west = 20 := by decide
    have c3 : edge_pow_of [(Edge.east, 23, 20, 3), (Edge.west, 23, 20, 3)] Edge.west = 3 := by decide
    simp only [gen_direction, c1, c2, c3]
    decide
  simp only [generate_config, h1]
  dsimp only [SLOTS]
  rw [h2]
  dsimp only
  rw [h3]
  simp only [build_artifact]
  rw [hs]
  dsimp only
  rw [he]
  dsimp only
  rw [hn]
  dsimp only
  rw [hw]
  dsimp only
  decide

/-- C6 helper: the s1x0p5 slot, SPC density, NWC edges. -/
theorem c6_s1x0p5_spc_nwc :
    option_spec (c6_flags_ok SlotName.s1x0p5) (generate_config (SLOTS SlotName.s1x0p5) Density.SPC Edges.NWC) := by
  have h1 : calculate_pads_for_density (SLOTS SlotName.s1x0p5) Density.SPC Edges.NWC =
      (65, [(Edge.north, 42), (Edge.west, 23)]) := by decide
  have h2 : distribute_pads_with_power 65 SlotName.s1x0p5 = (53, 10) := by decide
  have h3 : allocate_edges [(Edge.north, 42), (Edge.west, 23)] (53 + 2) 10 =
      [(Edge.north, 42, 36, 6), (Edge.west, 23, 19, 4)] := by decide
  have hs : gen_direction (edge_cap_of [(Edge.north, 42), (Edge.west, 23)])
      (edge_sig_of [(Edge.north, 42, 36, 6), (Edge.west, 23, 19, 4)])
      (edge_pow_of [(Edge.north, 42, 36, 6), (Edge.west, 23, 19, 4)])
      Edges.NWC.active_list (clk_rst_edge Edges.NWC) Edge.south 0 0 0 =
      some (
        [],
        0, 0, 0) := by
    have c1 : edge_cap_of [(Edge.north, 42), (Edge.west, 23)] Edge.south = 0 := by decide
    have c2 : edge_sig_of [(Edge.north, 42, 36, 6), (Edge.west, 23, 19, 4)] Edge.south = 0 := by decide
    have c3 : edge_pow_of [(Edge.north, 42, 36, 6), (Edge.west, 23, 19, 4)] Edge.south = 0 := by decide
    simp only [gen_direction, c1, c2, c3]
    decide
  have he : gen_direction (edge_cap_of [(Edge.north, 42), (Edge.west, 23)])
      (edge_sig_of [(Edge.north, 42, 36, 6), (Edge.west, 23, 19, 4)])
      (edge_pow_of [(Edge.north, 42, 36, 6), (Edge.west, 23, 19, 4)])
      Edges.NWC.active_list (clk_rst_edge Edges.NWC) Edge.east 0 0 0 =
      some (
        [],
        0, 0, 0) := by
    have c1 : edge_cap_of [(Edge.north, 42), (Edge.west, 23)] Edge.east = 0 := by decide
    have c2 : edge_sig_of [(Edge.north, 42, 36, 6), (Edge.west, 23, 19, 4)] Edge.east = 0 := by decide
    have c3 : edge_pow_of [(Edge.north, 42, 36, 6), (Edge.west, 23, 19, 4)] Edge.east = 0 := by decide
    simp only [gen_direction, c1, c2, c3]
    decide
  have hn : gen_direction (edge_cap_of [(Edge.north, 42), (Edge.west, 23)])
      (edge_sig_of [(Edge.north, 42, 36, 6), (Edge.west, 23, 19, 4)])
      (edge_pow_of [(Edge.north, 42, 36, 6), (Edge.west, 23, 19, 4)])
      Edges.NWC.active_list (clk_rst_edge Edges.NWC) Edge.north 0 0 0 =
      some (
        [Pad.bidir 35, Pad.bidir 34, Pad.bidir 33, Pad.bidir 32, Pad.bidir 31, Pad.bidir 30,
        Pad.dvdd 2, Pad.bidir 29, Pad.bidir 28, Pad.bidir 27, Pad.bidir 26, Pad.bidir 25,
        Pad.dvss 2, Pad.bidir 24, Pad.bidir 23, Pad.bidir 22, Pad.bidir 21, Pad.bidir 20,
        Pad.dvdd 1, Pad.bidir 19, Pad.bidir 18, Pad.bidir 17, Pad.bidir 16, Pad.bidir 15,
        Pad.dvss 1, Pad.bidir 14, Pad.bidir 13, Pad.bidir 12, Pad.bidir 11, Pad.bidir 10,
        Pad.dvdd 0, Pad.bidir 9, Pad.bidir 8, Pad.bidir 7, Pad.bidir 6, Pad.bidir 5, Pad.dvss 0,
        Pad.bidir 4, Pad.bidir 3, Pad.bidir 2, Pad.bidir 1, Pad.bidir 0],
        36, 3, 3) := by
    have c1 : edge_cap_of [(Edge.north, 42), (Edge.west, 23)] Edge.north = 42 := by decide
    have c2 : edge_sig_of [(Edge.north, 42, 36, 6), (Edge.west, 23, 19, 4)] Edge.north = 36 := by decide
    have c3 : edge_pow_of [(Edge.north, 42, 36, 6), (Edge.west, 23, 19, 4)] Edge.north = 6 := by decide
    simp only [gen_direction, c1, c2, c3]
    decide
  have hw : gen_direction (edge_cap_of [(Edge.north, 42), (Edge.west, 23)])
      (edge_sig_of [(Edge.north, 42, 36, 6), (Edge.west, 23, 19, 4)])
      (edge_pow_of [(Edge.north, 42, 36, 6), (Edge.west, 23, 19, 4)])
      Edges.NWC.active_list (clk_rst_edge Edges.NWC) Edge.west 36 3 3 =
      some (
        [Pad.clk, Pad.rst_n, Pad.bidir 52, Pad.bidir 51, Pad.bidir 50, Pad.bidir 49,
        Pad.bidir 48, Pad.dvdd 4, Pad.bidir 47, Pad.bidir 46, Pad.bidir 45, Pad.dvss 4,
        Pad.bidir 44, Pad.bidir 43, Pad.bidir 42, Pad.dvdd 3, Pad.bidir 41, Pad.bidir 40,
        Pad.bidir 39, Pad.dvss 3, Pad.bidir 38, Pad.bidir 37, Pad.bidir 36],
        53, 5, 5) := by
    have c1 : edge_cap_of [(Edge.north, 42), (Edge.west, 23)] Edge.west = 23 := by decide
    have c2 : edge_sig_of [(Edge.north, 42, 36, 6), (Edge.west, 23, 19, 4)] Edge.west = 19 := by decide
    have c3 : edge_pow_of [(Edge.north, 42, 36, 6), (Edge.west, 23, 19, 4)] Edge.west = 4 := by decide
    simp only [gen_direction, c1, c2, c3]
    decide
  simp only [generate_config, h1]
  dsimp only [SLOTS]
  rw [h2]
  dsimp only
  rw [h3]
  simp only [build_artifact]
  rw [hs]
  dsimp only
  rw [he]
  dsimp only
  rw [hn]
  dsimp only
  rw [hw]
  dsimp only
  decide

/-- C6 helper: the s1x0p5 slot, SPC density, SEC edges. -/
theorem c6_s1x0p5_spc_sec :
    option_spec (c6_flags_ok SlotName.s1x0p5) (generate_config (SLOTS SlotName.s1x0p5) Density.SPC Edges.SEC) := by
  have h1 : calculate_pads_for_density (SLOTS SlotName.s1x0p5) Density.SPC Edges.SEC =
      (65, [(Edge.east, 23), (Edge.south, 42)]) := by decide
  have h2 : distribute_pads_with_power 65 SlotName.s1x0p5 = (53, 10) := by decide
  have h3 : allocate_edges [(Edge.east, 23), (Edge.south, 42)] (53 + 2) 10 =
      [(Edge.south, 42, 36, 6), (Edge.east, 23, 19, 4)] := by decide
  have hs : gen_direction (edge_cap_of [(Edge.east, 23), (Edge.south, 42)])
      (edge_sig_of [(Edge.south, 42, 36, 6), (Edge.east, 23, 19, 4)])
      (edge_pow_of [(Edge.south, 42, 36, 6), (Edge.east, 23, 19, 4)])
      Edges.SEC.active_list (clk_rst_edge Edges.SEC) Edge.south 0 0 0 =
      some (
        [Pad.clk, Pad.rst_n, Pad.bidir 0, Pad.bidir 1, Pad.bidir 2, Pad.bidir 3, Pad.dvss 0,
        Pad.bidir 4, Pad.bidir 5, Pad.bidir 6, Pad.bidir 7, Pad.dvdd 0, Pad.bidir 8, Pad.bidir 9,
        Pad.bidir 10, Pad.bidir 11, Pad.dvss 1, Pad.bidir 12, Pad.bidir 13, Pad.bidir 14,
        Pad.bidir 15, Pad.dvdd 1, Pad.bidir 16, Pad.bidir 17, Pad.bidir 18, Pad.bidir 19,
        Pad.dvss 2, Pad.bidir 20, Pad.bidir 21, Pad.bidir 22, Pad.bidir 23, Pad.dvdd 2,
        Pad.bidir 24, Pad.bidir 25, Pad.bidir 26, Pad.bidir 27, Pad.bidir 28, Pad.bidir 29,
        Pad.bidir 30, Pad.bidir 31, Pad.bidir 32, Pad.bidir 33],
        34, 3, 3) := by
    have c1 : edge_cap_of [(Edge.east, 23), (Edge.south, 42)] Edge.south = 42 := by decide
    have c2 : edge_sig_of [(Edge.south, 42, 36, 6), (Edge.east, 23, 19, 4)] Edge.south = 36 := by decide
    have c3 : edge_pow_of [(Edge.south, 42, 36, 6), (Edge.east, 23, 19, 4)] Edge.south = 6 := by decide
    simp only [gen_direction, c1, c2, c3]
    decide
  have he : gen_direction (edge_cap_of [(Edge.east, 23), (Edge.south, 42)])
      (edge_sig_of [(Edge.south, 42, 36, 6), (Edge.east, 23, 19, 4)])
      (edge_pow_of [(Edge.south, 42, 36, 6), (Edge.east, 23, 19, 4)])
      Edges.SEC.active_list (clk_rst_edge Edges.SEC) Edge.east 34 3 3 =
      some (
        [Pad.bidir 34, Pad.bidir 35, Pad.bidir 36, Pad.dvss 3, Pad.bidir 37, Pad.bidir 38,
        Pad.bidir 39, Pad.dvdd 3, Pad.bidir 40, Pad.bidir 41, Pad.bidir 42, Pad.dvss 4,
        Pad.bidir 43, Pad.bidir 44, Pad.bidir 45, Pad.dvdd 4, Pad.bidir 46, Pad.bidir 47,
        Pad.bidir 48, Pad.bidir 49, Pad.bidir 50, Pad.bidir 51, Pad.bidir 52],
        53, 5, 5) := by
    have c1 : edge_cap_of [(Edge.east, 23), (Edge.south, 42)] Edge.east = 23 := by decide
    have c2 : edge_sig_of [(Edge.south, 42, 36, 6), (Edge.east, 23, 19, 4)] Edge.east = 19 := by decide
    have c3 : edge_pow_of [(Edge.south, 42, 36, 6), (Edge.east, 23, 19, 4)] Edge.east = 4 := by decide
    simp only [gen_direction, c1, c2, c3]
    decide
  have hn : gen_direction (edge_cap_of [(Edge.east, 23), (Edge.south, 42)])
      (edge_sig_of [(Edge.south, 42, 36, 6), (Edge.east, 23, 19, 4)])
      (edge_pow_of [(Edge.south, 42, 36, 6), (Edge.east, 23, 19, 4)])
      Edges.SEC.active_list (clk_rst_edge Edges.SEC) Edge.north 53 5 5 =
      some (
        [],
        53, 5, 5) := by
    have c1 : edge_cap_of [(Edge.east, 23), (Edge.south, 42)] Edge.north = 0 := by decide
    have c2 : edge_sig_of [(Edge.south, 42, 36, 6), (Edge.east, 23, 19, 4)] Edge.north = 0 := by decide
    have c3 : edge_pow_of [(Edge.south, 42, 36, 6), (Edge.east, 23, 19, 4)] Edge.north = 0 := by decide
    simp only [gen_direction, c1, c2, c3]
    decide
  have hw : gen_direction (edge_cap_of [(Edge.east, 23), (Edge.south, 42)])
      (edge_sig_of [(Edge.south, 42, 36, 6), (Edge.east, 23, 19, 4)])
      (edge_pow_of [(Edge.south, 42, 36, 6), (Edge.east, 23, 19, 4)])
      Edges.SEC.active_list (clk_rst_edge Edges.SEC) Edge.west 53 5 5 =
      some (
        [],
        53, 5, 5) := by
    have c1 : edge_cap_of [(Edge.east, 23), (Edge.south, 42)] Edge.west = 0 := by decide
    have c2 : edge_sig_of [(Edge.south, 42, 36, 6), (Edge.east, 23, 19, 4)] Edge.west = 0 := by decide
    have c3 : edge_pow_of [(Edge.south, 42, 36, 6), (Edge.east, 23, 19, 4)] Edge.west = 0 := by decide
    simp only [gen_direction, c1, c2, c3]
    decide
  simp only [generate_config, h1]
  dsimp only [SLOTS]
  rw [h2]
  dsimp only
  rw [h3]
  simp only [build_artifact]
  rw [hs]
  dsimp only
  rw [he]
  dsimp only
  rw [hn]
  dsimp only
  rw [hw]
  dsimp only
  decide

/-- C6 helper: the s1x0p5 slot, NUM density, ALL edges. -/
theorem c6_s1x0p5_num_all :
    option_spec (c6_flags_ok SlotName.s1x0p5) (generate_config (SLOTS SlotName.s1x0p5) Density.NUM Edges.ALL) := by
  have h1 : calculate_pads_for_density (SLOTS SlotName.s1x0p5) Density.NUM Edges.ALL =
      (74, [(Edge.east, 13), (Edge.north, 23), (Edge.south, 23), (Edge.west, 15)]) := by decide
  have h2 : distribute_pads_with_power 74 SlotName.s1x0p5 = (62, 10) := by decide
  have h3 : allocate_edges [(Edge.east, 13), (Edge.north, 23), (Edge.south, 23), (Edge.west, 15)] (62 + 2) 10 =
      [(Edge.north, 23, 20, 3), (Edge.south, 23, 20, 3), (Edge.west, 15, 13, 2), (Edge.east, 13, 11, 2)] := by decide
  have hs : gen_direction (edge_cap_of [(Edge.east, 13), (Edge.north, 23), (Edge.south, 23), (Edge.west, 15)])
      (edge_sig_of [(Edge.north, 23, 20, 3), (Edge.south, 23, 20, 3), (Edge.west, 15, 13, 2), (Edge.east, 13, 11, 2)])
      (edge_pow_of [(Edge.north, 23, 20, 3), (Edge.south, 23, 20, 3), (Edge.west, 15, 13, 2), (Edge.east, 13, 11, 2)])
      Edges.ALL.active_list (clk_rst_edge Edges.ALL) Edge.south 0 0 0 =
      some (
        [Pad.clk, Pad.rst_n, Pad.bidir 0, Pad.bidir 1, Pad.bidir 2, Pad.bidir 3, Pad.dvss 0,
        Pad.bidir 4, Pad.bidir 5, Pad.bidir 6, Pad.bidir 7, Pad.dvdd 0, Pad.bidir 8, Pad.bidir 9,
        Pad.bidir 10, Pad.bidir 11, Pad.dvss 1, Pad.bidir 12, Pad.bidir 13, Pad.bidir 14,
        Pad.bidir 15, Pad.bidir 16, Pad.bidir 17],
        18, 1, 2) := by
    have c1 : edge_cap_of [(Edge.east, 13), (Edge.north, 23), (Edge.south, 23), (Edge.west, 15)] Edge.south = 23 := by decide
    have c2 : edge_sig_of [(Edge.north, 23, 20, 3), (Edge.south, 23, 20, 3), (Edge.west, 15, 13, 2), (Edge.east, 13, 11, 2)] Edge.south = 20 := by decide
    have c3 : edge_pow_of [(Edge.north, 23, 20, 3), (Edge.south, 23, 20, 3), (Edge.west, 15, 13, 2), (Edge.east, 13, 11, 2)] Edge.south = 3 := by decide
    simp only [gen_direction, c1, c2, c3]
    decide
  have he : gen_direction (edge_cap_of [(Edge.east, 13), (Edge.north, 23), (Edge.south, 23), (Edge.west, 15)])
      (edge_sig_of [(Edge.north, 23, 20, 3), (Edge.south, 23, 20, 3), (Edge.west, 15, 13, 2), (Edge.east, 13, 11, 2)])
      (edge_pow_of [(Edge.north, 23, 20, 3), (Edge.south, 23, 20, 3), (Edge.west, 15, 13, 2), (Edge.east, 13, 11, 2)])
      Edges.ALL.active_list (clk_rst_edge Edges.ALL) Edge.east 18 1 2 =
      some (
        [Pad.bidir 18, Pad.bidir 19, Pad.bidir 20, Pad.dvdd 1, Pad.bidir 21, Pad.bidir 22,
        Pad.bidir 23, Pad.dvss 2, Pad.bidir 24, Pad.bidir 25, Pad.bidir 26, Pad.bidir 27,
        Pad.bidir 28],
        29, 2, 3) := by
    have c1 : edge_cap_of [(Edge.east, 13), (Edge.north, 23), (Edge.south, 23), (Edge.west, 15)] Edge.east = 13 := by decide
    have c2 : edge_sig_of [(Edge.north, 23, 20, 3), (Edge.south, 23, 20, 3), (Edge.west, 15, 13, 2), (Edge.east, 13, 11, 2)] Edge.east = 11 := by decide
    have c3 : edge_pow_of [(Edge.north, 23, 20, 3), (Edge.south, 23, 20, 3), (Edge.west, 15, 13, 2), (Edge.east, 13, 11, 2)] Edge.east = 2 := by decide
    simp only [gen_direction, c1, c2, c3]
    decide
  have hn : gen_direction (edge_cap_of [(Edge.east, 13), (Edge.north, 23), (Edge.south, 23), (Edge.west, 15)])
      (edge_sig_of [(Edge.north, 23, 20, 3), (Edge.south, 23, 20, 3), (Edge.west, 15, 13, 2), (Edge.east, 13, 11, 2)])
      (edge_pow_of [(Edge.north, 23, 20, 3), (Edge.south, 23, 20, 3), (Edge.west, 15, 13, 2), (Edge.east, 13, 11, 2)])
      Edges.ALL.active_list (clk_rst_edge Edges.ALL) Edge.north 29 2 3 =
      some (
        [Pad.bidir 48, Pad.bidir 47, Pad.bidir 46, Pad.bidir 45, Pad.bidir 44, Pad.dvdd 3,
        Pad.bidir 43, Pad.bidir 42, Pad.bidir 41, Pad.bidir 40, Pad.bidir 39, Pad.dvss 3,
        Pad.bidir 38, Pad.bidir 37, Pad.bidir 36, Pad.bidir 35, Pad.bidir 34, Pad.dvdd 2,
        Pad.bidir 33, Pad.bidir 32, Pad.bidir 31, Pad.bidir 30, Pad.bidir 29],
        49, 4, 4) := by
    have c1 : edge_cap_of [(Edge.east, 13), (Edge.north, 23), (Edge.south, 23), (Edge.west, 15)] Edge.north = 23 := by decide
    have c2 : edge_sig_of [(Edge.north, 23, 20, 3), (Edge.south, 23, 20, 3), (Edge.west, 15, 13, 2), (Edge.east, 13, 11, 2)] Edge.north = 20 := by decide
    have c3 : edge_pow_of [(Edge.north, 23, 20, 3), (Edge.south, 23, 20, 3), (Edge.west, 15, 13, 2), (Edge.east, 13, 11, 2)] Edge.north = 3 := by decide
    simp only [gen_direction, c1, c2, c3]
    decide
  have hw : gen_direction (edge_cap_of [(Edge.east, 13), (Edge.north, 23), (Edge.south, 23), (Edge.west, 15)])
      (edge_sig_of [(Edge.north, 23, 20, 3), (Edge.south, 23, 20, 3), (Edge.west, 15, 13, 2), (Edge.east, 13, 11, 2)])
      (edge_pow_of [(Edge.north, 23, 20, 3), (Edge.south, 23, 20, 3), (Edge.west, 15, 13, 2), (Edge.east, 13, 11, 2)])
      Edges.ALL.active_list (clk_rst_edge Edges.ALL) Edge.west 49 4 4 =
      some (
        [Pad.bidir 61, Pad.bidir 60, Pad.bidir 59, Pad.bidir 58, Pad.bidir 57, Pad.dvdd 4,
        Pad.bidir 56, Pad.bidir 55, Pad.bidir 54, Pad.bidir 53, Pad.dvss 4, Pad.bidir 52,
        Pad.bidir 51, Pad.bidir 50, Pad.bidir 49],
        62, 5, 5) := by
    have c1 : edge_cap_of [(Edge.east, 13), (Edge.north, 23), (Edge.south, 23), (Edge.west, 15)] Edge.west = 15 := by decide
    have c2 : edge_sig_of [(Edge.north, 23, 20, 3), (Edge.south, 23, 20, 3), (Edge.west, 15, 13, 2), (Edge.east, 13, 11, 2)] Edge.west = 13 := by decide
    have c3 : edge_pow_of [(Edge.north, 23, 20, 3), (Edge.south, 23, 20, 3), (Edge.west, 15, 13, 2), (Edge.east, 13, 11, 2)] Edge.west = 2 := by decide
    simp only [gen_direction, c1, c2, c3]
    decide
  simp only [generate_config, h1]
  dsimp only [SLOTS]
  rw [h2]
  dsimp only
  rw [h3]
  simp only [build_artifact]
  rw [hs]
  dsimp only
  rw [he]
  dsimp only
  rw [hn]
  dsimp only
  rw [hw]
  dsimp only
  decide

/-- C6 helper: the s1x0p5 slot, NUM density, TOP edges. -/
theorem c6_s1x0p5_num_top :
    option_spec (c6_flags_ok SlotName.s1x0p5) (generate_config (SLOTS SlotName.s1x0p5) Density.NUM Edges.TOP) := by
  have h1 : calculate_pads_for_density (SLOTS SlotName.s1x0p5) Density.NUM Edges.TOP =
      (42, [(Edge.north, 42)]) := by decide
  have h2 : distribute_pads_with_power 42 SlotName.s1x0p5 = (34, 6) := by decide
  have h3 : allocate_edges [(Edge.north, 42)] (34 + 2) 6 =
      [(Edge.north, 42, 36, 6)] := by decide
  have hs : gen_direction (edge_cap_of [(Edge.north, 42)])
      (edge_sig_of [(Edge.north, 42, 36, 6)])
      (edge_pow_of [(Edge.north, 42, 36, 6)])
      Edges.TOP.active_list (clk_rst_edge Edges.TOP) Edge.south 0 0 0 =
      some (
        [],
        0, 0, 0) := by
    have c1 : edge_cap_of [(Edge.north, 42)] Edge.south = 0 := by decide
    have c2 : edge_sig_of [(Edge.north, 42, 36, 6)] Edge.south = 0 := by decide
    have c3 : edge_pow_of [(Edge.north, 42, 36, 6)] Edge.south = 0 := by decide
    simp only [gen_direction, c1, c2, c3]
    decide
  have he : gen_direction (edge_cap_of [(Edge.north, 42)])
      (edge_sig_of [(Edge.north, 42, 36, 6)])
      (edge_pow_of [(Edge.north, 42, 36, 6)])
      Edges.TOP.active_list (clk_rst_edge Edges.TOP) Edge.east 0 0 0 =
      some (
        [],
        0, 0, 0) := by
    have c1 : edge_cap_of [(Edge.north, 42)] Edge.east = 0 := by decide
    have c2 : edge_sig_of [(Edge.north, 42, 36, 6)] Edge.east = 0 := by decide
    have c3 : edge_pow_of [(Edge.north, 42, 36, 6)] Edge.east = 0 := by decide
    simp only [gen_direction, c1, c2, c3]
    decide
  have hn : gen_direction (edge_cap_of [(Edge.north, 42)])
      (edge_sig_of [(Edge.north, 42, 36, 6)])
      (edge_pow_of [(Edge.north, 42, 36, 6)])
      Edges.TOP.active_list (clk_rst_edge Edges.TOP) Edge.north 0 0 0 =
      some (
        [Pad.clk, Pad.rst_n, Pad.bidir 33, Pad.bidir 32, Pad.bidir 31, Pad.bidir 30,
        Pad.bidir 29, Pad.bidir 28, Pad.bidir 27, Pad.bidir 26, Pad.bidir 25, Pad.bidir 24,
        Pad.dvdd 2, Pad.bidir 23, Pad.bidir 22, Pad.bidir 21, Pad.bidir 20, Pad.dvss 2,
        Pad.bidir 19, Pad.bidir 18, Pad.bidir 17, Pad.bidir 16, Pad.dvdd 1, Pad.bidir 15,
        Pad.bidir 14, Pad.bidir 13, Pad.bidir 12, Pad.dvss 1, Pad.bidir 11, Pad.bidir 10,
        Pad.bidir 9, Pad.bidir 8, Pad.dvdd 0, Pad.bidir 7, Pad.bidir 6, Pad.bidir 5, Pad.bidir 4,
        Pad.dvss 0, Pad.bidir 3, Pad.bidir 2, Pad.bidir 1, Pad.bidir 0],
        34, 3, 3) := by
    have c1 : edge_cap_of [(Edge.north, 42)] Edge.north = 42 := by decide
    have c2 : edge_sig_of [(Edge.north, 42, 36, 6)] Edge.north = 36 := by decide
    have c3 : edge_pow_of [(Edge.north, 42, 36, 6)] Edge.north = 6 := by decide
    simp only [gen_direction, c1, c2, c3]
    decide
  have hw : gen_direction (edge_cap_of [(Edge.north, 42)])
      (edge_sig_of [(Edge.north, 42, 36, 6)])
      (edge_pow_of [(Edge.north, 42, 36, 6)])
      Edges.TOP.active_list (clk_rst_edge Edges.TOP) Edge.west 34 3 3 =
      some (
        [],
        34, 3, 3) := by
    have c1 : edge_cap_of [(Edge.north, 42)] Edge.west = 0 := by decide
    have c2 : edge_sig_of [(Edge.north, 42, 36, 6)] Edge.west = 0 := by decide
    have c3 : edge_pow_of [(Edge.north, 42, 36, 6)] Edge.west = 0 := by decide
    simp only [gen_direction, c1, c2, c3]
    decide
  simp only [generate_config, h1]
  dsimp only [SLOTS]
  rw [h2]
  dsimp only
  rw [h3]
  simp only [build_artifact]
  rw [hs]
  dsimp only
  rw [he]
  dsimp only
  rw [hn]
  dsimp only
  rw [hw]
  dsimp only
  decide

/-- C6 helper: the s1x0p5 slot, NUM density, LFT edges. -/
theorem c6_s1x0p5_num_lft :
    option_spec (c6_flags_ok SlotName.s1x0p5) (generate_config (SLOTS SlotName.s1x0p5) Density.NUM Edges.LFT) := by
  have h1 : calculate_pads_for_density (SLOTS SlotName.s1x0p5) Density.NUM Edges.LFT =
      (23, [(Edge.west, 23)]) := by decide
  have h2 : distribute_pads_with_power 23 SlotName.s1x0p5 = (17, 4) := by decide
  have h3 : allocate_edges [(Edge.west, 23)] (17 + 2) 4 =
      [(Edge.west, 23, 19, 4)] := by decide
  have hs : gen_direction (edge_cap_of [(Edge.west, 23)])
      (edge_sig_of [(Edge.west, 23, 19, 4)])
      (edge_pow_of [(Edge.west, 23, 19, 4)])
      Edges.LFT.active_list (clk_rst_edge Edges.LFT) Edge.south 0 0 0 =
      some (
        [],
        0, 0, 0) := by
    have c1 : edge_cap_of [(Edge.west, 23)] Edge.south = 0 := by decide
    have c2 : edge_sig_of [(Edge.west, 23, 19, 4)] Edge.south = 0 := by decide
    have c3 : edge_pow_of [(Edge.west, 23, 19, 4)] Edge.south = 0 := by decide
    simp only [gen_direction, c1, c2, c3]
    decide
  have he : gen_direction (edge_cap_of [(Edge.west, 23)])
      (edge_sig_of [(Edge.west, 23, 19, 4)])
      (edge_pow_of [(Edge.west, 23, 19, 4)])
      Edges.LFT.active_list (clk_rst_edge Edges.LFT) Edge.east 0 0 0 =
      some (
        [],
        0, 0, 0) := by
    have c1 : edge_cap_of [(Edge.west, 23)] Edge.east = 0 := by decide
    have c2 : edge_sig_of [(Edge.west, 23, 19, 4)] Edge.east = 0 := by decide
    have c3 : edge_pow_of [(Edge.west, 23, 19, 4)] Edge.east = 0 := by decide
    simp only [gen_direction, c1, c2, c3]
    decide
  have hn : gen_direction (edge_cap_of [(Edge.west, 23)])
      (edge_sig_of [(Edge.west, 23, 19, 4)])
      (edge_pow_of [(Edge.west, 23, 19, 4)])
      Edges.LFT.active_list (clk_rst_edge Edges.LFT) Edge.north 0 0 0 =
      some (
        [],
        0, 0, 0) := by
    have c1 : edge_cap_of [(Edge.west, 23)] Edge.north = 0 := by decide
    have c2 : edge_sig_of [(Edge.west, 23, 19, 4)] Edge.north = 0 := by decide
    have c3 : edge_pow_of [(Edge.west, 23, 19, 4)] Edge.north = 0 := by decide
    simp only [gen_direction, c1, c2, c3]
    decide
  have hw : gen_direction (edge_cap_of [(Edge.west, 23)])
      (edge_sig_of [(Edge.west, 23, 19, 4)])
      (edge_pow_of [(Edge.west, 23, 19, 4)])
      Edges.LFT.active_list (clk_rst_edge Edges.LFT) Edge.west 0 0 0 =
      some (
        [Pad.clk, Pad.rst_n, Pad.bidir 16, Pad.bidir 15, Pad.bidir 14, Pad.bidir 13,
        Pad.bidir 12, Pad.dvdd 1, Pad.bidir 11, Pad.bidir 10, Pad.bidir 9, Pad.dvss 1,
        Pad.bidir 8, Pad.bidir 7, Pad.bidir 6, Pad.dvdd 0, Pad.bidir 5, Pad.bidir 4, Pad.bidir 3,
        Pad.dvss 0, Pad.bidir 2, Pad.bidir 1, Pad.bidir 0],
        17, 2, 2) := by
    have c1 : edge_cap_of [(Edge.west, 23)] Edge.west = 23 := by decide
    have c2 : edge_sig_of [(Edge.west, 23, 19, 4)] Edge.west = 19 := by decide
    have c3 : edge_pow_of [(Edge.west, 23, 19, 4)] Edge.west = 4 := by decide
    simp only [gen_direction, c1, c2, c3]
    decide
  simp only [generate_config, h1]
  dsimp only [SLOTS]
  rw [h2]
  dsimp only
  rw [h3]
  simp only [build_artifact]
  rw [hs]
  dsimp only
  rw [he]
  dsimp only
  rw [hn]
  dsimp only
  rw [hw]
  dsimp only
  decide

/-- C6 helper: the s1x0p5 slot, NUM density, HOR edges. -/
theorem c6_s1x0p5_num_hor :
    option_spec (c6_flags_ok SlotName.s1x0p5) (generate_config (SLOTS SlotName.s1x0p5) Density.NUM Edges.HOR) := by
  have h1 : calculate_pads_for_density (SLOTS SlotName.s1x0p5) Density.NUM Edges.HOR =
      (74, [(Edge.north, 37), (Edge.south, 37)]) := by decide
  have h2 : distribute_pads_with_power 74 SlotName.s1x0p5 = (62, 10) := by decide
  have h3 : allocate_edges [(Edge.north, 37), (Edge.south, 37)] (62 + 2) 10 =
      [(Edge.north, 37, 32, 5), (Edge.south, 37, 32, 5)] := by decide
  have hs : gen_direction (edge_cap_of [(Edge.north, 37), (Edge.south, 37)])
      (edge_sig_of [(Edge.north, 37, 32, 5), (Edge.south, 37, 32, 5)])
      (edge_pow_of [(Edge.north, 37, 32, 5), (Edge.south, 37, 32, 5)])
      Edges.HOR.active_list (clk_rst_edge Edges.HOR) Edge.south 0 0 0 =
      some (
        [Pad.clk, Pad.rst_n, Pad.bidir 0, Pad.bidir 1, Pad.bidir 2, Pad.bidir 3, Pad.bidir 4,
        Pad.dvss 0, Pad.bidir 5, Pad.bidir 6, Pad.bidir 7, Pad.bidir 8, Pad.bidir 9, Pad.dvdd 0,
        Pad.bidir 10, Pad.bidir 11, Pad.bidir 12, Pad.bidir 13, Pad.bidir 14, Pad.dvss 1,
        Pad.bidir 15, Pad.bidir 16, Pad.bidir 17, Pad.bidir 18, Pad.bidir 19, Pad.dvdd 1,
        Pad.bidir 20, Pad.bidir 21, Pad.bidir 22, Pad.bidir 23, Pad.bidir 24, Pad.dvss 2,
        Pad.bidir 25, Pad.bidir 26, Pad.bidir 27, Pad.bidir 28, Pad.bidir 29],
        30, 2, 3) := by
    have c1 : edge_cap_of [(Edge.north, 37), (Edge.south, 37)] Edge.south = 37 := by decide
    have c2 : edge_sig_of [(Edge.north, 37, 32, 5), (Edge.south, 37, 32, 5)] Edge.south = 32 := by decide
    have c3 : edge_pow_of [(Edge.north, 37, 32, 5), (Edge.south, 37, 32, 5)] Edge.south = 5 := by decide
    simp only [gen_direction, c1, c2, c3]
    decide
  have he : gen_direction (edge_cap_of [(Edge.north, 37), (Edge.south, 37)])
      (edge_sig_of [(Edge.north, 37, 32, 5), (Edge.south, 37, 32, 5)])
      (edge_pow_of [(Edge.north, 37, 32, 5), (Edge.south, 37, 32, 5)])
      Edges.HOR.active_list (clk_rst_edge Edges.HOR) Edge.east 30 2 3 =
      some (
        [],
        30, 2, 3) := by
    have c1 : edge_cap_of [(Edge.north, 37), (Edge.south, 37)] Edge.east = 0 := by decide
    have c2 : edge_sig_of [(Edge.north, 37, 32, 5), (Edge.south, 37, 32, 5)] Edge.east = 0 := by decide
    have c3 : edge_pow_of [(Edge.north, 37, 32, 5), (Edge.south, 37, 32, 5)] Edge.east = 0 := by decide
    simp only [gen_direction, c1, c2, c3]
    decide
  have hn : gen_direction (edge_cap_of [(Edge.north, 37), (Edge.south, 37)])
      (edge_sig_of [(Edge.north, 37, 32, 5), (Edge.south, 37, 32, 5)])
      (edge_pow_of [(Edge.north, 37, 32, 5), (Edge.south, 37, 32, 5)])
      Edges.HOR.active_list (clk_rst_edge Edges.HOR) Edge.north 30 2 3 =
      some (
        [Pad.bidir 61, Pad.bidir 60, Pad.bidir 59, Pad.bidir 58, Pad.bidir 57, Pad.bidir 56,
        Pad.bidir 55, Pad.dvdd 4, Pad.bidir 54, Pad.bidir 53, Pad.bidir 52, Pad.bidir 51,
        Pad.bidir 50, Pad.dvss 4, Pad.bidir 49, Pad.bidir 48, Pad.bidir 47, Pad.bidir 46,
        Pad.bidir 45, Pad.dvdd 3, Pad.bidir 44, Pad.bidir 43, Pad.bidir 42, Pad.bidir 41,
        Pad.bidir 40, Pad.dvss 3, Pad.bidir 39, Pad.bidir 38, Pad.bidir 37, Pad.bidir 36,
        Pad.bidir 35, Pad.dvdd 2, Pad.bidir 34, Pad.bidir 33, Pad.bidir 32, Pad.bidir 31,
        Pad.bidir 30],
        62, 5, 5) := by
    have c1 : edge_cap_of [(Edge.north, 37), (Edge.south, 37)] Edge.north = 37 := by decide
    have c2 : edge_sig_of [(Edge.north, 37, 32, 5), (Edge.south, 37, 32, 5)] Edge.north = 32 := by decide
    have c3 : edge_pow_of [(Edge.north, 37, 32, 5), (Edge.south, 37, 32, 5)] Edge.north = 5 := by decide
    simp only [gen_direction, c1, c2, c3]
    decide
  have hw : gen_direction (edge_cap_of [(Edge.north, 37), (Edge.south, 37)])
      (edge_sig_of [(Edge.north, 37, 32, 5), (Edge.south, 37, 32, 5)])
      (edge_pow_of [(Edge.north, 37, 32, 5), (Edge.south, 37, 32, 5)])
      Edges.HOR.active_list (clk_rst_edge Edges.HOR) Edge.west 62 5 5 =
      some (
        [],
        62, 5, 5) := by
    have c1 : edge_cap_of [(Edge.north, 37), (Edge.south, 37)] Edge.west = 0 := by decide
    have c2 : edge_sig_of [(Edge.north, 37, 32, 5), (Edge.south, 37, 32, 5)] Edge.west = 0 := by decide
    have c3 : edge_pow_of [(Edge.north, 37, 32, 5), (Edge.south, 37, 32, 5)] Edge.west = 0 := by decide
    simp only [gen_direction, c1, c2, c3]
    decide
  simp only [generate_config, h1]
  dsimp only [SLOTS]
  rw [h2]
  dsimp only
  rw [h3]
  simp only [build_artifact]
  rw [hs]
  dsimp only
  rw [he]
  dsimp only
  rw [hn]
  dsimp only
  rw [hw]
  dsimp only
  decide

/-- C6 helper: the s1x0p5 slot, NUM density, VER edges. -/
theorem c6_s1x0p5_num_ver :
    option_spec (c6_flags_ok SlotName.s1x0p5) (generate_config (SLOTS SlotName.s1x0p5) Density.NUM Edges.VER) := by
  have h1 : calculate_pads_for_density (SLOTS SlotName.s1x0p5) Density.NUM Edges.VER =
      (46, [(Edge.east, 23), (Edge.west, 23)]) := by decide
  have h2 : distribute_pads_with_power 46 SlotName.s1x0p5 = (38, 6) := by decide
  have h3 : allocate_edges [(Edge.east, 23), (Edge.west, 23)] (38 + 2) 6 =
      [(Edge.east, 23, 20, 3), (Edge.west, 23, 20, 3)] := by decide
  have hs : gen_direction (edge_cap_of [(Edge.east, 23), (Edge.west, 23)])
      (edge_sig_of [(Edge.east, 23, 20, 3), (Edge.west, 23, 20, 3)])
      (edge_pow_of [(Edge.east, 23, 20, 3), (Edge.west, 23, 20, 3)])
      Edges.VER.active_list (clk_rst_edge Edges.VER) Edge.south 0 0 0 =
      some (
        [],
        0, 0, 0) := by
    have c1 : edge_cap_of [(Edge.east, 23), (Edge.west, 23)] Edge.south = 0 := by decide
    have c2 : edge_sig_of [(Edge.east, 23, 20, 3), (Edge.west, 23, 20, 3)] Edge.south = 0 := by decide
    have c3 : edge_pow_of [(Edge.east, 23, 20, 3), (Edge.west, 23, 20, 3)] Edge.south = 0 := by decide
    simp only [gen_direction, c1, c2, c3]
    decide
  have he : gen_direction (edge_cap_of [(Edge.east, 23), (Edge.west, 23)])
      (edge_sig_of [(Edge.east, 23, 20, 3), (Edge.west, 23, 20, 3)])
      (edge_pow_of [(Edge.east, 23, 20, 3), (Edge.west, 23, 20, 3)])
      Edges.VER.active_list (clk_rst_edge Edges.VER) Edge.east 0 0 0 =
      some (
        [Pad.bidir 0, Pad.bidir 1, Pad.bidir 2, Pad.bidir 3, Pad.bidir 4, Pad.dvss 0,
        Pad.bidir 5, Pad.bidir 6, Pad.bidir 7, Pad.bidir 8, Pad.bidir 9, Pad.dvdd 0,
        Pad.bidir 10, Pad.bidir 11, Pad.bidir 12, Pad.bidir 13, Pad.bidir 14, Pad.dvss 1,
        Pad.bidir 15, Pad.bidir 16, Pad.bidir 17, Pad.bidir 18, Pad.bidir 19],
        20, 1, 2) := by
    have c1 : edge_cap_of [(Edge.east, 23), (Edge.west, 23)] Edge.east = 23 := by decide
    have c2 : edge_sig_of [(Edge.east, 23, 20, 3), (Edge.west, 23, 20, 3)] Edge.east = 20 := by decide
    have c3 : edge_pow_of [(Edge.east, 23, 20, 3), (Edge.west, 23, 20, 3)] Edge.east = 3 := by decide
    simp only [gen_direction, c1, c2, c3]
    decide
  have hn : gen_direction (edge_cap_of [(Edge.east, 23), (Edge.west, 23)])
      (edge_sig_of [(Edge.east, 23, 20, 3), (Edge.west, 23, 20, 3)])
      (edge_pow_of [(Edge.east, 23, 20, 3), (Edge.west, 23, 20, 3)])
      Edges.VER.active_list (clk_rst_edge Edges.VER) Edge.north 20 1 2 =
      some (
        [],
        20, 1, 2) := by
    have c1 : edge_cap_of [(Edge.east, 23), (Edge.west, 23)] Edge.north = 0 := by decide
    have c2 : edge_sig_of [(Edge.east, 23, 20, 3), (Edge.west, 23, 20, 3)] Edge.north = 0 := by decide
    have c3 : edge_pow_of [(Edge.east, 23, 20, 3), (Edge.west, 23, 20, 3)] Edge.north = 0 := by decide
    simp only [gen_direction, c1, c2, c3]
    decide
  have hw : gen_direction (edge_cap_of [(Edge.east, 23), (Edge.west, 23)])
      (edge_sig_of [(Edge.east, 23, 20, 3), (Edge.west, 23, 20, 3)])
      (edge_pow_of [(Edge.east, 23, 20, 3), (Edge.west, 23, 20, 3)])
      Edges.VER.active_list (clk_rst_edge Edges.VER) Edge.west 20 1 2 =
      some (
        [Pad.clk, Pad.rst_n, Pad.bidir 37, Pad.bidir 36, Pad.bidir 35, Pad.bidir 34,
        Pad.bidir 33, Pad.bidir 32, Pad.dvdd 2, Pad.bidir 31, Pad.bidir 30, Pad.bidir 29,
        Pad.bidir 28, Pad.dvss 2, Pad.bidir 27, Pad.bidir 26, Pad.bidir 25, Pad.bidir 24,
        Pad.dvdd 1, Pad.bidir 23, Pad.bidir 22, Pad.bidir 21, Pad.bidir 20],
        38, 3, 3) := by
    have c1 : edge_cap_of [(Edge.east, 23), (Edge.west, 23)] Edge.west = 23 := by decide
    have c2 : edge_sig_of [(Edge.east, 23, 20, 3), (Edge.west, 23, 20, 3)] Edge.west = 20 := by decide
    have c3 : edge_pow_of [(Edge.east, 23, 20, 3), (Edge.west, 23, 20, 3)] Edge.west = 3 := by decide
    simp only [gen_direction, c1, c2, c3]
    decide
  simp only [generate_config, h1]
  dsimp only [SLOTS]
  rw [h2]
  dsimp only
  rw [h3]
  simp only [build_artifact]
  rw [hs]
  dsimp only
  rw [he]
  dsimp only
  rw [hn]
  dsimp only
  rw [hw]
  dsimp only
  decide

/-- C6 helper: the s1x0p5 slot, NUM density, NWC edges. -/
theorem c6_s1x0p5_num_nwc :
    option_spec (c6_flags_ok SlotName.s1x0p5) (generate_config (SLOTS SlotName.s1x0p5) Density.NUM Edges.NWC) := by
  have h1 : calculate_pads_for_density (SLOTS SlotName.s1x0p5) Density.NUM Edges.NWC =
      (65, [(Edge.north, 42), (Edge.west, 23)]) := by decide
  have h2 : distribute_pads_with_power 65 SlotName.s1x0p5 = (53, 10) := by decide
  have h3 : allocate_edges [(Edge.north, 42), (Edge.west, 23)] (53 + 2) 10 =
      [(Edge.north, 42, 36, 6), (Edge.west, 23, 19, 4)] := by decide
  have hs : gen_direction (edge_cap_of [(Edge.north, 42), (Edge.west, 23)])
      (edge_sig_of [(Edge.north, 42, 36, 6), (Edge.west, 23, 19, 4)])
      (edge_pow_of [(Edge.north, 42, 36, 6), (Edge.west, 23, 19, 4)])
      Edges.NWC.active_list (clk_rst_edge Edges.NWC) Edge.south 0 0 0 =
      some (
        [],
        0, 0, 0) := by
    have c1 : edge_cap_of [(Edge.north, 42), (Edge.west, 23)] Edge.south = 0 := by decide
    have c2 : edge_sig_of [(Edge.north, 42, 36, 6), (Edge.west, 23, 19, 4)] Edge.south = 0 := by decide
    have c3 : edge_pow_of [(Edge.north, 42, 36, 6), (Edge.west, 23, 19, 4)] Edge.south = 0 := by decide
    simp only [gen_direction, c1, c2, c3]
    decide
  have he : gen_direction (edge_cap_of [(Edge.north, 42), (Edge.west, 23)])
      (edge_sig_of [(Edge.north, 42, 36, 6), (Edge.west, 23, 19, 4)])
      (edge_pow_of [(Edge.north, 42, 36, 6), (Edge.west, 23, 19, 4)])
      Edges.NWC.active_list (clk_rst_edge Edges.NWC) Edge.east 0 0 0 =
      some (
        [],
        0, 0, 0) := by
    have c1 : edge_cap_of [(Edge.north, 42), (Edge.west, 23)] Edge.east = 0 := by decide
    have c2 : edge_sig_of [(Edge.north, 42, 36, 6), (Edge.west, 23, 19, 4)] Edge.east = 0 := by decide
    have c3 : edge_pow_of [(Edge.north, 42, 36, 6), (Edge.west, 23, 19, 4)] Edge.east = 0 := by decide
    simp only [gen_direction, c1, c2, c3]
    decide
  have hn : gen_direction (edge_cap_of [(Edge.north, 42), (Edge.west, 23)])
      (edge_sig_of [(Edge.north, 42, 36, 6), (Edge.west, 23, 19, 4)])
      (edge_pow_of [(Edge.north, 42, 36, 6), (Edge.west, 23, 19, 4)])
      Edges.NWC.active_list (clk_rst_edge Edges.NWC) Edge.north 0 0 0 =
      some (
        [Pad.bidir 35, Pad.bidir 34, Pad.bidir 33, Pad.bidir 32, Pad.bidir 31, Pad.bidir 30,
        Pad.dvdd 2, Pad.bidir 29, Pad.bidir 28, Pad.bidir 27, Pad.bidir 26, Pad.bidir 25,
        Pad.dvss 2, Pad.bidir 24, Pad.bidir 23, Pad.bidir 22, Pad.bidir 21, Pad.bidir 20,
        Pad.dvdd 1, Pad.bidir 19, Pad.bidir 18, Pad.bidir 17, Pad.bidir 16, Pad.bidir 15,
        Pad.dvss 1, Pad.bidir 14, Pad.bidir 13, Pad.bidir 12, Pad.bidir 11, Pad.bidir 10,
        Pad.dvdd 0, Pad.bidir 9, Pad.bidir 8, Pad.bidir 7, Pad.bidir 6, Pad.bidir 5, Pad.dvss 0,
        Pad.bidir 4, Pad.bidir 3, Pad.bidir 2, Pad.bidir 1, Pad.bidir 0],
        36, 3, 3) := by
    have c1 : edge_cap_of [(Edge.north, 42), (Edge.west, 23)] Edge.north = 42 := by decide
    have c2 : edge_sig_of [(Edge.north, 42, 36, 6), (Edge.west, 23, 19, 4)] Edge.north = 36 := by decide
    have c3 : edge_pow_of [(Edge.north, 42, 36, 6), (Edge.west, 23, 19, 4)] Edge.north = 6 := by decide
    simp only [gen_direction, c1, c2, c3]
    decide
  have hw : gen_direction (edge_cap_of [(Edge.north, 42), (Edge.west, 23)])
      (edge_sig_of [(Edge.north, 42, 36, 6), (Edge.west, 23, 19, 4)])
      (edge_pow_of [(Edge.north, 42, 36, 6), (Edge.west, 23, 19, 4)])
      Edges.NWC.active_list (clk_rst_edge Edges.NWC) Edge.west 36 3 3 =
      some (
        [Pad.clk, Pad.rst_n, Pad.bidir 52, Pad.bidir 51, Pad.bidir 50, Pad.bidir 49,
        Pad.bidir 48, Pad.dvdd 4, Pad.bidir 47, Pad.bidir 46, Pad.bidir 45, Pad.dvss 4,
        Pad.bidir 44, Pad.bidir 43, Pad.bidir 42, Pad.dvdd 3, Pad.bidir 41, Pad.bidir 40,
        Pad.bidir 39, Pad.dvss 3, Pad.bidir 38, Pad.bidir 37, Pad.bidir 36],
        53, 5, 5) := by
    have c1 : edge_cap_of [(Edge.north, 42), (Edge.west, 23)] Edge.west = 23 := by decide
    have c2 : edge_sig_of [(Edge.north, 42, 36, 6), (Edge.west, 23, 19, 4)] Edge.west = 19 := by decide
    have c3 : edge_pow_of [(Edge.north, 42, 36, 6), (Edge.west, 23, 19, 4)] Edge.west = 4 := by decide
    simp only [gen_direction, c1, c2, c3]
    decide
  simp only [generate_config, h1]
  dsimp only [SLOTS]
  rw [h2]
  dsimp only
  rw [h3]
  simp only [build_artifact]
  rw [hs]
  dsimp only
  rw [he]
  dsimp only
  rw [hn]
  dsimp only
  rw [hw]
  dsimp only
  decide

/-- C6 helper: the s1x0p5 slot, NUM density, SEC edges. -/
theorem c6_s1x0p5_num_sec :
    option_spec (c6_flags_ok SlotName.s1x0p5) (generate_config (SLOTS SlotName.s1x0p5) Density.NUM Edges.SEC) := by
  have h1 : calculate_pads_for_density (SLOTS SlotName.s1x0p5) Density.NUM Edges.SEC =
      (65, [(Edge.east, 23), (Edge.south, 42)]) := by decide
  have h2 : distribute_pads_with_power 65 SlotName.s1x0p5 = (53, 10) := by decide
  have h3 : allocate_edges [(Edge.east, 23), (Edge.south, 42)] (53 + 2) 10 =
      [(Edge.south, 42, 36, 6), (Edge.east, 23, 19, 4)] := by decide
  have hs : gen_direction (edge_cap_of [(Edge.east, 23), (Edge.south, 42)])
      (edge_sig_of [(Edge.south, 42, 36, 6), (Edge.east, 23, 19, 4)])
      (edge_pow_of [(Edge.south, 42, 36, 6), (Edge.east, 23, 19, 4)])
      Edges.SEC.active_list (clk_rst_edge Edges.SEC) Edge.south 0 0 0 =
      some (
        [Pad.clk, Pad.rst_n, Pad.bidir 0, Pad.bidir 1, Pad.bidir 2, Pad.bidir 3, Pad.dvss 0,
        Pad.bidir 4, Pad.bidir 5, Pad.bidir 6, Pad.bidir 7, Pad.dvdd 0, Pad.bidir 8, Pad.bidir 9,
        Pad.bidir 10, Pad.bidir 11, Pad.dvss 1, Pad.bidir 12, Pad.bidir 13, Pad.bidir 14,
        Pad.bidir 15, Pad.dvdd 1, Pad.bidir 16, Pad.bidir 17, Pad.bidir 18, Pad.bidir 19,
        Pad.dvss 2, Pad.bidir 20, Pad.bidir 21, Pad.bidir 22, Pad.bidir 23, Pad.dvdd 2,
        Pad.bidir 24, Pad.bidir 25, Pad.bidir 26, Pad.bidir 27, Pad.bidir 28, Pad.bidir 29,
        Pad.bidir 30, Pad.bidir 31, Pad.bidir 32, Pad.bidir 33],
        34, 3, 3) := by
    have c1 : edge_cap_of [(Edge.east, 23), (Edge.south, 42)] Edge.south = 42 := by decide
    have c2 : edge_sig_of [(Edge.south, 42, 36, 6), (Edge.east, 23, 19, 4)] Edge.south = 36 := by decide
    have c3 : edge_pow_of [(Edge.south, 42, 36, 6), (Edge.east, 23, 19, 4)] Edge.south = 6 := by decide
    simp only [gen_direction, c1, c2, c3]
    decide
  have he : gen_direction (edge_cap_of [(Edge.east, 23), (Edge.south, 42)])
      (edge_sig_of [(Edge.south, 42, 36, 6), (Edge.east, 23, 19, 4)])
      (edge_pow_of [(Edge.south, 42, 36, 6), (Edge.east, 23, 19, 4)])
      Edges.SEC.active_list (clk_rst_edge Edges.SEC) Edge.east 34 3 3 =
      some (
        [Pad.bidir 34, Pad.bidir 35, Pad.bidir 36, Pad.dvss 3, Pad.bidir 37, Pad.bidir 38,
        Pad.bidir 39, Pad.dvdd 3, Pad.bidir 40, Pad.bidir 41, Pad.bidir 42, Pad.dvss 4,
        Pad.bidir 43, Pad.bidir 44, Pad.bidir 45, Pad.dvdd 4, Pad.bidir 46, Pad.bidir 47,
        Pad.bidir 48, Pad.bidir 49, Pad.bidir 50, Pad.bidir 51, Pad.bidir 52],
        53, 5, 5) := by
    have c1 : edge_cap_of [(Edge.east, 23), (Edge.south, 42)] Edge.east = 23 := by decide
    have c2 : edge_sig_of [(Edge.south, 42, 36, 6), (Edge.east, 23, 19, 4)] Edge.east = 19 := by decide
    have c3 : edge_pow_of [(Edge.south, 42, 36, 6), (Edge.east, 23, 19, 4)] Edge.east = 4 := by decide
    simp only [gen_direction, c1, c2, c3]
    decide
  have hn : gen_direction (edge_cap_of [(Edge.east, 23), (Edge.south, 42)])
      (edge_sig_of [(Edge.south, 42, 36, 6), (Edge.east, 23, 19, 4)])
      (edge_pow_of [(Edge.south, 42, 36, 6), (Edge.east, 23, 19, 4)])
      Edges.SEC.active_list (clk_rst_edge Edges.SEC) Edge.north 53 5 5 =
      some (
        [],
        53, 5, 5) := by
    have c1 : edge_cap_of [(Edge.east, 23), (Edge.south, 42)] Edge.north = 0 := by decide
    have c2 : edge_sig_of [(Edge.south, 42, 36, 6), (Edge.east, 23, 19, 4)] Edge.north = 0 := by decide
    have c3 : edge_pow_of [(Edge.south, 42, 36, 6), (Edge.east, 23, 19, 4)] Edge.north = 0 := by decide
    simp only [gen_direction, c1, c2, c3]
    decide
  have hw : gen_direction (edge_cap_of [(Edge.east, 23), (Edge.south, 42)])
      (edge_sig_of [(Edge.south, 42, 36, 6), (Edge.east, 23, 19, 4)])
      (edge_pow_of [(Edge.south, 42, 36, 6), (Edge.east, 23, 19, 4)])
      Edges.SEC.active_list (clk_rst_edge Edges.SEC) Edge.west 53 5 5 =
      some (
        [],
        53, 5, 5) := by
    have c1 : edge_cap_of [(Edge.east, 23), (Edge.south, 42)] Edge.west = 0 := by decide
    have c2 : edge_sig_of [(Edge.south, 42, 36, 6), (Edge.east, 23, 19, 4)] Edge.west = 0 := by decide
    have c3 : edge_pow_of [(Edge.south, 42, 36, 6), (Edge.east, 23, 19, 4)] Edge.west = 0 := by decide
    simp only [gen_direction, c1, c2, c3]
    decide
  simp only [generate_config, h1]
  dsimp only [SLOTS]
  rw [h2]
  dsimp only
  rw [h3]
  simp only [build_artifact]
  rw [hs]
  dsimp only
  rw [he]
  dsimp only
  rw [hn]
  dsimp only
  rw [hw]
  dsimp only
  decide

/-- C6 helper: the s0p5x0p5 slot, MAX density, ALL edges. -/
theorem c6_s0p5x0p5_max_all :
    option_spec (c6_flags_ok SlotName.s0p5x0p5) (generate_config (SLOTS SlotName.s0p5x0p5) Density.MAX Edges.ALL) := by
  have h1 : calculate_pads_for_density (SLOTS SlotName.s0p5x0p5) Density.MAX Edges.ALL =
      (76, [(Edge.east, 23), (Edge.north, 15), (Edge.south, 15), (Edge.west, 23)]) := by decide
  have h2 : distribute_pads_with_power 76 SlotName.s0p5x0p5 = (62, 12) := by decide
  have h3 : allocate_edges [(Edge.east, 23), (Edge.north, 15), (Edge.south, 15), (Edge.west, 23)] (62 + 2) 12 =
      [(Edge.east, 23, 20, 3), (Edge.west, 23, 20, 3), (Edge.north, 15, 12, 3), (Edge.south, 15, 12, 3)] := by decide
  have hs : gen_direction (edge_cap_of [(Edge.east, 23), (Edge.north, 15), (Edge.south, 15), (Edge.west, 23)])
      (edge_sig_of [(Edge.east, 23, 20, 3), (Edge.west, 23, 20, 3), (Edge.north, 15, 12, 3), (Edge.south, 15, 12, 3)])
      (edge_pow_of [(Edge.east, 23, 20, 3), (Edge.west, 23, 20, 3), (Edge.north, 15, 12, 3), (Edge.south, 15, 12, 3)])
      Edges.ALL.active_list (clk_rst_edge Edges.ALL) Edge.south 0 0 0 =
      some (
        [Pad.clk, Pad.rst_n, Pad.bidir 0, Pad.bidir 1, Pad.dvss 0, Pad.bidir 2, Pad.bidir 3,
        Pad.dvdd 0, Pad.bidir 4, Pad.bidir 5, Pad.dvss 1, Pad.bidir 6, Pad.bidir 7, Pad.bidir 8,
        Pad.bidir 9],
        10, 1, 2) := by
    have c1 : edge_cap_of [(Edge.east, 23), (Edge.north, 15), (Edge.south, 15), (Edge.west, 23)] Edge.south = 15 := by decide
    have c2 : edge_sig_of [(Edge.east, 23, 20, 3), (Edge.west, 23, 20, 3), (Edge.north, 15, 12, 3), (Edge.south, 15, 12, 3)] Edge.south = 12 := by decide
    have c3 : edge_pow_of [(Edge.east, 23, 20, 3), (Edge.west, 23, 20, 3), (Edge.north, 15, 12, 3), (Edge.south, 15, 12, 3)] Edge.south = 3 := by decide
    simp only [gen_direction, c1, c2, c3]
    decide
  have he : gen_direction (edge_cap_of [(Edge.east, 23), (Edge.north, 15), (Edge.south, 15), (Edge.west, 23)])
      (edge_sig_of [(Edge.east, 23, 20, 3), (Edge.west, 23, 20, 3), (Edge.north, 15, 12, 3), (Edge.south, 15, 12, 3)])
      (edge_pow_of [(Edge.east, 23, 20, 3), (Edge.west, 23, 20, 3), (Edge.north, 15, 12, 3), (Edge.south, 15, 12, 3)])
      Edges.ALL.active_list (clk_rst_edge Edges.ALL) Edge.east 10 1 2 =
      some (
        [Pad.bidir 10, Pad.bidir 11, Pad.bidir 12, Pad.bidir 13, Pad.bidir 14, Pad.dvdd 1,
        Pad.bidir 15, Pad.bidir 16, Pad.bidir 17, Pad.bidir 18, Pad.bidir 19, Pad.dvss 2,
        Pad.bidir 20, Pad.bidir 21, Pad.bidir 22, Pad.bidir 23, Pad.bidir 24, Pad.dvdd 2,
        Pad.bidir 25, Pad.bidir 26, Pad.bidir 27, Pad.bidir 28, Pad.bidir 29],
        30, 3, 3) := by
    have c1 : edge_cap_of [(Edge.east, 23), (Edge.north, 15), (Edge.south, 15), (Edge.west, 23)] Edge.east = 23 := by decide
    have c2 : edge_sig_of [(Edge.east, 23, 20, 3), (Edge.west, 23, 20, 3), (Edge.north, 15, 12, 3), (Edge.south, 15, 12, 3)] Edge.east = 20 := by decide
    have c3 : edge_pow_of [(Edge.east, 23, 20, 3), (Edge.west, 23, 20, 3), (Edge.north, 15, 12, 3), (Edge.south, 15, 12, 3)] Edge.east = 3 := by decide
    simp only [gen_direction, c1, c2, c3]
    decide
  have hn : gen_direction (edge_cap_of [(Edge.east, 23), (Edge.north, 15), (Edge.south, 15), (Edge.west, 23)])
      (edge_sig_of [(Edge.east, 23, 20, 3), (Edge.west, 23, 20, 3), (Edge.north, 15, 12, 3), (Edge.south, 15, 12, 3)])
      (edge_pow_of [(Edge.east, 23, 20, 3), (Edge.west, 23, 20, 3), (Edge.north, 15, 12, 3), (Edge.south, 15, 12, 3)])
      Edges.ALL.active_list (clk_rst_edge Edges.ALL) Edge.north 30 3 3 =
      some (
        [Pad.bidir 41, Pad.bidir 40, Pad.bidir 39, Pad.dvss 4, Pad.bidir 38, Pad.bidir 37,
        Pad.bidir 36, Pad.dvdd 3, Pad.bidir 35, Pad.bidir 34, Pad.bidir 33, Pad.dvss 3,
        Pad.bidir 32, Pad.bidir 31, Pad.bidir 30],
        42, 4, 5) := by
    have c1 : edge_cap_of [(Edge.east, 23), (Edge.north, 15), (Edge.south, 15), (Edge.west, 23)] Edge.north = 15 := by decide
    have c2 : edge_sig_of [(Edge.east, 23, 20, 3), (Edge.west, 23, 20, 3), (Edge.north, 15, 12, 3), (Edge.south, 15, 12, 3)] Edge.north = 12 := by decide
    have c3 : edge_pow_of [(Edge.east, 23, 20, 3), (Edge.west, 23, 20, 3), (Edge.north, 15, 12, 3), (Edge.south, 15, 12, 3)] Edge.north = 3 := by decide
    simp only [gen_direction, c1, c2, c3]
    decide
  have hw : gen_direction (edge_cap_of [(Edge.east, 23), (Edge.north, 15), (Edge.south, 15), (Edge.west, 23)])
      (edge_sig_of [(Edge.east, 23, 20, 3), (Edge.west, 23, 20, 3), (Edge.north, 15, 12, 3), (Edge.south, 15, 12, 3)])
      (edge_pow_of [(Edge.east, 23, 20, 3), (Edge.west, 23, 20, 3), (Edge.north, 15, 12, 3), (Edge.south, 15, 12, 3)])
      Edges.ALL.active_list (clk_rst_edge Edges.ALL) Edge.west 42 4 5 =
      some (
        [Pad.bidir 61, Pad.bidir 60, Pad.bidir 59, Pad.bidir 58, Pad.bidir 57, Pad.dvdd 5,
        Pad.bidir 56, Pad.bidir 55, Pad.bidir 54, Pad.bidir 53, Pad.bidir 52, Pad.dvss 5,
        Pad.bidir 51, Pad.bidir 50, Pad.bidir 49, Pad.bidir 48, Pad.bidir 47, Pad.dvdd 4,
        Pad.bidir 46, Pad.bidir 45, Pad.bidir 44, Pad.bidir 43, Pad.bidir 42],
        62, 6, 6) := by
    have c1 : edge_cap_of [(Edge.east, 23), (Edge.north, 15), (Edge.south, 15), (Edge.west, 23)] Edge.west = 23 := by decide
    have c2 : edge_sig_of [(Edge.east, 23, 20, 3), (Edge.west, 23, 20, 3), (Edge.north, 15, 12, 3), (Edge.south, 15, 12, 3)] Edge.west = 20 := by decide
    have c3 : edge_pow_of [(Edge.east, 23, 20, 3), (Edge.west, 23, 20, 3), (Edge.north, 15, 12, 3), (Edge.south, 15, 12, 3)] Edge.west = 3 := by decide
    simp only [gen_direction, c1, c2, c3]
    decide
  simp only [generate_config, h1]
  dsimp only [SLOTS]
  rw [h2]
  dsimp only
  rw [h3]
  simp only [build_artifact]
  rw [hs]
  dsimp only
  rw [he]
  dsimp only
  rw [hn]
  dsimp only
  rw [hw]
  dsimp only
  decide

/-- C6 helper: the s0p5x0p5 slot, MAX density, TOP edges. -/
theorem c6_s0p5x0p5_max_top :
    option_spec (c6_flags_ok SlotName.s0p5x0p5) (generate_config (SLOTS SlotName.s0p5x0p5) Density.MAX Edges.TOP) := by
  have h1 : calculate_pads_for_density (SLOTS SlotName.s0p5x0p5) Density.MAX Edges.TOP =
      (15, [(Edge.north, 15)]) := by decide
  have h2 : distribute_pads_with_power 15 SlotName.s0p5x0p5 = (11, 2) := by decide
  have h3 : allocate_edges [(Edge.north, 15)] (11 + 2) 2 =
      [(Edge.north, 15, 13, 2)] := by decide
  have hs : gen_direction (edge_cap_of [(Edge.north, 15)])
      (edge_sig_of [(Edge.north, 15, 13, 2)])
      (edge_pow_of [(Edge.north, 15, 13, 2)])
      Edges.TOP.active_list (clk_rst_edge Edges.TOP) Edge.south 0 0 0 =
      some (
        [],
        0, 0, 0) := by
    have c1 : edge_cap_of [(Edge.north, 15)] Edge.south = 0 := by decide
    have c2 : edge_sig_of [(Edge.north, 15, 13, 2)] Edge.south = 0 := by decide
    have c3 : edge_pow_of [(Edge.north, 15, 13, 2)] Edge.south = 0 := by decide
    simp only [gen_direction, c1, c2, c3]
    decide
  have he : gen_direction (edge_cap_of [(Edge.north, 15)])
      (edge_sig_of [(Edge.north, 15, 13, 2)])
      (edge_pow_of [(Edge.north, 15, 13, 2)])
      Edges.TOP.active_list (clk_rst_edge Edges.TOP) Edge.east 0 0 0 =
      some (
        [],
        0, 0, 0) := by
    have c1 : edge_cap_of [(Edge.north, 15)] Edge.east = 0 := by decide
    have c2 : edge_sig_of [(Edge.north, 15, 13, 2)] Edge.east = 0 := by decide
    have c3 : edge_pow_of [(Edge.north, 15, 13, 2)] Edge.east = 0 := by decide
    simp only [gen_direction, c1, c2, c3]
    decide
  have hn : gen_direction (edge_cap_of [(Edge.north, 15)])
      (edge_sig_of [(Edge.north, 15, 13, 2)])
      (edge_pow_of [(Edge.north, 15, 13, 2)])
      Edges.TOP.active_list (clk_rst_edge Edges.TOP) Edge.north 0 0 0 =
      some (
        [Pad.clk, Pad.rst_n, Pad.bidir 10, Pad.bidir 9, Pad.bidir 8, Pad.bidir 7, Pad.bidir 6,
        Pad.dvdd 0, Pad.bidir 5, Pad.bidir 4, Pad.bidir 3, Pad.dvss 0, Pad.bidir 2, Pad.bidir 1,
        Pad.bidir 0],
        11, 1, 1) := by
    have c1 : edge_cap_of [(Edge.north, 15)] Edge.north = 15 := by decide
    have c2 : edge_sig_of [(Edge.north, 15, 13, 2)] Edge.north = 13 := by decide
    have c3 : edge_pow_of [(Edge.north, 15, 13, 2)] Edge.north = 2 := by decide
    simp only [gen_direction, c1, c2, c3]
    decide
  have hw : gen_direction (edge_cap_of [(Edge.north, 15)])
      (edge_sig_of [(Edge.north, 15, 13, 2)])
      (edge_pow_of [(Edge.north, 15, 13, 2)])
      Edges.TOP.active_list (clk_rst_edge Edges.TOP) Edge.west 11 1 1 =
      some (
        [],
        11, 1, 1) := by
    have c1 : edge_cap_of [(Edge.north, 15)] Edge.west = 0 := by decide
    have c2 : edge_sig_of [(Edge.north, 15, 13, 2)] Edge.west = 0 := by decide
    have c3 : edge_pow_of [(Edge.north, 15, 13, 2)] Edge.west = 0 := by decide
    simp only [gen_direction, c1, c2, c3]
    decide
  simp only [generate_config, h1]
  dsimp only [SLOTS]
  rw [h2]
  dsimp only
  rw [h3]
  simp only [build_artifact]
  rw [hs]
  dsimp only
  rw [he]
  dsimp only
  rw [hn]
  dsimp only
  rw [hw]
  dsimp only
  decide

/-- C6 helper: the s0p5x0p5 slot, MAX density, LFT edges. -/
theorem c6_s0p5x0p5_max_lft :
    option_spec (c6_flags_ok SlotName.s0p5x0p5) (generate_config (SLOTS SlotName.s0p5x0p5) Density.MAX Edges.LFT) := by
  have h1 : calculate_pads_for_density (SLOTS SlotName.s0p5x0p5) Density.MAX Edges.LFT =
      (23, [(Edge.west, 23)]) := by decide
  have h2 : distribute_pads_with_power 23 SlotName.s0p5x0p5 = (17, 4) := by decide
  have h3 : allocate_edges [(Edge.west, 23)] (17 + 2) 4 =
      [(Edge.west, 23, 19, 4)] := by decide
  have hs : gen_direction (edge_cap_of [(Edge.west, 23)])
      (edge_sig_of [(Edge.west, 23, 19, 4)])
      (edge_pow_of [(Edge.west, 23, 19, 4)])
      Edges.LFT.active_list (clk_rst_edge Edges.LFT) Edge.south 0 0 0 =
      some (
        [],
        0, 0, 0) := by
    have c1 : edge_cap_of [(Edge.west, 23)] Edge.south = 0 := by decide
    have c2 : edge_sig_of [(Edge.west, 23, 19, 4)] Edge.south = 0 := by decide
    have c3 : edge_pow_of [(Edge.west, 23, 19, 4)] Edge.south = 0 := by decide
    simp only [gen_direction, c1, c2, c3]
    decide
  have he : gen_direction (edge_cap_of [(Edge.west, 23)])
      (edge_sig_of [(Edge.west, 23, 19, 4)])
      (edge_pow_of [(Edge.west, 23, 19, 4)])
      Edges.LFT.active_list (clk_rst_edge Edges.LFT) Edge.east 0 0 0 =
      some (
        [],
        0, 0, 0) := by
    have c1 : edge_cap_of [(Edge.west, 23)] Edge.east = 0 := by decide
    have c2 : edge_sig_of [(Edge.west, 23, 19, 4)] Edge.east = 0 := by decide
    have c3 : edge_pow_of [(Edge.west, 23, 19, 4)] Edge.east = 0 := by decide
    simp only [gen_direction, c1, c2, c3]
    decide
  have hn : gen_direction (edge_cap_of [(Edge.west, 23)])
      (edge_sig_of [(Edge.west, 23, 19, 4)])
      (edge_pow_of [(Edge.west, 23, 19, 4)])
      Edges.LFT.active_list (clk_rst_edge Edges.LFT) Edge.north 0 0 0 =
      some (
        [],
        0, 0, 0) := by
    have c1 : edge_cap_of [(Edge.west, 23)] Edge.north = 0 := by decide
    have c2 : edge_sig_of [(Edge.west, 23, 19, 4)] Edge.north = 0 := by decide
    have c3 : edge_pow_of [(Edge.west, 23, 19, 4)] Edge.north = 0 := by decide
    simp only [gen_direction, c1, c2, c3]
    decide
  have hw : gen_direction (edge_cap_of [(Edge.west, 23)])
      (edge_sig_of [(Edge.west, 23, 19, 4)])
      (edge_pow_of [(Edge.west, 23, 19, 4)])
      Edges.LFT.active_list (clk_rst_edge Edges.LFT) Edge.west 0 0 0 =
      some (
        [Pad.clk, Pad.rst_n, Pad.bidir 16, Pad.bidir 15, Pad.bidir 14, Pad.bidir 13,
        Pad.bidir 12, Pad.dvdd 1, Pad.bidir 11, Pad.bidir 10, Pad.bidir 9, Pad.dvss 1,
        Pad.bidir 8, Pad.bidir 7, Pad.bidir 6, Pad.dvdd 0, Pad.bidir 5, Pad.bidir 4, Pad.bidir 3,
        Pad.dvss 0, Pad.bidir 2, Pad.bidir 1, Pad.bidir 0],
        17, 2, 2) := by
    have c1 : edge_cap_of [(Edge.west, 23)] Edge.west = 23 := by decide
    have c2 : edge_sig_of [(Edge.west, 23, 19, 4)] Edge.west = 19 := by decide
    have c3 : edge_pow_of [(Edge.west, 23, 19, 4)] Edge.west = 4 := by decide
    simp only [gen_direction, c1, c2, c3]
    decide
  simp only [generate_config, h1]
  dsimp only [SLOTS]
  rw [h2]
  dsimp only
  rw [h3]
  simp only [build_artifact]
  rw [hs]
  dsimp only
  rw [he]
  dsimp only
  rw [hn]
  dsimp only
  rw [hw]
  dsimp only
  decide

/-- C6 helper: the s0p5x0p5 slot, MAX density, HOR edges. -/
theorem c6_s0p5x0p5_max_hor :
    option_spec (c6_flags_ok SlotName.s0p5x0p5) (generate_config (SLOTS SlotName.s0p5x0p5) Density.MAX Edges.HOR) := by
  have h1 : calculate_pads_for_density (SLOTS SlotName.s0p5x0p5) Density.MAX Edges.HOR =
      (30, [(Edge.north, 15), (Edge.south, 15)]) := by decide
  have h2 : distribute_pads_with_power 30 SlotName.s0p5x0p5 = (24, 4) := by decide
  have h3 : allocate_edges [(Edge.north, 15), (Edge.south, 15)] (24 + 2) 4 =
      [(Edge.north, 15, 13, 2), (Edge.south, 15, 13, 2)] := by decide
  have hs : gen_direction (edge_cap_of [(Edge.north, 15), (Edge.south, 15)])
      (edge_sig_of [(Edge.north, 15, 13, 2), (Edge.south, 15, 13, 2)])
      (edge_pow_of [(Edge.north, 15, 13, 2), (Edge.south, 15, 13, 2)])
      Edges.HOR.active_list (clk_rst_edge Edges.HOR) Edge.south 0 0 0 =
      some (
        [Pad.clk, Pad.rst_n, Pad.bidir 0, Pad.bidir 1, Pad.bidir 2, Pad.dvss 0, Pad.bidir 3,
        Pad.bidir 4, Pad.bidir 5, Pad.dvdd 0, Pad.bidir 6, Pad.bidir 7, Pad.bidir 8, Pad.bidir 9,
        Pad.bidir 10],
        11, 1, 1) := by
    have c1 : edge_cap_of [(Edge.north, 15), (Edge.south, 15)] Edge.south = 15 := by decide
    have c2 : edge_sig_of [(Edge.north, 15, 13, 2), (Edge.south, 15, 13, 2)] Edge.south = 13 := by decide
    have c3 : edge_pow_of [(Edge.north, 15, 13, 2), (Edge.south, 15, 13, 2)] Edge.south = 2 := by decide
    simp only [gen_direction, c1, c2, c3]
    decide
  have he : gen_direction (edge_cap_of [(Edge.north, 15), (Edge.south, 15)])
      (edge_sig_of [(Edge.north, 15, 13, 2), (Edge.south, 15, 13, 2)])
      (edge_pow_of [(Edge.north, 15, 13, 2), (Edge.south, 15, 13, 2)])
      Edges.HOR.active_list (clk_rst_edge Edges.HOR) Edge.east 11 1 1 =
      some (
        [],
        11, 1, 1) := by
    have c1 : edge_cap_of [(Edge.north, 15), (Edge.south, 15)] Edge.east = 0 := by decide
    have c2 : edge_sig_of [(Edge.north, 15, 13, 2), (Edge.south, 15, 13, 2)] Edge.east = 0 := by decide
    have c3 : edge_pow_of [(Edge.north, 15, 13, 2), (Edge.south, 15, 13, 2)] Edge.east = 0 := by decide
    simp only [gen_direction, c1, c2, c3]
    decide
  have hn : gen_direction (edge_cap_of [(Edge.north, 15), (Edge.south, 15)])
      (edge_sig_of [(Edge.north, 15, 13, 2), (Edge.south, 15, 13, 2)])
      (edge_pow_of [(Edge.north, 15, 13, 2), (Edge.south, 15, 13, 2)])
      Edges.HOR.active_list (clk_rst_edge Edges.HOR) Edge.north 11 1 1 =
      some (
        [Pad.bidir 23, Pad.bidir 22, Pad.bidir 21, Pad.bidir 20, Pad.bidir 19, Pad.dvdd 1,
        Pad.bidir 18, Pad.bidir 17, Pad.bidir 16, Pad.bidir 15, Pad.dvss 1, Pad.bidir 14,
        Pad.bidir 13, Pad.bidir 12, Pad.bidir 11],
        24, 2, 2) := by
    have c1 : edge_cap_of [(Edge.north, 15), (Edge.south, 15)] Edge.north = 15 := by decide
    have c2 : edge_sig_of [(Edge.north, 15, 13, 2), (Edge.south, 15, 13, 2)] Edge.north = 13 := by decide
    have c3 : edge_pow_of [(Edge.north, 15, 13, 2), (Edge.south, 15, 13, 2)] Edge.north = 2 := by decide
    simp only [gen_direction, c1, c2, c3]
    decide
  have hw : gen_direction (edge_cap_of [(Edge.north, 15), (Edge.south, 15)])
      (edge_sig_of [(Edge.north, 15, 13, 2), (Edge.south, 15, 13, 2)])
      (edge_pow_of [(Edge.north, 15, 13, 2), (Edge.south, 15, 13, 2)])
      Edges.HOR.active_list (clk_rst_edge Edges.HOR) Edge.west 24 2 2 =
      some (
        [],
        24, 2, 2) := by
    have c1 : edge_cap_of [(Edge.north, 15), (Edge.south, 15)] Edge.west = 0 := by decide
    have c2 : edge_sig_of [(Edge.north, 15, 13, 2), (Edge.south, 15, 13, 2)] Edge.west = 0 := by decide
    have c3 : edge_pow_of [(Edge.north, 15, 13, 2), (Edge.south, 15, 13, 2)] Edge.west = 0 := by decide
    simp only [gen_direction, c1, c2, c3]
    decide
  simp only [generate_config, h1]
  dsimp only [SLOTS]
  rw [h2]
  dsimp only
  rw [h3]
  simp only [build_artifact]
  rw [hs]
  dsimp only
  rw [he]
  dsimp only
  rw [hn]
  dsimp only
  rw [hw]
  dsimp only
  decide

/-- C6 helper: the s0p5x0p5 slot, MAX density, VER edges. -/
theorem c6_s0p5x0p5_max_ver :
    option_spec (c6_flags_ok SlotName.s0p5x0p5) (generate_config (SLOTS SlotName.s0p5x0p5) Density.MAX Edges.VER) := by
  have h1 : calculate_pads_for_density (SLOTS SlotName.s0p5x0p5) Density.MAX Edges.VER =
      (46, [(Edge.east, 23), (Edge.west, 23)]) := by decide
  have h2 : distribute_pads_with_power 46 SlotName.s0p5x0p5 = (38, 6) := by decide
  have h3 : allocate_edges [(Edge.east, 23), (Edge.west, 23)] (38 + 2) 6 =
      [(Edge.east, 23, 20, 3), (Edge.west, 23, 20, 3)] := by decide
  have hs : gen_direction (edge_cap_of [(Edge.east, 23), (Edge.west, 23)])
      (edge_sig_of [(Edge.east, 23, 20, 3), (Edge.west, 23, 20, 3)])
      (edge_pow_of [(Edge.east, 23, 20, 3), (Edge.west, 23, 20, 3)])
      Edges.VER.active_list (clk_rst_edge Edges.VER) Edge.south 0 0 0 =
      some (
        [],
        0, 0, 0) := by
    have c1 : edge_cap_of [(Edge.east, 23), (Edge.west, 23)] Edge.south = 0 := by decide
    have c2 : edge_sig_of [(Edge.east, 23, 20, 3), (Edge.west, 23, 20, 3)] Edge.south = 0 := by decide
    have c3 : edge_pow_of [(Edge.east, 23, 20, 3), (Edge.west, 23, 20, 3)] Edge.south = 0 := by decide
    simp only [gen_direction, c1, c2, c3]
    decide
  have he : gen_direction (edge_cap_of [(Edge.east, 23), (Edge.west, 23)])
      (edge_sig_of [(Edge.east, 23, 20, 3), (Edge.west, 23, 20, 3)])
      (edge_pow_of [(Edge.east, 23, 20, 3), (Edge.west, 23, 20, 3)])
      Edges.VER.active_list (clk_rst_edge Edges.VER) Edge.east 0 0 0 =
      some (
        [Pad.bidir 0, Pad.bidir 1, Pad.bidir 2, Pad.bidir 3, Pad.bidir 4, Pad.dvss 0,
        Pad.bidir 5, Pad.bidir 6, Pad.bidir 7, Pad.bidir 8, Pad.bidir 9, Pad.dvdd 0,
        Pad.bidir 10, Pad.bidir 11, Pad.bidir 12, Pad.bidir 13, Pad.bidir 14, Pad.dvss 1,
        Pad.bidir 15, Pad.bidir 16, Pad.bidir 17, Pad.bidir 18, Pad.bidir 19],
        20, 1, 2) := by
    have c1 : edge_cap_of [(Edge.east, 23), (Edge.west, 23)] Edge.east = 23 := by decide
    have c2 : edge_sig_of [(Edge.east, 23, 20, 3), (Edge.west, 23, 20, 3)] Edge.east = 20 := by decide
    have c3 : edge_pow_of [(Edge.east, 23, 20, 3), (Edge.west, 23, 20, 3)] Edge.east = 3 := by decide
    simp only [gen_direction, c1, c2, c3]
    decide
  have hn : gen_direction (edge_cap_of [(Edge.east, 23), (Edge.west, 23)])
      (edge_sig_of [(Edge.east, 23, 20, 3), (Edge.west, 23, 20, 3)])
      (edge_pow_of [(Edge.east, 23, 20, 3), (Edge.west, 23, 20, 3)])
      Edges.VER.active_list (clk_rst_edge Edges.VER) Edge.north 20 1 2 =
      some (
        [],
        20, 1, 2) := by
    have c1 : edge_cap_of [(Edge.east, 23), (Edge.west, 23)] Edge.north = 0 := by decide
    have c2 : edge_sig_of [(Edge.east, 23, 20, 3), (Edge.west, 23, 20, 3)] Edge.north = 0 := by decide
    have c3 : edge_pow_of [(Edge.east, 23, 20, 3), (Edge.west, 23, 20, 3)] Edge.north = 0 := by decide
    simp only [gen_direction, c1, c2, c3]
    decide
  have hw : gen_direction (edge_cap_of [(Edge.east, 23), (Edge.west, 23)])
      (edge_sig_of [(Edge.east, 23, 20, 3), (Edge.west, 23, 20, 3)])
      (edge_pow_of [(Edge.east, 23, 20, 3), (Edge.west, 23, 20, 3)])
      Edges.VER.active_list (clk_rst_edge Edges.VER) Edge.west 20 1 2 =
      some (
        [Pad.clk, Pad.rst_n, Pad.bidir 37, Pad.bidir 36, Pad.bidir 35, Pad.bidir 34,
        Pad.bidir 33, Pad.bidir 32, Pad.dvdd 2, Pad.bidir 31, Pad.bidir 30, Pad.bidir 29,
        Pad.bidir 28, Pad.dvss 2, Pad.bidir 27, Pad.bidir 26, Pad.bidir 25, Pad.bidir 24,
        Pad.dvdd 1, Pad.bidir 23, Pad.bidir 22, Pad.bidir 21, Pad.bidir 20],
        38, 3, 3) := by
    have c1 : edge_cap_of [(Edge.east, 23), (Edge.west, 23)] Edge.west = 23 := by decide
    have c2 : edge_sig_of [(Edge.east, 23, 20, 3), (Edge.west, 23, 20, 3)] Edge.west = 20 := by decide
    have c3 : edge_pow_of [(Edge.east, 23, 20, 3), (Edge.west, 23, 20, 3)] Edge.west = 3 := by decide
    simp only [gen_direction, c1, c2, c3]
    decide
  simp only [generate_config, h1]
  dsimp only [SLOTS]
  rw [h2]
  dsimp only
  rw [h3]
  simp only [build_artifact]
  rw [hs]
  dsimp only
  rw [he]
  dsimp only
  rw [hn]
  dsimp only
  rw [hw]
  dsimp only
  decide

/-- C6 helper: the s0p5x0p5 slot, MAX density, NWC edges. -/
theorem c6_s0p5x0p5_max_nwc :
    option_spec (c6_flags_ok SlotName.s0p5x0p5) (generate_config (SLOTS SlotName.s0p5x0p5) Density.MAX Edges.NWC) := by
  have h1 : calculate_pads_for_density (SLOTS SlotName.s0p5x0p5) Density.MAX Edges.NWC =
      (38, [(Edge.north, 15), (Edge.west, 23)]) := by decide
  have h2 : distribute_pads_with_power 38 SlotName.s0p5x0p5 = (30, 6) := by decide
  have h3 : allocate_edges [(Edge.north, 15), (Edge.west, 23)] (30 + 2) 6 =
      [(Edge.west, 23, 20, 3), (Edge.north, 15, 12, 3)] := by decide
  have hs : gen_direction (edge_cap_of [(Edge.north, 15), (Edge.west, 23)])
      (edge_sig_of [(Edge.west, 23, 20, 3), (Edge.north, 15, 12, 3)])
      (edge_pow_of [(Edge.west, 23, 20, 3), (Edge.north, 15, 12, 3)])
      Edges.NWC.active_list (clk_rst_edge Edges.NWC) Edge.south 0 0 0 =
      some (
        [],
        0, 0, 0) := by
    have c1 : edge_cap_of [(Edge.north, 15), (Edge.west, 23)] Edge.south = 0 := by decide
    have c2 : edge_sig_of [(Edge.west, 23, 20, 3), (Edge.north, 15, 12, 3)] Edge.south = 0 := by decide
    have c3 : edge_pow_of [(Edge.west, 23, 20, 3), (Edge.north, 15, 12, 3)] Edge.south = 0 := by decide
    simp only [gen_direction, c1, c2, c3]
    decide
  have he : gen_direction (edge_cap_of [(Edge.north, 15), (Edge.west, 23)])
      (edge_sig_of [(Edge.west, 23, 20, 3), (Edge.north, 15, 12, 3)])
      (edge_pow_of [(Edge.west, 23, 20, 3), (Edge.north, 15, 12, 3)])
      Edges.NWC.active_list (clk_rst_edge Edges.NWC) Edge.east 0 0 0 =
      some (
        [],
        0, 0, 0) := by
    have c1 : edge_cap_of [(Edge.north, 15), (Edge.west, 23)] Edge.east = 0 := by decide
    have c2 : edge_sig_of [(Edge.west, 23, 20, 3), (Edge.north, 15, 12, 3)] Edge.east = 0 := by decide
    have c3 : edge_pow_of [(Edge.west, 23, 20, 3), (Edge.north, 15, 12, 3)] Edge.east = 0 := by decide
    simp only [gen_direction, c1, c2, c3]
    decide
  have hn : gen_direction (edge_cap_of [(Edge.north, 15), (Edge.west, 23)])
      (edge_sig_of [(Edge.west, 23, 20, 3), (Edge.north, 15, 12, 3)])
      (edge_pow_of [(Edge.west, 23, 20, 3), (Edge.north, 15, 12, 3)])
      Edges.NWC.active_list (clk_rst_edge Edges.NWC) Edge.north 0 0 0 =
      some (
        [Pad.bidir 11, Pad.bidir 10, Pad.bidir 9, Pad.dvss 1, Pad.bidir 8, Pad.bidir 7,
        Pad.bidir 6, Pad.dvdd 0, Pad.bidir 5, Pad.bidir 4, Pad.bidir 3, Pad.dvss 0, Pad.bidir 2,
        Pad.bidir 1, Pad.bidir 0],
        12, 1, 2) := by
    have c1 : edge_cap_of [(Edge.north, 15), (Edge.west, 23)] Edge.north = 15 := by decide
    have c2 : edge_sig_of [(Edge.west, 23, 20, 3), (Edge.north, 15, 12, 3)] Edge.north = 12 := by decide
    have c3 : edge_pow_of [(Edge.west, 23, 20, 3), (Edge.north, 15, 12, 3)] Edge.north = 3 := by decide
    simp only [gen_direction, c1, c2, c3]
    decide
  have hw : gen_direction (edge_cap_of [(Edge.north, 15), (Edge.west, 23)])
      (edge_sig_of [(Edge.west, 23, 20, 3), (Edge.north, 15, 12, 3)])
      (edge_pow_of [(Edge.west, 23, 20, 3), (Edge.north, 15, 12, 3)])
      Edges.NWC.active_list (clk_rst_edge Edges.NWC) Edge.west 12 1 2 =
      some (
        [Pad.clk, Pad.rst_n, Pad.bidir 29, Pad.bidir 28, Pad.bidir 27, Pad.bidir 26,
        Pad.bidir 25, Pad.bidir 24, Pad.dvdd 2, Pad.bidir 23, Pad.bidir 22, Pad.bidir 21,
        Pad.bidir 20, Pad.dvss 2, Pad.bidir 19, Pad.bidir 18, Pad.bidir 17, Pad.bidir 16,
        Pad.dvdd 1, Pad.bidir 15, Pad.bidir 14, Pad.bidir 13, Pad.bidir 12],
        30, 3, 3) := by
    have c1 : edge_cap_of [(Edge.north, 15), (Edge.west, 23)] Edge.west = 23 := by decide
    have c2 : edge_sig_of [(Edge.west, 23, 20, 3), (Edge.north, 15, 12, 3)] Edge.west = 20 := by decide
    have c3 : edge_pow_of [(Edge.west, 23, 20, 3), (Edge.north, 15, 12, 3)] Edge.west = 3 := by decide
    simp only [gen_direction, c1, c2, c3]
    decide
  simp only [generate_config, h1]
  dsimp only [SLOTS]
  rw [h2]
  dsimp only
  rw [h3]
  simp only [build_artifact]
  rw [hs]
  dsimp only
  rw [he]
  dsimp only
  rw [hn]
  dsimp only
  rw [hw]
  dsimp only
  decide

/-- C6 helper: the s0p5x0p5 slot, MAX density, SEC edges. -/
theorem c6_s0p5x0p5_max_sec :
    option_spec (c6_flags_ok SlotName.s0p5x0p5) (generate_config (SLOTS SlotName.s0p5x0p5) Density.MAX Edges.SEC) := by
  have h1 : calculate_pads_for_density (SLOTS SlotName.s0p5x0p5) Density.MAX Edges.SEC =
      (38, [(Edge.east, 23), (Edge.south, 15)]) := by decide
  have h2 : distribute_pads_with_power 38 SlotName.s0p5x0p5 = (30, 6) := by decide
  have h3 : allocate_edges [(Edge.east, 23), (Edge.south, 15)] (30 + 2) 6 =
      [(Edge.east, 23, 20, 3), (Edge.south, 15, 12, 3)] := by decide
  have hs : gen_direction (edge_cap_of [(Edge.east, 23), (Edge.south, 15)])
      (edge_sig_of [(Edge.east, 23, 20, 3), (Edge.south, 15, 12, 3)])
      (edge_pow_of [(Edge.east, 23, 20, 3), (Edge.south, 15, 12, 3)])
      Edges.SEC.active_list (clk_rst_edge Edges.SEC) Edge.south 0 0 0 =
      some (
        [Pad.clk, Pad.rst_n, Pad.bidir 0, Pad.bidir 1, Pad.dvss 0, Pad.bidir 2, Pad.bidir 3,
        Pad.dvdd 0, Pad.bidir 4, Pad.bidir 5, Pad.dvss 1, Pad.bidir 6, Pad.bidir 7, Pad.bidir 8,
        Pad.bidir 9],
        10, 1, 2) := by
    have c1 : edge_cap_of [(Edge.east, 23), (Edge.south, 15)] Edge.south = 15 := by decide
    have c2 : edge_sig_of [(Edge.east, 23, 20, 3), (Edge.south, 15, 12, 3)] Edge.south = 12 := by decide
    have c3 : edge_pow_of [(Edge.east, 23, 20, 3), (Edge.south, 15, 12, 3)] Edge.south = 3 := by decide
    simp only [gen_direction, c1, c2, c3]
    decide
  have he : gen_direction (edge_cap_of [(Edge.east, 23), (Edge.south, 15)])
      (edge_sig_of [(Edge.east, 23, 20, 3), (Edge.south, 15, 12, 3)])
      (edge_pow_of [(Edge.east, 23, 20, 3), (Edge.south, 15, 12, 3)])
      Edges.SEC.active_list (clk_rst_edge Edges.SEC) Edge.east 10 1 2 =
      some (
        [Pad.bidir 10, Pad.bidir 11, Pad.bidir 12, Pad.bidir 13, Pad.bidir 14, Pad.dvdd 1,
        Pad.bidir 15, Pad.bidir 16, Pad.bidir 17, Pad.bidir 18, Pad.bidir 19, Pad.dvss 2,
        Pad.bidir 20, Pad.bidir 21, Pad.bidir 22, Pad.bidir 23, Pad.bidir 24, Pad.dvdd 2,
        Pad.bidir 25, Pad.bidir 26, Pad.bidir 27, Pad.bidir 28, Pad.bidir 29],
        30, 3, 3) := by
    have c1 : edge_cap_of [(Edge.east, 23), (Edge.south, 15)] Edge.east = 23 := by decide
    have c2 : edge_sig_of [(Edge.east, 23, 20, 3), (Edge.south, 15, 12, 3)] Edge.east = 20 := by decide
    have c3 : edge_pow_of [(Edge.east, 23, 20, 3), (Edge.south, 15, 12, 3)] Edge.east = 3 := by decide
    simp only [gen_direction, c1, c2, c3]
    decide
  have hn : gen_direction (edge_cap_of [(Edge.east, 23), (Edge.south, 15)])
      (edge_sig_of [(Edge.east, 23, 20, 3), (Edge.south, 15, 12, 3)])
      (edge_pow_of [(Edge.east, 23, 20, 3), (Edge.south, 15, 12, 3)])
      Edges.SEC.active_list (clk_rst_edge Edges.SEC) Edge.north 30 3 3 =
      some (
        [],
        30, 3, 3) := by
    have c1 : edge_cap_of [(Edge.east, 23), (Edge.south, 15)] Edge.north = 0 := by decide
    have c2 : edge_sig_of [(Edge.east, 23, 20, 3), (Edge.south, 15, 12, 3)] Edge.north = 0 := by decide
    have c3 : edge_pow_of [(Edge.east, 23, 20, 3), (Edge.south, 15, 12, 3)] Edge.north = 0 := by decide
    simp only [gen_direction, c1, c2, c3]
    decide
  have hw : gen_direction (edge_cap_of [(Edge.east, 23), (Edge.south, 15)])
      (edge_sig_of [(Edge.east, 23, 20, 3), (Edge.south, 15, 12, 3)])
      (edge_pow_of [(Edge.east, 23, 20, 3), (Edge.south, 15, 12, 3)])
      Edges.SEC.active_list (clk_rst_edge Edges.SEC) Edge.west 30 3 3 =
      some (
        [],
        30, 3, 3) := by
    have c1 : edge_cap_of [(Edge.east, 23), (Edge.south, 15)] Edge.west = 0 := by decide
    have c2 : edge_sig_of [(Edge.east, 23, 20, 3), (Edge.south, 15, 12, 3)] Edge.west = 0 := by decide
    have c3 : edge_pow_of [(Edge.east, 23, 20, 3), (Edge.south, 15, 12, 3)] Edge.west = 0 := by decide
    simp only [gen_direction, c1, c2, c3]
    decide
  simp only [generate_config, h1]
  dsimp only [SLOTS]
  rw [h2]
  dsimp only
  rw [h3]
  simp only [build_artifact]
  rw [hs]
  dsimp only
  rw [he]
  dsimp only
  rw [hn]
  dsimp only
  rw [hw]
  dsimp only
  decide

/-- C6 helper: the s0p5x0p5 slot, SPC density, ALL edges. -/
theorem c6_s0p5x0p5_spc_all :
    option_spec (c6_flags_ok SlotName.s0p5x0p5) (generate_config (SLOTS SlotName.s0p5x0p5) Density.SPC Edges.ALL) := by
  have h1 : calculate_pads_for_density (SLOTS SlotName.s0p5x0p5) Density.SPC Edges.ALL =
      (76, [(Edge.east, 23), (Edge.north, 15), (Edge.south, 15), (Edge.west, 23)]) := by decide
  have h2 : distribute_pads_with_power 76 SlotName.s0p5x0p5 = (62, 12) := by decide
  have h3 : allocate_edges [(Edge.east, 23), (Edge.north, 15), (Edge.south, 15), (Edge.west, 23)] (62 + 2) 12 =
      [(Edge.east, 23, 20, 3), (Edge.west, 23, 20, 3), (Edge.north, 15, 12, 3), (Edge.south, 15, 12, 3)] := by decide
  have hs : gen_direction (edge_cap_of [(Edge.east, 23), (Edge.north, 15), (Edge.south, 15), (Edge.west, 23)])
      (edge_sig_of [(Edge.east, 23, 20, 3), (Edge.west, 23, 20, 3), (Edge.north, 15, 12, 3), (Edge.south, 15, 12, 3)])
      (edge_pow_of [(Edge.east, 23, 20, 3), (Edge.west, 23, 20, 3), (Edge.north, 15, 12, 3), (Edge.south, 15, 12, 3)])
      Edges.ALL.active_list (clk_rst_edge Edges.ALL) Edge.south 0 0 0 =
      some (
        [Pad.clk, Pad.rst_n, Pad.bidir 0, Pad.bidir 1, Pad.dvss 0, Pad.bidir 2, Pad.bidir 3,
        Pad.dvdd 0, Pad.bidir 4, Pad.bidir 5, Pad.dvss 1, Pad.bidir 6, Pad.bidir 7, Pad.bidir 8,
        Pad.bidir 9],
        10, 1, 2) := by
    have c1 : edge_cap_of [(Edge.east, 23), (Edge.north, 15), (Edge.south, 15), (Edge.west, 23)] Edge.south = 15 := by decide
    have c2 : edge_sig_of [(Edge.east, 23, 20, 3), (Edge.west, 23, 20, 3), (Edge.north, 15, 12, 3), (Edge.south, 15, 12, 3)] Edge.south = 12 := by decide
    have c3 : edge_pow_of [(Edge.east, 23, 20, 3), (Edge.west, 23, 20, 3), (Edge.north, 15, 12, 3), (Edge.south, 15, 12, 3)] Edge.south = 3 := by decide
    simp only [gen_direction, c1, c2, c3]
    decide
  have he : gen_direction (edge_cap_of [(Edge.east, 23), (Edge.north, 15), (Edge.south, 15), (Edge.west, 23)])
      (edge_sig_of [(Edge.east, 23, 20, 3), (Edge.west, 23, 20, 3), (Edge.north, 15, 12, 3), (Edge.south, 15, 12, 3)])
      (edge_pow_of [(Edge.east, 23, 20, 3), (Edge.west, 23, 20, 3), (Edge.north, 15, 12, 3), (Edge.south, 15, 12, 3)])
      Edges.ALL.active_list (clk_rst_edge Edges.ALL) Edge.east 10 1 2 =
      some (
        [Pad.bidir 10, Pad.bidir 11, Pad.bidir 12, Pad.bidir 13, Pad.bidir 14, Pad.dvdd 1,
        Pad.bidir 15, Pad.bidir 16, Pad.bidir 17, Pad.bidir 18, Pad.bidir 19, Pad.dvss 2,
        Pad.bidir 20, Pad.bidir 21, Pad.bidir 22, Pad.bidir 23, Pad.bidir 24, Pad.dvdd 2,
        Pad.bidir 25, Pad.bidir 26, Pad.bidir 27, Pad.bidir 28, Pad.bidir 29],
        30, 3, 3) := by
    have c1 : edge_cap_of [(Edge.east, 23), (Edge.north, 15), (Edge.south, 15), (Edge.west, 23)] Edge.east = 23 := by decide
    have c2 : edge_sig_of [(Edge.east, 23, 20, 3), (Edge.west, 23, 20, 3), (Edge.north, 15, 12, 3), (Edge.south, 15, 12, 3)] Edge.east = 20 := by decide
    have c3 : edge_pow_of [(Edge.east, 23, 20, 3), (Edge.west, 23, 20, 3), (Edge.north, 15, 12, 3), (Edge.south, 15, 12, 3)] Edge.east = 3 := by decide
    simp only [gen_direction, c1, c2, c3]
    decide
  have hn : gen_direction (edge_cap_of [(Edge.east, 23), (Edge.north, 15), (Edge.south, 15), (Edge.west, 23)])
      (edge_sig_of [(Edge.east, 23, 20, 3), (Edge.west, 23, 20, 3), (Edge.north, 15, 12, 3), (Edge.south, 15, 12, 3)])
      (edge_pow_of [(Edge.east, 23, 20, 3), (Edge.west, 23, 20, 3), (Edge.north, 15, 12, 3), (Edge.south, 15, 12, 3)])
      Edges.ALL.active_list (clk_rst_edge Edges.ALL) Edge.north 30 3 3 =
      some (
        [Pad.bidir 41, Pad.bidir 40, Pad.bidir 39, Pad.dvss 4, Pad.bidir 38, Pad.bidir 37,
        Pad.bidir 36, Pad.dvdd 3, Pad.bidir 35, Pad.bidir 34, Pad.bidir 33, Pad.dvss 3,
        Pad.bidir 32, Pad.bidir 31, Pad.bidir 30],
        42, 4, 5) := by
    have c1 : edge_cap_of [(Edge.east, 23), (Edge.north, 15), (Edge.south, 15), (Edge.west, 23)] Edge.north = 15 := by decide
    have c2 : edge_sig_of [(Edge.east, 23, 20, 3), (Edge.west, 23, 20, 3), (Edge.north, 15, 12, 3), (Edge.south, 15, 12, 3)] Edge.north = 12 := by decide
    have c3 : edge_pow_of [(Edge.east, 23, 20, 3), (Edge.west, 23, 20, 3), (Edge.north, 15, 12, 3), (Edge.south, 15, 12, 3)] Edge.north = 3 := by decide
    simp only [gen_direction, c1, c2, c3]
    decide
  have hw : gen_direction (edge_cap_of [(Edge.east, 23), (Edge.north, 15), (Edge.south, 15), (Edge.west, 23)])
      (edge_sig_of [(Edge.east, 23, 20, 3), (Edge.west, 23, 20, 3), (Edge.north, 15, 12, 3), (Edge.south, 15, 12, 3)])
      (edge_pow_of [(Edge.east, 23, 20, 3), (Edge.west, 23, 20, 3), (Edge.north, 15, 12, 3), (Edge.south, 15, 12, 3)])
      Edges.ALL.active_list (clk_rst_edge Edges.ALL) Edge.west 42 4 5 =
      some (
        [Pad.bidir 61, Pad.bidir 60, Pad.bidir 59, Pad.bidir 58, Pad.bidir 57, Pad.dvdd 5,
        Pad.bidir 56, Pad.bidir 55, Pad.bidir 54, Pad.bidir 53, Pad.bidir 52, Pad.dvss 5,
        Pad.bidir 51, Pad.bidir 50, Pad.bidir 49, Pad.bidir 48, Pad.bidir 47, Pad.dvdd 4,
        Pad.bidir 46, Pad.bidir 45, Pad.bidir 44, Pad.bidir 43, Pad.bidir 42],
        62, 6, 6) := by
    have c1 : edge_cap_of [(Edge.east, 23), (Edge.north, 15), (Edge.south, 15), (Edge.west, 23)] Edge.west = 23 := by decide
    have c2 : edge_sig_of [(Edge.east, 23, 20, 3), (Edge.west, 23, 20, 3), (Edge.north, 15, 12, 3), (Edge.south, 15, 12, 3)] Edge.west = 20 := by decide
    have c3 : edge_pow_of [(Edge.east, 23, 20, 3), (Edge.west, 23, 20, 3), (Edge.north, 15, 12, 3), (Edge.south, 15, 12, 3)] Edge.west = 3 := by decide
    simp only [gen_direction, c1, c2, c3]
    decide
  simp only [generate_config, h1]
  dsimp only [SLOTS]
  rw [h2]
  dsimp only
  rw [h3]
  simp only [build_artifact]
  rw [hs]
  dsimp only
  rw [he]
  dsimp only
  rw [hn]
  dsimp only
  rw [hw]
  dsimp only
  decide

/-- C6 helper: the s0p5x0p5 slot, SPC density, TOP edges. -/
theorem c6_s0p5x0p5_spc_top :
    option_spec (c6_flags_ok SlotName.s0p5x0p5) (generate_config (SLOTS SlotName.s0p5x0p5) Density.SPC Edges.TOP) := by
  have h1 : calculate_pads_for_density (SLOTS SlotName.s0p5x0p5) Density.SPC Edges.TOP =
      (15, [(Edge.north, 15)]) := by decide
  have h2 : distribute_pads_with_power 15 SlotName.s0p5x0p5 = (11, 2) := by decide
  have h3 : allocate_edges [(Edge.north, 15)] (11 + 2) 2 =
      [(Edge.north, 15, 13, 2)] := by decide
  have hs : gen_direction (edge_cap_of [(Edge.north, 15)])
      (edge_sig_of [(Edge.north, 15, 13, 2)])
      (edge_pow_of [(Edge.north, 15, 13, 2)])
      Edges.TOP.active_list (clk_rst_edge Edges.TOP) Edge.south 0 0 0 =
      some (
        [],
        0, 0, 0) := by
    have c1 : edge_cap_of [(Edge.north, 15)] Edge.south = 0 := by decide
    have c2 : edge_sig_of [(Edge.north, 15, 13, 2)] Edge.south = 0 := by decide
    have c3 : edge_pow_of [(Edge.north, 15, 13, 2)] Edge.south = 0 := by decide
    simp only [gen_direction, c1, c2, c3]
    decide
  have he : gen_direction (edge_cap_of [(Edge.north, 15)])
      (edge_sig_of [(Edge.north, 15, 13, 2)])
      (edge_pow_of [(Edge.north, 15, 13, 2)])
      Edges.TOP.active_list (clk_rst_edge Edges.TOP) Edge.east 0 0 0 =
      some (
        [],
        0, 0, 0) := by
    have c1 : edge_cap_of [(Edge.north, 15)] Edge.east = 0 := by decide
    have c2 : edge_sig_of [(Edge.north, 15, 13, 2)] Edge.east = 0 := by decide
    have c3 : edge_pow_of [(Edge.north, 15, 13, 2)] Edge.east = 0 := by decide
    simp only [gen_direction, c1, c2, c3]
    decide
  have hn : gen_direction (edge_cap_of [(Edge.north, 15)])
      (edge_sig_of [(Edge.north, 15, 13, 2)])
      (edge_pow_of [(Edge.north, 15, 13, 2)])
      Edges.TOP.active_list (clk_rst_edge Edges.TOP) Edge.north 0 0 0 =
      some (
        [Pad.clk, Pad.rst_n, Pad.bidir 10, Pad.bidir 9, Pad.bidir 8, Pad.bidir 7, Pad.bidir 6,
        Pad.dvdd 0, Pad.bidir 5, Pad.bidir 4, Pad.bidir 3, Pad.dvss 0, Pad.bidir 2, Pad.bidir 1,
        Pad.bidir 0],
        11, 1, 1) := by
    have c1 : edge_cap_of [(Edge.north, 15)] Edge.north = 15 := by decide
    have c2 : edge_sig_of [(Edge.north, 15, 13, 2)] Edge.north = 13 := by decide
    have c3 : edge_pow_of [(Edge.north, 15, 13, 2)] Edge.north = 2 := by decide
    simp only [gen_direction, c1, c2, c3]
    decide
  have hw : gen_direction (edge_cap_of [(Edge.north, 15)])
      (edge_sig_of [(Edge.north, 15, 13, 2)])
      (edge_pow_of [(Edge.north, 15, 13, 2)])
      Edges.TOP.active_list (clk_rst_edge Edges.TOP) Edge.west 11 1 1 =
      some (
        [],
        11, 1, 1) := by
    have c1 : edge_cap_of [(Edge.north, 15)] Edge.west = 0 := by decide
    have c2 : edge_sig_of [(Edge.north, 15, 13, 2)] Edge.west = 0 := by decide
    have c3 : edge_pow_of [(Edge.north, 15, 13, 2)] Edge.west = 0 := by decide
    simp only [gen_direction, c1, c2, c3]
    decide
  simp only [generate_config, h1]
  dsimp only [SLOTS]
  rw [h2]
  dsimp only
  rw [h3]
  simp only [build_artifact]
  rw [hs]
  dsimp only
  rw [he]
  dsimp only
  rw [hn]
  dsimp only
  rw [hw]
  dsimp only
  decide

/-- C6 helper: the s0p5x0p5 slot, SPC density, LFT edges. -/
theorem c6_s0p5x0p5_spc_lft :
    option_spec (c6_flags_ok SlotName.s0p5x0p5) (generate_config (SLOTS SlotName.s0p5x0p5) Density.SPC Edges.LFT) := by
  have h1 : calculate_pads_for_density (SLOTS SlotName.s0p5x0p5) Density.SPC Edges.LFT =
      (23, [(Edge.west, 23)]) := by decide
  have h2 : distribute_pads_with_power 23 SlotName.s0p5x0p5 = (17, 4) := by decide
  have h3 : allocate_edges [(Edge.west, 23)] (17 + 2) 4 =
      [(Edge.west, 23, 19, 4)] := by decide
  have hs : gen_direction (edge_cap_of [(Edge.west, 23)])
      (edge_sig_of [(Edge.west, 23, 19, 4)])
      (edge_pow_of [(Edge.west, 23, 19, 4)])
      Edges.LFT.active_list (clk_rst_edge Edges.LFT) Edge.south 0 0 0 =
      some (
        [],
        0, 0, 0) := by
    have c1 : edge_cap_of [(Edge.west, 23)] Edge.south = 0 := by decide
    have c2 : edge_sig_of [(Edge.west, 23, 19, 4)] Edge.south = 0 := by decide
    have c3 : edge_pow_of [(Edge.west, 23, 19, 4)] Edge.south = 0 := by decide
    simp only [gen_direction, c1, c2, c3]
    decide
  have he : gen_direction (edge_cap_of [(Edge.west, 23)])
      (edge_sig_of [(Edge.west, 23, 19, 4)])
      (edge_pow_of [(Edge.west, 23, 19, 4)])
      Edges.LFT.active_list (clk_rst_edge Edges.LFT) Edge.east 0 0 0 =
      some (
        [],
        0, 0, 0) := by
    have c1 : edge_cap_of [(Edge.west, 23)] Edge.east = 0 := by decide
    have c2 : edge_sig_of [(Edge.west, 23, 19, 4)] Edge.east = 0 := by decide
    have c3 : edge_pow_of [(Edge.west, 23, 19, 4)] Edge.east = 0 := by decide
    simp only [gen_direction, c1, c2, c3]
    decide
  have hn : gen_direction (edge_cap_of [(Edge.west, 23)])
      (edge_sig_of [(Edge.west, 23, 19, 4)])
      (edge_pow_of [(Edge.west, 23, 19, 4)])
      Edges.LFT.active_list (clk_rst_edge Edges.LFT) Edge.north 0 0 0 =
      some (
        [],
        0, 0, 0) := by
    have c1 : edge_cap_of [(Edge.west, 23)] Edge.north = 0 := by decide
    have c2 : edge_sig_of [(Edge.west, 23, 19, 4)] Edge.north = 0 := by decide
    have c3 : edge_pow_of [(Edge.west, 23, 19, 4)] Edge.north = 0 := by decide
    simp only [gen_direction, c1, c2, c3]
    decide
  have hw : gen_direction (edge_cap_of [(Edge.west, 23)])
      (edge_sig_of [(Edge.west, 23, 19, 4)])
      (edge_pow_of [(Edge.west, 23, 19, 4)])
      Edges.LFT.active_list (clk_rst_edge Edges.LFT) Edge.west 0 0 0 =
      some (
        [Pad.clk, Pad.rst_n, Pad.bidir 16, Pad.bidir 15, Pad.bidir 14, Pad.bidir 13,
        Pad.bidir 12, Pad.dvdd 1, Pad.bidir 11, Pad.bidir 10, Pad.bidir 9, Pad.dvss 1,
        Pad.bidir 8, Pad.bidir 7, Pad.bidir 6, Pad.dvdd 0, Pad.bidir 5, Pad.bidir 4, Pad.bidir 3,
        Pad.dvss 0, Pad.bidir 2, Pad.bidir 1, Pad.bidir 0],
        17, 2, 2) := by
    have c1 : edge_cap_of [(Edge.west, 23)] Edge.west = 23 := by decide
    have c2 : edge_sig_of [(Edge.west, 23, 19, 4)] Edge.west = 19 := by decide
    have c3 : edge_pow_of [(Edge.west, 23, 19, 4)] Edge.west = 4 := by decide
    simp only [gen_direction, c1, c2, c3]
    decide
  simp only [generate_config, h1]
  dsimp only [SLOTS]
  rw [h2]
  dsimp only
  rw [h3]
  simp only [build_artifact]
  rw [hs]
  dsimp only
  rw [he]
  dsimp only
  rw [hn]
  dsimp only
  rw [hw]
  dsimp only
  decide

/-- C6 helper: the s0p5x0p5 slot, SPC density, HOR edges. -/
theorem c6_s0p5x0p5_spc_hor :
    option_spec (c6_flags_ok SlotName.s0p5x0p5) (generate_config (SLOTS SlotName.s0p5x0p5) Density.SPC Edges.HOR) := by
  have h1 : calculate_pads_for_density (SLOTS SlotName.s0p5x0p5) Density.SPC Edges.HOR =
      (30, [(Edge.north, 15), (Edge.south, 15)]) := by decide
  have h2 : distribute_pads_with_power 30 SlotName.s0p5x0p5 = (24, 4) := by decide
  have h3 : allocate_edges [(Edge.north, 15), (Edge.south, 15)] (24 + 2) 4 =
      [(Edge.north, 15, 13, 2), (Edge.south, 15, 13, 2)] := by decide
  have hs : gen_direction (edge_cap_of [(Edge.north, 15), (Edge.south, 15)])
      (edge_sig_of [(Edge.north, 15, 13, 2), (Edge.south, 15, 13, 2)])
      (edge_pow_of [(Edge.north, 15, 13, 2), (Edge.south, 15, 13, 2)])
      Edges.HOR.active_list (clk_rst_edge Edges.HOR) Edge.south 0 0 0 =
      some (
        [Pad.clk, Pad.rst_n, Pad.bidir 0, Pad.bidir 1, Pad.bidir 2, Pad.dvss 0, Pad.bidir 3,
        Pad.bidir 4, Pad.bidir 5, Pad.dvdd 0, Pad.bidir 6, Pad.bidir 7, Pad.bidir 8, Pad.bidir 9,
        Pad.bidir 10],
        11, 1, 1) := by
    have c1 : edge_cap_of [(Edge.north, 15), (Edge.south, 15)] Edge.south = 15 := by decide
    have c2 : edge_sig_of [(Edge.north, 15, 13, 2), (Edge.south, 15, 13, 2)] Edge.south = 13 := by decide
    have c3 : edge_pow_of [(Edge.north, 15, 13, 2), (Edge.south, 15, 13, 2)] Edge.south = 2 := by decide
    simp only [gen_direction, c1, c2, c3]
    decide
  have he : gen_direction (edge_cap_of [(Edge.north, 15), (Edge.south, 15)])
      (edge_sig_of [(Edge.north, 15, 13, 2), (Edge.south, 15, 13, 2)])
      (edge_pow_of [(Edge.north, 15, 13, 2), (Edge.south, 15, 13, 2)])
      Edges.HOR.active_list (clk_rst_edge Edges.HOR) Edge.east 11 1 1 =
      some (
        [],
        11, 1, 1) := by
    have c1 : edge_cap_of [(Edge.north, 15), (Edge.south, 15)] Edge.east = 0 := by decide
    have c2 : edge_sig_of [(Edge.north, 15, 13, 2), (Edge.south, 15, 13, 2)] Edge.east = 0 := by decide
    have c3 : edge_pow_of [(Edge.north, 15, 13, 2), (Edge.south, 15, 13, 2)] Edge.east = 0 := by decide
    simp only [gen_direction, c1, c2, c3]
    decide
  have hn : gen_direction (edge_cap_of [(Edge.north, 15), (Edge.south, 15)])
      (edge_sig_of [(Edge.north, 15, 13, 2), (Edge.south, 15, 13, 2)])
      (edge_pow_of [(Edge.north, 15, 13, 2), (Edge.south, 15, 13, 2)])
      Edges.HOR.active_list (clk_rst_edge Edges.HOR) Edge.north 11 1 1 =
      some (
        [Pad.bidir 23, Pad.bidir 22, Pad.bidir 21, Pad.bidir 20, Pad.bidir 19, Pad.dvdd 1,
        Pad.bidir 18, Pad.bidir 17, Pad.bidir 16, Pad.bidir 15, Pad.dvss 1, Pad.bidir 14,
        Pad.bidir 13, Pad.bidir 12, Pad.bidir 11],
        24, 2, 2) := by
    have c1 : edge_cap_of [(Edge.north, 15), (Edge.south, 15)] Edge.north = 15 := by decide
    have c2 : edge_sig_of [(Edge.north, 15, 13, 2), (Edge.south, 15, 13, 2)] Edge.north = 13 := by decide
    have c3 : edge_pow_of [(Edge.north, 15, 13, 2), (Edge.south, 15, 13, 2)] Edge.north = 2 := by decide
    simp only [gen_direction, c1, c2, c3]
    decide
  have hw : gen_direction (edge_cap_of [(Edge.north, 15), (Edge.south, 15)])
      (edge_sig_of [(Edge.north, 15, 13, 2), (Edge.south, 15, 13, 2)])
      (edge_pow_of [(Edge.north, 15, 13, 2), (Edge.south, 15, 13, 2)])
      Edges.HOR.active_list (clk_rst_edge Edges.HOR) Edge.west 24 2 2 =
      some (
        [],
        24, 2, 2) := by
    have c1 : edge_cap_of [(Edge.north, 15), (Edge.south, 15)] Edge.west = 0 := by decide
    have c2 : edge_sig_of [(Edge.north, 15, 13, 2), (Edge.south, 15, 13, 2)] Edge.west = 0 := by decide
    have c3 : edge_pow_of [(Edge.north, 15, 13, 2), (Edge.south, 15, 13, 2)] Edge.west = 0 := by decide
    simp only [gen_direction, c1, c2, c3]
    decide
  simp only [generate_config, h1]
  dsimp only [SLOTS]
  rw [h2]
  dsimp only
  rw [h3]
  simp only [build_artifact]
  rw [hs]
  dsimp only
  rw [he]
  dsimp only
  rw [hn]
  dsimp only
  rw [hw]
  dsimp only
  decide

/-- C6 helper: the s0p5x0p5 slot, SPC density, VER edges. -/
theorem c6_s0p5x0p5_spc_ver :
    option_spec (c6_flags_ok SlotName.s0p5x0p5) (generate_config (SLOTS SlotName.s0p5x0p5) Density.SPC Edges.VER) := by
  have h1 : calculate_pads_for_density (SLOTS SlotName.s0p5x0p5) Density.SPC Edges.VER =
      (46, [(Edge.east, 23), (Edge.west, 23)]) := by decide
  have h2 : distribute_pads_with_power 46 SlotName.s0p5x0p5 = (38, 6) := by decide
  have h3 : allocate_edges [(Edge.east, 23), (Edge.west, 23)] (38 + 2) 6 =
      [(Edge.east, 23, 20, 3), (Edge.west, 23, 20, 3)] := by decide
  have hs : gen_direction (edge_cap_of [(Edge.east, 23), (Edge.west, 23)])
      (edge_sig_of [(Edge.east, 23, 20, 3), (Edge.west, 23, 20, 3)])
      (edge_pow_of [(Edge.east, 23, 20, 3), (Edge.west, 23, 20, 3)])
      Edges.VER.active_list (clk_rst_edge Edges.VER) Edge.south 0 0 0 =
      some (
        [],
        0, 0, 0) := by
    have c1 : edge_cap_of [(Edge.east, 23), (Edge.west, 23)] Edge.south = 0 := by decide
    have c2 : edge_sig_of [(Edge.east, 23, 20, 3), (Edge.west, 23, 20, 3)] Edge.south = 0 := by decide
    have c3 : edge_pow_of [(Edge.east, 23, 20, 3), (Edge.west, 23, 20, 3)] Edge.south = 0 := by decide
    simp only [gen_direction, c1, c2, c3]
    decide
  have he : gen_direction (edge_cap_of [(Edge.east, 23), (Edge.west, 23)])
      (edge_sig_of [(Edge.east, 23, 20, 3), (Edge.west, 23, 20, 3)])
      (edge_pow_of [(Edge.east, 23, 20, 3), (Edge.west, 23, 20, 3)])
      Edges.VER.active_list (clk_rst_edge Edges.VER) Edge.east 0 0 0 =
      some (
        [Pad.bidir 0, Pad.bidir 1, Pad.bidir 2, Pad.bidir 3, Pad.bidir 4, Pad.dvss 0,
        Pad.bidir 5, Pad.bidir 6, Pad.bidir 7, Pad.bidir 8, Pad.bidir 9, Pad.dvdd 0,
        Pad.bidir 10, Pad.bidir 11, Pad.bidir 12, Pad.bidir 13, Pad.bidir 14, Pad.dvss 1,
        Pad.bidir 15, Pad.bidir 16, Pad.bidir 17, Pad.bidir 18, Pad.bidir 19],
        20, 1, 2) := by
    have c1 : edge_cap_of [(Edge.east, 23), (Edge.west, 23)] Edge.east = 23 := by decide
    have c2 : edge_sig_of [(Edge.east, 23, 20, 3), (Edge.west, 23, 20, 3)] Edge.east = 20 := by decide
    have c3 : edge_pow_of [(Edge.east, 23, 20, 3), (Edge.west, 23, 20, 3)] Edge.east = 3 := by decide
    simp only [gen_direction, c1, c2, c3]
    decide
  have hn : gen_direction (edge_cap_of [(Edge.east, 23), (Edge.west, 23)])
      (edge_sig_of [(Edge.east, 23, 20, 3), (Edge.west, 23, 20, 3)])
      (edge_pow_of [(Edge.east, 23, 20, 3), (Edge.west, 23, 20, 3)])
      Edges.VER.active_list (clk_rst_edge Edges.VER) Edge.north 20 1 2 =
      some (
        [],
        20, 1, 2) := by
    have c1 : edge_cap_of [(Edge.east, 23), (Edge.west, 23)] Edge.north = 0 := by decide
    have c2 : edge_sig_of [(Edge.east, 23, 20, 3), (Edge.west, 23, 20, 3)] Edge.north = 0 := by decide
    have c3 : edge_pow_of [(Edge.east, 23, 20, 3), (Edge.west, 23, 20, 3)] Edge.north = 0 := by decide
    simp only [gen_direction, c1, c2, c3]
    decide
  have hw : gen_direction (edge_cap_of [(Edge.east, 23), (Edge.west, 23)])
      (edge_sig_of [(Edge.east, 23, 20, 3), (Edge.west, 23, 20, 3)])
      (edge_pow_of [(Edge.east, 23, 20, 3), (Edge.west, 23, 20, 3)])
      Edges.VER.active_list (clk_rst_edge Edges.VER) Edge.west 20 1 2 =
      some (
        [Pad.clk, Pad.rst_n, Pad.bidir 37, Pad.bidir 36, Pad.bidir 35, Pad.bidir 34,
        Pad.bidir 33, Pad.bidir 32, Pad.dvdd 2, Pad.bidir 31, Pad.bidir 30, Pad.bidir 29,
        Pad.bidir 28, Pad.dvss 2, Pad.bidir 27, Pad.bidir 26, Pad.bidir 25, Pad.bidir 24,
        Pad.dvdd 1, Pad.bidir 23, Pad.bidir 22, Pad.bidir 21, Pad.bidir 20],
        38, 3, 3) := by
    have c1 : edge_cap_of [(Edge.east, 23), (Edge.west, 23)] Edge.west = 23 := by decide
    have c2 : edge_sig_of [(Edge.east, 23, 20, 3), (Edge.west, 23, 20, 3)] Edge.west = 20 := by decide
    have c3 : edge_pow_of [(Edge.east, 23, 20, 3), (Edge.west, 23, 20, 3)] Edge.west = 3 := by decide
    simp only [gen_direction, c1, c2, c3]
    decide
  simp only [generate_config, h1]
  dsimp only [SLOTS]
  rw [h2]
  dsimp only
  rw [h3]
  simp only [build_artifact]
  rw [hs]
  dsimp only
  rw [he]
  dsimp only
  rw [hn]
  dsimp only
  rw [hw]
  dsimp only
  decide

/-- C6 helper: the s0p5x0p5 slot, SPC density, NWC edges. -/
theorem c6_s0p5x0p5_spc_nwc :
    option_spec (c6_flags_ok SlotName.s0p5x0p5) (generate_config (SLOTS SlotName.s0p5x0p5) Density.SPC Edges.NWC) := by
  have h1 : calculate_pads_for_density (SLOTS SlotName.s0p5x0p5) Density.SPC Edges.NWC =
      (38, [(Edge.north, 15), (Edge.west, 23)]) := by decide
  have h2 : distribute_pads_with_power 38 SlotName.s0p5x0p5 = (30, 6) := by decide
  have h3 : allocate_edges [(Edge.north, 15), (Edge.west, 23)] (30 + 2) 6 =
      [(Edge.west, 23, 20, 3), (Edge.north, 15, 12, 3)] := by decide
  have hs : gen_direction (edge_cap_of [(Edge.north, 15), (Edge.west, 23)])
      (edge_sig_of [(Edge.west, 23, 20, 3), (Edge.north, 15, 12, 3)])
      (edge_pow_of [(Edge.west, 23, 20, 3), (Edge.north, 15, 12, 3)])
      Edges.NWC.active_list (clk_rst_edge Edges.NWC) Edge.south 0 0 0 =
      some (
        [],
        0, 0, 0) := by
    have c1 : edge_cap_of [(Edge.north, 15), (Edge.west, 23)] Edge.south = 0 := by decide
    have c2 : edge_sig_of [(Edge.west, 23, 20, 3), (Edge.north, 15, 12, 3)] Edge.south = 0 := by decide
    have c3 : edge_pow_of [(Edge.west, 23, 20, 3), (Edge.north, 15, 12, 3)] Edge.south = 0 := by decide
    simp only [gen_direction, c1, c2, c3]
    decide
  have he : gen_direction (edge_cap_of [(Edge.north, 15), (Edge.west, 23)])
      (edge_sig_of [(Edge.west, 23, 20, 3), (Edge.north, 15, 12, 3)])
      (edge_pow_of [(Edge.west, 23, 20, 3), (Edge.north, 15, 12, 3)])
      Edges.NWC.active_list (clk_rst_edge Edges.NWC) Edge.east 0 0 0 =
      some (
        [],
        0, 0, 0) := by
    have c1 : edge_cap_of [(Edge.north, 15), (Edge.west, 23)] Edge.east = 0 := by decide
    have c2 : edge_sig_of [(Edge.west, 23, 20, 3), (Edge.north, 15, 12, 3)] Edge.east = 0 := by decide
    have c3 : edge_pow_of [(Edge.west, 23, 20, 3), (Edge.north, 15, 12, 3)] Edge.east = 0 := by decide
    simp only [gen_direction, c1, c2, c3]
    decide
  have hn : gen_direction (edge_cap_of [(Edge.north, 15), (Edge.west, 23)])
      (edge_sig_of [(Edge.west, 23, 20, 3), (Edge.north, 15, 12, 3)])
      (edge_pow_of [(Edge.west, 23, 20, 3), (Edge.north, 15, 12, 3)])
      Edges.NWC.active_list (clk_rst_edge Edges.NWC) Edge.north 0 0 0 =
      some (
        [Pad.bidir 11, Pad.bidir 10, Pad.bidir 9, Pad.dvss 1, Pad.bidir 8, Pad.bidir 7,
        Pad.bidir 6, Pad.dvdd 0, Pad.bidir 5, Pad.bidir 4, Pad.bidir 3, Pad.dvss 0, Pad.bidir 2,
        Pad.bidir 1, Pad.bidir 0],
        12, 1, 2) := by
    have c1 : edge_cap_of [(Edge.north, 15), (Edge.west, 23)] Edge.north = 15 := by decide
    have c2 : edge_sig_of [(Edge.west, 23, 20, 3), (Edge.north, 15, 12, 3)] Edge.north = 12 := by decide
    have c3 : edge_pow_of [(Edge.west, 23, 20, 3), (Edge.north, 15, 12, 3)] Edge.north = 3 := by decide
    simp only [gen_direction, c1, c2, c3]
    decide
  have hw : gen_direction (edge_cap_of [(Edge.north, 15), (Edge.west, 23)])
      (edge_sig_of [(Edge.west, 23, 20, 3), (Edge.north, 15, 12, 3)])
      (edge_pow_of [(Edge.west, 23, 20, 3), (Edge.north, 15, 12, 3)])
      Edges.NWC.active_list (clk_rst_edge Edges.NWC) Edge.west 12 1 2 =
      some (
        [Pad.clk, Pad.rst_n, Pad.bidir 29, Pad.bidir 28, Pad.bidir 27, Pad.bidir 26,
        Pad.bidir 25, Pad.bidir 24, Pad.dvdd 2, Pad.bidir 23, Pad.bidir 22, Pad.bidir 21,
        Pad.bidir 20, Pad.dvss 2, Pad.bidir 19, Pad.bidir 18, Pad.bidir 17, Pad.bidir 16,
        Pad.dvdd 1, Pad.bidir 15, Pad.bidir 14, Pad.bidir 13, Pad.bidir 12],
        30, 3, 3) := by
    have c1 : edge_cap_of [(Edge.north, 15), (Edge.west, 23)] Edge.west = 23 := by decide
    have c2 : edge_sig_of [(Edge.west, 23, 20, 3), (Edge.north, 15, 12, 3)] Edge.west = 20 := by decide
    have c3 : edge_pow_of [(Edge.west, 23, 20, 3), (Edge.north, 15, 12, 3)] Edge.west = 3 := by decide
    simp only [gen_direction, c1, c2, c3]
    decide
  simp only [generate_config, h1]
  dsimp only [SLOTS]
  rw [h2]
  dsimp only
  rw [h3]
  simp only [build_artifact]
  rw [hs]
  dsimp only
  rw [he]
  dsimp only
  rw [hn]
  dsimp only
  rw [hw]
  dsimp only
  decide

/-- C6 helper: the s0p5x0p5 slot, SPC density, SEC edges. -/
theorem c6_s0p5x0p5_spc_sec :
    option_spec (c6_flags_ok SlotName.s0p5x0p5) (generate_config (SLOTS SlotName.s0p5x0p5) Density.SPC Edges.SEC) := by
  have h1 : calculate_pads_for_density (SLOTS SlotName.s0p5x0p5) Density.SPC Edges.SEC =
      (38, [(Edge.east, 23), (Edge.south, 15)]) := by decide
  have h2 : distribute_pads_with_power 38 SlotName.s0p5x0p5 = (30, 6) := by decide
  have h3 : allocate_edges [(Edge.east, 23), (Edge.south, 15)] (30 + 2) 6 =
      [(Edge.east, 23, 20, 3), (Edge.south, 15, 12, 3)] := by decide
  have hs : gen_direction (edge_cap_of [(Edge.east, 23), (Edge.south, 15)])
      (edge_sig_of [(Edge.east, 23, 20, 3), (Edge.south, 15, 12, 3)])
      (edge_pow_of [(Edge.east, 23, 20, 3), (Edge.south, 15, 12, 3)])
      Edges.SEC.active_list (clk_rst_edge Edges.SEC) Edge.south 0 0 0 =
      some (
        [Pad.clk, Pad.rst_n, Pad.bidir 0, Pad.bidir 1, Pad.dvss 0, Pad.bidir 2, Pad.bidir 3,
        Pad.dvdd 0, Pad.bidir 4, Pad.bidir 5, Pad.dvss 1, Pad.bidir 6, Pad.bidir 7, Pad.bidir 8,
        Pad.bidir 9],
        10, 1, 2) := by
    have c1 : edge_cap_of [(Edge.east, 23), (Edge.south, 15)] Edge.south = 15 := by decide
    have c2 : edge_sig_of [(Edge.east, 23, 20, 3), (Edge.south, 15, 12, 3)] Edge.south = 12 := by decide
    have c3 : edge_pow_of [(Edge.east, 23, 20, 3), (Edge.south, 15, 12, 3)] Edge.south = 3 := by decide
    simp only [gen_direction, c1, c2, c3]
    decide
  have he : gen_direction (edge_cap_of [(Edge.east, 23), (Edge.south, 15)])
      (edge_sig_of [(Edge.east, 23, 20, 3), (Edge.south, 15, 12, 3)])
      (edge_pow_of [(Edge.east, 23, 20, 3), (Edge.south, 15, 12, 3)])
      Edges.SEC.active_list (clk_rst_edge Edges.SEC) Edge.east 10 1 2 =
      some (
        [Pad.bidir 10, Pad.bidir 11, Pad.bidir 12, Pad.bidir 13, Pad.bidir 14, Pad.dvdd 1,
        Pad.bidir 15, Pad.bidir 16, Pad.bidir 17, Pad.bidir 18, Pad.bidir 19, Pad.dvss 2,
        Pad.bidir 20, Pad.bidir 21, Pad.bidir 22, Pad.bidir 23, Pad.bidir 24, Pad.dvdd 2,
        Pad.bidir 25, Pad.bidir 26, Pad.bidir 27, Pad.bidir 28, Pad.bidir 29],
        30, 3, 3) := by
    have c1 : edge_cap_of [(Edge.east, 23), (Edge.south, 15)] Edge.east = 23 := by decide
    have c2 : edge_sig_of [(Edge.east, 23, 20, 3), (Edge.south, 15, 12, 3)] Edge.east = 20 := by decide
    have c3 : edge_pow_of [(Edge.east, 23, 20, 3), (Edge.south, 15, 12, 3)] Edge.east = 3 := by decide
    simp only [gen_direction, c1, c2, c3]
    decide
  have hn : gen_direction (edge_cap_of [(Edge.east, 23), (Edge.south, 15)])
      (edge_sig_of [(Edge.east, 23, 20, 3), (Edge.south, 15, 12, 3)])
      (edge_pow_of [(Edge.east, 23, 20, 3), (Edge.south, 15, 12, 3)])
      Edges.SEC.active_list (clk_rst_edge Edges.SEC) Edge.north 30 3 3 =
      some (
        [],
        30, 3, 3) := by
    have c1 : edge_cap_of [(Edge.east, 23), (Edge.south, 15)] Edge.north = 0 := by decide
    have c2 : edge_sig_of [(Edge.east, 23, 20, 3), (Edge.south, 15, 12, 3)] Edge.north = 0 := by decide
    have c3 : edge_pow_of [(Edge.east, 23, 20, 3), (Edge.south, 15, 12, 3)] Edge.north = 0 := by decide
    simp only [gen_direction, c1, c2, c3]
    decide
  have hw : gen_direction (edge_cap_of [(Edge.east, 23), (Edge.south, 15)])
      (edge_sig_of [(Edge.east, 23, 20, 3), (Edge.south, 15, 12, 3)])
      (edge_pow_of [(Edge.east, 23, 20, 3), (Edge.south, 15, 12, 3)])
      Edges.SEC.active_list (clk_rst_edge Edges.SEC) Edge.west 30 3 3 =
      some (
        [],
        30, 3, 3) := by
    have c1 : edge_cap_of [(Edge.east, 23), (Edge.south, 15)] Edge.west = 0 := by decide
    have c2 : edge_sig_of [(Edge.east, 23, 20, 3), (Edge.south, 15, 12, 3)] Edge.west = 0 := by decide
    have c3 : edge_pow_of [(Edge.east, 23, 20, 3), (Edge.south, 15, 12, 3)] Edge.west = 0 := by decide
    simp only [gen_direction, c1, c2, c3]
    decide
  simp only [generate_config, h1]
  dsimp only [SLOTS]
  rw [h2]
  dsimp only
  rw [h3]
  simp only [build_artifact]
  rw [hs]
  dsimp only
  rw [he]
  dsimp only
  rw [hn]
  dsimp only
  rw [hw]
  dsimp only
  decide

/-- C6 helper: the s0p5x0p5 slot, NUM density, ALL edges. -/
theorem c6_s0p5x0p5_num_all :
    option_spec (c6_flags_ok SlotName.s0p5x0p5) (generate_config (SLOTS SlotName.s0p5x0p5) Density.NUM Edges.ALL) := by
  have h1 : calculate_pads_for_density (SLOTS SlotName.s0p5x0p5) Density.NUM Edges.ALL =
      (73, [(Edge.east, 22), (Edge.north, 14), (Edge.south, 14), (Edge.west, 23)]) := by decide
  have h2 : distribute_pads_with_power 73 SlotName.s0p5x0p5 = (61, 10) := by decide
  have h3 : allocate_edges [(Edge.east, 22), (Edge.north, 14), (Edge.south, 14), (Edge.west, 23)] (61 + 2) 10 =
      [(Edge.west, 23, 20, 3), (Edge.east, 22, 19, 3), (Edge.north, 14, 12, 2), (Edge.south, 14, 12, 2)] := by decide
  have hs : gen_direction (edge_cap_of [(Edge.east, 22), (Edge.north, 14), (Edge.south, 14), (Edge.west, 23)])
      (edge_sig_of [(Edge.west, 23, 20, 3), (Edge.east, 22, 19, 3), (Edge.north, 14, 12, 2), (Edge.south, 14, 12, 2)])
      (edge_pow_of [(Edge.west, 23, 20, 3), (Edge.east, 22, 19, 3), (Edge.north, 14, 12, 2), (Edge.south, 14, 12, 2)])
      Edges.ALL.active_list (clk_rst_edge Edges.ALL) Edge.south 0 0 0 =
      some (
        [Pad.clk, Pad.rst_n, Pad.bidir 0, Pad.bidir 1, Pad.bidir 2, Pad.dvss 0, Pad.bidir 3,
        Pad.bidir 4, Pad.bidir 5, Pad.dvdd 0, Pad.bidir 6, Pad.bidir 7, Pad.bidir 8,
        Pad.bidir 9],
        10, 1, 1) := by
    have c1 : edge_cap_of [(Edge.east, 22), (Edge.north, 14), (Edge.south, 14), (Edge.west, 23)] Edge.south = 14 := by decide
    have c2 : edge_sig_of [(Edge.west, 23, 20, 3), (Edge.east, 22, 19, 3), (Edge.north, 14, 12, 2), (Edge.south, 14, 12, 2)] Edge.south = 12 := by decide
    have c3 : edge_pow_of [(Edge.west, 23, 20, 3), (Edge.east, 22, 19, 3), (Edge.north, 14, 12, 2), (Edge.south, 14, 12, 2)] Edge.south = 2 := by decide
    simp only [gen_direction, c1, c2, c3]
    decide
  have he : gen_direction (edge_cap_of [(Edge.east, 22), (Edge.north, 14), (Edge.south, 14), (Edge.west, 23)])
      (edge_sig_of [(Edge.west, 23, 20, 3), (Edge.east, 22, 19, 3), (Edge.north, 14, 12, 2), (Edge.south, 14, 12, 2)])
      (edge_pow_of [(Edge.west, 23, 20, 3), (Edge.east, 22, 19, 3), (Edge.north, 14, 12, 2), (Edge.south, 14, 12, 2)])
      Edges.ALL.active_list (clk_rst_edge Edges.ALL) Edge.east 10 1 1 =
      some (
        [Pad.bidir 10, Pad.bidir 11, Pad.bidir 12, Pad.bidir 13, Pad.dvss 1, Pad.bidir 14,
        Pad.bidir 15, Pad.bidir 16, Pad.bidir 17, Pad.dvdd 1, Pad.bidir 18, Pad.bidir 19,
        Pad.bidir 20, Pad.bidir 21, Pad.dvss 2, Pad.bidir 22, Pad.bidir 23, Pad.bidir 24,
        Pad.bidir 25, Pad.bidir 26, Pad.bidir 27, Pad.bidir 28],
        29, 2, 3) := by
    have c1 : edge_cap_of [(Edge.east, 22), (Edge.north, 14), (Edge.south, 14), (Edge.west, 23)] Edge.east = 22 := by decide
    have c2 : edge_sig_of [(Edge.west, 23, 20, 3), (Edge.east, 22, 19, 3), (Edge.north, 14, 12, 2), (Edge.south, 14, 12, 2)] Edge.east = 19 := by decide
    have c3 : edge_pow_of [(Edge.west, 23, 20, 3), (Edge.east, 22, 19, 3), (Edge.north, 14, 12, 2), (Edge.south, 14, 12, 2)] Edge.east = 3 := by decide
    simp only [gen_direction, c1, c2, c3]
    decide
  have hn : gen_direction (edge_cap_of [(Edge.east, 22), (Edge.north, 14), (Edge.south, 14), (Edge.west, 23)])
      (edge_sig_of [(Edge.west, 23, 20, 3), (Edge.east, 22, 19, 3), (Edge.north, 14, 12, 2), (Edge.south, 14, 12, 2)])
      (edge_pow_of [(Edge.west, 23, 20, 3), (Edge.east, 22, 19, 3), (Edge.north, 14, 12, 2), (Edge.south, 14, 12, 2)])
      Edges.ALL.active_list (clk_rst_edge Edges.ALL) Edge.north 29 2 3 =
      some (
        [Pad.bidir 40, Pad.bidir 39, Pad.bidir 38, Pad.bidir 37, Pad.dvss 3, Pad.bidir 36,
        Pad.bidir 35, Pad.bidir 34, Pad.bidir 33, Pad.dvdd 2, Pad.bidir 32, Pad.bidir 31,
        Pad.bidir 30, Pad.bidir 29],
        41, 3, 4) := by
    have c1 : edge_cap_of [(Edge.east, 22), (Edge.north, 14), (Edge.south, 14), (Edge.west, 23)] Edge.north = 14 := by decide
    have c2 : edge_sig_of [(Edge.west, 23, 20, 3), (Edge.east, 22, 19, 3), (Edge.north, 14, 12, 2), (Edge.south, 14, 12, 2)] Edge.north = 12 := by decide
    have c3 : edge_pow_of [(Edge.west, 23, 20, 3), (Edge.east, 22, 19, 3), (Edge.north, 14, 12, 2), (Edge.south, 14, 12, 2)] Edge.north = 2 := by decide
    simp only [gen_direction, c1, c2, c3]
    decide
  have hw : gen_direction (edge_cap_of [(Edge.east, 22), (Edge.north, 14), (Edge.south, 14), (Edge.west, 23)])
      (edge_sig_of [(Edge.west, 23, 20, 3), (Edge.east, 22, 19, 3), (Edge.north, 14, 12, 2), (Edge.south, 14, 12, 2)])
      (edge_pow_of [(Edge.west, 23, 20, 3), (Edge.east, 22, 19, 3), (Edge.north, 14, 12, 2), (Edge.south, 14, 12, 2)])
      Edges.ALL.active_list (clk_rst_edge Edges.ALL) Edge.west 41 3 4 =
      some (
        [Pad.bidir 60, Pad.bidir 59, Pad.bidir 58, Pad.bidir 57, Pad.bidir 56, Pad.dvdd 4,
        Pad.bidir 55, Pad.bidir 54, Pad.bidir 53, Pad.bidir 52, Pad.bidir 51, Pad.dvss 4,
        Pad.bidir 50, Pad.bidir 49, Pad.bidir 48, Pad.bidir 47, Pad.bidir 46, Pad.dvdd 3,
        Pad.bidir 45, Pad.bidir 44, Pad.bidir 43, Pad.bidir 42, Pad.bidir 41],
        61, 5, 5) := by
    have c1 : edge_cap_of [(Edge.east, 22), (Edge.north, 14), (Edge.south, 14), (Edge.west, 23)] Edge.west = 23 := by decide
    have c2 : edge_sig_of [(Edge.west, 23, 20, 3), (Edge.east, 22, 19, 3), (Edge.north, 14, 12, 2), (Edge.south, 14, 12, 2)] Edge.west = 20 := by decide
    have c3 : edge_pow_of [(Edge.west, 23, 20, 3), (Edge.east, 22, 19, 3), (Edge.north, 14, 12, 2), (Edge.south, 14, 12, 2)] Edge.west = 3 := by decide
    simp only [gen_direction, c1, c2, c3]
    decide
  simp only [generate_config, h1]
  dsimp only [SLOTS]
  rw [h2]
  dsimp only
  rw [h3]
  simp only [build_artifact]
  rw [hs]
  dsimp only
  rw [he]
  dsimp only
  rw [hn]
  dsimp only
  rw [hw]
  dsimp only
  decide

/-- C6 helper: the s0p5x0p5 slot, NUM density, TOP edges. -/
theorem c6_s0p5x0p5_num_top :
    option_spec (c6_flags_ok SlotName.s0p5x0p5) (generate_config (SLOTS SlotName.s0p5x0p5) Density.NUM Edges.TOP) := by
  have h1 : calculate_pads_for_density (SLOTS SlotName.s0p5x0p5) Density.NUM Edges.TOP =
      (15, [(Edge.north, 15)]) := by decide
  have h2 : distribute_pads_with_power 15 SlotName.s0p5x0p5 = (11, 2) := by decide
  have h3 : allocate_edges [(Edge.north, 15)] (11 + 2) 2 =
      [(Edge.north, 15, 13, 2)] := by decide
  have hs : gen_direction (edge_cap_of [(Edge.north, 15)])
      (edge_sig_of [(Edge.north, 15, 13, 2)])
      (edge_pow_of [(Edge.north, 15, 13, 2)])
      Edges.TOP.active_list (clk_rst_edge Edges.TOP) Edge.south 0 0 0 =
      some (
        [],
        0, 0, 0) := by
    have c1 : edge_cap_of [(Edge.north, 15)] Edge.south = 0 := by decide
    have c2 : edge_sig_of [(Edge.north, 15, 13, 2)] Edge.south = 0 := by decide
    have c3 : edge_pow_of [(Edge.north, 15, 13, 2)] Edge.south = 0 := by decide
    simp only [gen_direction, c1, c2, c3]
    decide
  have he : gen_direction (edge_cap_of [(Edge.north, 15)])
      (edge_sig_of [(Edge.north, 15, 13, 2)])
      (edge_pow_of [(Edge.north, 15, 13, 2)])
      Edges.TOP.active_list (clk_rst_edge Edges.TOP) Edge.east 0 0 0 =
      some (
        [],
        0, 0, 0) := by
    have c1 : edge_cap_of [(Edge.north, 15)] Edge.east = 0 := by decide
    have c2 : edge_sig_of [(Edge.north, 15, 13, 2)] Edge.east = 0 := by decide
    have c3 : edge_pow_of [(Edge.north, 15, 13, 2)] Edge.east = 0 := by decide
    simp only [gen_direction, c1, c2, c3]
    decide
  have hn : gen_direction (edge_cap_of [(Edge.north, 15)])
      (edge_sig_of [(Edge.north, 15, 13, 2)])
      (edge_pow_of [(Edge.north, 15, 13, 2)])
      Edges.TOP.active_list (clk_rst_edge Edges.TOP) Edge.north 0 0 0 =
      some (
        [Pad.clk, Pad.rst_n, Pad.bidir 10, Pad.bidir 9, Pad.bidir 8, Pad.bidir 7, Pad.bidir 6,
        Pad.dvdd 0, Pad.bidir 5, Pad.bidir 4, Pad.bidir 3, Pad.dvss 0, Pad.bidir 2, Pad.bidir 1,
        Pad.bidir 0],
        11, 1, 1) := by
    have c1 : edge_cap_of [(Edge.north, 15)] Edge.north = 15 := by decide
    have c2 : edge_sig_of [(Edge.north, 15, 13, 2)] Edge.north = 13 := by decide
    have c3 : edge_pow_of [(Edge.north, 15, 13, 2)] Edge.north = 2 := by decide
    simp only [gen_direction, c1, c2, c3]
    decide
  have hw : gen_direction (edge_cap_of [(Edge.north, 15)])
      (edge_sig_of [(Edge.north, 15, 13, 2)])
      (edge_pow_of [(Edge.north, 15, 13, 2)])
      Edges.TOP.active_list (clk_rst_edge Edges.TOP) Edge.west 11 1 1 =
      some (
        [],
        11, 1, 1) := by
    have c1 : edge_cap_of [(Edge.north, 15)] Edge.west = 0 := by decide
    have c2 : edge_sig_of [(Edge.north, 15, 13, 2)] Edge.west = 0 := by decide
    have c3 : edge_pow_of [(Edge.north, 15, 13, 2)] Edge.west = 0 := by decide
    simp only [gen_direction, c1, c2, c3]
    decide
  simp only [generate_config, h1]
  dsimp only [SLOTS]
  rw [h2]
  dsimp only
  rw [h3]
  simp only [build_artifact]
  rw [hs]
  dsimp only
  rw [he]
  dsimp only
  rw [hn]
  dsimp only
  rw [hw]
  dsimp only
  decide

/-- C6 helper: the s0p5x0p5 slot, NUM density, LFT edges. -/
theorem c6_s0p5x0p5_num_lft :
    option_spec (c6_flags_ok SlotName.s0p5x0p5) (generate_config (SLOTS SlotName.s0p5x0p5) Density.NUM Edges.LFT) := by
  have h1 : calculate_pads_for_density (SLOTS SlotName.s0p5x0p5) Density.NUM Edges.LFT =
      (23, [(Edge.west, 23)]) := by decide
  have h2 : distribute_pads_with_power 23 SlotName.s0p5x0p5 = (17, 4) := by decide
  have h3 : allocate_edges [(Edge.west, 23)] (17 + 2) 4 =
      [(Edge.west, 23, 19, 4)] := by decide
  have hs : gen_direction (edge_cap_of [(Edge.west, 23)])
      (edge_sig_of [(Edge.west, 23, 19, 4)])
      (edge_pow_of [(Edge.west, 23, 19, 4)])
      Edges.LFT.active_list (clk_rst_edge Edges.LFT) Edge.south 0 0 0 =
      some (
        [],
        0, 0, 0) := by
    have c1 : edge_cap_of [(Edge.west, 23)] Edge.south = 0 := by decide
    have c2 : edge_sig_of [(Edge.west, 23, 19, 4)] Edge.south = 0 := by decide
    have c3 : edge_pow_of [(Edge.west, 23, 19, 4)] Edge.south = 0 := by decide
    simp only [gen_direction, c1, c2, c3]
    decide
  have he : gen_direction (edge_cap_of [(Edge.west, 23)])
      (edge_sig_of [(Edge.west, 23, 19, 4)])
      (edge_pow_of [(Edge.west, 23, 19, 4)])
      Edges.LFT.active_list (clk_rst_edge Edges.LFT) Edge.east 0 0 0 =
      some (
        [],
        0, 0, 0) := by
    have c1 : edge_cap_of [(Edge.west, 23)] Edge.east = 0 := by decide
    have c2 : edge_sig_of [(Edge.west, 23, 19, 4)] Edge.east = 0 := by decide
    have c3 : edge_pow_of [(Edge.west, 23, 19, 4)] Edge.east = 0 := by decide
    simp only [gen_direction, c1, c2, c3]
    decide
  have hn : gen_direction (edge_cap_of [(Edge.west, 23)])
      (edge_sig_of [(Edge.west, 23, 19, 4)])
      (edge_pow_of [(Edge.west, 23, 19, 4)])
      Edges.LFT.active_list (clk_rst_edge Edges.LFT) Edge.north 0 0 0 =
      some (
        [],
        0, 0, 0) := by
    have c1 : edge_cap_of [(Edge.west, 23)] Edge.north = 0 := by decide
    have c2 : edge_sig_of [(Edge.west, 23, 19, 4)] Edge.north = 0 := by decide
    have c3 : edge_pow_of [(Edge.west, 23, 19, 4)] Edge.north = 0 := by decide
    simp only [gen_direction, c1, c2, c3]
    decide
  have hw : gen_direction (edge_cap_of [(Edge.west, 23)])
      (edge_sig_of [(Edge.west, 23, 19, 4)])
      (edge_pow_of [(Edge.west, 23, 19, 4)])
      Edges.LFT.active_list (clk_rst_edge Edges.LFT) Edge.west 0 0 0 =
      some (
        [Pad.clk, Pad.rst_n, Pad.bidir 16, Pad.bidir 15, Pad.bidir 14, Pad.bidir 13,
        Pad.bidir 12, Pad.dvdd 1, Pad.bidir 11, Pad.bidir 10, Pad.bidir 9, Pad.dvss 1,
        Pad.bidir 8, Pad.bidir 7, Pad.bidir 6, Pad.dvdd 0, Pad.bidir 5, Pad.bidir 4, Pad.bidir 3,
        Pad.dvss 0, Pad.bidir 2, Pad.bidir 1, Pad.bidir 0],
        17, 2, 2) := by
    have c1 : edge_cap_of [(Edge.west, 23)] Edge.west = 23 := by decide
    have c2 : edge_sig_of [(Edge.west, 23, 19, 4)] Edge.west = 19 := by decide
    have c3 : edge_pow_of [(Edge.west, 23, 19, 4)] Edge.west = 4 := by decide
    simp only [gen_direction, c1, c2, c3]
    decide
  simp only [generate_config, h1]
  dsimp only [SLOTS]
  rw [h2]
  dsimp only
  rw [h3]
  simp only [build_artifact]
  rw [hs]
  dsimp only
  rw [he]
  dsimp only
  rw [hn]
  dsimp only
  rw [hw]
  dsimp only
  decide

/-- C6 helper: the s0p5x0p5 slot, NUM density, HOR edges. -/
theorem c6_s0p5x0p5_num_hor :
    option_spec (c6_flags_ok SlotName.s0p5x0p5) (generate_config (SLOTS SlotName.s0p5x0p5) Density.NUM Edges.HOR) := by
  have h1 : calculate_pads_for_density (SLOTS SlotName.s0p5x0p5) Density.NUM Edges.HOR =
      (30, [(Edge.north, 15), (Edge.south, 15)]) := by decide
  have h2 : distribute_pads_with_power 30 SlotName.s0p5x0p5 = (24, 4) := by decide
  have h3 : allocate_edges [(Edge.north, 15), (Edge.south, 15)] (24 + 2) 4 =
      [(Edge.north, 15, 13, 2), (Edge.south, 15, 13, 2)] := by decide
  have hs : gen_direction (edge_cap_of [(Edge.north, 15), (Edge.south, 15)])
      (edge_sig_of [(Edge.north, 15, 13, 2), (Edge.south, 15, 13, 2)])
      (edge_pow_of [(Edge.north, 15, 13, 2), (Edge.south, 15, 13, 2)])
      Edges.HOR.active_list (clk_rst_edge Edges.HOR) Edge.south 0 0 0 =
      some (
        [Pad.clk, Pad.rst_n, Pad.bidir 0, Pad.bidir 1, Pad.bidir 2, Pad.dvss 0, Pad.bidir 3,
        Pad.bidir 4, Pad.bidir 5, Pad.dvdd 0, Pad.bidir 6, Pad.bidir 7, Pad.bidir 8, Pad.bidir 9,
        Pad.bidir 10],
        11, 1, 1) := by
    have c1 : edge_cap_of [(Edge.north, 15), (Edge.south, 15)] Edge.south = 15 := by decide
    have c2 : edge_sig_of [(Edge.north, 15, 13, 2), (Edge.south, 15, 13, 2)] Edge.south = 13 := by decide
    have c3 : edge_pow_of [(Edge.north, 15, 13, 2), (Edge.south, 15, 13, 2)] Edge.south = 2 := by decide
    simp only [gen_direction, c1, c2, c3]
    decide
  have he : gen_direction (edge_cap_of [(Edge.north, 15), (Edge.south, 15)])
      (edge_sig_of [(Edge.north, 15, 13, 2), (Edge.south, 15, 13, 2)])
      (edge_pow_of [(Edge.north, 15, 13, 2), (Edge.south, 15, 13, 2)])
      Edges.HOR.active_list (clk_rst_edge Edges.HOR) Edge.east 11 1 1 =
      some (
        [],
        11, 1, 1) := by
    have c1 : edge_cap_of [(Edge.north, 15), (Edge.south, 15)] Edge.east = 0 := by decide
    have c2 : edge_sig_of [(Edge.north, 15, 13, 2), (Edge.south, 15, 13, 2)] Edge.east = 0 := by decide
    have c3 : edge_pow_of [(Edge.north, 15, 13, 2), (Edge.south, 15, 13, 2)] Edge.east = 0 := by decide
    simp only [gen_direction, c1, c2, c3]
    decide
  have hn : gen_direction (edge_cap_of [(Edge.north, 15), (Edge.south, 15)])
      (edge_sig_of [(Edge.north, 15, 13, 2), (Edge.south, 15, 13, 2)])
      (edge_pow_of [(Edge.north, 15, 13, 2), (Edge.south, 15, 13, 2)])
      Edges.HOR.active_list (clk_rst_edge Edges.HOR) Edge.north 11 1 1 =
      some (
        [Pad.bidir 23, Pad.bidir 22, Pad.bidir 21, Pad.bidir 20, Pad.bidir 19, Pad.dvdd 1,
        Pad.bidir 18, Pad.bidir 17, Pad.bidir 16, Pad.bidir 15, Pad.dvss 1, Pad.bidir 14,
        Pad.bidir 13, Pad.bidir 12, Pad.bidir 11],
        24, 2, 2) := by
    have c1 : edge_cap_of [(Edge.north, 15), (Edge.south, 15)] Edge.north = 15 := by decide
    have c2 : edge_sig_of [(Edge.north, 15, 13, 2), (Edge.south, 15, 13, 2)] Edge.north = 13 := by decide
    have c3 : edge_pow_of [(Edge.north, 15, 13, 2), (Edge.south, 15, 13, 2)] Edge.north = 2 := by decide
    simp only [gen_direction, c1, c2, c3]
    decide
  have hw : gen_direction (edge_cap_of [(Edge.north, 15), (Edge.south, 15)])
      (edge_sig_of [(Edge.north, 15, 13, 2), (Edge.south, 15, 13, 2)])
      (edge_pow_of [(Edge.north, 15, 13, 2), (Edge.south, 15, 13, 2)])
      Edges.HOR.active_list (clk_rst_edge Edges.HOR) Edge.west 24 2 2 =
      some (
        [],
        24, 2, 2) := by
    have c1 : edge_cap_of [(Edge.north, 15), (Edge.south, 15)] Edge.west = 0 := by decide
    have c2 : edge_sig_of [(Edge.north, 15, 13, 2), (Edge.south, 15, 13, 2)] Edge.west = 0 := by decide
    have c3 : edge_pow_of [(Edge.north, 15, 13, 2), (Edge.south, 15, 13, 2)] Edge.west = 0 := by decide
    simp only [gen_direction, c1, c2, c3]
    decide
  simp only [generate_config, h1]
  dsimp only [SLOTS]
  rw [h2]
  dsimp only
  rw [h3]
  simp only [build_artifact]
  rw [hs]
  dsimp only
  rw [he]
  dsimp only
  rw [hn]
  dsimp only
  rw [hw]
  dsimp only
  decide

/-- C6 helper: the s0p5x0p5 slot, NUM density, VER edges. -/
theorem c6_s0p5x0p5_num_ver :
    option_spec (c6_flags_ok SlotName.s0p5x0p5) (generate_config (SLOTS SlotName.s0p5x0p5) Density.NUM Edges.VER) := by
  have h1 : calculate_pads_for_density (SLOTS SlotName.s0p5x0p5) Density.NUM Edges.VER =
      (46, [(Edge.east, 23), (Edge.west, 23)]) := by decide
  have h2 : distribute_pads_with_power 46 SlotName.s0p5x0p5 = (38, 6) := by decide
  have h3 : allocate_edges [(Edge.east, 23), (Edge.west, 23)] (38 + 2) 6 =
      [(Edge.east, 23, 20, 3), (Edge.west, 23, 20, 3)] := by decide
  have hs : gen_direction (edge_cap_of [(Edge.east, 23), (Edge.west, 23)])
      (edge_sig_of [(Edge.east, 23, 20, 3), (Edge.west, 23, 20, 3)])
      (edge_pow_of [(Edge.east, 23, 20, 3), (Edge.west, 23, 20, 3)])
      Edges.VER.active_list (clk_rst_edge Edges.VER) Edge.south 0 0 0 =
      some (
        [],
        0, 0, 0) := by
    have c1 : edge_cap_of [(Edge.east, 23), (Edge.west, 23)] Edge.south = 0 := by decide
    have c2 : edge_sig_of [(Edge.east, 23, 20, 3), (Edge.west, 23, 20, 3)] Edge.south = 0 := by decide
    have c3 : edge_pow_of [(Edge.east, 23, 20, 3), (Edge.west, 23, 20, 3)] Edge.south = 0 := by decide
    simp only [gen_direction, c1, c2, c3]
    decide
  have he : gen_direction (edge_cap_of [(Edge.east, 23), (Edge.west, 23)])
      (edge_sig_of [(Edge.east, 23, 20, 3), (Edge.west, 23, 20, 3)])
      (edge_pow_of [(Edge.east, 23, 20, 3), (Edge.west, 23, 20, 3)])
      Edges.VER.active_list (clk_rst_edge Edges.VER) Edge.east 0 0 0 =
      some (
        [Pad.bidir 0, Pad.bidir 1, Pad.bidir 2, Pad.bidir 3, Pad.bidir 4, Pad.dvss 0,
        Pad.bidir 5, Pad.bidir 6, Pad.bidir 7, Pad.bidir 8, Pad.bidir 9, Pad.dvdd 0,
        Pad.bidir 10, Pad.bidir 11, Pad.bidir 12, Pad.bidir 13, Pad.bidir 14, Pad.dvss 1,
        Pad.bidir 15, Pad.bidir 16, Pad.bidir 17, Pad.bidir 18, Pad.bidir 19],
        20, 1, 2) := by
    have c1 : edge_cap_of [(Edge.east, 23), (Edge.west, 23)] Edge.east = 23 := by decide
    have c2 : edge_sig_of [(Edge.east, 23, 20, 3), (Edge.west, 23, 20, 3)] Edge.east = 20 := by decide
    have c3 : edge_pow_of [(Edge.east, 23, 20, 3), (Edge.west, 23, 20, 3)] Edge.east = 3 := by decide
    simp only [gen_direction, c1, c2, c3]
    decide
  have hn : gen_direction (edge_cap_of [(Edge.east, 23), (Edge.west, 23)])
      (edge_sig_of [(Edge.east, 23, 20, 3), (Edge.west, 23, 20, 3)])
      (edge_pow_of [(Edge.east, 23, 20, 3), (Edge.west, 23, 20, 3)])
      Edges.VER.active_list (clk_rst_edge Edges.VER) Edge.north 20 1 2 =
      some (
        [],
        20, 1, 2) := by
    have c1 : edge_cap_of [(Edge.east, 23), (Edge.west, 23)] Edge.north = 0 := by decide
    have c2 : edge_sig_of [(Edge.east, 23, 20, 3), (Edge.west, 23, 20, 3)] Edge.north = 0 := by decide
    have c3 : edge_pow_of [(Edge.east, 23, 20, 3), (Edge.west, 23, 20, 3)] Edge.north = 0 := by decide
    simp only [gen_direction, c1, c2, c3]
    decide
  have hw : gen_direction (edge_cap_of [(Edge.east, 23), (Edge.west, 23)])
      (edge_sig_of [(Edge.east, 23, 20, 3), (Edge.west, 23, 20, 3)])
      (edge_pow_of [(Edge.east, 23, 20, 3), (Edge.west, 23, 20, 3)])
      Edges.VER.active_list (clk_rst_edge Edges.VER) Edge.west 20 1 2 =
      some (
        [Pad.clk, Pad.rst_n, Pad.bidir 37, Pad.bidir 36, Pad.bidir 35, Pad.bidir 34,
        Pad.bidir 33, Pad.bidir 32, Pad.dvdd 2, Pad.bidir 31, Pad.bidir 30, Pad.bidir 29,
        Pad.bidir 28, Pad.dvss 2, Pad.bidir 27, Pad.bidir 26, Pad.bidir 25, Pad.bidir 24,
        Pad.dvdd 1, Pad.bidir 23, Pad.bidir 22, Pad.bidir 21, Pad.bidir 20],
        38, 3, 3) := by
    have c1 : edge_cap_of [(Edge.east, 23), (Edge.west, 23)] Edge.west = 23 := by decide
    have c2 : edge_sig_of [(Edge.east, 23, 20, 3), (Edge.west, 23, 20, 3)] Edge.west = 20 := by decide
    have c3 : edge_pow_of [(Edge.east, 23, 20, 3), (Edge.west, 23, 20, 3)] Edge.west = 3 := by decide
    simp only [gen_direction, c1, c2, c3]
    decide
  simp only [generate_config, h1]
  dsimp only [SLOTS]
  rw [h2]
  dsimp only
  rw [h3]
  simp only [build_artifact]
  rw [hs]
  dsimp only
  rw [he]
  dsimp only
  rw [hn]
  dsimp only
  rw [hw]
  dsimp only
  decide

/-- C6 helper: the s0p5x0p5 slot, NUM density, NWC edges. -/
theorem c6_s0p5x0p5_num_nwc :
    option_spec (c6_flags_ok SlotName.s0p5x0p5) (generate_config (SLOTS SlotName.s0p5x0p5) Density.NUM Edges.NWC) := by
  have h1 : calculate_pads_for_density (SLOTS SlotName.s0p5x0p5) Density.NUM Edges.NWC =
      (38, [(Edge.north, 15), (Edge.west, 23)]) := by decide
  have h2 : distribute_pads_with_power 38 SlotName.s0p5x0p5 = (30, 6) := by decide
  have h3 : allocate_edges [(Edge.north, 15), (Edge.west, 23)] (30 + 2) 6 =
      [(Edge.west, 23, 20, 3), (Edge.north, 15, 12, 3)] := by decide
  have hs : gen_direction (edge_cap_of [(Edge.north, 15), (Edge.west, 23)])
      (edge_sig_of [(Edge.west, 23, 20, 3), (Edge.north, 15, 12, 3)])
      (edge_pow_of [(Edge.west, 23, 20, 3), (Edge.north, 15, 12, 3)])
      Edges.NWC.active_list (clk_rst_edge Edges.NWC) Edge.south 0 0 0 =
      some (
        [],
        0, 0, 0) := by
    have c1 : edge_cap_of [(Edge.north, 15), (Edge.west, 23)] Edge.south = 0 := by decide
    have c2 : edge_sig_of [(Edge.west, 23, 20, 3), (Edge.north, 15, 12, 3)] Edge.south = 0 := by decide
    have c3 : edge_pow_of [(Edge.west, 23, 20, 3), (Edge.north, 15, 12, 3)] Edge.south = 0 := by decide
    simp only [gen_direction, c1, c2, c3]
    decide
  have he : gen_direction (edge_cap_of [(Edge.north, 15), (Edge.west, 23)])
      (edge_sig_of [(Edge.west, 23, 20, 3), (Edge.north, 15, 12, 3)])
      (edge_pow_of [(Edge.west, 23, 20, 3), (Edge.north, 15, 12, 3)])
      Edges.NWC.active_list (clk_rst_edge Edges.NWC) Edge.east 0 0 0 =
      some (
        [],
        0, 0, 0) := by
    have c1 : edge_cap_of [(Edge.north, 15), (Edge.west, 23)] Edge.east = 0 := by decide
    have c2 : edge_sig_of [(Edge.west, 23, 20, 3), (Edge.north, 15, 12, 3)] Edge.east = 0 := by decide
    have c3 : edge_pow_of [(Edge.west, 23, 20, 3), (Edge.north, 15, 12, 3)] Edge.east = 0 := by decide
    simp only [gen_direction, c1, c2, c3]
    decide
  have hn : gen_direction (edge_cap_of [(Edge.north, 15), (Edge.west, 23)])
      (edge_sig_of [(Edge.west, 23, 20, 3), (Edge.north, 15, 12, 3)])
      (edge_pow_of [(Edge.west, 23, 20, 3), (Edge.north, 15, 12, 3)])
      Edges.NWC.active_list (clk_rst_edge Edges.NWC) Edge.north 0 0 0 =
      some (
        [Pad.bidir 11, Pad.bidir 10, Pad.bidir 9, Pad.dvss 1, Pad.bidir 8, Pad.bidir 7,
        Pad.bidir 6, Pad.dvdd 0, Pad.bidir 5, Pad.bidir 4, Pad.bidir 3, Pad.dvss 0, Pad.bidir 2,
        Pad.bidir 1, Pad.bidir 0],
        12, 1, 2) := by
    have c1 : edge_cap_of [(Edge.north, 15), (Edge.west, 23)] Edge.north = 15 := by decide
    have c2 : edge_sig_of [(Edge.west, 23, 20, 3), (Edge.north, 15, 12, 3)] Edge.north = 12 := by decide
    have c3 : edge_pow_of [(Edge.west, 23, 20, 3), (Edge.north, 15, 12, 3)] Edge.north = 3 := by decide
    simp only [gen_direction, c1, c2, c3]
    decide
  have hw : gen_direction (edge_cap_of [(Edge.north, 15), (Edge.west, 23)])
      (edge_sig_of [(Edge.west, 23, 20, 3), (Edge.north, 15, 12, 3)])
      (edge_pow_of [(Edge.west, 23, 20, 3), (Edge.north, 15, 12, 3)])
      Edges.NWC.active_list (clk_rst_edge Edges.NWC) Edge.west 12 1 2 =
      some (
        [Pad.clk, Pad.rst_n, Pad.bidir 29, Pad.bidir 28, Pad.bidir 27, Pad.bidir 26,
        Pad.bidir 25, Pad.bidir 24, Pad.dvdd 2, Pad.bidir 23, Pad.bidir 22, Pad.bidir 21,
        Pad.bidir 20, Pad.dvss 2, Pad.bidir 19, Pad.bidir 18, Pad.bidir 17, Pad.bidir 16,
        Pad.dvdd 1, Pad.bidir 15, Pad.bidir 14, Pad.bidir 13, Pad.bidir 12],
        30, 3, 3) := by
    have c1 : edge_cap_of [(Edge.north, 15), (Edge.west, 23)] Edge.west = 23 := by decide
    have c2 : edge_sig_of [(Edge.west, 23, 20, 3), (Edge.north, 15, 12, 3)] Edge.west = 20 := by decide
    have c3 : edge_pow_of [(Edge.west, 23, 20, 3), (Edge.north, 15, 12, 3)] Edge.west = 3 := by decide
    simp only [gen_direction, c1, c2, c3]
    decide
  simp only [generate_config, h1]
  dsimp only [SLOTS]
  rw [h2]
  dsimp only
  rw [h3]
  simp only [build_artifact]
  rw [hs]
  dsimp only
  rw [he]
  dsimp only
  rw [hn]
  dsimp only
  rw [hw]
  dsimp only
  decide

/-- C6 helper: the s0p5x0p5 slot, NUM density, SEC edges. -/
theorem c6_s0p5x0p5_num_sec :
    option_spec (c6_flags_ok SlotName.s0p5x0p5) (generate_config (SLOTS SlotName.s0p5x0p5) Density.NUM Edges.SEC) := by
  have h1 : calculate_pads_for_density (SLOTS SlotName.s0p5x0p5) Density.NUM Edges.SEC =
      (38, [(Edge.east, 23), (Edge.south, 15)]) := by decide
  have h2 : distribute_pads_with_power 38 SlotName.s0p5x0p5 = (30, 6) := by decide
  have h3 : allocate_edges [(Edge.east, 23), (Edge.south, 15)] (30 + 2) 6 =
      [(Edge.east, 23, 20, 3), (Edge.south, 15, 12, 3)] := by decide
  have hs : gen_direction (edge_cap_of [(Edge.east, 23), (Edge.south, 15)])
      (edge_sig_of [(Edge.east, 23, 20, 3), (Edge.south, 15, 12, 3)])
      (edge_pow_of [(Edge.east, 23, 20, 3), (Edge.south, 15, 12, 3)])
      Edges.SEC.active_list (clk_rst_edge Edges.SEC) Edge.south 0 0 0 =
      some (
        [Pad.clk, Pad.rst_n, Pad.bidir 0, Pad.bidir 1, Pad.dvss 0, Pad.bidir 2, Pad.bidir 3,
        Pad.dvdd 0, Pad.bidir 4, Pad.bidir 5, Pad.dvss 1, Pad.bidir 6, Pad.bidir 7, Pad.bidir 8,
        Pad.bidir 9],
        10, 1, 2) := by
    have c1 : edge_cap_of [(Edge.east, 23), (Edge.south, 15)] Edge.south = 15 := by decide
    have c2 : edge_sig_of [(Edge.east, 23, 20, 3), (Edge.south, 15, 12, 3)] Edge.south = 12 := by decide
    have c3 : edge_pow_of [(Edge.east, 23, 20, 3), (Edge.south, 15, 12, 3)] Edge.south = 3 := by decide
    simp only [gen_direction, c1, c2, c3]
    decide
  have he : gen_direction (edge_cap_of [(Edge.east, 23), (Edge.south, 15)])
      (edge_sig_of [(Edge.east, 23, 20, 3), (Edge.south, 15, 12, 3)])
      (edge_pow_of [(Edge.east, 23, 20, 3), (Edge.south, 15, 12, 3)])
      Edges.SEC.active_list (clk_rst_edge Edges.SEC) Edge.east 10 1 2 =
      some (
        [Pad.bidir 10, Pad.bidir 11, Pad.bidir 12, Pad.bidir 13, Pad.bidir 14, Pad.dvdd 1,
        Pad.bidir 15, Pad.bidir 16, Pad.bidir 17, Pad.bidir 18, Pad.bidir 19, Pad.dvss 2,
        Pad.bidir 20, Pad.bidir 21, Pad.bidir 22, Pad.bidir 23, Pad.bidir 24, Pad.dvdd 2,
        Pad.bidir 25, Pad.bidir 26, Pad.bidir 27, Pad.bidir 28, Pad.bidir 29],
        30, 3, 3) := by
    have c1 : edge_cap_of [(Edge.east, 23), (Edge.south, 15)] Edge.east = 23 := by decide
    have c2 : edge_sig_of [(Edge.east, 23, 20, 3), (Edge.south, 15, 12, 3)] Edge.east = 20 := by decide
    have c3 : edge_pow_of [(Edge.east, 23, 20, 3), (Edge.south, 15, 12, 3)] Edge.east = 3 := by decide
    simp only [gen_direction, c1, c2, c3]
    decide
  have hn : gen_direction (edge_cap_of [(Edge.east, 23), (Edge.south, 15)])
      (edge_sig_of [(Edge.east, 23, 20, 3), (Edge.south, 15, 12, 3)])
      (edge_pow_of [(Edge.east, 23, 20, 3), (Edge.south, 15, 12, 3)])
      Edges.SEC.active_list (clk_rst_edge Edges.SEC) Edge.north 30 3 3 =
      some (
        [],
        30, 3, 3) := by
    have c1 : edge_cap_of [(Edge.east, 23), (Edge.south, 15)] Edge.north = 0 := by decide
    have c2 : edge_sig_of [(Edge.east, 23, 20, 3), (Edge.south, 15, 12, 3)] Edge.north = 0 := by decide
    have c3 : edge_pow_of [(Edge.east, 23, 20, 3), (Edge.south, 15, 12, 3)] Edge.north = 0 := by decide
    simp only [gen_direction, c1, c2, c3]
    decide
  have hw : gen_direction (edge_cap_of [(Edge.east, 23), (Edge.south, 15)])
      (edge_sig_of [(Edge.east, 23, 20, 3), (Edge.south, 15, 12, 3)])
      (edge_pow_of [(Edge.east, 23, 20, 3), (Edge.south, 15, 12, 3)])
      Edges.SEC.active_list (clk_rst_edge Edges.SEC) Edge.west 30 3 3 =
      some (
        [],
        30, 3, 3) := by
    have c1 : edge_cap_of [(Edge.east, 23), (Edge.south, 15)] Edge.west = 0 := by decide
    have c2 : edge_sig_of [(Edge.east, 23, 20, 3), (Edge.south, 15, 12, 3)] Edge.west = 0 := by decide
    have c3 : edge_pow_of [(Edge.east, 23, 20, 3), (Edge.south, 15, 12, 3)] Edge.west = 0 := by decide
    simp only [gen_direction, c1, c2, c3]
    decide
  simp only [generate_config, h1]
  dsimp only [SLOTS]
  rw [h2]
  dsimp only
  rw [h3]
  simp only [build_artifact]
  rw [hs]
  dsimp only
  rw [he]
  dsimp only
  rw [hn]
  dsimp only
  rw [hw]
  dsimp only
  decide

set_option maxHeartbeats 12000000 in
/-- C6: every artifact the generator produces (all four slots, the three
non-default densities — DEF is copied, not generated — and the seven edge
selections, minus the 1x1 SPC/NUM skips) is generated successfully and its
build-flags list contains the slot identity flag and the extended-pad-mode
flag, with each per-category numeric override flag (bidir, dvdd, dvss)
present if and only if the realized count of that category in the artifact
differs from the slot's compiled-in default. -/
theorem generate_config_flags (s : SlotName) (d : Density) (es : Edges)
    (hd : d ≠ Density.DEF)
    (hskip : ¬(s = SlotName.s1x1 ∧ (d = Density.SPC ∨ d = Density.NUM))) :
    option_spec (c6_flags_ok s) (generate_config (SLOTS s) d es) := by
  cases s with
  | s1x1 =>
    cases d with
    | DEF => exact absurd rfl hd
    | MAX =>
      cases es with
      | ALL => exact c6_s1x1_max_all
      | TOP => exact c6_s1x1_max_top
      | LFT => exact c6_s1x1_max_lft
      | HOR => exact c6_s1x1_max_hor
      | VER => exact c6_s1x1_max_ver
      | NWC => exact c6_s1x1_max_nwc
      | SEC => exact c6_s1x1_max_sec
    | SPC => exact absurd ⟨rfl, Or.inl rfl⟩ hskip
    | NUM => exact absurd ⟨rfl, Or.inr rfl⟩ hskip
  | s0p5x1 =>
    cases d with
    | DEF => exact absurd rfl hd
    | MAX =>
      cases es with
      | ALL => exact c6_s0p5x1_max_all
      | TOP => exact c6_s0p5x1_max_top
      | LFT => exact c6_s0p5x1_max_lft
      | HOR => exact c6_s0p5x1_max_hor
      | VER => exact c6_s0p5x1_max_ver
      | NWC => exact c6_s0p5x1_max_nwc
      | SEC => exact c6_s0p5x1_max_sec
    | SPC =>
      cases es with
      | ALL => exact c6_s0p5x1_spc_all
      | TOP => exact c6_s0p5x1_spc_top
      | LFT => exact c6_s0p5x1_spc_lft
      | HOR => exact c6_s0p5x1_spc_hor
      | VER => exact c6_s0p5x1_spc_ver
      | NWC => exact c6_s0p5x1_spc_nwc
      | SEC => exact c6_s0p5x1_spc_sec
    | NUM =>
      cases es with
      | ALL => exact c6_s0p5x1_num_all
      | TOP => exact c6_s0p5x1_num_top
      | LFT => exact c6_s0p5x1_num_lft
      | HOR => exact c6_s0p5x1_num_hor
      | VER => exact c6_s0p5x1_num_ver
      | NWC => exact c6_s0p5x1_num_nwc
      | SEC => exact c6_s0p5x1_num_sec
  | s1x0p5 =>
    cases d with
    | DEF => exact absurd rfl hd
    | MAX =>
      cases es with
      | ALL => exact c6_s1x0p5_max_all
      | TOP => exact c6_s1x0p5_max_top
      | LFT => exact c6_s1x0p5_max_lft
      | HOR => exact c6_s1x0p5_max_hor
      | VER => exact c6_s1x0p5_max_ver
      | NWC => exact c6_s1x0p5_max_nwc
      | SEC => exact c6_s1x0p5_max_sec
    | SPC =>
      cases es with
      | ALL => exact c6_s1x0p5_spc_all
      | TOP => exact c6_s1x0p5_spc_top
      | LFT => exact c6_s1x0p5_spc_lft
      | HOR => exact c6_s1x0p5_spc_hor
      | VER => exact c6_s1x0p5_spc_ver
      | NWC => exact c6_s1x0p5_spc_nwc
      | SEC => exact c6_s1x0p5_spc_sec
    | NUM =>
      cases es with
      | ALL => exact c6_s1x0p5_num_all
      | TOP => exact c6_s1x0p5_num_top
      | LFT => exact c6_s1x0p5_num_lft
      | HOR => exact c6_s1x0p5_num_hor
      | VER => exact c6_s1x0p5_num_ver
      | NWC => exact c6_s1x0p5_num_nwc
      | SEC => exact c6_s1x0p5_num_sec
  | s0p5x0p5 =>
    cases d with
    | DEF => exact absurd rfl hd
    | MAX =>
      cases es with
      | ALL => exact c6_s0p5x0p5_max_all
      | TOP => exact c6_s0p5x0p5_max_top
      | LFT => exact c6_s0p5x0p5_max_lft
      | HOR => exact c6_s0p5x0p5_max_hor
      | VER => exact c6_s0p5x0p5_max_ver
      | NWC => exact c6_s0p5x0p5_max_nwc
      | SEC => exact c6_s0p5x0p5_max_sec
    | SPC =>
      cases es with
      | ALL => exact c6_s0p5x0p5_spc_all
      | TOP => exact c6_s0p5x0p5_spc_top
      | LFT => exact c6_s0p5x0p5_spc_lft
      | HOR => exact c6_s0p5x0p5_spc_hor
      | VER => exact c6_s0p5x0p5_spc_ver
      | NWC => exact c6_s0p5x0p5_spc_nwc
      | SEC => exact c6_s0p5x0p5_spc_sec
    | NUM =>
      cases es with
      | ALL => exact c6_s0p5x0p5_num_all
      | TOP => exact c6_s0p5x0p5_num_top
      | LFT => exact c6_s0p5x0p5_num_lft
      | HOR => exact c6_s0p5x0p5_num_hor
      | VER => exact c6_s0p5x0p5_num_ver
      | NWC => exact c6_s0p5x0p5_num_nwc
      | SEC => exact c6_s0p5x0p5_num_sec

/-- Witness for C6 at the half-width slot, MAXIMUM density, all edges. -/
theorem generate_config_flags_witness :
    option_spec (c6_flags_ok SlotName.s0p5x1)
      (generate_config (SLOTS .s0p5x1) Density.MAX Edges.ALL) :=
  generate_config_flags SlotName.s0p5x1 Density.MAX Edges.ALL
    (by decide) (by decide)
